import Mathlib

/-!
# mahina: semantic analysis and IR lowering

A shallow embedding of the compiler middle-end of `shining-corn/mahina`
(`Token`, `ValueType`, `Node`, `Generator`, `Context`) together with the
properties checked against its specification.

Conventions of the embedding.

* A C++ function returning `bool` (true = failure) and mutating the generator,
  the context and the process-global `debugLogs` becomes a function
  `State → Result α`: `Result.ok a s` is "returned false", `Result.fail s` is
  "returned true", `Result.undefined` is an execution that leaves defined C++
  behaviour (null dereference, uncaught exception, trapping machine division).
* Fields that `generate` writes into an expression node (`valueType_`,
  `generatedValue_`, the folded constants) are returned as an `ExprResult`.
* The LLVM `IRBuilder` is an external library.  It is modelled as a recorder:
  every `Create…` call appends one `Instr` to the block the builder points at
  and hands back a fresh non-null value; its own constant folding and its
  debug-build assertions are outside the model.
-/

namespace Mahina

/-! ## Token.h / Token.cpp -/

/-- The enumeration `Token::Type`, in declaration order. -/
inductive TokenType where
  | UNDEFINED
  | TYPE_VOID
  | TYPE_BOOL
  | TYPE_I8
  | TYPE_I16
  | TYPE_I32
  | TYPE_I64
  | TYPE_U8
  | TYPE_U16
  | TYPE_U32
  | TYPE_U64
  | TYPE_F32
  | TYPE_F64
  | CONSTANT_BOOL
  | CONSTANT_INTEGER
  | CONSTANT_FLOAT
  | CONSTANT_STRING
  | PARENTHESIS_LEFT
  | PARENTHESIS_RIGHT
  | SQUARE_BRACKET_LEFT
  | SQUARE_BRACKET_RIGHT
  | DOT
  | ASTERISK
  | SLASH
  | PERCENT
  | PLUS
  | MINUS
  | COMPARE_LESSER_THAN
  | COMPARE_LESSER_EQUAL
  | COMPARE_GREATER_THAN
  | COMPARE_GREATER_EQUAL
  | COMPARE_EQUAL
  | COMPARE_NOT_EQUAL
  | LOGICAL_OR
  | LOGICAL_AND
  | ASSIGN_EQUAL
  | START_OPERATOR
  | STRUCT
  | EXTERN
  | FUNCTION
  | RETURN
  | LET
  | NEW
  | IF
  | ELSE
  | WHILE
  | BREAK
  | CURLY_BRACKET_LEFT
  | CURLY_BRACKET_RIGHT
  | COMMA
  | SEMICOLON
  | TRIPLE_DOT
  | AMPERSAND
  | SYMBOL
  | END_OF_FILE
  deriving DecidableEq, Repr

/-- The integer value of an enumerator of `Token::Type` (its position in the
declaration); the C++ range tests `A <= type && type <= B` compare these. -/
def TokenType.ord : TokenType → Nat
  | .UNDEFINED => 0
  | .TYPE_VOID => 1
  | .TYPE_BOOL => 2
  | .TYPE_I8 => 3
  | .TYPE_I16 => 4
  | .TYPE_I32 => 5
  | .TYPE_I64 => 6
  | .TYPE_U8 => 7
  | .TYPE_U16 => 8
  | .TYPE_U32 => 9
  | .TYPE_U64 => 10
  | .TYPE_F32 => 11
  | .TYPE_F64 => 12
  | .CONSTANT_BOOL => 13
  | .CONSTANT_INTEGER => 14
  | .CONSTANT_FLOAT => 15
  | .CONSTANT_STRING => 16
  | .PARENTHESIS_LEFT => 17
  | .PARENTHESIS_RIGHT => 18
  | .SQUARE_BRACKET_LEFT => 19
  | .SQUARE_BRACKET_RIGHT => 20
  | .DOT => 21
  | .ASTERISK => 22
  | .SLASH => 23
  | .PERCENT => 24
  | .PLUS => 25
  | .MINUS => 26
  | .COMPARE_LESSER_THAN => 27
  | .COMPARE_LESSER_EQUAL => 28
  | .COMPARE_GREATER_THAN => 29
  | .COMPARE_GREATER_EQUAL => 30
  | .COMPARE_EQUAL => 31
  | .COMPARE_NOT_EQUAL => 32
  | .LOGICAL_OR => 33
  | .LOGICAL_AND => 34
  | .ASSIGN_EQUAL => 35
  | .START_OPERATOR => 36
  | .STRUCT => 37
  | .EXTERN => 38
  | .FUNCTION => 39
  | .RETURN => 40
  | .LET => 41
  | .NEW => 42
  | .IF => 43
  | .ELSE => 44
  | .WHILE => 45
  | .BREAK => 46
  | .CURLY_BRACKET_LEFT => 47
  | .CURLY_BRACKET_RIGHT => 48
  | .COMMA => 49
  | .SEMICOLON => 50
  | .TRIPLE_DOT => 51
  | .AMPERSAND => 52
  | .SYMBOL => 53
  | .END_OF_FILE => 54

/-- `Token::isType(Token::Type)`. -/
def Token.isType (type : TokenType) : Bool :=
  decide (TokenType.TYPE_VOID.ord ≤ type.ord) && decide (type.ord ≤ TokenType.TYPE_F64.ord)

/-- `Token::isConstant(Token::Type)`. -/
def Token.isConstant (type : TokenType) : Bool :=
  decide (TokenType.CONSTANT_BOOL.ord ≤ type.ord) && decide (type.ord ≤ TokenType.CONSTANT_STRING.ord)

/-- `Token::isBool(Token::Type)`. -/
def Token.isBool (type : TokenType) : Bool :=
  decide (type = TokenType.TYPE_BOOL) || decide (type = TokenType.CONSTANT_BOOL)

/-- `Token::isSignedIntegerType(Token::Type)`. -/
def Token.isSignedIntegerType (type : TokenType) : Bool :=
  decide (TokenType.TYPE_I8.ord ≤ type.ord) && decide (type.ord ≤ TokenType.TYPE_I64.ord)

/-- `Token::isUnsignedIntegerType(Token::Type)`. -/
def Token.isUnsignedIntegerType (type : TokenType) : Bool :=
  decide (TokenType.TYPE_U8.ord ≤ type.ord) && decide (type.ord ≤ TokenType.TYPE_U64.ord)

/-- `Token::isIntegerType(Token::Type)`. -/
def Token.isIntegerType (type : TokenType) : Bool :=
  Token.isSignedIntegerType type || Token.isUnsignedIntegerType type

/-- `Token::isFloatingPointType(Token::Type)`. -/
def Token.isFloatingPointType (type : TokenType) : Bool :=
  decide (type = TokenType.TYPE_F32) || decide (type = TokenType.TYPE_F64)

/-- The class `Token` (the fields of `TokenBody`). -/
structure Token where
  type : TokenType := TokenType.UNDEFINED
  str : String := ""
  filepath : String := ""
  line : Nat := 0
  column : Nat := 0
  deriving DecidableEq, Repr

/-- `Token::getPriority`. -/
def Token.getPriority (t : Token) : Nat :=
  match t.type with
  | .ASTERISK | .SLASH | .PERCENT => 9
  | .PLUS | .MINUS => 8
  | .COMPARE_GREATER_EQUAL | .COMPARE_GREATER_THAN
  | .COMPARE_LESSER_EQUAL | .COMPARE_LESSER_THAN => 6
  | .COMPARE_EQUAL | .COMPARE_NOT_EQUAL => 5
  | .LOGICAL_AND => 2
  | .LOGICAL_OR => 1
  | _ => 0

/-! ## ValueType.h / ValueType.cpp -/

/-- The struct `ValueType`. `size_t` fields are natural numbers. -/
structure ValueType where
  basicType : TokenType := TokenType.UNDEFINED
  pointerCount : Nat := 0
  isReference : Bool := false
  isArgument : Bool := false
  arraySizes : List Nat := []
  deriving DecidableEq, Repr

/-- `ValueType::ValueType(Token::Type type, size_t pointerCount, bool isReference)`. -/
def ValueType.mk3 (type : TokenType) (pointerCount : Nat) (isReference : Bool) : ValueType :=
  { basicType := type, pointerCount := pointerCount, isReference := isReference }

/-- `ValueType::operator==`: every field but `isArgument`. -/
def ValueType.eq (a other : ValueType) : Bool :=
  if a.basicType ≠ other.basicType then false
  else if a.pointerCount ≠ other.pointerCount then false
  else if a.isReference ≠ other.isReference then false
  else if a.arraySizes ≠ other.arraySizes then false
  else true

/-- `ValueType::operator!=`. -/
def ValueType.ne (a other : ValueType) : Bool := !(a.eq other)

/-- `ValueType::isArithmetic`. -/
def ValueType.isArithmetic (a : ValueType) : Bool :=
  if a.pointerCount ≠ 0 then false
  else Token.isIntegerType a.basicType || Token.isFloatingPointType a.basicType
    || decide (a.basicType = TokenType.CONSTANT_INTEGER)
    || decide (a.basicType = TokenType.CONSTANT_FLOAT)

/-- `ValueType::isComparable`. -/
def ValueType.isComparable (a : ValueType) : Bool := a.isArithmetic

/-- `ValueType::isBool`. -/
def ValueType.isBool (a : ValueType) : Bool :=
  if a.pointerCount ≠ 0 then false else Token.isBool a.basicType

/-- `ValueType::isAbleToEqual`. -/
def ValueType.isAbleToEqual (a : ValueType) : Bool := a.isArithmetic || a.isBool

/-- `ValueType::isString`. -/
def ValueType.isString (a : ValueType) : Bool :=
  decide (a.basicType = TokenType.TYPE_I8) && decide (a.pointerCount = 1)

/-- `ValueType::isCompatible`; `a` is the receiver `*this`. -/
def ValueType.isCompatible (a other : ValueType) : Bool :=
  if a.eq other then true
  else if a.pointerCount ≠ 0 then false
  else if a.arraySizes ≠ other.arraySizes then false
  else if a.basicType = TokenType.CONSTANT_INTEGER ∧ Token.isIntegerType other.basicType then true
  else if other.basicType = TokenType.CONSTANT_INTEGER ∧ Token.isIntegerType a.basicType then true
  else if a.basicType = TokenType.CONSTANT_FLOAT ∧ Token.isFloatingPointType other.basicType then true
  else if other.basicType = TokenType.CONSTANT_FLOAT ∧ Token.isFloatingPointType a.basicType then true
  else if a.basicType = TokenType.CONSTANT_BOOL ∧ Token.isBool other.basicType then true
  else if other.basicType = TokenType.CONSTANT_BOOL ∧ Token.isBool a.basicType then true
  else if a.basicType = TokenType.CONSTANT_STRING ∧ other.isString then true
  else if other.basicType = TokenType.CONSTANT_STRING ∧ a.isString then true
  else false

/-! ## CompileError.h -/

/-- The payload `UnexpectedTokenError::Expected` (null, `ExpectedToken`, `ExpectedTypeToken`). -/
inductive Expected where
  | ExpectedToken (type : TokenType)
  | ExpectedTypeToken
  deriving DecidableEq, Repr

/-- The subclasses of `CompileError` with the arguments of their constructors;
the first argument is the token handed to the `CompileError` base. -/
inductive CompileError where
  | UnexpectedTokenError (errorToken : Token) (expected : Option Expected)
  | IllegalFileFormatError (token : Token)
  | UnexpectedEofError (token : Token)
  | UnexpectedCharactorError (token : Token)
  | OperandTypesMismatchError (operatorToken : Token) (lhsType rhsType : ValueType)
  | TypeMismatchError (operatorToken : Token) (expected actual : ValueType)
  | NotArithmeticTypeError (operatorToken : Token) (actual : ValueType)
  | NotComparableTypeError (operatorToken : Token) (actual : ValueType)
  | NotBeAbleToEqualTypeError (operatorToken : Token) (actual : ValueType)
  | UndefinedSymbolError (token : Token)
  | TypeOrInitializerMustBeSpecifiedError (token : Token)
  | ConstantTooLarge (operatorToken : Token)
  | InvalidCallArgumentLength (callToken functionNameToken : Token)
  | CanNotOverwriteArgumentError (token : Token)
  | InvalidBreakError (breakToken : Token)
  | CanNotGiveInstructionAfterBreakOrReturn (token : Token)
  | MissingReturnError (token : Token)
  | InvalidExternTypeError (token : Token)
  | InvalidReferenceTypeError (token : Token)
  | ArgumentCanNotBeVoidTypeError (token : Token)
  | ArraySizeMustBeConstantIntegerError (token : Token)
  | EachElementMustHaveIdenticallyTypeError (token : Token)
  deriving DecidableEq, Repr

/-- `CompileError::getToken`. -/
def CompileError.getToken : CompileError → Token
  | .UnexpectedTokenError t _ => t
  | .IllegalFileFormatError t => t
  | .UnexpectedEofError t => t
  | .UnexpectedCharactorError t => t
  | .OperandTypesMismatchError t _ _ => t
  | .TypeMismatchError t _ _ => t
  | .NotArithmeticTypeError t _ => t
  | .NotComparableTypeError t _ => t
  | .NotBeAbleToEqualTypeError t _ => t
  | .UndefinedSymbolError t => t
  | .TypeOrInitializerMustBeSpecifiedError t => t
  | .ConstantTooLarge t => t
  | .InvalidCallArgumentLength t _ => t
  | .CanNotOverwriteArgumentError t => t
  | .InvalidBreakError t => t
  | .CanNotGiveInstructionAfterBreakOrReturn t => t
  | .MissingReturnError t => t
  | .InvalidExternTypeError t => t
  | .InvalidReferenceTypeError t => t
  | .ArgumentCanNotBeVoidTypeError t => t
  | .ArraySizeMustBeConstantIntegerError t => t
  | .EachElementMustHaveIdenticallyTypeError t => t

/-- `CompileError::getErrorName` of each subclass. -/
def CompileError.getErrorName : CompileError → String
  | .UnexpectedTokenError _ _ => "UnexpectedToken"
  | .IllegalFileFormatError _ => "IllegalFileFormat"
  | .UnexpectedEofError _ => "UnexpectedEof"
  | .UnexpectedCharactorError _ => "UnexpectedCharactor"
  | .OperandTypesMismatchError _ _ _ => "OperandTypeMismatch"
  | .TypeMismatchError _ _ _ => "TypeMismatch"
  | .NotArithmeticTypeError _ _ => "NotArithmeticType"
  | .NotComparableTypeError _ _ => "NotComparableType"
  | .NotBeAbleToEqualTypeError _ _ => "NotBeAbleToEqualType"
  | .UndefinedSymbolError _ => "UndefinedSymbol"
  | .TypeOrInitializerMustBeSpecifiedError _ => "TypeOrInitilizerMustBeSpecified"
  | .ConstantTooLarge _ => "ConstantTooLarge"
  | .InvalidCallArgumentLength _ _ => "InvalidCallArgumentLength"
  | .CanNotOverwriteArgumentError _ => "CanNotOverwriteArgument"
  | .InvalidBreakError _ => "InvalidBreak"
  | .CanNotGiveInstructionAfterBreakOrReturn _ => "CanNodeGiveInstructionAfterBreakOrReturn"
  | .MissingReturnError _ => "MissingReturn"
  | .InvalidExternTypeError _ => "InvalidExternType"
  | .InvalidReferenceTypeError _ => "InvalidReferenceTypeError"
  | .ArgumentCanNotBeVoidTypeError _ => "ArgumentCanNotBeVoidType"
  | .ArraySizeMustBeConstantIntegerError _ => "ArraySizeMustBeConstantInteger"
  | .EachElementMustHaveIdenticallyTypeError _ => "EachElementMustHaveIdenticallyType"

/-! ## The IR seen through `Generator` (LLVM is external: a recording model) -/

/-- An `llvm::Type`. Named struct types are identified by their creation index. -/
inductive IRType where
  | void
  | int (bits : Nat)
  | float
  | double
  | ptr (elem : IRType)
  | array (elem : IRType) (n : Nat)
  | struct (id : Nat)
  deriving DecidableEq, Repr

/-- `Type::getIntegerBitWidth`; only defined on integer types. -/
def IRType.getIntegerBitWidth : IRType → Option Nat
  | .int bits => some bits
  | _ => none

/-- `Type::getPointerElementType`; only defined on pointer types. -/
def IRType.getPointerElementType : IRType → Option IRType
  | .ptr elem => some elem
  | _ => none

/-- `Type::isArrayTy`. -/
def IRType.isArrayTy : IRType → Bool
  | .array _ _ => true
  | _ => false

/-- An `llvm::FunctionType`. -/
structure FunctionType where
  returnType : IRType
  argumentTypes : List IRType
  hasVariableArguments : Bool
  deriving DecidableEq, Repr

/-- A non-null `llvm::Value*`. Integer constants hold their bit pattern
(`value < 2 ^ bits`); an array constant holds its type and element count;
an instruction result is named by the serial number of the `Create…` call. -/
inductive Value where
  | constantInt (bits : Nat) (value : Nat)
  | constantFP (type : IRType) (value : Rat)
  | globalStringPtr (str : String)
  | constantArray (type : IRType) (numElements : Nat)
  | nullValue (type : IRType)
  | argument (index : Nat) (type : IRType)
  | instruction (id : Nat) (type : IRType)
  deriving DecidableEq, Repr

/-- `Value::getType`. -/
def Value.getType : Value → IRType
  | .constantInt bits _ => .int bits
  | .constantFP type _ => type
  | .globalStringPtr _ => .ptr (.int 8)
  | .constantArray type _ => type
  | .nullValue type => type
  | .argument _ type => type
  | .instruction _ type => type

/-- Two-operand arithmetic opcodes the builder is asked for. -/
inductive BinaryOps where
  | Add | FAdd | Sub | FSub | Mul | FMul | SDiv | UDiv | FDiv | SRem | URem | FRem
  deriving DecidableEq, Repr

/-- Comparison predicates the builder is asked for. -/
inductive Predicate where
  | FCMP_OEQ | FCMP_ONE | FCMP_OLT | FCMP_OLE | FCMP_OGT | FCMP_OGE
  | ICMP_EQ | ICMP_NE
  | ICMP_SLT | ICMP_SLE | ICMP_SGT | ICMP_SGE
  | ICMP_ULT | ICMP_ULE | ICMP_UGT | ICMP_UGE
  deriving DecidableEq, Repr

/-- Conversion opcodes the builder is asked for. -/
inductive CastOps where
  | Trunc | ZExt | FPExt | FPTrunc | FPToSI | FPToUI | SIToFP | UIToFP | BitCast | PtrToInt
  deriving DecidableEq, Repr

/-- One recorded `IRBuilder::Create…` call. Basic blocks and functions are
named by their handles (creation indices). -/
inductive Instr where
  | alloca (type : IRType)
  | load (ptr : Value)
  | store (value ptr : Value)
  | gep (ptr : Value) (indices : List Nat)
  | neg (value : Value)
  | fneg (value : Value)
  | binary (op : BinaryOps) (lhs rhs : Value)
  | cmp (pred : Predicate) (lhs rhs : Value)
  | cast (op : CastOps) (value : Value) (destType : IRType)
  | call (callee : Nat) (args : List (Option Value))
  | br (dest : Nat)
  | condBr (cond : Option Value) (ifTrue ifFalse : Nat)
  | ret (value : Option Value)
  deriving DecidableEq, Repr

/-- `Instruction::isTerminator` for the recorded instructions. -/
def Instr.isTerminator : Instr → Bool
  | .br _ => true
  | .condBr _ _ _ => true
  | .ret _ => true
  | _ => false

/-- An `llvm::BasicBlock`: its parent function and its instruction list. -/
structure BasicBlockData where
  parent : Nat
  insts : List Instr := []
  deriving DecidableEq, Repr

/-- An `llvm::Function`: name, type and the layout order of its blocks
(the first one is the entry block). -/
structure FunctionData where
  name : String
  type : FunctionType
  blocks : List Nat := []
  deriving DecidableEq, Repr

/-- A named `llvm::StructType`; `body = none` while it is opaque. -/
structure StructData where
  name : String
  body : Option (List IRType) := none
  deriving DecidableEq, Repr

/-- The members of `Generator` that the middle-end reads or writes, with the
module contents kept as tables indexed by handle. -/
structure Generator where
  functions : List FunctionData := []
  blocks : List BasicBlockData := []
  structs : List StructData := []
  insertBlock : Option Nat := none
  nextId : Nat := 0
  currentReturnType : ValueType := {}
  fMalloc : Option Nat := none
  builtInObjectTypes : List (TokenType × Nat) := []
  deriving DecidableEq, Repr

/-! ## Node.h: the syntax tree -/

mutual
/-- `VariableValueNode`. -/
inductive VariableValueNode where
  | mk (token name : Token) (arrayIndex : Option ExpressionNode)
      (member : Option VariableValueNode) (isRhsValue : Bool)
/-- `TypeNode`: `type_`, `generatedType_` and the array-size expressions. -/
inductive TypeNode where
  | mk (token : Token) (type : ValueType) (generatedType : Option IRType)
      (arraySizes : List ExpressionNode)
/-- The subclasses of `ExpressionNode`; each keeps the `token_` of its `Node` base. -/
inductive ExpressionNode where
  | VariableValueNode (node : VariableValueNode)
  | UnaryOperationNode (token operatorType : Token) (value : ExpressionNode)
  | BinaryOperationNode (token operatorType : Token) (lhs rhs : ExpressionNode)
  | CallNode (token : Token) (f : VariableValueNode) (values : List ExpressionNode)
  | ConstantNode (constant : Token)
  | AggregateConstantNode (token : Token) (values : List ExpressionNode)
  | CastNode (token : Token) (value : ExpressionNode) (destType : TypeNode)
end

/-- `VariableValueNode::getName`. -/
def VariableValueNode.getName : VariableValueNode → Token
  | .mk _ name _ _ _ => name

/-- `TypeNode::getValueType`. -/
def TypeNode.getValueType : TypeNode → ValueType
  | .mk _ type _ _ => type

/-- `TypeNode::getGeneratedType`. -/
def TypeNode.getGeneratedType : TypeNode → Option IRType
  | .mk _ _ generatedType _ => generatedType

/-- `TypeNode::setIsArgument`. -/
def TypeNode.setIsArgument : TypeNode → Bool → TypeNode
  | .mk token type generatedType arraySizes, isArgument =>
    .mk token { type with isArgument := isArgument } generatedType arraySizes

/-- `TypeNode::setValueType` on a default-constructed `TypeNode`
(`std::make_shared<TypeNode>()` in `LetNode::generate`). -/
def TypeNode.ofValueType (type : ValueType) : TypeNode := .mk {} type none []

/-- `Node::getToken` of an expression. -/
def ExpressionNode.getToken : ExpressionNode → Token
  | .VariableValueNode (.mk token _ _ _ _) => token
  | .UnaryOperationNode token _ _ => token
  | .BinaryOperationNode token _ _ _ => token
  | .CallNode token _ _ => token
  | .ConstantNode constant => constant
  | .AggregateConstantNode token _ => token
  | .CastNode token _ _ => token

mutual
/-- The subclasses of `StatementNode` (a `CallNode` is also a statement). -/
inductive StatementNode where
  | LetNode (token name : Token) (type : Option TypeNode) (isHeap : Bool)
      (initialValue : Option ExpressionNode)
  | IfNode (token : Token) (condition : ExpressionNode) (thenBlock : BlockNode)
      (elseBlock : Option BlockNode)
  | WhileNode (token : Token) (condition : ExpressionNode) (block : BlockNode)
  | ReturnNode (token returnToken : Token) (value : Option ExpressionNode)
  | BreakNode (token : Token)
  | AssignNode (token : Token) (dest : VariableValueNode) (value : ExpressionNode)
  | CallNode (token : Token) (f : VariableValueNode) (values : List ExpressionNode)
/-- `BlockNode`. -/
inductive BlockNode where
  | mk (statements : List StatementNode) (rightCurlyBracketToken : Token)
end

/-- `Node::getToken` of a statement. -/
def StatementNode.getToken : StatementNode → Token
  | .LetNode token _ _ _ _ => token
  | .IfNode token _ _ _ => token
  | .WhileNode token _ _ => token
  | .ReturnNode token _ _ => token
  | .BreakNode token => token
  | .AssignNode token _ _ => token
  | .CallNode token _ _ => token

/-- `BlockNode::getRightCurlyBracketToken`. -/
def BlockNode.getRightCurlyBracketToken : BlockNode → Token
  | .mk _ t => t

/-- `VariableDefinitionNode`. -/
structure VariableDefinitionNode where
  name : Token
  type : TypeNode

/-- `StructNode`. -/
structure StructNode where
  name : Token
  members : List VariableDefinitionNode
  generatedType : Option Nat := none

/-- `FunctionNode::Type`. -/
inductive FunctionNodeType where
  | MAHINA
  | C
  deriving DecidableEq, Repr

/-- `FunctionNode`. -/
structure FunctionNode where
  name : Token
  args : List VariableDefinitionNode
  hasVariableArgument : Bool
  returnType : TypeNode
  block : Option BlockNode
  generatedFunction : Option Nat := none
  type : FunctionNodeType

/-- `CompileUnitNode`. -/
structure CompileUnitNode where
  structs : List StructNode
  functions : List FunctionNode

/-! ## Node.h: `Context` -/

/-- `Context::Symbol`. -/
structure Symbol where
  name : String
  type : ValueType
  value : Option Value
  deriving DecidableEq, Repr

/-- The members of `Context`. `symbolTables` keeps vector order (the innermost
scope is the last element); `successorBlocks` is the stack with its top first. -/
structure Context where
  compileUnits : List CompileUnitNode := []
  errors : List CompileError := []
  successorBlocks : List Nat := []
  lastBlock : Option Nat := none
  breaked : Bool := false
  returned : Bool := false
  symbolTables : List (List Symbol) := []

/-- One entry of the global `debugLogs`: the source file and `__LINE__`. -/
structure DebugLog where
  file : String
  line : Nat
  deriving DecidableEq, Repr

/-- Everything a `generate` call can read or write: the `Generator`, the
`Context` and the global `debugLogs`. -/
structure State where
  g : Generator := {}
  ctx : Context := {}
  debugLogs : List DebugLog := []

/-- Outcome of a C++ call: `ok` = returned `false` (or a `void` call returned),
`fail` = returned `true`, `undefined` = left defined behaviour. -/
inductive Result (α : Type) where
  | ok (a : α) (s : State)
  | fail (s : State)
  | undefined

/-- A call as a function of the state it runs in. -/
def Gen (α : Type) : Type := State → Result α

/-- Sequencing: the second call runs only if the first returned `false`. -/
def Gen.bind {α β : Type} (m : Gen α) (f : α → Gen β) : Gen β := fun s =>
  match m s with
  | .ok a s' => f a s'
  | .fail s' => .fail s'
  | .undefined => .undefined

instance : Monad Gen where
  pure a := fun s => .ok a s
  bind := Gen.bind

/-- `return true;`. -/
def returnTrue {α : Type} : Gen α := fun s => .fail s

/-- Undefined behaviour. -/
def undefinedBehaviour {α : Type} : Gen α := fun _ => .undefined

/-- Read the state. -/
def getState : Gen State := fun s => .ok s s

/-- Update the generator. -/
def modifyG (f : Generator → Generator) : Gen Unit := fun s => .ok () { s with g := f s.g }

/-- Update the context. -/
def modifyCtx (f : Context → Context) : Gen Unit := fun s => .ok () { s with ctx := f s.ctx }

/-- `debugLog(__LINE__)` in `Node.cpp`. -/
def debugLog (line : Nat) : Gen Unit := fun s =>
  .ok () { s with debugLogs := s.debugLogs ++ [⟨"Node.cpp", line⟩] }

/-- `debugLog(__LINE__)` in `Generator.cpp`. -/
def Generator.debugLog (line : Nat) : Gen Unit := fun s =>
  .ok () { s with debugLogs := s.debugLogs ++ [⟨"Generator.cpp", line⟩] }

/-- The pattern `if (call) { debugLog(__LINE__); return true; }` of `Node.cpp`. -/
def Gen.orLog {α : Type} (m : Gen α) (line : Nat) : Gen α := fun s =>
  match m s with
  | .fail s' => .fail { s' with debugLogs := s'.debugLogs ++ [⟨"Node.cpp", line⟩] }
  | r => r

/-- The pattern `if (call) { debugLog(__LINE__); return true; }` of `Generator.cpp`. -/
def Gen.orLogG {α : Type} (m : Gen α) (line : Nat) : Gen α := fun s =>
  match m s with
  | .fail s' => .fail { s' with debugLogs := s'.debugLogs ++ [⟨"Generator.cpp", line⟩] }
  | r => r

/-- `Context::addCompileError`. -/
def Context.addCompileError (error : CompileError) : Gen Unit :=
  modifyCtx fun c => { c with errors := c.errors ++ [error] }

/-- The pattern `ctx.addCompileError(error); return true;`. -/
def failWith {α : Type} (error : CompileError) : Gen α := do
  Context.addCompileError error
  returnTrue

/-! ## Generator.cpp -/

/-- Replace the `n`-th element of a list by its image under `f`. -/
def modifyAt {α : Type} (f : α → α) : Nat → List α → List α
  | _, [] => []
  | 0, a :: as => f a :: as
  | n + 1, a :: as => a :: modifyAt f n as

/-- Insert `x` into `l` in front of the first occurrence of `before`;
`none` when `before` does not occur. -/
def insertBefore? (x before : Nat) : List Nat → Option (List Nat)
  | [] => none
  | a :: as =>
    if a = before then some (x :: a :: as)
    else (insertBefore? x before as).map (a :: ·)

/-- `IRBuilder::Insert`: the instruction goes to the end of the block the
builder points at; without an insert block it stays detached. -/
def Generator.insert (g : Generator) (i : Instr) : Generator :=
  match g.insertBlock with
  | none => g
  | some b => { g with blocks := modifyAt (fun d => { d with insts := d.insts ++ [i] }) b g.blocks }

/-- A `Create…` call that yields a value of type `type`. -/
def Generator.emit (i : Instr) (type : IRType) : Gen Value := fun s =>
  .ok (.instruction s.g.nextId type) { s with g := { s.g.insert i with nextId := s.g.nextId + 1 } }

/-- A `Create…` call whose result is not used as a value. -/
def Generator.emitVoid (i : Instr) : Gen Unit := fun s =>
  .ok () { s with g := { s.g.insert i with nextId := s.g.nextId + 1 } }

/-- A pointer the builder is about to dereference: null is undefined behaviour. -/
def nonNull {α : Type} : Option α → Gen α
  | some a => pure a
  | none => undefinedBehaviour

/-- `Generator::getSizeType` on a target whose `size_t` has 64 bits. -/
def Generator.getSizeType : IRType := .int 64

/-- `Generator::getTypeIdType`. -/
def Generator.getTypeIdType : IRType := .int 32

/-- `Generator::getCurrentBlock`. -/
def Generator.getCurrentBlock : Gen (Option Nat) := fun s => .ok s.g.insertBlock s

/-- `Generator::setInsertPoint`. -/
def Generator.setInsertPoint (destBlock : Option Nat) : Gen Unit :=
  modifyG fun g => { g with insertBlock := destBlock }

/-- `Generator::setCurrentReturnType`. -/
def Generator.setCurrentReturnType (type : ValueType) : Gen Unit :=
  modifyG fun g => { g with currentReturnType := type }

/-- `Generator::getCurrentReturnType`. -/
def Generator.getCurrentReturnType : Gen ValueType := fun s => .ok s.g.currentReturnType s

/-- `builder_.GetInsertBlock()->getParent()`. -/
def Generator.insertFunction : Gen Nat := fun s =>
  match s.g.insertBlock with
  | none => .undefined
  | some b =>
    match s.g.blocks.get? b with
    | none => .undefined
    | some d => .ok d.parent s

/-- `Generator::getArgument`: null without an insert block. -/
def Generator.getArgument (index : Nat) : Gen (Option Value) := fun s =>
  match s.g.insertBlock with
  | none => .ok none s
  | some b =>
    match (s.g.blocks.get? b).bind (fun d => s.g.functions.get? d.parent) with
    | none => .undefined
    | some f =>
      match f.type.argumentTypes.get? index with
      | none => .undefined
      | some type => .ok (some (.argument index type)) s

/-- `Generator::getType`. -/
def Generator.getType (type : TokenType) : Gen IRType :=
  match type with
  | .TYPE_VOID => pure .void
  | .TYPE_BOOL | .CONSTANT_BOOL => pure (.int 1)
  | .TYPE_I8 | .TYPE_U8 => pure (.int 8)
  | .TYPE_I16 | .TYPE_U16 => pure (.int 16)
  | .TYPE_I32 | .TYPE_U32 => pure (.int 32)
  | .TYPE_I64 | .TYPE_U64 | .CONSTANT_INTEGER => pure (.int 64)
  | .TYPE_F32 => pure .float
  | .TYPE_F64 | .CONSTANT_FLOAT => pure .double
  | .CONSTANT_STRING => pure (.ptr (.int 8))
  | _ => do Generator.debugLog 220; returnTrue

/-- The table `builtInTypes` of `Generator.cpp`. -/
def builtInTypes : List TokenType :=
  [.TYPE_BOOL, .TYPE_I8, .TYPE_I16, .TYPE_I32, .TYPE_I64, .TYPE_U8, .TYPE_U16, .TYPE_U32,
   .TYPE_U64, .TYPE_F32, .TYPE_F64]

/-- The table `builtInTypeNames` of `Generator.cpp`. -/
def builtInTypeNames : List String :=
  [".bool", ".i8", ".i16", ".i32", ".i64", ".u8", ".u16", ".u32", ".u64", ".f32", ".f64"]

/-- `Generator::BuiltInObjectTypes::getType`: null for a type outside the table. -/
def Generator.BuiltInObjectTypes.getType (g : Generator) (type : TokenType) : Option Nat :=
  (g.builtInObjectTypes.find? (fun p => p.1 = type)).map (·.2)

/-- `Generator::createReferenceType`; `PointerType::get` dereferences its argument. -/
def Generator.createReferenceType (type : TokenType) : Gen IRType := fun s =>
  match Generator.BuiltInObjectTypes.getType s.g type with
  | none => .undefined
  | some id => .ok (.ptr (.struct id)) s

/-- The loop `for (i < pointerCount) result = PointerType::get(result, 0)`. -/
def wrapPointers : Nat → IRType → IRType
  | 0, t => t
  | n + 1, t => wrapPointers n (.ptr t)

/-- The loop over `type.arraySizes` in `Generator::createType`. -/
def Generator.wrapArrays : List Nat → IRType → Gen IRType
  | [], t => pure t
  | arraySize :: rest, t =>
    if arraySize ≠ 0 then Generator.wrapArrays rest (.array t arraySize)
    else do Generator.debugLog 175; returnTrue

/-- `Generator::createType`. -/
def Generator.createType (type : ValueType) : Gen IRType := do
  let result ←
    if type.isReference then
      (Generator.createReferenceType type.basicType).orLogG 150
    else if type.basicType = TokenType.TYPE_VOID ∧ type.pointerCount ≠ 0 then
      pure (IRType.int 8)
    else
      (Generator.getType type.basicType).orLogG 160
  Generator.wrapArrays type.arraySizes (wrapPointers type.pointerCount result)

/-- `Generator::createStructType`. -/
def Generator.createStructType (name : String) : Gen Nat := fun s =>
  .ok s.g.structs.length { s with g := { s.g with structs := s.g.structs ++ [{ name := name }] } }

/-- `StructType::setBody(types, false)`. -/
def Generator.setBody (id : Nat) (types : List IRType) : Gen Unit :=
  modifyG fun g => { g with structs := modifyAt (fun d => { d with body := some types }) id g.structs }

/-- `Generator::createFunctionType`. -/
def Generator.createFunctionType (returnType : IRType) (argumentTypes : List IRType)
    (hasVariableArguments : Bool) : Gen FunctionType :=
  pure ⟨returnType, argumentTypes, hasVariableArguments⟩

/-- `Generator::createFunctionDeclare`. -/
def Generator.createFunctionDeclare (functionType : FunctionType) (name : String) : Gen Nat :=
  fun s =>
    .ok s.g.functions.length
      { s with g := { s.g with functions := s.g.functions ++ [{ name := name, type := functionType }] } }

/-- `Generator::createBasicBlock`: `function = none` is the null handle (the
block then goes to the function of the insert block); the new block is put in
front of `insertBefore`, or at the end if that is null. -/
def Generator.createBasicBlock (function : Option Nat) (insertBefore : Option Nat) : Gen Nat := do
  let parent ← match function with
    | none => Generator.insertFunction
    | some f => pure f
  fun s =>
    match s.g.functions.get? parent with
    | none => .undefined
    | some fd =>
      let id := s.g.blocks.length
      let layout := match insertBefore with
        | none => some (fd.blocks ++ [id])
        | some b => insertBefore? id b fd.blocks
      match layout with
      | none => .undefined
      | some l =>
        .ok id { s with g := { s.g with
          blocks := s.g.blocks ++ [{ parent := parent }]
          functions := modifyAt (fun d => { d with blocks := l }) parent s.g.functions } }

/-- `Generator::createIf` (`CreateCondBr`). -/
def Generator.createIf (condition : Option Value) (blockTrue blockFalse : Nat) : Gen Unit :=
  Generator.emitVoid (.condBr condition blockTrue blockFalse)

/-- `Generator::createGoto` (`CreateBr`). -/
def Generator.createGoto (dest : Nat) : Gen Unit := Generator.emitVoid (.br dest)

/-- `Generator::createReturnVoid`. -/
def Generator.createReturnVoid : Gen Unit := Generator.emitVoid (.ret none)

/-- `Generator::createReturn`. -/
def Generator.createReturn (value : Option Value) : Gen Unit := Generator.emitVoid (.ret value)

/-- `Generator::createNegate`. -/
def Generator.createNegate (valueType : TokenType) (value : Option Value) : Gen Value :=
  if Token.isFloatingPointType valueType ∨ valueType = TokenType.CONSTANT_FLOAT then do
    let v ← nonNull value
    Generator.emit (.fneg v) v.getType
  else if Token.isIntegerType valueType ∨ valueType = TokenType.CONSTANT_INTEGER then do
    let v ← nonNull value
    Generator.emit (.neg v) v.getType
  else do
    Generator.debugLog 297
    returnTrue

/-- A two-operand arithmetic instruction; the result has the type of `lhs`. -/
def Generator.createBinary (op : BinaryOps) (lhs rhs : Option Value) : Gen Value := do
  let l ← nonNull lhs
  let r ← nonNull rhs
  Generator.emit (.binary op l r) l.getType

/-- A comparison instruction; the result is an `i1`. -/
def Generator.createCmp (pred : Predicate) (lhs rhs : Option Value) : Gen Value := do
  let l ← nonNull lhs
  let r ← nonNull rhs
  Generator.emit (.cmp pred l r) (.int 1)

/-- `Generator::createAdd`. -/
def Generator.createAdd (valueType : TokenType) (lhs rhs : Option Value) : Gen Value :=
  if Token.isFloatingPointType valueType then Generator.createBinary .FAdd lhs rhs
  else Generator.createBinary .Add lhs rhs

/-- `Generator::createSub`. -/
def Generator.createSub (valueType : TokenType) (lhs rhs : Option Value) : Gen Value :=
  if Token.isFloatingPointType valueType then Generator.createBinary .FSub lhs rhs
  else Generator.createBinary .Sub lhs rhs

/-- `Generator::createMul`. -/
def Generator.createMul (valueType : TokenType) (lhs rhs : Option Value) : Gen Value :=
  if Token.isFloatingPointType valueType then Generator.createBinary .FMul lhs rhs
  else Generator.createBinary .Mul lhs rhs

/-- `Generator::createDiv`. -/
def Generator.createDiv (valueType : TokenType) (lhs rhs : Option Value) : Gen Value :=
  if Token.isFloatingPointType valueType then Generator.createBinary .FDiv lhs rhs
  else if Token.isSignedIntegerType valueType then Generator.createBinary .SDiv lhs rhs
  else Generator.createBinary .UDiv lhs rhs

/-- `Generator::createRem`. -/
def Generator.createRem (valueType : TokenType) (lhs rhs : Option Value) : Gen Value :=
  if Token.isFloatingPointType valueType then Generator.createBinary .FRem lhs rhs
  else if Token.isSignedIntegerType valueType then Generator.createBinary .SRem lhs rhs
  else Generator.createBinary .URem lhs rhs

/-- `Generator::createCommpareLesserThan`. -/
def Generator.createCommpareLesserThan (valueType : TokenType) (lhs rhs : Option Value) :
    Gen Value :=
  if Token.isFloatingPointType valueType then Generator.createCmp .FCMP_OLT lhs rhs
  else if Token.isSignedIntegerType valueType then Generator.createCmp .ICMP_SLT lhs rhs
  else Generator.createCmp .ICMP_ULT lhs rhs

/-- `Generator::createCommpareLesserEqual`. -/
def Generator.createCommpareLesserEqual (valueType : TokenType) (lhs rhs : Option Value) :
    Gen Value :=
  if Token.isFloatingPointType valueType then Generator.createCmp .FCMP_OLE lhs rhs
  else if Token.isSignedIntegerType valueType then Generator.createCmp .ICMP_SLE lhs rhs
  else Generator.createCmp .ICMP_ULE lhs rhs

/-- `Generator::createCommpareGreaterThan`. -/
def Generator.createCommpareGreaterThan (valueType : TokenType) (lhs rhs : Option Value) :
    Gen Value :=
  if Token.isFloatingPointType valueType then Generator.createCmp .FCMP_OGT lhs rhs
  else if Token.isSignedIntegerType valueType then Generator.createCmp .ICMP_SGT lhs rhs
  else Generator.createCmp .ICMP_UGT lhs rhs

/-- `Generator::createCommpareGreaterEqual`. -/
def Generator.createCommpareGreaterEqual (valueType : TokenType) (lhs rhs : Option Value) :
    Gen Value :=
  if Token.isFloatingPointType valueType then Generator.createCmp .FCMP_OGE lhs rhs
  else if Token.isSignedIntegerType valueType then Generator.createCmp .ICMP_SGE lhs rhs
  else Generator.createCmp .ICMP_UGE lhs rhs

/-- `Generator::createCommpareEqual`. -/
def Generator.createCommpareEqual (valueType : TokenType) (lhs rhs : Option Value) : Gen Value :=
  if Token.isFloatingPointType valueType then Generator.createCmp .FCMP_OEQ lhs rhs
  else Generator.createCmp .ICMP_EQ lhs rhs

/-- `Generator::createCommpareNotEqual`. -/
def Generator.createCommpareNotEqual (valueType : TokenType) (lhs rhs : Option Value) :
    Gen Value :=
  if Token.isFloatingPointType valueType then Generator.createCmp .FCMP_ONE lhs rhs
  else Generator.createCmp .ICMP_NE lhs rhs

/-- `Generator::createLogicalOr`: the body is `// TODO`, a log entry and `return true`. -/
def Generator.createLogicalOr (_valueType : TokenType) (_lhs _rhs : Option Value) : Gen Value := do
  Generator.debugLog 434
  returnTrue

/-- `Generator::createLogicalAnd`: the body is `// TODO`, a log entry and `return true`. -/
def Generator.createLogicalAnd (_valueType : TokenType) (_lhs _rhs : Option Value) : Gen Value := do
  Generator.debugLog 440
  returnTrue

/-- The bit pattern of `n` in `bits` bits (a C++ conversion to an unsigned type). -/
def toUnsigned (bits : Nat) (n : Int) : Nat := (n % (2 : Int) ^ bits).toNat

/-- `Generator::createBooleanConstant`. -/
def Generator.createBooleanConstant (b : Bool) : Gen Value :=
  pure (.constantInt 1 (if b then 1 else 0))

/-- `Generator::createI8Constant(uint32_t value, …)`. -/
def Generator.createI8Constant (value : Int) : Gen Value :=
  pure (.constantInt 8 (toUnsigned 32 value % 2 ^ 8))

/-- `Generator::createI16Constant(int64_t value, …)`. -/
def Generator.createI16Constant (value : Int) : Gen Value :=
  pure (.constantInt 16 (toUnsigned 64 value % 2 ^ 16))

/-- `Generator::createI32Constant(uint32_t value, …)`. -/
def Generator.createI32Constant (value : Int) : Gen Value :=
  pure (.constantInt 32 (toUnsigned 32 value % 2 ^ 32))

/-- `Generator::createI64Constant(int64_t value, …)`. -/
def Generator.createI64Constant (value : Int) : Gen Value :=
  pure (.constantInt 64 (toUnsigned 64 value % 2 ^ 64))

/-- `Generator::createU8Constant(uint32_t value, …)`. -/
def Generator.createU8Constant (value : Int) : Gen Value :=
  pure (.constantInt 8 (toUnsigned 32 value % 2 ^ 8))

/-- `Generator::createU16Constant(uint64_t value, …)`. -/
def Generator.createU16Constant (value : Int) : Gen Value :=
  pure (.constantInt 16 (toUnsigned 64 value % 2 ^ 16))

/-- `Generator::createU32Constant(uint32_t value, …)`. -/
def Generator.createU32Constant (value : Int) : Gen Value :=
  pure (.constantInt 32 (toUnsigned 32 value % 2 ^ 32))

/-- `Generator::createU64Constant(uint64_t value, …)`. -/
def Generator.createU64Constant (value : Int) : Gen Value :=
  pure (.constantInt 64 (toUnsigned 64 value % 2 ^ 64))

/-- `Generator::createF32Constant`; the value is kept exact (no rounding to `float`). -/
def Generator.createF32Constant (value : Rat) : Gen Value := pure (.constantFP .float value)

/-- `Generator::createF64Constant`. -/
def Generator.createF64Constant (value : Rat) : Gen Value := pure (.constantFP .double value)

/-- `Generator::createDoubleConstant`. -/
def Generator.createDoubleConstant (value : Rat) : Gen Value := pure (.constantFP .double value)

/-- `Generator::createStringConstant` (`CreateGlobalStringPtr` reaches the module
through the insert block). -/
def Generator.createStringConstant (str : String) : Gen Value := fun s =>
  match s.g.insertBlock with
  | none => .undefined
  | some _ => .ok (.globalStringPtr str) s

/-- `Generator::createArrayConstant`. -/
def Generator.createArrayConstant (arrayType : IRType) (values : List Value) : Gen Value :=
  if arrayType.isArrayTy then pure (.constantArray arrayType values.length)
  else returnTrue

/-- `Generator::createTruncOrExt`. -/
def Generator.createTruncOrExt (srcValue : Option Value) (destType : IRType) : Gen Value := do
  let v ← nonNull srcValue
  let srcSize ← nonNull v.getType.getIntegerBitWidth
  let destSize ← nonNull destType.getIntegerBitWidth
  if destSize < srcSize then Generator.emit (.cast .Trunc v destType) destType
  else if srcSize < destSize then Generator.emit (.cast .ZExt v destType) destType
  else pure v

/-- A conversion instruction of `Generator::createCast`. -/
def Generator.createCastOp (op : CastOps) (srcValue : Option Value) (destType : IRType) :
    Gen Value := do
  let v ← nonNull srcValue
  Generator.emit (.cast op v destType) destType

/-- `Generator::createCast`. When the source and destination kinds are equal the
source handle is returned as it is (it may be null). -/
def Generator.createCast (srcType : TokenType) (srcValue : Option Value) (destType : TokenType) :
    Gen (Option Value) := do
  let llvmDestType ← (Generator.getType destType).orLogG 525
  if srcType = destType then pure srcValue
  else if srcType = TokenType.TYPE_F32 then
    if destType = TokenType.TYPE_F64 then some <$> Generator.createCastOp .FPExt srcValue llvmDestType
    else if Token.isSignedIntegerType destType then
      some <$> Generator.createCastOp .FPToSI srcValue llvmDestType
    else some <$> Generator.createCastOp .FPToUI srcValue llvmDestType
  else if srcType = TokenType.TYPE_F64 ∨ srcType = TokenType.CONSTANT_FLOAT then
    if destType = TokenType.TYPE_F64 then
      match srcValue with
      | some v => pure (some v)
      | none => returnTrue
    else if destType = TokenType.TYPE_F32 then
      some <$> Generator.createCastOp .FPTrunc srcValue llvmDestType
    else if Token.isSignedIntegerType destType then
      some <$> Generator.createCastOp .FPToSI srcValue llvmDestType
    else some <$> Generator.createCastOp .FPToUI srcValue llvmDestType
  else if Token.isSignedIntegerType srcType then
    if Token.isFloatingPointType destType then
      some <$> Generator.createCastOp .SIToFP srcValue llvmDestType
    else some <$> (Generator.createTruncOrExt srcValue llvmDestType).orLogG 565
  else
    if Token.isFloatingPointType destType then
      some <$> Generator.createCastOp .UIToFP srcValue llvmDestType
    else some <$> (Generator.createTruncOrExt srcValue llvmDestType).orLogG 576

/-- `Generator::createBitCast`. -/
def Generator.createBitCast (src : Option Value) (destType : IRType) : Gen Value :=
  Generator.createCastOp .BitCast src destType

/-- `Generator::createCall`. -/
def Generator.createCall (f : Option Nat) (values : List (Option Value)) : Gen Value := do
  let callee ← nonNull f
  let s ← getState
  let fd ← nonNull (s.g.functions.get? callee)
  Generator.emit (.call callee values) fd.type.returnType

/-- `Generator::createSizeOf`. -/
def Generator.createSizeOf (type : IRType) : Gen Value := do
  let ptr ← Generator.emit (.gep (.nullValue (.ptr type)) [1]) (.ptr type)
  Generator.emit (.cast .PtrToInt ptr Generator.getSizeType) Generator.getSizeType

/-- `Generator::createCallMalloc`. -/
def Generator.createCallMalloc (type : IRType) : Gen Value := do
  let size ← (Generator.createSizeOf type).orLogG 614
  let s ← getState
  (Generator.createCall s.g.fMalloc [some size]).orLogG 620

/-- `Generator::createAlloc`: the `alloca` is put at the front of the entry block
of the function the builder is in. -/
def Generator.createAlloc (type : IRType) : Gen Value := do
  let f ← Generator.insertFunction
  fun s =>
    match (s.g.functions.get? f).bind (·.blocks.head?) with
    | none => .undefined
    | some entryBlock =>
      .ok (.instruction s.g.nextId (.ptr type))
        { s with g := { s.g with
          blocks := modifyAt (fun d => { d with insts := .alloca type :: d.insts }) entryBlock s.g.blocks
          nextId := s.g.nextId + 1 } }

/-- `Generator::createStore`: a null `value` stands for the zero of the pointee type. -/
def Generator.createStore (value : Option Value) (destPtr : Option Value) : Gen Unit := do
  let ptr ← nonNull destPtr
  let v ← match value with
    | some v => pure v
    | none => do
      let elem ← nonNull ptr.getType.getPointerElementType
      pure (Value.nullValue elem)
  Generator.emitVoid (.store v ptr)

/-- `Generator::createLoad`. -/
def Generator.createLoad (srcPtr : Option Value) : Gen Value := do
  let ptr ← nonNull srcPtr
  let elem ← nonNull ptr.getType.getPointerElementType
  Generator.emit (.load ptr) elem

/-- The type of member `index` of the struct a pointer value points to
(`CreateGEP(object, {0, index})`). -/
def Generator.memberPtrType (object : Value) (index : Nat) : Gen IRType := fun s =>
  match object.getType with
  | .ptr (.struct id) =>
    match ((s.g.structs.get? id).bind (·.body)).bind (·.get? index) with
    | some t => .ok (.ptr t) s
    | none => .undefined
  | _ => .undefined

/-- `Generator::createInitializeObject`. -/
def Generator.createInitializeObject (object : Option Value) (initializer : Option Value) :
    Gen Unit := do
  let obj ← nonNull object
  let refTy ← Generator.memberPtrType obj 0
  let referenceCount ← Generator.emit (.gep obj [0, 0]) refTy
  Generator.emitVoid (.store (.constantInt 64 1) referenceCount)
  let entTy ← Generator.memberPtrType obj 2
  let entity ← Generator.emit (.gep obj [0, 2]) entTy
  let init ← match initializer with
    | some v => pure v
    | none => do
      let elem ← nonNull entity.getType.getPointerElementType
      pure (Value.nullValue elem)
  Generator.emitVoid (.store init entity)

/-- The loop of `Generator::BuiltInObjectTypes::init`. -/
def Generator.BuiltInObjectTypes.initLoop : List (TokenType × String) → Gen Unit
  | [] => pure ()
  | (type, name) :: rest => do
    let id ← (Generator.createStructType name).orLogG 708
    let llvmType ← (Generator.getType type).orLogG 717
    Generator.setBody id [Generator.getSizeType, Generator.getTypeIdType, llvmType]
    modifyG fun g => { g with builtInObjectTypes := g.builtInObjectTypes ++ [(type, id)] }
    Generator.BuiltInObjectTypes.initLoop rest

/-- `Generator::createMallocDeclare`. -/
def Generator.createMallocDeclare : Gen Unit := do
  let f ← (Generator.createFunctionDeclare ⟨.ptr (.int 8), [Generator.getSizeType], false⟩ "malloc").orLogG 76
  modifyG fun g => { g with fMalloc := some f }

/-- `Generator::createBuiltInCode`, the part of `Generator::init` that builds IR. -/
def Generator.createBuiltInCode : Gen Unit :=
  (do Generator.createMallocDeclare
      Generator.BuiltInObjectTypes.initLoop (builtInTypes.zip builtInTypeNames)).orLogG 65

/-! ## util.cpp and machine arithmetic -/

/-- `INT64_MIN`. -/
def INT64_MIN : Int := -(2 : Int) ^ 63

/-- `INT64_MAX`. -/
def INT64_MAX : Int := (2 : Int) ^ 63 - 1

/-- `INT32_MIN`. -/
def INT32_MIN : Int := -(2 : Int) ^ 31

/-- `INT32_MAX`. -/
def INT32_MAX : Int := (2 : Int) ^ 31 - 1

/-- The value of an `int64_t` computation whose exact result is `x`
(two's-complement wrap-around). -/
def wrapInt64 (x : Int) : Int := (x + (2 : Int) ^ 63) % (2 : Int) ^ 64 - (2 : Int) ^ 63

/-- `lhs / rhs` on `int64_t`: the truncating quotient; division by zero and
`INT64_MIN / -1` are undefined (`none`). -/
def int64Div (lhs rhs : Int) : Option Int :=
  if rhs = 0 then none
  else if lhs = INT64_MIN ∧ rhs = -1 then none
  else some (Int.tdiv lhs rhs)

/-- `lhs % rhs` on `int64_t`: the remainder of the truncating division;
undefined (`none`) where the division is. -/
def int64Rem (lhs rhs : Int) : Option Int :=
  if rhs = 0 then none
  else if lhs = INT64_MIN ∧ rhs = -1 then none
  else some (Int.tmod lhs rhs)

/-- Conversion `double → int64_t`: truncation toward zero, undefined (`none`)
when the truncated value is not an `int64_t`. Doubles are modelled by exact
rationals. -/
def doubleToInt64 (d : Rat) : Option Int :=
  let t := Int.tdiv d.num d.den
  if INT64_MIN ≤ t ∧ t ≤ INT64_MAX then some t else none

/-- What a conversion helper of `util.cpp` does: it returns `false` with a value,
returns `true`, or lets an exception of the standard library escape. -/
inductive Conv (α : Type) where
  | value (a : α)
  | failed
  | thrown
  deriving DecidableEq, Repr

/-- Run a conversion inside a `generate` call; an escaping exception is never
caught, so the run leaves the model. -/
def Conv.toGen {α : Type} : Conv α → Gen α
  | .value a => pure a
  | .failed => returnTrue
  | .thrown => undefinedBehaviour

/-- `toBoolean`. -/
def toBoolean (str : String) : Conv Bool :=
  if str = "true" then .value true
  else if str = "false" then .value false
  else .failed

/-- `isspace` in the "C" locale. -/
def isSpace (c : Char) : Bool :=
  c = ' ' ∨ c = '\t' ∨ c = '\n' ∨ c = '\r' ∨ c.toNat = 11 ∨ c.toNat = 12

/-- The value of a digit character in bases up to 36. -/
def digitValue (c : Char) : Option Nat :=
  if '0' ≤ c ∧ c ≤ '9' then some (c.toNat - '0'.toNat)
  else if 'a' ≤ c ∧ c ≤ 'z' then some (c.toNat - 'a'.toNat + 10)
  else if 'A' ≤ c ∧ c ≤ 'Z' then some (c.toNat - 'A'.toNat + 10)
  else none

/-- Read the longest run of digits of `base`: the accumulated value, the number
of digits read and the rest of the input. -/
def readDigits (base : Nat) : List Char → Nat → Nat → Nat × Nat × List Char
  | [], acc, n => (acc, n, [])
  | c :: cs, acc, n =>
    match digitValue c with
    | some d => if d < base then readDigits base cs (acc * base + d) (n + 1) else (acc, n, c :: cs)
    | none => (acc, n, c :: cs)

/-- `std::stoll(str, &index, 0)`: the value and `index`, or `none` when it throws
(`std::invalid_argument` without a digit, `std::out_of_range` beyond `long long`).
Base 0 reads a `0x`/`0X` prefix as hexadecimal and a leading `0` as octal. -/
def stoll (str : String) : Option (Int × Nat) :=
  let cs := str.data
  let ws := (cs.takeWhile isSpace).length
  let cs := cs.dropWhile isSpace
  let (negative, signLen, cs) := match cs with
    | '-' :: rest => (true, 1, rest)
    | '+' :: rest => (false, 1, rest)
    | _ => (false, 0, cs)
  let (base, prefixLen, cs) := match cs with
    | '0' :: x :: d :: rest =>
      if (x = 'x' ∨ x = 'X') ∧ (digitValue d).any (· < 16) then (16, 2, d :: rest) else (8, 0, cs)
    | '0' :: _ => (8, 0, cs)
    | _ => (10, 0, cs)
  let (magnitude, count, _) := readDigits base cs 0 0
  if count = 0 then none
  else
    let v : Int := if negative then -(magnitude : Int) else (magnitude : Int)
    if INT64_MIN ≤ v ∧ v ≤ INT64_MAX then some (v, ws + signLen + prefixLen + count) else none

/-- `toInt64`. -/
def toInt64 (str : String) : Conv Int :=
  match stoll str with
  | none => .thrown
  | some (num, index) => if index ≠ str.utf8ByteSize then .failed else .value num

/-- `std::stod(str, &index)` on decimal spellings `digits[.digits]` with an
optional sign and leading white space: the exact value and `index`, or `none`
when it throws (no digit, or a value that rounds to infinity). Exponents,
hexadecimal floats and the `inf`/`nan` spellings, which no `CONSTANT_FLOAT`
lexeme contains, are not read. -/
def stod (str : String) : Option (Rat × Nat) :=
  let cs := str.data
  let ws := (cs.takeWhile isSpace).length
  let cs := cs.dropWhile isSpace
  let (negative, signLen, cs) := match cs with
    | '-' :: rest => (true, 1, rest)
    | '+' :: rest => (false, 1, rest)
    | _ => (false, 0, cs)
  let (intPart, intCount, cs) := readDigits 10 cs 0 0
  let (fracPart, fracCount, dotLen) := match cs with
    | '.' :: rest =>
      let (f, n, _) := readDigits 10 rest 0 0
      if intCount = 0 ∧ n = 0 then (0, 0, 0) else (f, n, 1)
    | _ => (0, 0, 0)
  if intCount = 0 ∧ fracCount = 0 then none
  else
    let magnitude : Rat := (intPart : Rat) + (fracPart : Rat) / (10 : Rat) ^ fracCount
    if (2 : Rat) ^ 1024 - (2 : Rat) ^ 970 ≤ magnitude then none
    else some (if negative then -magnitude else magnitude, ws + signLen + intCount + dotLen + fracCount)

/-- `toDouble`. -/
def toDouble (str : String) : Conv Rat :=
  match stod str with
  | none => .thrown
  | some (num, index) => if index ≠ str.utf8ByteSize then .failed else .value num

/-! ## Node.cpp: `Context` operations -/

/-- `Context::addSymbolTable`. -/
def Context.addSymbolTable : Gen Unit :=
  modifyCtx fun c => { c with symbolTables := c.symbolTables ++ [[]] }

/-- `Context::removeSymbolTable`. -/
def Context.removeSymbolTable : Gen Unit := do
  let s ← getState
  if s.ctx.symbolTables.isEmpty then do
    debugLog 1976
    returnTrue
  else modifyCtx fun c => { c with symbolTables := c.symbolTables.dropLast }

/-- `Context::addSymbol`. -/
def Context.addSymbol (name : String) (type : ValueType) (value : Option Value) : Gen Unit := do
  let s ← getState
  match s.ctx.symbolTables.getLast? with
  | none => do
    debugLog 1986
    returnTrue
  | some table =>
    modifyCtx fun c => { c with symbolTables := c.symbolTables.dropLast ++ [table ++ [⟨name, type, value⟩]] }

/-- `Context::getSymbol`: `none` is "returned true" (not found). Scopes are
searched from the last one back, each from its last symbol back. -/
def Context.getSymbol (ctx : Context) (name : String) : Option Symbol :=
  (ctx.symbolTables.reverse.map List.reverse).flatten.find? (fun symbol => name = symbol.name)

/-- `CompileUnitNode::getFunctionNode`. -/
def CompileUnitNode.getFunctionNode (cu : CompileUnitNode) (name : String) : Option FunctionNode :=
  cu.functions.find? (fun f => f.name.str = name)

/-- `Context::getFunctionNode`. -/
def Context.getFunctionNode (ctx : Context) (name : String) : Option FunctionNode :=
  ctx.compileUnits.findSome? (fun cu => cu.getFunctionNode name)

/-- `Context::addSuccessorBlockForBreak`. -/
def Context.addSuccessorBlockForBreak (successorBlock : Nat) : Gen Unit :=
  modifyCtx fun c => { c with successorBlocks := successorBlock :: c.successorBlocks }

/-- `Context::getSuccessorBlockForBreak`. -/
def Context.getSuccessorBlockForBreak (ctx : Context) : Option Nat := ctx.successorBlocks.head?

/-- `Context::removeSuccessorBlockForBreak` (`std::stack::pop`, undefined when empty). -/
def Context.removeSuccessorBlockForBreak : Gen Unit := do
  let s ← getState
  match s.ctx.successorBlocks with
  | [] => undefinedBehaviour
  | _ :: rest => modifyCtx fun c => { c with successorBlocks := rest }

/-- `Context::setLastBlock`. -/
def Context.setLastBlock (block : Option Nat) : Gen Unit :=
  modifyCtx fun c => { c with lastBlock := block }

/-- `Context::setBreaked`. -/
def Context.setBreaked (flag : Bool) : Gen Unit := modifyCtx fun c => { c with breaked := flag }

/-- `Context::setReturned`. -/
def Context.setReturned (flag : Bool) : Gen Unit := modifyCtx fun c => { c with returned := flag }

/-! ## Node.cpp: expressions -/

/-- An expression node as its parent sees it once `generate` has returned
`false`: its `token_` and the fields `generate` wrote, the others at the
values the `ExpressionNode` constructor gave them. -/
structure ExprResult where
  token : Token := {}
  generatedValue : Option Value := none
  generatedValueBoolArray : Option Value := none
  generatedValueI8Array : Option Value := none
  generatedValueI16Array : Option Value := none
  generatedValueI32Array : Option Value := none
  generatedValueI64Array : Option Value := none
  generatedValueU8Array : Option Value := none
  generatedValueU16Array : Option Value := none
  generatedValueU32Array : Option Value := none
  generatedValueU64Array : Option Value := none
  generatedValueF32Array : Option Value := none
  generatedValueF64Array : Option Value := none
  generatedValueStringArray : Option Value := none
  valueType : ValueType := {}
  constantBool : Bool := false
  constantInteger : Int := 0
  constantDouble : Rat := 0
  constantString : String := ""
  generatedVariablePtr : Option Value := none
  deriving DecidableEq, Repr

/-- `castConstantToValueType_BasicType`. -/
def castConstantToValueType_BasicType (srcType : ValueType) (srcValue : Option Value)
    (destType : ValueType) : Gen (Option Value) :=
  if srcType.basicType = TokenType.CONSTANT_INTEGER ∧ Token.isIntegerType destType.basicType then
    (Generator.createCast srcType.basicType srcValue destType.basicType).orLog 41
  else if srcType.basicType = TokenType.CONSTANT_FLOAT ∧ destType.basicType = TokenType.TYPE_F32 then
    (Generator.createCast srcType.basicType srcValue destType.basicType).orLog 47
  else pure srcValue

/-- `castConstantToValueType_ArrayType`. -/
def castConstantToValueType_ArrayType (src : ExprResult) (destType : ValueType) :
    Gen (Option Value) := do
  let srcType := src.valueType
  let result ←
    if srcType.basicType = TokenType.CONSTANT_BOOL ∧ destType.basicType = TokenType.TYPE_BOOL then
      pure src.generatedValueBoolArray
    else if srcType.basicType = TokenType.CONSTANT_INTEGER then
      match destType.basicType with
      | .TYPE_I8 => pure src.generatedValueI8Array
      | .TYPE_I16 => pure src.generatedValueI16Array
      | .TYPE_I32 => pure src.generatedValueI32Array
      | .TYPE_I64 => pure src.generatedValueI64Array
      | .TYPE_U8 => pure src.generatedValueU8Array
      | .TYPE_U16 => pure src.generatedValueU16Array
      | .TYPE_U32 => pure src.generatedValueU32Array
      | .TYPE_U64 => pure src.generatedValueU64Array
      | _ => do debugLog 89; returnTrue
    else if srcType.basicType = TokenType.CONSTANT_FLOAT then
      match destType.basicType with
      | .TYPE_F32 => pure src.generatedValueF32Array
      | .TYPE_F64 => pure src.generatedValueF64Array
      | _ => do debugLog 102; returnTrue
    else if srcType.basicType = TokenType.CONSTANT_STRING ∧ destType.basicType = TokenType.TYPE_I8
        ∧ destType.pointerCount = 1 then
      pure src.generatedValueStringArray
    else pure src.generatedValue
  match result with
  | none => failWith (.TypeMismatchError src.token destType src.valueType)
  | some v => pure (some v)

/-- `castConstantToValueType`. -/
def castConstantToValueType (src : ExprResult) (destType : ValueType) : Gen (Option Value) :=
  let srcType := src.valueType
  let srcValue := src.generatedValue
  if !Token.isConstant srcType.basicType then pure srcValue
  else if srcType.pointerCount ≠ 0 then pure srcValue
  else if srcType.arraySizes.isEmpty then castConstantToValueType_BasicType srcType srcValue destType
  else castConstantToValueType_ArrayType src destType

/-- `VariableValueNode::generate` (it reads neither `arrayIndex_` nor `member_`). -/
def VariableValueNode.generate : VariableValueNode → Gen ExprResult
  | .mk token name _ _ isRhsValue => do
    let s ← getState
    match s.ctx.getSymbol name.str with
    | none => failWith (.UndefinedSymbolError name)
    | some symbol =>
      let node : ExprResult := { token := token, valueType := symbol.type }
      if symbol.type.isArgument then pure { node with generatedValue := symbol.value }
      else
        let node := { node with generatedVariablePtr := symbol.value }
        if !isRhsValue then do
          let value ← (Generator.createLoad symbol.value).orLog 423
          pure { node with generatedValue := some value }
        else pure node

/-- `UnaryOperationNode::generate` from the point where the operand has been generated. -/
def UnaryOperationNode.generateRest (token operatorType : Token) (value : ExprResult) :
    Gen ExprResult := do
  let valueType := value.valueType
  if !valueType.isArithmetic then failWith (.NotArithmeticTypeError operatorType value.valueType)
  else
    match operatorType.type with
    | .MINUS => do
      let generatedValue ← (Generator.createNegate valueType.basicType value.generatedValue).orLog 513
      let node : ExprResult :=
        { token := token, valueType := valueType, generatedValue := some generatedValue }
      if valueType.basicType = TokenType.CONSTANT_INTEGER then
        let num := value.constantInteger
        if num = INT64_MIN then failWith (.ConstantTooLarge operatorType)
        else pure { node with constantInteger := -num }
      else if valueType.basicType = TokenType.CONSTANT_FLOAT then
        pure { node with constantDouble := -value.constantDouble }
      else pure node
    | _ => do debugLog 532; returnTrue

/-- `BinaryOperationNode::checkOperand`. -/
def BinaryOperationNode.checkOperand (operatorToken : Token) (operandType : ValueType)
    (value : ExprResult) : Gen Unit :=
  if operandType.pointerCount ≠ 0 then do debugLog 803; returnTrue
  else
    match operatorToken.type with
    | .PLUS | .MINUS | .ASTERISK | .SLASH | .PERCENT =>
      if !operandType.isArithmetic then failWith (.NotArithmeticTypeError value.token value.valueType)
      else pure ()
    | .COMPARE_LESSER_THAN | .COMPARE_LESSER_EQUAL | .COMPARE_GREATER_THAN
    | .COMPARE_GREATER_EQUAL =>
      if !operandType.isComparable then failWith (.NotComparableTypeError value.token value.valueType)
      else pure ()
    | .COMPARE_EQUAL | .COMPARE_NOT_EQUAL =>
      if !operandType.isAbleToEqual then
        failWith (.NotBeAbleToEqualTypeError value.token value.valueType)
      else pure ()
    | .LOGICAL_OR | .LOGICAL_AND =>
      if !operandType.isBool then
        failWith (.TypeMismatchError value.token (ValueType.mk3 .TYPE_BOOL 0 false) value.valueType)
      else pure ()
    | _ => do debugLog 842; returnTrue

/-- The constant folding of `+ - *` in `BinaryOperationNode::generate`:
`op` is the exact operation; the `CONSTANT_FLOAT` case converts both doubles to
`int64_t` first. -/
def BinaryOperationNode.foldArithmetic (op : Int → Int → Int) (node lhs rhs : ExprResult) :
    Gen ExprResult :=
  if node.valueType.basicType = TokenType.CONSTANT_INTEGER then
    pure { node with constantInteger := wrapInt64 (op lhs.constantInteger rhs.constantInteger) }
  else if node.valueType.basicType = TokenType.CONSTANT_FLOAT then do
    let l ← nonNull (doubleToInt64 lhs.constantDouble)
    let r ← nonNull (doubleToInt64 rhs.constantDouble)
    pure { node with constantDouble := ((wrapInt64 (op l r) : Int) : Rat) }
  else pure node

/-- The constant folding of `/ %` in `BinaryOperationNode::generate`. -/
def BinaryOperationNode.foldDivision (op : Int → Int → Option Int) (node lhs rhs : ExprResult) :
    Gen ExprResult :=
  if node.valueType.basicType = TokenType.CONSTANT_INTEGER then do
    let v ← nonNull (op lhs.constantInteger rhs.constantInteger)
    pure { node with constantInteger := v }
  else if node.valueType.basicType = TokenType.CONSTANT_FLOAT then do
    let l ← nonNull (doubleToInt64 lhs.constantDouble)
    let r ← nonNull (doubleToInt64 rhs.constantDouble)
    let v ← nonNull (op l r)
    pure { node with constantDouble := ((v : Int) : Rat) }
  else pure node

/-- The constant folding of the comparisons in `BinaryOperationNode::generate`;
both constant cases compare the operands' `getConstantInteger()`. -/
def BinaryOperationNode.foldCompare (op : Int → Int → Bool) (node lhs rhs : ExprResult) :
    ExprResult :=
  if node.valueType.basicType = TokenType.CONSTANT_INTEGER then
    { node with constantBool := op lhs.constantInteger rhs.constantInteger }
  else if node.valueType.basicType = TokenType.CONSTANT_FLOAT then
    { node with constantBool := op lhs.constantInteger rhs.constantInteger }
  else node

/-- The constant folding of `|| &&` in `BinaryOperationNode::generate`. -/
def BinaryOperationNode.foldLogical (op : Bool → Bool → Bool) (node lhs rhs : ExprResult) :
    ExprResult :=
  if node.valueType.basicType = TokenType.CONSTANT_BOOL then
    { node with constantBool := op lhs.constantBool rhs.constantBool }
  else if node.valueType.basicType = TokenType.CONSTANT_FLOAT then
    { node with constantBool := op lhs.constantBool rhs.constantBool }
  else node

/-- `BinaryOperationNode::generate` from the point where both operands have been
generated (`lhs`, `rhs` are the operand nodes after their `generate`). -/
def BinaryOperationNode.generateRest (token operatorType : Token) (lhs rhs : ExprResult) :
    Gen ExprResult := do
  let lhsType := lhs.valueType
  let rhsType := rhs.valueType
  if !lhsType.isCompatible rhsType then
    failWith (.TypeMismatchError operatorType rhsType lhsType)
  else do
    let (newLhs, newRhs, valueType) ←
      if Token.isConstant lhsType.basicType then do
        let newLhs ← (castConstantToValueType lhs rhsType).orLog 560
        pure (newLhs, rhs.generatedValue, rhsType)
      else do
        let newRhs ← (castConstantToValueType rhs lhsType).orLog 568
        pure (lhs.generatedValue, newRhs, lhsType)
    (BinaryOperationNode.checkOperand operatorType lhsType lhs).orLog 576
    let node (v : Value) : ExprResult :=
      { token := token, valueType := valueType, generatedValue := some v }
    match operatorType.type with
    | .PLUS => do
      let v ← (Generator.createAdd valueType.basicType newLhs newRhs).orLog 583
      BinaryOperationNode.foldArithmetic (· + ·) (node v) lhs rhs
    | .MINUS => do
      let v ← (Generator.createSub valueType.basicType newLhs newRhs).orLog 603
      BinaryOperationNode.foldArithmetic (· - ·) (node v) lhs rhs
    | .ASTERISK => do
      let v ← (Generator.createMul valueType.basicType newLhs newRhs).orLog 623
      BinaryOperationNode.foldArithmetic (· * ·) (node v) lhs rhs
    | .SLASH => do
      let v ← (Generator.createDiv valueType.basicType newLhs newRhs).orLog 643
      BinaryOperationNode.foldDivision int64Div (node v) lhs rhs
    | .PERCENT => do
      let v ← (Generator.createRem valueType.basicType newLhs newRhs).orLog 663
      BinaryOperationNode.foldDivision int64Rem (node v) lhs rhs
    | .COMPARE_LESSER_THAN => do
      let v ← (Generator.createCommpareLesserThan valueType.basicType newLhs newRhs).orLog 683
      pure (BinaryOperationNode.foldCompare (fun a b => decide (a < b)) (node v) lhs rhs)
    | .COMPARE_LESSER_EQUAL => do
      let v ← (Generator.createCommpareLesserEqual valueType.basicType newLhs newRhs).orLog 697
      pure (BinaryOperationNode.foldCompare (fun a b => decide (a ≤ b)) (node v) lhs rhs)
    | .COMPARE_GREATER_THAN => do
      let v ← (Generator.createCommpareGreaterThan valueType.basicType newLhs newRhs).orLog 711
      pure (BinaryOperationNode.foldCompare (fun a b => decide (a > b)) (node v) lhs rhs)
    | .COMPARE_GREATER_EQUAL => do
      let v ← (Generator.createCommpareGreaterEqual valueType.basicType newLhs newRhs).orLog 725
      pure (BinaryOperationNode.foldCompare (fun a b => decide (a ≥ b)) (node v) lhs rhs)
    | .COMPARE_EQUAL => do
      let v ← (Generator.createCommpareEqual valueType.basicType newLhs newRhs).orLog 739
      pure (BinaryOperationNode.foldCompare (fun a b => decide (a = b)) (node v) lhs rhs)
    | .COMPARE_NOT_EQUAL => do
      let v ← (Generator.createCommpareNotEqual valueType.basicType newLhs newRhs).orLog 753
      pure (BinaryOperationNode.foldCompare (fun a b => decide (a ≠ b)) (node v) lhs rhs)
    | .LOGICAL_OR => do
      let v ← (Generator.createLogicalOr valueType.basicType newLhs newRhs).orLog 767
      pure (BinaryOperationNode.foldLogical (· || ·) (node v) lhs rhs)
    | .LOGICAL_AND => do
      let v ← (Generator.createLogicalAnd valueType.basicType newLhs newRhs).orLog 781
      pure (BinaryOperationNode.foldLogical (· && ·) (node v) lhs rhs)
    | _ => do debugLog 794; returnTrue

/-- `ConstantNode::generate`. -/
def ConstantNode.generate (constant : Token) : Gen ExprResult :=
  let node : ExprResult := { token := constant }
  match constant.type with
  | .CONSTANT_BOOL => do
    let b ← (toBoolean constant.str).toGen.orLog 875
    let temp ← (Generator.createBooleanConstant b).orLog 880
    pure { node with constantBool := b, generatedValue := some temp,
                     valueType := ValueType.mk3 constant.type 0 false }
  | .CONSTANT_INTEGER => do
    let n ← (toInt64 constant.str).toGen.orLog 891
    let temp ← (Generator.createI64Constant n).orLog 897
    pure { node with constantInteger := n, generatedValue := some temp,
                     valueType := ValueType.mk3 constant.type 0 false }
  | .CONSTANT_FLOAT => do
    let d ← (toDouble constant.str).toGen.orLog 908
    let temp ← (Generator.createDoubleConstant d).orLog 913
    pure { node with constantDouble := d, generatedValue := some temp,
                     valueType := ValueType.mk3 constant.type 0 false }
  | .CONSTANT_STRING => do
    let temp ← (Generator.createStringConstant constant.str).orLog 926
    pure { node with constantString := constant.str, generatedValue := some temp,
                     valueType := ValueType.mk3 constant.type 0 false }
  | _ => do debugLog 935; returnTrue

/-- The first loop of `AggregateConstantNode::generateArrayConstant`: every
element type after the first must be a constant kind and equal to the first. -/
def AggregateConstantNode.checkElementTypes (token : Token) (type : ValueType) :
    List ValueType → Gen Unit
  | [] => pure ()
  | i :: rest =>
    if !Token.isConstant i.basicType then do debugLog 1054; returnTrue
    else if i.ne type then failWith (.EachElementMustHaveIdenticallyTypeError token)
    else AggregateConstantNode.checkElementTypes token type rest

/-- One round of the second loop of `generateArrayConstant`: the constant for
one element; `none` is the exit `result = nullptr; return false;`. -/
def AggregateConstantNode.elementConstant (valueType : ValueType) (value : ExprResult) :
    Gen (Option Value) :=
  if value.token.type = TokenType.SQUARE_BRACKET_LEFT then do
    let temp ← match valueType.basicType with
      | .TYPE_BOOL => pure value.generatedValueBoolArray
      | .TYPE_I8 => pure value.generatedValueI8Array
      | .TYPE_I16 => pure value.generatedValueI16Array
      | .TYPE_I32 => pure value.generatedValueI32Array
      | .TYPE_I64 => pure value.generatedValueI64Array
      | .TYPE_U8 => pure value.generatedValueU8Array
      | .TYPE_U16 => pure value.generatedValueU16Array
      | .TYPE_U32 => pure value.generatedValueU32Array
      | .TYPE_U64 => pure value.generatedValueU64Array
      | .TYPE_F32 => pure value.generatedValueF32Array
      | .TYPE_F64 => pure value.generatedValueF64Array
      | .CONSTANT_STRING => pure value.generatedValueStringArray
      | _ => do debugLog 1113; returnTrue
    pure temp
  else
    match value.valueType.basicType with
    | .CONSTANT_BOOL => some <$> (Generator.createBooleanConstant value.constantBool).orLog 1128
    | .CONSTANT_INTEGER =>
      let n := value.constantInteger
      match valueType.basicType with
      | .TYPE_I8 =>
        if (-128 : Int) ≤ n ∧ n ≤ 127 then some <$> (Generator.createI8Constant n).orLog 1141
        else pure none
      | .TYPE_I16 =>
        if (-32768 : Int) ≤ n ∧ n ≤ 32767 then some <$> (Generator.createI16Constant n).orLog 1157
        else pure none
      | .TYPE_I32 =>
        if INT32_MIN ≤ n ∧ n ≤ INT32_MAX then some <$> (Generator.createI32Constant n).orLog 1173
        else pure none
      | .TYPE_I64 => some <$> (Generator.createI64Constant n).orLog 1186
      | .TYPE_U8 =>
        if (0 : Int) ≤ n ∧ n ≤ 255 then some <$> (Generator.createU8Constant n).orLog 1195
        else pure none
      | .TYPE_U16 =>
        if (0 : Int) ≤ n ∧ n ≤ 65535 then some <$> (Generator.createU16Constant n).orLog 1211
        else pure none
      | .TYPE_U32 =>
        if (0 : Int) ≤ n ∧ n ≤ 4294967295 then some <$> (Generator.createU32Constant n).orLog 1227
        else pure none
      | .TYPE_U64 => some <$> (Generator.createU64Constant n).orLog 1240
      | _ => do debugLog 1245; returnTrue
    | .CONSTANT_FLOAT =>
      match valueType.basicType with
      | .TYPE_F32 => some <$> (Generator.createF32Constant value.constantDouble).orLog 1253
      | .TYPE_F64 => some <$> (Generator.createF64Constant value.constantDouble).orLog 1259
      | _ => do debugLog 1264; returnTrue
    | .CONSTANT_STRING => some <$> (Generator.createStringConstant value.constantString).orLog 1270
    | _ => do debugLog 1275; returnTrue

/-- The second loop of `generateArrayConstant`; `none` is the exit
`result = nullptr; return false;` taken at the first element without a constant. -/
def AggregateConstantNode.elementConstants (valueType : ValueType) :
    List ExprResult → Gen (Option (List Value))
  | [] => pure (some [])
  | value :: rest => do
    match ← AggregateConstantNode.elementConstant valueType value with
    | none => pure none
    | some temp =>
      match ← AggregateConstantNode.elementConstants valueType rest with
      | none => pure none
      | some values => pure (some (temp :: values))

/-- `AggregateConstantNode::generateArrayConstant`; `valueType` is the node's
`valueType_` at the time of the call, `values` the element nodes after their
`generate`. The result is the handle written to `result` (possibly null). -/
def AggregateConstantNode.generateArrayConstant (token : Token) (valueType : ValueType)
    (values : List ExprResult) : Gen (Option Value) := do
  match values.map (·.valueType) with
  | [] => pure ()
  | type :: rest => AggregateConstantNode.checkElementTypes token type rest
  let arrayType ← (Generator.createType valueType).orLog 1067
  match ← AggregateConstantNode.elementConstants valueType values with
  | none => pure none
  | some constants =>
    some <$> (Generator.createArrayConstant arrayType constants).orLog 1284

/-- `AggregateConstantNode::generate` from the point where `values_.generate`
has returned; `values_.getValues()->front()` on an empty list is undefined. -/
def AggregateConstantNode.generateRest (token : Token) (values : List ExprResult) :
    Gen ExprResult :=
  match token.type with
  | .SQUARE_BRACKET_LEFT => do
    let front ← nonNull values.head?
    let valueType : ValueType :=
      { front.valueType with
        isArgument := false
        arraySizes := front.valueType.arraySizes ++ [values.length] }
    let node : ExprResult := { token := token, valueType := valueType }
    let gen (basicType : TokenType) (line : Nat) : Gen (Option Value) :=
      (AggregateConstantNode.generateArrayConstant token { valueType with basicType := basicType }
        values).orLog line
    match valueType.basicType with
    | .CONSTANT_BOOL => do
      let a ← gen .CONSTANT_BOOL 957
      pure { node with generatedValueBoolArray := a }
    | .CONSTANT_INTEGER => do
      let i8 ← gen .TYPE_I8 965
      let i16 ← gen .TYPE_I16 970
      let i32 ← gen .TYPE_I32 975
      let i64 ← gen .TYPE_I64 980
      let u8 ← gen .TYPE_U8 985
      let u16 ← gen .TYPE_U16 990
      let u32 ← gen .TYPE_U32 995
      let u64 ← gen .TYPE_U64 1000
      pure { node with
        generatedValueI8Array := i8, generatedValueI16Array := i16
        generatedValueI32Array := i32, generatedValueI64Array := i64
        generatedValueU8Array := u8, generatedValueU16Array := u16
        generatedValueU32Array := u32, generatedValueU64Array := u64 }
    | .CONSTANT_FLOAT => do
      let f32 ← gen .TYPE_F32 1011
      let f64 ← gen .TYPE_F64 1016
      pure { node with generatedValueF32Array := f32, generatedValueF64Array := f64 }
    | .CONSTANT_STRING => do
      let a ← gen .CONSTANT_STRING 1025
      pure { node with generatedValueStringArray := a }
    | _ => do debugLog 1030; returnTrue
  | .CURLY_BRACKET_LEFT => do debugLog 1036; returnTrue
  | _ => do debugLog 1039; returnTrue

/-- `CastNode::generate` from the point where the operand and the destination
type have been generated. -/
def CastNode.generateRest (token : Token) (value : ExprResult) (destType : TypeNode) :
    Gen ExprResult := do
  let srcType := value.valueType
  let destValueType := destType.getValueType
  if srcType.isReference then do debugLog 1307; returnTrue
  else if srcType.pointerCount ≠ 0 then do debugLog 1312; returnTrue
  else if destValueType.isReference then do debugLog 1318; returnTrue
  else if destValueType.pointerCount ≠ 0 then do debugLog 1323; returnTrue
  else do
    let generatedValue ←
      (Generator.createCast srcType.basicType value.generatedValue destValueType.basicType).orLog 1331
    pure { token := token, generatedValue := generatedValue, valueType := destValueType }

/-- `CallNode::generate` from the point where the arguments have been generated. -/
def CallNode.generateRest (token : Token) (function : FunctionNode)
    (generatedValues : List (Option Value)) : Gen ExprResult := do
  let generatedValue ← (Generator.createCall function.generatedFunction generatedValues).orLog 862
  pure { token := token, generatedValue := some generatedValue,
         valueType := function.returnType.getValueType }

mutual
/-- `ExpressionNode::generate`, by subclass. -/
def ExpressionNode.generate : ExpressionNode → Gen ExprResult
  | .VariableValueNode node => node.generate
  | .UnaryOperationNode token operatorType value => do
    let v ← (ExpressionNode.generate value).orLog 500
    UnaryOperationNode.generateRest token operatorType v
  | .BinaryOperationNode token operatorType lhs rhs => do
    let l ← (ExpressionNode.generate lhs).orLog 541
    let r ← (ExpressionNode.generate rhs).orLog 545
    BinaryOperationNode.generateRest token operatorType l r
  | .CallNode token f values => do
    let s ← getState
    match s.ctx.getFunctionNode f.getName.str with
    | none => failWith (.UndefinedSymbolError f.getName)
    | some function => do
      let generatedValues ←
        (ValueListNode.generateForFunctionArgumants token function.name
          function.hasVariableArgument values function.args).orLog 857
      CallNode.generateRest token function generatedValues
  | .ConstantNode constant => ConstantNode.generate constant
  | .AggregateConstantNode token values => do
    let elements ← (ValueListNode.generate values).orLog 944
    AggregateConstantNode.generateRest token elements
  | .CastNode token value destType => do
    let v ← (ExpressionNode.generate value).orLog 1294
    let t ← (TypeNode.generate destType).orLog 1298
    CastNode.generateRest token v t
/-- `ValueListNode::generate`: the element nodes after their `generate`. -/
def ValueListNode.generate : List ExpressionNode → Gen (List ExprResult)
  | [] => pure []
  | v :: rest => do
    let r ← (ExpressionNode.generate v).orLog 437
    let rs ← ValueListNode.generate rest
    pure (r :: rs)
/-- `ValueListNode::generateForFunctionArgumants`: the loop over `values_` with
the parameters not yet matched, then the check that none is left. The result is
`generatedValues_`. -/
def ValueListNode.generateForFunctionArgumants (callToken functionName : Token)
    (hasVariableArgument : Bool) :
    List ExpressionNode → List VariableDefinitionNode → Gen (List (Option Value))
  | [], [] => pure []
  | [], _ :: _ => failWith (.InvalidCallArgumentLength callToken functionName)
  | v :: rest, args => do
    let r ← (ExpressionNode.generate v).orLog 455
    match args with
    | arg :: args' => do
      let valueType := r.valueType
      let argType := arg.type.getValueType
      if !valueType.isCompatible argType then
        failWith (.TypeMismatchError r.token argType valueType)
      else do
        let temp ← (castConstantToValueType r argType).orLog 470
        let temps ← ValueListNode.generateForFunctionArgumants callToken functionName
          hasVariableArgument rest args'
        pure (temp :: temps)
    | [] =>
      if !hasVariableArgument then failWith (.InvalidCallArgumentLength callToken functionName)
      else do
        let temps ← ValueListNode.generateForFunctionArgumants callToken functionName
          hasVariableArgument rest []
        pure (r.generatedValue :: temps)
/-- `TypeNode::generate`: the node with `type_.arraySizes` extended and
`generatedType_` set. -/
def TypeNode.generate : TypeNode → Gen TypeNode
  | .mk token type _ arraySizes =>
    if type.isReference ∧ type.basicType = TokenType.TYPE_VOID then
      failWith (.InvalidReferenceTypeError token)
    else do
      let type' ← TypeNode.generateArraySizes arraySizes type
      let generatedType ← (Generator.createType type').orLog 398
      pure (.mk token type' (some generatedType) arraySizes)
/-- The loop over `arraySizes_` in `TypeNode::generate`. -/
def TypeNode.generateArraySizes : List ExpressionNode → ValueType → Gen ValueType
  | [], type => pure type
  | arraySize :: rest, type => do
    let r ← (ExpressionNode.generate arraySize).orLog 386
    if r.valueType.basicType ≠ TokenType.CONSTANT_INTEGER then
      failWith (.ArraySizeMustBeConstantIntegerError r.token)
    else
      TypeNode.generateArraySizes rest
        { type with arraySizes := type.arraySizes ++ [toUnsigned 64 r.constantInteger] }
end

/-! ## Node.cpp: statements -/

/-- A call whose `bool` result the caller drops (`ctx.removeSymbolTable();`). -/
def Gen.ignoreResult (m : Gen Unit) : Gen Unit := fun s =>
  match m s with
  | .fail s' => .ok () s'
  | r => r

/-- `BlockNode::generateBlock`: the handle stored in `generatedBlock_`. -/
def BlockNode.generateBlock (function : Option Nat) (insertBefore : Option Nat) : Gen Nat :=
  Generator.createBasicBlock function insertBefore

/-- The branch `type_ == nullptr` of `LetNode::generate`: the `TypeNode` made
from the initializer's type. -/
def LetNode.inferType (name : Token) (initialValue : ExprResult) : Gen TypeNode := do
  let type := initialValue.valueType
  if type.arraySizes.isEmpty then do
    let type ← match type.basicType with
      | .CONSTANT_BOOL => pure { type with basicType := TokenType.TYPE_BOOL }
      | .CONSTANT_INTEGER =>
        let temp := initialValue.constantInteger
        if temp < INT32_MIN ∨ INT32_MAX < temp then failWith (.ConstantTooLarge name)
        else pure { type with basicType := TokenType.TYPE_I32 }
      | .CONSTANT_FLOAT => pure { type with basicType := TokenType.TYPE_F64 }
      | .CONSTANT_STRING => pure { type with basicType := TokenType.TYPE_I8, pointerCount := 1 }
      | _ => pure type
    pure (TypeNode.ofValueType { type with isArgument := false })
  else do
    let type ← match type.basicType with
      | .CONSTANT_BOOL => pure { type with basicType := TokenType.TYPE_BOOL }
      | .CONSTANT_INTEGER =>
        match initialValue.generatedValueI32Array with
        | some _ => pure { type with basicType := TokenType.TYPE_I32 }
        | none => failWith (.ConstantTooLarge name)
      | .CONSTANT_FLOAT =>
        match initialValue.generatedValueF64Array with
        | some _ => pure { type with basicType := TokenType.TYPE_F64 }
        | none => do debugLog 1434; returnTrue
      | .CONSTANT_STRING => pure { type with basicType := TokenType.TYPE_I8, pointerCount := 1 }
      | _ => pure type
    pure (TypeNode.ofValueType { type with isArgument := false })

/-- The initializer handling shared by both branches of `LetNode::generate`:
the compatibility check and the coercion; `errorLine` and `logLine` are the
branch's source lines. The result is `value` (null without an initializer). -/
def LetNode.initialValueFor (token : Token) (type : ValueType) (initialValue : Option ExprResult)
    (logLine : Nat) : Gen (Option Value) :=
  match initialValue with
  | none => pure none
  | some init =>
    if !type.isCompatible init.valueType then
      failWith (.TypeMismatchError token type init.valueType)
    else (castConstantToValueType init type).orLog logLine

/-- `LetNode::generate` from the point where the initializer (if any) has been
generated; `type_->generate` on a null `type_` is undefined. -/
def LetNode.generateRest (token name : Token) (type : Option TypeNode) (isHeap : Bool)
    (initialValue : Option ExprResult) : Gen Unit := do
  let type ← match initialValue, type with
    | some init, none => some <$> LetNode.inferType name init
    | _, t => pure t
  let typeNode ← nonNull type
  let typeNode ← typeNode.generate.orLog 1456
  let generatedType ← nonNull typeNode.getGeneratedType
  let generatedPtr ← (Generator.createAlloc generatedType).orLog 1460
  if isHeap then do
    let ptr1 ← (Generator.createCallMalloc generatedType).orLog 1467
    let ptr2 ← (Generator.createBitCast (some ptr1) generatedType).orLog 1473
    (Generator.createStore (some ptr2) (some generatedPtr)).orLog 1478
    let value ← LetNode.initialValueFor token typeNode.getValueType initialValue 1489
    (Generator.createInitializeObject (some ptr2) value).orLog 1497
  else do
    let value ← LetNode.initialValueFor token typeNode.getValueType initialValue 1509
    (Generator.createStore value (some generatedPtr)).orLog 1515
  (Context.addSymbol name.str typeNode.getValueType (some generatedPtr)).orLog 1521

/-- `LetNode::generate`. -/
def LetNode.generate (token name : Token) (type : Option TypeNode) (isHeap : Bool)
    (initialValue : Option ExpressionNode) : Gen Unit := do
  let init ← match initialValue with
    | some e => some <$> e.generate.orLog 1374
    | none => pure none
  LetNode.generateRest token name type isHeap init

/-- `ReturnNode::generate` from the point where the value (if any) has been generated. -/
def ReturnNode.generateRest (returnToken : Token) (value : Option ExprResult) : Gen Unit := do
  match value with
  | some value => do
    let returnType ← Generator.getCurrentReturnType
    let valueType := value.valueType
    let returnValue := value.generatedValue
    let mismatch : Gen Unit := failWith (.TypeMismatchError returnToken returnType valueType)
    if valueType.pointerCount = 0 ∧ valueType.arraySizes.isEmpty ∧ !valueType.isReference then
      if returnType.pointerCount ≠ 0 ∨ !returnType.arraySizes.isEmpty then mismatch
      else
        match valueType.basicType with
        | .CONSTANT_BOOL =>
          if returnType.basicType ≠ TokenType.TYPE_BOOL then mismatch
          else (Generator.createReturn value.generatedValue).orLog 1655
        | .CONSTANT_INTEGER =>
          if !Token.isIntegerType returnType.basicType then mismatch
          else do
            let returnValue ←
              if returnType.basicType ≠ TokenType.TYPE_I64 then
                (Generator.createCast value.valueType.basicType returnValue returnType.basicType).orLog 1668
              else pure returnValue
            (Generator.createReturn returnValue).orLog 1674
        | .CONSTANT_FLOAT =>
          if !Token.isFloatingPointType returnType.basicType then mismatch
          else do
            let returnValue ←
              if returnType.basicType ≠ TokenType.TYPE_F64 then
                (Generator.createCast value.valueType.basicType returnValue returnType.basicType).orLog 1689
              else pure returnValue
            (Generator.createReturn returnValue).orLog 1695
        | _ =>
          if value.valueType.ne returnType then mismatch
          else (Generator.createReturn value.generatedValue).orLog 1709
    else
      if !returnType.isCompatible value.valueType then mismatch
      else do
        let returnValue ← (castConstantToValueType value returnType).orLog 1723
        (Generator.createReturn returnValue).orLog 1727
  | none => Generator.createReturnVoid.orLog 1734
  Context.setBreaked true
  Context.setReturned true

/-- `ReturnNode::generate`. -/
def ReturnNode.generate (returnToken : Token) (value : Option ExpressionNode) : Gen Unit := do
  let v ← match value with
    | some e => some <$> e.generate.orLog 1634
    | none => pure none
  ReturnNode.generateRest returnToken v

/-- `BreakNode::generate`. -/
def BreakNode.generate (token : Token) : Gen Unit := do
  let s ← getState
  match s.ctx.getSuccessorBlockForBreak with
  | none => failWith (.InvalidBreakError token)
  | some successor => do
    (Generator.createGoto successor).orLog 1753
    Context.setBreaked true

/-- `AssignNode::generate`. -/
def AssignNode.generate (token : Token) (dest : VariableValueNode) (value : ExpressionNode) :
    Gen Unit := do
  let d ← dest.generate.orLog 1764
  if d.valueType.isArgument then failWith (.CanNotOverwriteArgumentError token)
  else do
    let v ← value.generate.orLog 1774
    if !v.valueType.isCompatible d.valueType then
      failWith (.TypeMismatchError token d.valueType v.valueType)
    else do
      let temp ← (castConstantToValueType v d.valueType).orLog 1784
      (Generator.createStore temp d.generatedVariablePtr).orLog 1789

/-- `WhileNode::generate` up to the call of `block_.generateStatements`: the
condition block, the successor block and the block of the body. -/
def WhileNode.generateHead (condition : ExpressionNode) : Gen (Nat × Nat × Nat) := do
  let s ← getState
  let conditionBlock ← (Generator.createBasicBlock none s.ctx.lastBlock).orLog 1583
  (Generator.createGoto conditionBlock).orLog 1587
  Generator.setInsertPoint (some conditionBlock)
  let cond ← condition.generate.orLog 1593
  let s ← getState
  let successorBlock ← (Generator.createBasicBlock none s.ctx.lastBlock).orLog 1599
  Context.setLastBlock (some successorBlock)
  Context.addSuccessorBlockForBreak successorBlock
  let generated ← (BlockNode.generateBlock none (some successorBlock)).orLog 1607
  (Generator.createIf cond.generatedValue generated successorBlock).orLog 1612
  Generator.setInsertPoint (some generated)
  pure (conditionBlock, successorBlock, generated)

/-- `WhileNode::generate` from the point where `block_.generateStatements` has
returned `false`. -/
def WhileNode.generateTail (successorBlock : Nat) : Gen Unit := do
  Context.setLastBlock (some successorBlock)
  Context.removeSuccessorBlockForBreak
  Generator.setInsertPoint (some successorBlock)
  Context.setReturned false

mutual
/-- `StatementNode::generate`, by subclass. -/
def StatementNode.generate : StatementNode → Gen Unit
  | .LetNode token name type isHeap initialValue =>
    LetNode.generate token name type isHeap initialValue
  | .IfNode _ condition thenBlock elseBlock => do
    let cond ← condition.generate.orLog 1530
    let s ← getState
    let successorBlock ← (Generator.createBasicBlock none s.ctx.lastBlock).orLog 1536
    Context.setLastBlock (some successorBlock)
    let thenGenerated ← (BlockNode.generateBlock none (some successorBlock)).orLog 1542
    (BlockNode.generateStatements thenBlock thenGenerated (some successorBlock)).orLog 1546
    Context.setLastBlock (some successorBlock)
    match elseBlock with
    | some elseBlock => do
      let elseGenerated ← (BlockNode.generateBlock none (some successorBlock)).orLog 1553
      (BlockNode.generateStatements elseBlock elseGenerated (some successorBlock)).orLog 1557
      Context.setLastBlock (some successorBlock)
      (Generator.createIf cond.generatedValue thenGenerated elseGenerated).orLog 1563
    | none =>
      (Generator.createIf cond.generatedValue thenGenerated successorBlock).orLog 1569
    Generator.setInsertPoint (some successorBlock)
    Context.setReturned false
  | .WhileNode _ condition block => do
    let (conditionBlock, successorBlock, generated) ← WhileNode.generateHead condition
    (BlockNode.generateStatements block generated (some conditionBlock)).orLog 1618
    WhileNode.generateTail successorBlock
  | .ReturnNode _ returnToken value => ReturnNode.generate returnToken value
  | .BreakNode token => BreakNode.generate token
  | .AssignNode token dest value => AssignNode.generate token dest value
  | .CallNode token f values => do
    let _ ← (ExpressionNode.CallNode token f values).generate
    pure ()
/-- `BlockNode::generateStatements`; `generatedBlock` is `generatedBlock_`. -/
def BlockNode.generateStatements : BlockNode → Nat → Option Nat → Gen Unit
  | .mk statements _, generatedBlock, successorBlock => do
    let previousBlock ← Generator.getCurrentBlock
    Generator.setInsertPoint (some generatedBlock)
    Context.addSymbolTable
    BlockNode.generateStatementList statements
    Context.removeSymbolTable.ignoreResult
    let s ← getState
    match successorBlock with
    | some successor =>
      if !s.ctx.breaked ∧ !s.ctx.returned then (Generator.createGoto successor).orLog 1361
      else pure ()
    | none => pure ()
    Context.setBreaked false
    Generator.setInsertPoint previousBlock
/-- The loop over `statements_` in `BlockNode::generateStatements`. -/
def BlockNode.generateStatementList : List StatementNode → Gen Unit
  | [] => pure ()
  | statement :: rest => do
    let s ← getState
    if s.ctx.breaked ∨ s.ctx.returned then
      failWith (.CanNotGiveInstructionAfterBreakOrReturn statement.getToken)
    else do
      statement.generate
      BlockNode.generateStatementList rest
end

/-! ## Node.cpp: structs, functions, compile units -/

/-- `StructNode::generateType`: the node with `generatedType_` set. -/
def StructNode.generateType (node : StructNode) : Gen StructNode := do
  let id ← Generator.createStructType node.name.str
  pure { node with generatedType := some id }

/-- The loop over `members_` in `StructNode::generateMember`. -/
def StructNode.generateMemberTypes : List VariableDefinitionNode → Gen (List IRType)
  | [] => pure []
  | member :: rest => do
    let type ← member.type.generate.orLog 1844
    let generatedType ← nonNull type.getGeneratedType
    let types ← StructNode.generateMemberTypes rest
    pure (generatedType :: types)

/-- `StructNode::generateMember`. -/
def StructNode.generateMember (node : StructNode) : Gen Unit := do
  let types ← StructNode.generateMemberTypes node.members
  let id ← nonNull node.generatedType
  Generator.setBody id (Generator.getSizeType :: types)

/-- The loop over `args_` in `FunctionNode::generateDeclare`: the parameters with
their types generated and marked `isArgument`. -/
def FunctionNode.generateArgumentTypes : List VariableDefinitionNode →
    Gen (List VariableDefinitionNode)
  | [] => pure []
  | arg :: rest => do
    let type ← arg.type.generate.orLog 1867
    let args ← FunctionNode.generateArgumentTypes rest
    pure ({ arg with type := type.setIsArgument true } :: args)

/-- `FunctionNode::generateDeclare`: the node after the call. -/
def FunctionNode.generateDeclare (node : FunctionNode) : Gen FunctionNode := do
  let returnType ← node.returnType.generate.orLog 1860
  let args ← FunctionNode.generateArgumentTypes node.args
  let returnIRType ← nonNull returnType.getGeneratedType
  let argumentTypes ← nonNull (args.mapM (·.type.getGeneratedType))
  let ft ← (Generator.createFunctionType returnIRType argumentTypes node.hasVariableArgument).orLog 1876
  let f ← (Generator.createFunctionDeclare ft node.name.str).orLog 1880
  pure { node with returnType := returnType, args := args, generatedFunction := some f }

/-- `FunctionNode::addArgumentToSymbolTable`; `index` is the loop counter. -/
def FunctionNode.addArgumentToSymbolTable : List VariableDefinitionNode → Nat → Gen Unit
  | [], _ => pure ()
  | arg :: rest, index => do
    let argValue ← Generator.getArgument index
    match argValue with
    | none => do debugLog 1942; returnTrue
    | some v => do
      (Context.addSymbol arg.name.str arg.type.getValueType (some v)).orLog 1947
      FunctionNode.addArgumentToSymbolTable rest (index + 1)

/-- `FunctionNode::generateDefine`. -/
def FunctionNode.generateDefine (node : FunctionNode) : Gen Unit :=
  match node.block with
  | none => pure ()
  | some block => do
    let generatedBlock ← (BlockNode.generateBlock node.generatedFunction none).orLog 1890
    Generator.setInsertPoint (some generatedBlock)
    Context.addSymbolTable
    (FunctionNode.addArgumentToSymbolTable node.args 0).orLog 1897
    let returnType := node.returnType.getValueType
    Generator.setCurrentReturnType returnType
    (block.generateStatements generatedBlock none).orLog 1904
    Context.removeSymbolTable.orLog 1909
    let s ← getState
    if !s.ctx.returned then
      if returnType.basicType = TokenType.TYPE_VOID ∧ returnType.pointerCount = 0
          ∧ returnType.isReference = false then do
        match s.ctx.lastBlock with
        | none => Generator.setInsertPoint (some generatedBlock)
        | some last => Generator.setInsertPoint (some last)
        Generator.createReturnVoid
      else failWith (.MissingReturnError block.getRightCurlyBracketToken)
    else pure ()
    Context.setReturned false
    Context.setLastBlock none

/-- Overwrite function `j` of compile unit `i` in the context (the nodes are
generated in place). -/
def Context.setFunction (i j : Nat) (node : FunctionNode) : Gen Unit :=
  modifyCtx fun c =>
    let units := modifyAt
      (fun cu => { cu with functions := modifyAt (fun _ => node) j cu.functions }) i c.compileUnits
    { c with compileUnits := units }

/-- Function `j` of compile unit `i` as it currently is in the context. -/
def Context.getFunction (i j : Nat) : Gen FunctionNode := do
  let s ← getState
  nonNull ((s.ctx.compileUnits.get? i).bind (·.functions.get? j))

/-- The first loop over `structs_` in `CompileUnitNode::generate`. -/
def CompileUnitNode.generateStructTypes : List StructNode → Gen (List StructNode)
  | [] => pure []
  | node :: rest => do
    let node ← node.generateType.orLog 1799
    let nodes ← CompileUnitNode.generateStructTypes rest
    pure (node :: nodes)

/-- The second loop over `structs_` in `CompileUnitNode::generate`. -/
def CompileUnitNode.generateStructMembers : List StructNode → Gen Unit
  | [] => pure ()
  | node :: rest => do
    node.generateMember.orLog 1805
    CompileUnitNode.generateStructMembers rest

/-- The first loop over `functions_` in `CompileUnitNode::generate`: functions
`j, j+1, …` of unit `i`, `count` of them. -/
def CompileUnitNode.generateDeclares (i : Nat) : Nat → Nat → Gen Unit
  | 0, _ => pure ()
  | count + 1, j => do
    let node ← Context.getFunction i j
    let node ← node.generateDeclare.orLog 1812
    Context.setFunction i j node
    CompileUnitNode.generateDeclares i count (j + 1)

/-- The second loop over `functions_` in `CompileUnitNode::generate`. -/
def CompileUnitNode.generateDefines (i : Nat) : Nat → Nat → Gen Unit
  | 0, _ => pure ()
  | count + 1, j => do
    let node ← Context.getFunction i j
    node.generateDefine.orLog 1818
    CompileUnitNode.generateDefines i count (j + 1)

/-- `CompileUnitNode::generate` for compile unit `i` of the context. -/
def CompileUnitNode.generate (i : Nat) : Gen Unit := do
  let s ← getState
  let unit ← nonNull (s.ctx.compileUnits.get? i)
  let structs ← CompileUnitNode.generateStructTypes unit.structs
  CompileUnitNode.generateStructMembers structs
  CompileUnitNode.generateDeclares i unit.functions.length 0
  CompileUnitNode.generateDefines i unit.functions.length 0

/-- The loop of `Context::generate` over units `i, i+1, …`, `count` of them. -/
def Context.generateUnits : Nat → Nat → Gen Unit
  | 0, _ => pure ()
  | count + 1, i => do
    (CompileUnitNode.generate i).orLog 1963
    Context.generateUnits count (i + 1)

/-- `Context::generate`. -/
def Context.generate : Gen Unit := do
  let s ← getState
  Context.generateUnits s.ctx.compileUnits.length 0

/-- The state in which `main` calls `Context::generate`: a `Generator` after
`init()` and a `Context` holding the parsed compile units. -/
def initialState (compileUnits : List CompileUnitNode) : Result Unit :=
  Generator.createBuiltInCode { ctx := { compileUnits := compileUnits } }

/-! ## Reading results, and the properties the specification names -/

/-- The value of a call that returned `false`. -/
def Result.value? {α : Type} : Result α → Option α
  | .ok a _ => some a
  | _ => none

/-- The state after a call that returned `false`. -/
def Result.okState? {α : Type} : Result α → Option State
  | .ok _ s => some s
  | _ => none

/-- The state after a call that returned `true`. -/
def Result.failState? {α : Type} : Result α → Option State
  | .fail s => some s
  | _ => none

/-- A basic block that ends with exactly one terminator: its last instruction is
`br`, `condbr` or `ret` and none before it is. -/
def BasicBlockData.endsWithOneTerminator (b : BasicBlockData) : Bool :=
  match b.insts.reverse with
  | [] => false
  | last :: before => last.isTerminator && before.all (fun i => !i.isTerminator)

/-- Every basic block of the module ends with exactly one terminator. -/
def Generator.everyBlockTerminated (g : Generator) : Bool :=
  g.blocks.all BasicBlockData.endsWithOneTerminator

/-- One side of clause 2 of the specification's compatibility: `c` is a constant
kind and `o` is of its family (`const-int` with an integer kind, `const-float`
with a float kind, `const-bool` with `bool`, `const-string` with `i8*`). -/
def ValueType.specFamily (c o : ValueType) : Bool :=
  (decide (c.basicType = TokenType.CONSTANT_INTEGER) && Token.isIntegerType o.basicType)
  || (decide (c.basicType = TokenType.CONSTANT_FLOAT) && Token.isFloatingPointType o.basicType)
  || (decide (c.basicType = TokenType.CONSTANT_BOOL) && decide (o.basicType = TokenType.TYPE_BOOL))
  || (decide (c.basicType = TokenType.CONSTANT_STRING) && o.isString)

/-- Compatibility as the specification words it: `A == B`, or pointer depth 0 on
both, equal array sizes, and one side a constant kind matching the other's family. -/
def ValueType.specCompatible (a b : ValueType) : Bool :=
  a.eq b
  || (decide (a.pointerCount = 0) && decide (b.pointerCount = 0)
      && decide (a.arraySizes = b.arraySizes)
      && (a.specFamily b || b.specFamily a))

/-! ## Concrete programs -/

/-- A token with a kind and a lexeme. -/
def Token.of (type : TokenType) (str : String) : Token := { type := type, str := str }

/-- A `TypeNode` as the parser builds it for a type without array sizes. -/
def TypeNode.parsed (type : TokenType) (str : String) (pointerCount : Nat) : TypeNode :=
  .mk (Token.of type str) { basicType := type, pointerCount := pointerCount } none []

/-- A `VariableValueNode` as the parser builds it for a plain name in an expression. -/
def VariableValueNode.parsed (name : String) : VariableValueNode :=
  .mk (Token.of .SYMBOL name) (Token.of .SYMBOL name) none none false

/-- A native function as the parser builds it, `hasVariableArgument_` (which the
parser never writes for a function without `...`) read as `false`. -/
def FunctionNode.parsed (name : String) (args : List VariableDefinitionNode)
    (returnType : TypeNode) (statements : List StatementNode) : FunctionNode :=
  { name := Token.of .SYMBOL name, args := args, hasVariableArgument := false
    returnType := returnType
    block := some (.mk statements (Token.of .CURLY_BRACKET_RIGHT "\x7d"))
    type := .MAHINA }

/-- What `main` does with a parsed program: `Generator::init`, then
`Context::generate`. -/
def compile (functions : List FunctionNode) : Result Unit :=
  (do Generator.createBuiltInCode; Context.generate)
    { ctx := { compileUnits := [{ structs := [], functions := functions }] } }

/-- Run `m` where a statement of the body of `fn f(args) returnType` runs:
after `Generator::init`, `generateDeclare` and the part of `generateDefine`
that precedes the body's statements, inside the body's scope. -/
def inFunction {α : Type} (args : List VariableDefinitionNode) (returnType : TypeNode)
    (m : Gen α) : Result α :=
  (do Generator.createBuiltInCode
      let node ← FunctionNode.generateDeclare (FunctionNode.parsed "f" args returnType [])
      let generatedBlock ← BlockNode.generateBlock node.generatedFunction none
      Generator.setInsertPoint (some generatedBlock)
      Context.addSymbolTable
      FunctionNode.addArgumentToSymbolTable node.args 0
      Generator.setCurrentReturnType node.returnType.getValueType
      Context.addSymbolTable
      m) {}

/-- The state in which a statement of the body of `fn f(args) returnType` runs. -/
def bodyState (args : List VariableDefinitionNode) (returnType : TypeNode) : State :=
  ((inFunction args returnType getState).value?).getD {}

/-- The literal `true`. -/
def exprTrue : ExpressionNode := .ConstantNode (Token.of .CONSTANT_BOOL "true")

/-- The literal `false`. -/
def exprFalse : ExpressionNode := .ConstantNode (Token.of .CONSTANT_BOOL "false")

/-- An integer literal. -/
def exprInt (lexeme : String) : ExpressionNode := .ConstantNode (Token.of .CONSTANT_INTEGER lexeme)

/-- A reference to a name. -/
def exprVar (name : String) : ExpressionNode := .VariableValueNode (VariableValueNode.parsed name)

/-- `fn f() { if true { return; } else { } }`. -/
def programIfReturnElseEmpty : List FunctionNode :=
  [FunctionNode.parsed "f" [] (TypeNode.parsed .TYPE_VOID "void" 0)
    [.IfNode (Token.of .IF "if") exprTrue
      (.mk [.ReturnNode (Token.of .RETURN "return") (Token.of .RETURN "return") none]
        (Token.of .CURLY_BRACKET_RIGHT "\x7d"))
      (some (.mk [] (Token.of .CURLY_BRACKET_RIGHT "\x7d")))]]

/-- `fn f() bool { return true && false; }`. -/
def programReturnAnd : List FunctionNode :=
  [FunctionNode.parsed "f" [] (TypeNode.parsed .TYPE_BOOL "bool" 0)
    [.ReturnNode (Token.of .RETURN "return") (Token.of .RETURN "return")
      (some (.BinaryOperationNode {} (Token.of .LOGICAL_AND "&&") exprTrue exprFalse))]]

/-- `fn f() { let s = "a"; }`. -/
def programLetString : List FunctionNode :=
  [FunctionNode.parsed "f" [] (TypeNode.parsed .TYPE_VOID "void" 0)
    [.LetNode (Token.of .LET "let") (Token.of .SYMBOL "s") none false
      (some (.ConstantNode (Token.of .CONSTANT_STRING "a")))]]

/-- The expression `1 < 2`. -/
def exprOneLessTwo : ExpressionNode :=
  .BinaryOperationNode {} (Token.of .COMPARE_LESSER_THAN "<") (exprInt "1") (exprInt "2")

/-- The expression `true && false`. -/
def exprTrueAndFalse : ExpressionNode :=
  .BinaryOperationNode {} (Token.of .LOGICAL_AND "&&") exprTrue exprFalse

/-- The expression `1 + p`. -/
def exprOnePlusP : ExpressionNode :=
  .BinaryOperationNode {} (Token.of .PLUS "+") (exprInt "1") (exprVar "p")

/-- The parameter list `(p i32*)`. -/
def argsPointer : List VariableDefinitionNode :=
  [{ name := Token.of .SYMBOL "p", type := TypeNode.parsed .TYPE_I32 "i32" 1 }]

/-- The parameter list `(x i32, y bool)`. -/
def argsIntBool : List VariableDefinitionNode :=
  [{ name := Token.of .SYMBOL "x", type := TypeNode.parsed .TYPE_I32 "i32" 0 },
   { name := Token.of .SYMBOL "y", type := TypeNode.parsed .TYPE_BOOL "bool" 0 }]

/-- The expression `7 / 2`. -/
def exprSevenDivTwo : ExpressionNode :=
  .BinaryOperationNode {} (Token.of .SLASH "/") (exprInt "7") (exprInt "2")

/-- A scalar `const-int` type: basic kind `CONSTANT_INTEGER`, no pointer, no
reference, no array dimension. -/
def ValueType.isScalarConstInt (t : ValueType) : Prop :=
  t.basicType = TokenType.CONSTANT_INTEGER ∧ t.pointerCount = 0 ∧ t.isReference = false
    ∧ t.arraySizes = []

/-- The `Generator` right after `Generator::init`: `malloc` declared and the
eleven built-in object types created. -/
def initGenerator : Generator :=
  { functions := [{ name := "malloc", type := ⟨.ptr (.int 8), [.int 64], false⟩ }]
    structs :=
      [{ name := ".bool", body := some [.int 64, .int 32, .int 1] },
       { name := ".i8", body := some [.int 64, .int 32, .int 8] },
       { name := ".i16", body := some [.int 64, .int 32, .int 16] },
       { name := ".i32", body := some [.int 64, .int 32, .int 32] },
       { name := ".i64", body := some [.int 64, .int 32, .int 64] },
       { name := ".u8", body := some [.int 64, .int 32, .int 8] },
       { name := ".u16", body := some [.int 64, .int 32, .int 16] },
       { name := ".u32", body := some [.int 64, .int 32, .int 32] },
       { name := ".u64", body := some [.int 64, .int 32, .int 64] },
       { name := ".f32", body := some [.int 64, .int 32, .float] },
       { name := ".f64", body := some [.int 64, .int 32, .double] }]
    fMalloc := some 0
    builtInObjectTypes :=
      [(.TYPE_BOOL, 0), (.TYPE_I8, 1), (.TYPE_I16, 2), (.TYPE_I32, 3), (.TYPE_I64, 4),
       (.TYPE_U8, 5), (.TYPE_U16, 6), (.TYPE_U32, 7), (.TYPE_U64, 8), (.TYPE_F32, 9),
       (.TYPE_F64, 10)] }

/-- The state at the first statement of the body of `fn f(x i32, y bool) bool`,
written out. -/
def stateIntBool : State :=
  { g := { initGenerator with
      functions := initGenerator.functions ++
        [{ name := "f", type := ⟨.int 1, [.int 32, .int 1], false⟩, blocks := [0] }]
      blocks := [{ parent := 1 }]
      insertBlock := some 0
      currentReturnType := { basicType := .TYPE_BOOL } }
    ctx := { symbolTables :=
      [[⟨"x", { basicType := .TYPE_I32, isArgument := true }, some (.argument 0 (.int 32))⟩,
        ⟨"y", { basicType := .TYPE_BOOL, isArgument := true }, some (.argument 1 (.int 1))⟩],
       []] } }

/-- The expression `x == y`. -/
def exprXEqualsY : ExpressionNode :=
  .BinaryOperationNode {} (Token.of .COMPARE_EQUAL "==") (exprVar "x") (exprVar "y")

/-- The expression `x < x`. -/
def exprXLessX : ExpressionNode :=
  .BinaryOperationNode {} (Token.of .COMPARE_LESSER_THAN "<") (exprVar "x") (exprVar "x")

/-- The `void` return type a function gets when none is written. -/
def typeVoid : TypeNode := TypeNode.parsed .TYPE_VOID "void" 0

/-- The return type `bool`. -/
def typeBool : TypeNode := TypeNode.parsed .TYPE_BOOL "bool" 0

/-! ## Concrete inputs: unary minus, aggregates, calls, statements -/

/-- Unary minus applied to an expression, as `Parser::parseValue` builds it. -/
def exprNeg (e : ExpressionNode) : ExpressionNode :=
  .UnaryOperationNode {} (Token.of .MINUS "-") e

/-- An array aggregate `[v0, ..., vn-1]`. -/
def exprArray (values : List ExpressionNode) : ExpressionNode :=
  .AggregateConstantNode (Token.of .SQUARE_BRACKET_LEFT "[") values

/-- The expression `7 % 2`. -/
def exprSevenRemTwo : ExpressionNode :=
  .BinaryOperationNode {} (Token.of .PERCENT "%") (exprInt "7") (exprInt "2")

/-- The expression `1.5 / 2.5`. -/
def exprFloatDiv : ExpressionNode :=
  .BinaryOperationNode {} (Token.of .SLASH "/")
    (.ConstantNode (Token.of .CONSTANT_FLOAT "1.5")) (.ConstantNode (Token.of .CONSTANT_FLOAT "2.5"))

/-- The expression `-(-7)`. -/
def exprMinusMinusSeven : ExpressionNode := exprNeg (exprNeg (exprInt "7"))

/-- A type with array-size expressions, `T[e0][e1]...`. -/
def TypeNode.parsedArray (type : TokenType) (str : String) (sizes : List ExpressionNode) :
    TypeNode :=
  .mk (Token.of type str) { basicType := type } none sizes

/-- A call statement `name(values);`. -/
def stmtCall (name : String) (values : List ExpressionNode) : StatementNode :=
  .CallNode (Token.of .SYMBOL name) (VariableValueNode.parsed name) values

/-- A statement `let name type = init;` on the stack. -/
def stmtLet (name : String) (type : Option TypeNode) (init : Option ExpressionNode) :
    StatementNode :=
  .LetNode (Token.of .LET "let") (Token.of .SYMBOL name) type false init

/-- The statement `break;`. -/
def stmtBreak : StatementNode := .BreakNode (Token.of .BREAK "break")

/-- A statement `return value;`. -/
def stmtReturn (value : Option ExpressionNode) : StatementNode :=
  .ReturnNode (Token.of .RETURN "return") (Token.of .RETURN "return") value

/-- A statement `while condition { body }`. -/
def stmtWhile (condition : ExpressionNode) (body : List StatementNode) : StatementNode :=
  .WhileNode (Token.of .WHILE "while") condition (.mk body (Token.of .CURLY_BRACKET_RIGHT "\x7d"))

/-- The destination of an assignment, as `Parser::parseStatement` builds it
(`variable.setIsRhsValue(true)`). -/
def VariableValueNode.parsedDestination (name : String) : VariableValueNode :=
  .mk (Token.of .SYMBOL name) (Token.of .SYMBOL name) none none true

/-- The value `hasVariableArgument_` holds after `Parser::parseDeclare` or
`Parser::parseFunction`: the node is created by `FunctionNode declare;` or
`FunctionNode f;`, `FunctionNode` has no constructor and the member no
initialiser, and the only writer is `setVariableArgument()`, called on `...`.
Without `...` the member keeps `indeterminate`, whatever the storage held. -/
def Parser.hasVariableArgument (tripleDot indeterminate : Bool) : Bool :=
  if tripleDot then true else indeterminate

/-- A native function declared without `...`, as the parser builds it when the
storage of the node held `indeterminate` in the place of `hasVariableArgument_`. -/
def FunctionNode.parsedOver (indeterminate : Bool) (name : String)
    (args : List VariableDefinitionNode) (returnType : TypeNode)
    (statements : List StatementNode) : FunctionNode :=
  { FunctionNode.parsed name args returnType statements with
    hasVariableArgument := Parser.hasVariableArgument false indeterminate }

/-- `fn g(a i32) { } fn f() { g(1, 2); }`, the node of `g` built over storage
that held `true`. -/
def programCallExtraArgument : List FunctionNode :=
  [FunctionNode.parsedOver true "g"
    [{ name := Token.of .SYMBOL "a", type := TypeNode.parsed .TYPE_I32 "i32" 0 }] typeVoid [],
   FunctionNode.parsed "f" [] typeVoid [stmtCall "g" [exprInt "1", exprInt "2"]]]

/-- `fn g(a u8[1]) { } fn f() { g([300]); }`. -/
def programCallArrayOutOfRange : List FunctionNode :=
  [FunctionNode.parsed "g"
    [{ name := Token.of .SYMBOL "a", type := TypeNode.parsedArray .TYPE_U8 "u8" [exprInt "1"] }]
    typeVoid [],
   FunctionNode.parsed "f" [] typeVoid [stmtCall "g" [exprArray [exprInt "300"]]]]

/-- The aggregate `[[1,2],[3,4],[5,6]]`. -/
def exprArrayThreeByTwo : ExpressionNode :=
  exprArray [exprArray [exprInt "1", exprInt "2"], exprArray [exprInt "3", exprInt "4"],
    exprArray [exprInt "5", exprInt "6"]]

/-- The aggregate `[1, 2]`. -/
def exprArrayOneTwo : ExpressionNode := exprArray [exprInt "1", exprInt "2"]

/-- The aggregate `[1, x]`. -/
def exprArrayOneX : ExpressionNode := exprArray [exprInt "1", exprVar "x"]

/-- The aggregate `[-1]`. -/
def exprArrayMinusOne : ExpressionNode := exprArray [exprNeg (exprInt "1")]

/-- `fn f() { let x u8 = 256; }`. -/
def programLetU8 : List FunctionNode :=
  [FunctionNode.parsed "f" [] typeVoid
    [stmtLet "x" (some (TypeNode.parsed .TYPE_U8 "u8" 0)) (some (exprInt "256"))]]

/-- The type `i32[0]`. -/
def typeArrayZero : TypeNode := TypeNode.parsedArray .TYPE_I32 "i32" [exprInt "0"]

/-- The type `i32[-1]`. -/
def typeArrayMinusOne : TypeNode := TypeNode.parsedArray .TYPE_I32 "i32" [exprNeg (exprInt "1")]

/-- `fn main() i32 { while true { break; break; } return 0; }` (scenario S6). -/
def programBreakBreak : List FunctionNode :=
  [FunctionNode.parsed "main" [] (TypeNode.parsed .TYPE_I32 "i32" 0)
    [stmtWhile exprTrue [stmtBreak, stmtBreak], stmtReturn (some (exprInt "0"))]]

/-- Whether a call ran into undefined behaviour. -/
def Result.isUndefined {α : Type} : Result α → Bool
  | .undefined => true
  | _ => false

/-- The state at the first statement of the body of `fn f() bool` after
`let b bool = true;`, written out: `b` is a local variable kept in an `alloca`. -/
def stateLocalBool : State :=
  { g := { initGenerator with
      functions := initGenerator.functions ++
        [{ name := "f", type := ⟨.int 1, [], false⟩, blocks := [0] }]
      blocks := [{ parent := 1, insts :=
        [.alloca (.int 1), .store (.constantInt 1 1) (.instruction 0 (.ptr (.int 1)))] }]
      insertBlock := some 0
      nextId := 2
      currentReturnType := { basicType := .TYPE_BOOL } }
    ctx := { symbolTables :=
      [[], [⟨"b", { basicType := .TYPE_BOOL }, some (.instruction 0 (.ptr (.int 1)))⟩]] } }

/-- The node of `[1, 2]` after `generate`: the eight parallel constants and the
type `const-int` with one dimension of size 2. -/
def resultArrayOneTwo : ExprResult :=
  { token := Token.of .SQUARE_BRACKET_LEFT "["
    generatedValueI8Array := some (.constantArray (.array (.int 8) 2) 2)
    generatedValueI16Array := some (.constantArray (.array (.int 16) 2) 2)
    generatedValueI32Array := some (.constantArray (.array (.int 32) 2) 2)
    generatedValueI64Array := some (.constantArray (.array (.int 64) 2) 2)
    generatedValueU8Array := some (.constantArray (.array (.int 8) 2) 2)
    generatedValueU16Array := some (.constantArray (.array (.int 16) 2) 2)
    generatedValueU32Array := some (.constantArray (.array (.int 32) 2) 2)
    generatedValueU64Array := some (.constantArray (.array (.int 64) 2) 2)
    valueType := { basicType := .CONSTANT_INTEGER, arraySizes := [2] } }

/-- The state `stateIntBool` once `BlockNode::generateStatements` has entered a
block whose `generatedBlock_` is block 0: one more scope. -/
def stateBlockEntry : State :=
  { stateIntBool with
    ctx := { stateIntBool.ctx with symbolTables := stateIntBool.ctx.symbolTables ++ [[]] } }

/-- The state `stateBlockEntry` after `return true;`: the `ret` is emitted and
both flags are set. -/
def stateAfterReturn : State :=
  { stateBlockEntry with
    g := { stateBlockEntry.g with
      blocks := [{ parent := 1, insts := [.ret (some (.constantInt 1 1))] }]
      nextId := 1 }
    ctx := { stateBlockEntry.ctx with breaked := true, returned := true } }

/-- A call that, whenever it returns `false`, leaves the flag `breaked` set. -/
structure Gen.SetsBreaked {α : Type} (m : Gen α) : Prop where
  run : ∀ (s s' : State) (a : α), m s = .ok a s' → s'.ctx.breaked = true

/-! ## The taxonomy of errors, scopes, and further concrete inputs -/

/-- `CompileError::printErrorMessage`: file path, line, column and error name,
separated by tabs. -/
def CompileError.printErrorMessage (e : CompileError) : String :=
  e.getToken.filepath ++ "\t" ++ toString e.getToken.line ++ "\t"
    ++ toString e.getToken.column ++ "\t" ++ e.getErrorName

/-- The name the taxonomy of the specification gives to each error class. -/
def CompileError.specName : CompileError → String
  | .UnexpectedTokenError _ _ => "UnexpectedToken"
  | .IllegalFileFormatError _ => "IllegalFileFormat"
  | .UnexpectedEofError _ => "UnexpectedEof"
  | .UnexpectedCharactorError _ => "UnexpectedCharactor"
  | .OperandTypesMismatchError _ _ _ => "OperandTypeMismatch"
  | .TypeMismatchError _ _ _ => "TypeMismatch"
  | .NotArithmeticTypeError _ _ => "NotArithmeticType"
  | .NotComparableTypeError _ _ => "NotComparableType"
  | .NotBeAbleToEqualTypeError _ _ => "NotBeAbleToEqualType"
  | .UndefinedSymbolError _ => "UndefinedSymbol"
  | .TypeOrInitializerMustBeSpecifiedError _ => "TypeOrInitializerMustBeSpecified"
  | .ConstantTooLarge _ => "ConstantTooLarge"
  | .InvalidCallArgumentLength _ _ => "InvalidCallArgumentLength"
  | .CanNotOverwriteArgumentError _ => "CanNotOverwriteArgument"
  | .InvalidBreakError _ => "InvalidBreak"
  | .CanNotGiveInstructionAfterBreakOrReturn _ => "CanNotGiveInstructionAfterBreakOrReturn"
  | .MissingReturnError _ => "MissingReturn"
  | .InvalidExternTypeError _ => "InvalidExternType"
  | .InvalidReferenceTypeError _ => "InvalidReferenceType"
  | .ArgumentCanNotBeVoidTypeError _ => "ArgumentCanNotBeVoidType"
  | .ArraySizeMustBeConstantIntegerError _ => "ArraySizeMustBeConstantInteger"
  | .EachElementMustHaveIdenticallyTypeError _ => "EachElementMustHaveIdenticallyType"

/-- The three classes whose `getErrorName` is not the name of the taxonomy. -/
def CompileError.isMisnamed : CompileError → Bool
  | .TypeOrInitializerMustBeSpecifiedError _ => true
  | .CanNotGiveInstructionAfterBreakOrReturn _ => true
  | .InvalidReferenceTypeError _ => true
  | _ => false

/-- A sequence of `Context::addSymbol` calls. -/
def Context.addSymbols : List Symbol → Gen Unit
  | [] => pure ()
  | symbol :: rest => do
    Context.addSymbol symbol.name symbol.type symbol.value
    Context.addSymbols rest

/-- A statement `if condition { thenBlock }` or `if condition { thenBlock } else { elseBlock }`. -/
def stmtIf (condition : ExpressionNode) (thenBlock : List StatementNode)
    (elseBlock : Option (List StatementNode)) : StatementNode :=
  .IfNode (Token.of .IF "if") condition (.mk thenBlock (Token.of .CURLY_BRACKET_RIGHT "\x7d"))
    (elseBlock.map fun l => .mk l (Token.of .CURLY_BRACKET_RIGHT "\x7d"))

/-- The type `i32`. -/
def typeI32 : TypeNode := TypeNode.parsed .TYPE_I32 "i32" 0

/-- The type `f64`. -/
def typeF64 : TypeNode := TypeNode.parsed .TYPE_F64 "f64" 0

/-- The type `i8*`. -/
def typeString : TypeNode := TypeNode.parsed .TYPE_I8 "i8" 1

/-- `fn f() { if 1 { } }`. -/
def programIfOne : List FunctionNode :=
  [FunctionNode.parsed "f" [] typeVoid [stmtIf (exprInt "1") [] none]]

/-- `fn f() i32 { return; }`. -/
def programReturnNothing : List FunctionNode :=
  [FunctionNode.parsed "f" [] typeI32 [stmtReturn none]]

/-- `fn f() i8* { return "a"; }`. -/
def programReturnString : List FunctionNode :=
  [FunctionNode.parsed "f" [] typeString
    [stmtReturn (some (.ConstantNode (Token.of .CONSTANT_STRING "a")))]]

/-- `fn main() i32 { let x = 1; let y f64 = 2; return 0; }` (scenario S4). -/
def programLetFloatFromInt : List FunctionNode :=
  [FunctionNode.parsed "main" [] typeI32
    [stmtLet "x" none (some (exprInt "1")), stmtLet "y" (some typeF64) (some (exprInt "2")),
     stmtReturn (some (exprInt "0"))]]

/-- A context with two scopes in which `x` is bound three times: once in the
outer scope and twice in the inner one. -/
def contextShadowing : Context :=
  { symbolTables :=
    [[⟨"x", { basicType := .TYPE_I32 }, some (.argument 0 (.int 32))⟩,
      ⟨"y", { basicType := .TYPE_BOOL }, some (.argument 1 (.int 1))⟩],
     [⟨"x", { basicType := .TYPE_I8 }, some (.instruction 0 (.ptr (.int 8)))⟩,
      ⟨"x", { basicType := .TYPE_F64 }, some (.instruction 1 (.ptr .double))⟩,
      ⟨"z", { basicType := .TYPE_BOOL }, some (.instruction 2 (.ptr (.int 1)))⟩]] }

/-- The state `stateBlockEntry` after `Generator::createAlloc` of a `double`:
the `alloca` is at the front of the entry block. -/
def stateAfterAllocaDouble : State :=
  { stateBlockEntry with
    g := { stateBlockEntry.g with
      blocks := [{ parent := 1, insts := [.alloca .double] }]
      nextId := 1 } }

/-! ## Frames, loops and returns: observations and concrete inputs -/

/-- A call that, whenever it returns `false`, leaves the observation `f` of the
Context as it found it. -/
class Gen.Keeps {α β : Type} (f : Context → β) (m : Gen α) : Prop where
  run : ∀ (s s' : State) (a : α), m s = .ok a s' → f s'.ctx = f s.ctx

/-- A call that, whenever it returns `false`, leaves a state that satisfies `q`. -/
structure Gen.Ensures {α : Type} (q : State → Prop) (m : Gen α) : Prop where
  run : ∀ (s s' : State) (a : α), m s = .ok a s' → q s'

/-- The loop-exit stack and the depth of the stack of scopes. -/
def Context.nesting (c : Context) : List Nat × Nat := (c.successorBlocks, c.symbolTables.length)

/-- The loop-exit stack, the depth of the stack of scopes and the flag `returned`. -/
def Context.flow (c : Context) : List Nat × Nat × Bool :=
  (c.successorBlocks, c.symbolTables.length, c.returned)

/-- Whether a statement is a `return`. -/
def StatementNode.isReturn : StatementNode → Bool
  | .ReturnNode _ _ _ => true
  | _ => false

mutual
/-- Whether a statement is, or holds in the branches of an `if`, a `break` that
is not inside the body of a `while` of the statement. -/
def StatementNode.hasFreeBreak : StatementNode → Bool
  | .BreakNode _ => true
  | .IfNode _ _ thenBlock elseBlock =>
    BlockNode.hasFreeBreak thenBlock
      || (match elseBlock with
          | some block => BlockNode.hasFreeBreak block
          | none => false)
  | _ => false
/-- Whether a block holds a `break` that is not inside the body of a `while` of the block. -/
def BlockNode.hasFreeBreak : BlockNode → Bool
  | .mk statements _ => BlockNode.hasFreeBreakList statements
/-- Whether a list of statements holds a `break` that is not inside the body of a
`while` of the list. -/
def BlockNode.hasFreeBreakList : List StatementNode → Bool
  | [] => false
  | statement :: rest => StatementNode.hasFreeBreak statement || BlockNode.hasFreeBreakList rest
end

/-- Whether the last statement of a list is a `return`; `false` for the empty list. -/
def BlockNode.endsWithReturn (statements : List StatementNode) : Bool :=
  match statements.getLast? with
  | some statement => statement.isReturn
  | none => false

/-- `fn f() { break; }`. -/
def programBreakOutside : List FunctionNode :=
  [FunctionNode.parsed "f" [] typeVoid [stmtBreak]]

/-- The node of `fn f() i32 { }` after `generateDeclare`: the return type is
generated and the function is declared as function 1 of the module. -/
def functionEmptyI32 : FunctionNode :=
  { FunctionNode.parsed "f" [] typeI32 [] with
    returnType := .mk (Token.of .TYPE_I32 "i32") { basicType := .TYPE_I32 } (some (.int 32)) []
    generatedFunction := some 1 }

/-- The state after `generateDeclare` of `fn f() i32 { }`, written out. -/
def stateDeclaredI32 : State :=
  { g := { initGenerator with
      functions := initGenerator.functions ++ [{ name := "f", type := ⟨.int 32, [], false⟩ }] } }

/-- The state at the first statement of the body of `fn f() i32`, written out. -/
def stateBodyI32 : State :=
  { g := { initGenerator with
      functions := initGenerator.functions ++
        [{ name := "f", type := ⟨.int 32, [], false⟩, blocks := [0] }]
      blocks := [{ parent := 1 }]
      insertBlock := some 0
      currentReturnType := { basicType := .TYPE_I32 } }
    ctx := { symbolTables := [[]] } }

/-- `fn f() i32 { }`. -/
def programEmptyI32 : List FunctionNode := [FunctionNode.parsed "f" [] typeI32 []]

/-- `fn f() { }`. -/
def programEmptyVoid : List FunctionNode := [FunctionNode.parsed "f" [] typeVoid []]

/-- `fn f() i32 { return 0; }`. -/
def programReturnZero : List FunctionNode :=
  [FunctionNode.parsed "f" [] typeI32 [stmtReturn (some (exprInt "0"))]]

/-- `fn f() i32 { if true { return 0; } }`. -/
def programReturnInIf : List FunctionNode :=
  [FunctionNode.parsed "f" [] typeI32 [stmtIf exprTrue [stmtReturn (some (exprInt "0"))] none]]

/-- What `main` does up to `generateDeclare` of `fn f() i32 { }`. -/
def declareEmptyI32 : Result FunctionNode :=
  (do Generator.createBuiltInCode
      FunctionNode.generateDeclare (FunctionNode.parsed "f" [] typeI32 [])) {}

/-! ## Tokenizer.cpp -/

/-- The members of `Tokenizer`: `c` is `c_` (`none` is `EOF`) and `src` is what
`src_.get()` has yet to deliver, one character for each byte of the file. -/
structure Tokenizer where
  c : Option Char := none
  src : List Char := []
  filepath : String := ""
  line : Nat := 1
  column : Nat := 1
  previousLine : Nat := 1
  previousColumn : Nat := 1
  deriving DecidableEq, Repr

/-- Outcome of a call of the tokenizer: `ok` = returned `false` with a result,
`error` = returned `true` with `error` set, `outOfFuel` = the call was still
running when the steps granted to the model were used up. A unit of fuel is
used only where the source iterates a loop or calls `getToken` again. -/
inductive Scan (α : Type) where
  | ok (result : α) (t : Tokenizer)
  | error (error : CompileError) (t : Tokenizer)
  | outOfFuel
  deriving DecidableEq, Repr

/-- `c_ = src_.get();`: at the end of the stream `get` keeps returning `EOF`. -/
def Tokenizer.get (t : Tokenizer) : Tokenizer :=
  { t with c := t.src.head?, src := t.src.tail }

/-- `c_ = src_.get(); column_++;`. -/
def Tokenizer.advance (t : Tokenizer) : Tokenizer :=
  { t.get with column := t.column + 1 }

/-- `previousLine_ = line_; previousColumn_ = column_;`. -/
def Tokenizer.mark (t : Tokenizer) : Tokenizer :=
  { t with previousLine := t.line, previousColumn := t.column }

/-- `Tokenizer::makeToken`. -/
def Tokenizer.makeToken (t : Tokenizer) (type : TokenType) (str : String) : Token × Tokenizer :=
  ({ type := type, str := str, filepath := t.filepath, line := t.previousLine,
     column := t.previousColumn }, t.mark)

/-- `Tokenizer::readNewLine`. -/
def Tokenizer.readNewLine (t : Tokenizer) : Tokenizer :=
  let t := { t with line := t.line + 1, column := 1 }
  let t :=
    if t.c = some '\r' then
      let t := t.get
      if t.c = some '\n' then t.get else t
    else t.get
  t.mark

/-- The character `buffer += c_` appends: `c_` converted to `char`, which for
`EOF` (-1) is the byte `0xFF`. -/
def Tokenizer.byte (t : Tokenizer) : Char := t.c.getD (Char.ofNat 255)

/-- `isalpha(c_)` in the "C" locale. -/
def Tokenizer.isalpha (t : Tokenizer) : Bool :=
  match t.c with
  | some c => ('a' ≤ c ∧ c ≤ 'z') ∨ ('A' ≤ c ∧ c ≤ 'Z')
  | none => false

/-- `isdigit(c_)`. -/
def Tokenizer.isdigit (t : Tokenizer) : Bool :=
  match t.c with
  | some c => '0' ≤ c ∧ c ≤ '9'
  | none => false

/-- `isalnum(c_)` in the "C" locale. -/
def Tokenizer.isalnum (t : Tokenizer) : Bool := t.isalpha || t.isdigit

/-- The table `kKeywords`. -/
def kKeywords : List (String × TokenType) :=
  [("void", .TYPE_VOID), ("bool", .TYPE_BOOL), ("i8", .TYPE_I8), ("i16", .TYPE_I16),
   ("i32", .TYPE_I32), ("i64", .TYPE_I64), ("u8", .TYPE_U8), ("u16", .TYPE_U16),
   ("u32", .TYPE_U32), ("u64", .TYPE_U64), ("f32", .TYPE_F32), ("f64", .TYPE_F64),
   ("struct", .STRUCT), ("extern", .EXTERN), ("fn", .FUNCTION), ("return", .RETURN),
   ("let", .LET), ("new", .NEW), ("if", .IF), ("else", .ELSE), ("while", .WHILE),
   ("break", .BREAK), ("true", .CONSTANT_BOOL), ("false", .CONSTANT_BOOL)]

/-- `Tokenizer::initialize`: the first `get`, and the UTF-8 byte order mark. -/
def Tokenizer.initialize (t : Tokenizer) : Scan Unit :=
  let t := t.get
  if t.c = some (Char.ofNat 0xEF) then
    let t := t.get
    if t.c ≠ some (Char.ofNat 0xBB) then
      let (token, t) := t.makeToken .UNDEFINED ""
      .error (.IllegalFileFormatError token) t
    else
      let t := t.get
      if t.c ≠ some (Char.ofNat 0xBF) then
        let (token, t) := t.makeToken .UNDEFINED ""
        .error (.IllegalFileFormatError token) t
      else .ok () t.get
  else .ok () t

/-- The exit `error = UnexpectedCharactorError(makeToken(UNDEFINED, buffer)); return true;`
with `buffer` holding `c_`. -/
def Tokenizer.unexpectedCharactor {α : Type} (t : Tokenizer) : Scan α :=
  let (token, t) := t.makeToken .UNDEFINED (String.singleton t.byte)
  .error (.UnexpectedCharactorError token) t

/-- The exit `result = makeToken(type, str); return false;`. -/
def Tokenizer.found (t : Tokenizer) (type : TokenType) (str : String) : Scan Token :=
  let (token, t) := t.makeToken type str
  .ok token t

/-- The loop `while (c_ != '\r' && c_ != '\n' && c_ != EOF)` of a line comment. -/
def Tokenizer.lineCommentLoop : Nat → Tokenizer → Scan Unit
  | 0, _ => .outOfFuel
  | fuel + 1, t =>
    if t.c ≠ some '\r' ∧ t.c ≠ some '\n' ∧ t.c ≠ none then
      Tokenizer.lineCommentLoop fuel t.advance
    else .ok () t

/-- The loop `for (;;)` of a block comment, up to the `return getToken(...)`
that follows the closing `*/`. -/
def Tokenizer.blockCommentLoop : Nat → Tokenizer → Scan Unit
  | 0, _ => .outOfFuel
  | fuel + 1, t =>
    match t.c with
    | none =>
      let (token, t) := t.makeToken .END_OF_FILE ""
      .error (.UnexpectedEofError token) t
    | some c =>
      if c = '\r' ∨ c = '\n' then Tokenizer.blockCommentLoop fuel t.readNewLine
      else if c = '*' then
        let t := t.advance
        if t.c = some '/' then .ok () t.advance.mark
        else Tokenizer.blockCommentLoop fuel t
      else Tokenizer.blockCommentLoop fuel t.advance

/-- The loop `while (c_ != '"')` of `Tokenizer::getStringLiteralToken`. -/
def Tokenizer.stringLiteralLoop : Nat → Tokenizer → String → Scan String
  | 0, _, _ => .outOfFuel
  | fuel + 1, t, buffer =>
    if t.c ≠ some '"' then
      if t.c = some '\\' then
        let t := t.advance
        if t.c = some 'r' then Tokenizer.stringLiteralLoop fuel t.advance (buffer.push '\r')
        else if t.c = some 'n' then Tokenizer.stringLiteralLoop fuel t.advance (buffer.push '\n')
        else if t.c = some 't' then Tokenizer.stringLiteralLoop fuel t.advance (buffer.push '\t')
        else if t.c = some '"' ∨ t.c = some '\\' then
          Tokenizer.stringLiteralLoop fuel t.advance (buffer.push t.byte)
        else t.unexpectedCharactor
      else Tokenizer.stringLiteralLoop fuel t.advance (buffer.push t.byte)
    else .ok buffer t

/-- `Tokenizer::getStringLiteralToken`. -/
def Tokenizer.getStringLiteralToken (fuel : Nat) (t : Tokenizer) : Scan Token :=
  match Tokenizer.stringLiteralLoop fuel t.advance "" with
  | .ok buffer t => t.advance.found .CONSTANT_STRING buffer
  | .error e t => .error e t
  | .outOfFuel => .outOfFuel

/-- The loop `while (c_ == ' ' || c_ == '\t')` of `Tokenizer::getOtherToken`. -/
def Tokenizer.blankLoop : Nat → Tokenizer → Scan Unit
  | 0, _ => .outOfFuel
  | fuel + 1, t =>
    if t.c = some ' ' ∨ t.c = some '\t' then Tokenizer.blankLoop fuel t.advance
    else .ok () t

/-- The loop `while (c_ == '_' || isalnum(c_))` of `Tokenizer::getOtherToken`. -/
def Tokenizer.wordLoop : Nat → Tokenizer → String → Scan String
  | 0, _, _ => .outOfFuel
  | fuel + 1, t, buffer =>
    if t.c = some '_' ∨ t.isalnum then Tokenizer.wordLoop fuel t.advance (buffer.push t.byte)
    else .ok buffer t

/-- The loops `while (c_ == '_' || isdigit(c_))` of `Tokenizer::getOtherToken`:
an underscore is read and not kept. -/
def Tokenizer.digitLoop : Nat → Tokenizer → String → Scan String
  | 0, _, _ => .outOfFuel
  | fuel + 1, t, buffer =>
    if t.c = some '_' ∨ t.isdigit then
      Tokenizer.digitLoop fuel t.advance (if t.c ≠ some '_' then buffer.push t.byte else buffer)
    else .ok buffer t

/-- The branch `isdigit(c_)` of `Tokenizer::getOtherToken`. -/
def Tokenizer.getNumberToken (fuel : Nat) (t : Tokenizer) : Scan Token :=
  match Tokenizer.digitLoop fuel t.advance (String.singleton t.byte) with
  | .ok buffer t =>
    if t.c = some '.' then
      match Tokenizer.digitLoop fuel t.advance (buffer.push t.byte) with
      | .ok buffer t => t.found .CONSTANT_FLOAT buffer
      | .error e t => .error e t
      | .outOfFuel => .outOfFuel
    else t.found .CONSTANT_INTEGER buffer
  | .error e t => .error e t
  | .outOfFuel => .outOfFuel

/-- The branch `c_ == '_' || isalpha(c_)` of `Tokenizer::getOtherToken`. -/
def Tokenizer.getWordToken (fuel : Nat) (t : Tokenizer) : Scan Token :=
  match Tokenizer.wordLoop fuel t.advance (String.singleton t.byte) with
  | .ok buffer t =>
    match kKeywords.find? (fun k => buffer = k.1) with
    | some k => t.found k.2 k.1
    | none => t.found .SYMBOL buffer
  | .error e t => .error e t
  | .outOfFuel => .outOfFuel

/-- A case `c_ = src_.get(); column_++; result = makeToken(type, str); break;`
of the `switch` in `Tokenizer::getToken`. -/
def Tokenizer.single (t : Tokenizer) (type : TokenType) (str : String) : Scan Token :=
  t.advance.found type str

/-- A case of the `switch` in `Tokenizer::getToken` for an operator of one or
two characters: `second` after the first character gives `long`, anything else
`short` (an error when there is no short form). -/
def Tokenizer.oneOrTwo (t : Tokenizer) (second : Char) (long : TokenType × String)
    (short : Option (TokenType × String)) : Scan Token :=
  let t := t.advance
  if t.c = some second then t.advance.found long.1 long.2
  else
    match short with
    | some short => t.found short.1 short.2
    | none => t.unexpectedCharactor

mutual
/-- `Tokenizer::getToken`. -/
def Tokenizer.getToken : Nat → Tokenizer → Scan Token
  | 0, _ => .outOfFuel
  | fuel + 1, t =>
    match t.c with
    | none => t.found .END_OF_FILE ""
    | some c =>
      if c = '\r' ∨ c = '\n' then Tokenizer.getToken fuel t.readNewLine
      else if c = '(' then t.single .PARENTHESIS_LEFT "("
      else if c = ')' then t.single .PARENTHESIS_RIGHT ")"
      else if c = '\x7b' then t.single .CURLY_BRACKET_LEFT "\x7b"
      else if c = '\x7d' then t.single .CURLY_BRACKET_RIGHT "\x7d"
      else if c = '[' then t.single .SQUARE_BRACKET_LEFT "["
      else if c = ']' then t.single .SQUARE_BRACKET_RIGHT "]"
      else if c = ',' then t.single .COMMA ","
      else if c = ';' then t.single .SEMICOLON ";"
      else if c = '+' then t.single .PLUS "+"
      else if c = '-' then t.single .MINUS "-"
      else if c = '*' then t.single .ASTERISK "*"
      else if c = '/' then
        let t := t.advance
        if t.c = some '/' then
          match Tokenizer.lineCommentLoop fuel t.advance with
          | .ok () t => Tokenizer.getToken fuel t.mark
          | .error e t => .error e t
          | .outOfFuel => .outOfFuel
        else if t.c = some '*' then
          match Tokenizer.blockCommentLoop fuel t.advance with
          | .ok () t => Tokenizer.getToken fuel t
          | .error e t => .error e t
          | .outOfFuel => .outOfFuel
        else t.advance.found .SLASH "/"
      else if c = '%' then t.single .PERCENT "%"
      else if c = '=' then t.oneOrTwo '=' (.COMPARE_EQUAL, "==") (some (.ASSIGN_EQUAL, "="))
      else if c = '!' then t.oneOrTwo '=' (.COMPARE_NOT_EQUAL, "!=") none
      else if c = '|' then t.oneOrTwo '|' (.LOGICAL_OR, "||") none
      else if c = '&' then t.oneOrTwo '&' (.LOGICAL_AND, "&&") (some (.AMPERSAND, "&"))
      else if c = '<' then
        t.oneOrTwo '=' (.COMPARE_LESSER_EQUAL, "<=") (some (.COMPARE_LESSER_THAN, "<"))
      else if c = '>' then
        t.oneOrTwo '=' (.COMPARE_GREATER_EQUAL, ">=") (some (.COMPARE_GREATER_THAN, ">"))
      else if c = '.' then
        let t := t.advance
        if t.c = some '.' then
          let t := t.advance
          if t.c = some '.' then t.advance.found .TRIPLE_DOT "..."
          else t.unexpectedCharactor
        else t.found .DOT "."
      else if c = '"' then Tokenizer.getStringLiteralToken fuel t
      else Tokenizer.getOtherToken fuel t
/-- `Tokenizer::getOtherToken`. -/
def Tokenizer.getOtherToken : Nat → Tokenizer → Scan Token
  | 0, _ => .outOfFuel
  | fuel + 1, t =>
    if t.c = some ' ' ∨ t.c = some '\t' then
      match Tokenizer.blankLoop fuel t.advance with
      | .ok () t => Tokenizer.getToken fuel t.mark
      | .error e t => .error e t
      | .outOfFuel => .outOfFuel
    else if t.c = some '_' ∨ t.isalpha then Tokenizer.getWordToken fuel t
    else if t.isdigit then Tokenizer.getNumberToken fuel t
    else t.unexpectedCharactor
end

/-- A tokenizer on the characters of `src` after `initialize` has returned
`false` (`none` if it returned `true`). -/
def Tokenizer.opened (src : String) : Option Tokenizer :=
  match Tokenizer.initialize { src := src.data } with
  | .ok () t => some t
  | _ => none

/-- What successive calls of `getToken` deliver, each with `fuel` steps: the type
and the string of each token up to `END_OF_FILE`, an error or `count` calls. -/
def Tokenizer.getTokens (fuel : Nat) : Nat → Tokenizer → List (TokenType × String)
  | 0, _ => []
  | count + 1, t =>
    match t.getToken fuel with
    | .ok token t =>
      (token.type, token.str) ::
        (if token.type = TokenType.END_OF_FILE then [] else Tokenizer.getTokens fuel count t)
    | _ => []

/-- The tokens of a source text, with `fuel` steps for each of at most `fuel` calls. -/
def tokenize (fuel : Nat) (src : String) : List (TokenType × String) :=
  match Tokenizer.opened src with
  | some t => t.getTokens fuel fuel
  | none => []

/-! ## Concrete inputs: types, literals, tokens -/

/-- A floating-point literal. -/
def exprFloat (lexeme : String) : ExpressionNode :=
  .ConstantNode (Token.of .CONSTANT_FLOAT lexeme)

/-- A binary operation, as `Parser::parseExpression` builds it. -/
def exprBinary (type : TokenType) (str : String) (lhs rhs : ExpressionNode) : ExpressionNode :=
  .BinaryOperationNode {} (Token.of type str) lhs rhs

/-- The expression `-9223372036854775807 - 1`, whose folded value is `INT64_MIN`. -/
def exprInt64Min : ExpressionNode :=
  exprBinary .MINUS "-" (exprNeg (exprInt "9223372036854775807")) (exprInt "1")

/-- `fn f() { if true { return; } else { let x = 1; } }`. -/
def programReturnThenElseLet : List FunctionNode :=
  [FunctionNode.parsed "f" [] typeVoid
    [stmtIf exprTrue [stmtReturn none] (some [stmtLet "x" none (some (exprInt "1"))])]]

/-- `fn f() { if true { let x = 1; } else { let x = 1; } }`. -/
def programLetThenElseLet : List FunctionNode :=
  [FunctionNode.parsed "f" [] typeVoid
    [stmtIf exprTrue [stmtLet "x" none (some (exprInt "1"))]
      (some [stmtLet "x" none (some (exprInt "1"))])]]

/-- The IR type the specification describes for `array_sizes` read outer-to-inner:
the first size is the outermost dimension. -/
def IRType.arrayOuterToInner (sizes : List Nat) (element : IRType) : IRType :=
  sizes.foldr (fun n t => .array t n) element

/-! ## Scopes: observations and concrete inputs -/

/-- The scopes below the innermost one, and the depth of the stack of scopes. -/
def Context.outerScopes (c : Context) : List (List Symbol) × Nat :=
  (c.symbolTables.dropLast, c.symbolTables.length)

/-- A call that, whenever it returns `false`, has added exactly one symbol, named
`name`, at the end of the innermost scope and changed no other scope. -/
structure Gen.AddsSymbol {α : Type} (name : String) (m : Gen α) : Prop where
  run : ∀ (s s' : State) (a : α), m s = .ok a s' →
    ∃ (table : List Symbol) (symbol : Symbol), s.ctx.symbolTables.getLast? = some table
      ∧ s'.ctx.symbolTables = s.ctx.symbolTables.dropLast ++ [table ++ [symbol]]
      ∧ symbol.name = name

/-- A statement `name = value;`. -/
def stmtAssign (name : String) (value : ExpressionNode) : StatementNode :=
  .AssignNode (Token.of .SYMBOL name) (VariableValueNode.parsedDestination name) value

/-- `fn f() { if true { let x = 1; } x = 2; }`. -/
def programUseAfterBlock : List FunctionNode :=
  [FunctionNode.parsed "f" [] typeVoid
    [stmtIf exprTrue [stmtLet "x" none (some (exprInt "1"))] none, stmtAssign "x" (exprInt "2")]]

/-- `fn f() { let x = 1; if true { x = 2; } x = 3; }`. -/
def programUseOuterName : List FunctionNode :=
  [FunctionNode.parsed "f" [] typeVoid
    [stmtLet "x" none (some (exprInt "1")), stmtIf exprTrue [stmtAssign "x" (exprInt "2")] none,
      stmtAssign "x" (exprInt "3")]]

/-! ## Reporting: the predicate -/

/-- A call that leaves the list of compile errors alone when it returns `false`
and appends at most one error to it when it returns `true`. -/
class Gen.ReportsOnce {α : Type} (m : Gen α) : Prop where
  ok : ∀ (s s' : State) (a : α), m s = .ok a s' → s'.ctx.errors = s.ctx.errors
  fail : ∀ (s s' : State), m s = .fail s' →
    s'.ctx.errors = s.ctx.errors ∨ ∃ e, s'.ctx.errors = s.ctx.errors ++ [e]

/-- The state in which `main` calls `Context::generate` for a program of one
compile unit without structs: the `Generator` after `init()` and the parsed
functions. -/
def stateParsed (functions : List FunctionNode) : State :=
  { g := initGenerator, ctx := { compileUnits := [{ structs := [], functions := functions }] } }

/-! ## Parser.cpp: `parseExpression` -/

/-- Outcome of `Parser::parseExpression` in the model: `result` = it returned
`false` with this node; `undefined` = it called `top` or `pop` on an empty
stack; `outOfFuel` = the loop was still running when the iterations granted to
the model were used up; `beyondInput` = it asked for tokens after `stop`, which
the model does not hold. -/
inductive Parsed where
  | result (e : ExpressionNode)
  | undefined
  | outOfFuel
  | beyondInput

/-- The loop `for (;;)` of `Parser::parseExpression`; `stack` has its top
first. `input` is the token stream as the loop sees it through `next` and
`parseValue`: each entry is a token and the operand that `parseValue` returns
for the tokens after it; `stop` is the token that follows the last operand. -/
def Parser.parseExpressionLoop :
    Nat → List (Token × ExpressionNode) → List (Token × ExpressionNode) → Token → Parsed
  | 0, _, _, _ => .outOfFuel
  | fuel + 1, stack, input, stop =>
    match stack with
    | [] => .undefined
    | top :: below =>
      let currentToken := match input with
        | [] => stop
        | (token, _) :: _ => token
      let priority1 := top.1.getPriority
      let priority2 := currentToken.getPriority
      if priority1 < priority2 then
        match input with
        | [] => .beyondInput
        | (operatorToken, value) :: rest =>
          Parser.parseExpressionLoop fuel ((operatorToken, value) :: stack) rest stop
      else if priority1 = 0 then .result top.2
      else
        match below with
        | [] => .undefined
        | lhs :: below =>
          Parser.parseExpressionLoop fuel
            ((lhs.1, .BinaryOperationNode {} top.1 lhs.2 top.2) :: below) input stop

/-- `Parser::parseExpression` from the point where the first `parseValue` has
returned `value`. -/
def Parser.parseExpression (fuel : Nat) (value : ExpressionNode)
    (input : List (Token × ExpressionNode)) (stop : Token) : Parsed :=
  Parser.parseExpressionLoop fuel [({ type := .START_OPERATOR }, value)] input stop

/-- A tree of binary operations over operands that are taken as they are. -/
inductive OpTree where
  | operand (e : ExpressionNode)
  | node (lhs : OpTree) (operator : Token) (rhs : OpTree)

/-- The `BinaryOperationNode`s of a tree of binary operations. -/
def OpTree.toExpr : OpTree → ExpressionNode
  | .operand e => e
  | .node lhs operator rhs => .BinaryOperationNode {} operator lhs.toExpr rhs.toExpr

/-- An operand or an operator of a sequence `v0 op1 v1 ... opk vk`. -/
inductive ExprItem where
  | operand (e : ExpressionNode)
  | operator (token : Token)

/-- The sequence of operands and operators a tree is a reading of. -/
def OpTree.flatten : OpTree → List ExprItem
  | .operand e => [.operand e]
  | .node lhs operator rhs => lhs.flatten ++ .operator operator :: rhs.flatten

/-- The items `op1 v1 ... opk vk` of an input of `parseExpression`. -/
def Parser.inputItems : List (Token × ExpressionNode) → List ExprItem
  | [] => []
  | (operator, value) :: rest => .operator operator :: .operand value :: Parser.inputItems rest

/-- Whether a tree binds by priority, from level `n` on: its operator has
priority at least `n`, its left operand binds from the priority of the operator
on (an operator of equal priority on the left is applied first), and its right
operand binds from the next priority on (only operators that bind tighter are
applied first on the right). -/
def OpTree.respects : Nat → OpTree → Bool
  | _, .operand _ => true
  | n, .node lhs operator rhs =>
    decide (n ≤ operator.getPriority) && lhs.respects operator.getPriority
      && rhs.respects (operator.getPriority + 1)

/-- The sequence the stack of `parseExpression` holds, bottom first; the
operator of the bottom entry, `START_OPERATOR`, is not part of it. -/
def Parser.stackItems : List (Token × OpTree) → List ExprItem
  | [] => []
  | [(_, tree)] => tree.flatten
  | (operator, tree) :: below => Parser.stackItems below ++ .operator operator :: tree.flatten

/-- What holds of the stack of `parseExpression` at each round of its loop, `n`
being the priority of the current token: the priorities of the operators grow
strictly from the bottom, where it is 0, to the top, and each tree binds by
priority both as the right operand of its own operator and as the left operand
of the operator above it (for the top, of the current token). -/
def Parser.StackOk : Nat → List (Token × OpTree) → Prop
  | _, [] => False
  | n, (operator, tree) :: below =>
    tree.respects (operator.getPriority + 1) = true ∧ tree.respects n = true
      ∧ (match below with
        | [] => operator.getPriority = 0
        | (operator', _) :: _ => operator'.getPriority < operator.getPriority)
      ∧ (below ≠ [] → Parser.StackOk operator.getPriority below)

/-- The variable `a`. -/
def exprA : ExpressionNode := exprVar "a"

/-- The variable `b`. -/
def exprB : ExpressionNode := exprVar "b"

/-- The variable `c`. -/
def exprC : ExpressionNode := exprVar "c"

/-- The variable `d`. -/
def exprD : ExpressionNode := exprVar "d"

/-! ## Concrete inputs: constants against pointers -/

/-- The expression `p + 1`. -/
def exprPPlusOne : ExpressionNode :=
  .BinaryOperationNode {} (Token.of .PLUS "+") (exprVar "p") (exprInt "1")

/-- The type `i32*`. -/
def typeI32Pointer : TypeNode := TypeNode.parsed .TYPE_I32 "i32" 1

/-- The statements `let p i32*; p = 1;`. -/
def stmtsAssignOneToPointer : List StatementNode :=
  [stmtLet "p" (some typeI32Pointer) none, stmtAssign "p" (exprInt "1")]

/-- The types the two operands of a binary operation have once both are
generated, as `BinaryOperationNode::generate` reads them into `lhsType` and
`rhsType`. -/
def operandTypes (lhs rhs : ExpressionNode) : Gen (ValueType × ValueType) := do
  let l ← lhs.generate
  let r ← rhs.generate
  pure (l.valueType, r.valueType)

/-- The types of the destination and of the right-hand side of an assignment
once both are generated, as `AssignNode::generate` reads them. -/
def assignTypes (dest : VariableValueNode) (value : ExpressionNode) :
    Gen (ValueType × ValueType) := do
  let d ← dest.generate
  let v ← value.generate
  pure (d.valueType, v.valueType)

/-! ## Theorems: the type model -/

/-- C3, evaluated at `A = const-string`, `B = i8*`: `A.isCompatible(B)` is true
but `B.isCompatible(A)` is false, because the guard `pointerCount != 0` looks at
the receiver only. -/
theorem C3_isCompatible_asymmetric_at_string :
    (ValueType.mk3 .CONSTANT_STRING 0 false).isCompatible (ValueType.mk3 .TYPE_I8 1 false) = true
    ∧ (ValueType.mk3 .TYPE_I8 1 false).isCompatible (ValueType.mk3 .CONSTANT_STRING 0 false)
        = false := by
  decide

/-- C4, evaluated at `A = const-int`, `B = i32*`: `A.isCompatible(B)` is true
although `A != B` and `B` has pointer depth 1, so the specification's clause 2
(pointer depth 0 on both sides) does not hold. -/
theorem C4_isCompatible_accepts_pointer_argument :
    (ValueType.mk3 .CONSTANT_INTEGER 0 false).isCompatible (ValueType.mk3 .TYPE_I32 1 false) = true
    ∧ (ValueType.mk3 .CONSTANT_INTEGER 0 false).specCompatible (ValueType.mk3 .TYPE_I32 1 false)
        = false := by
  decide

/-! ## Theorems: evaluation of programs -/

/-- The written-out state `stateIntBool` is the one the model reaches at the
first statement of `fn f(x i32, y bool) bool`. -/
theorem stateIntBool_reached :
    ((inFunction argsIntBool typeBool getState).value?.map fun s => s.g) = some stateIntBool.g
    ∧ ((inFunction argsIntBool typeBool getState).value?.map fun s =>
        (s.ctx.symbolTables, s.ctx.errors, s.debugLogs)) =
      some (stateIntBool.ctx.symbolTables, [], [])
    ∧ ((inFunction argsIntBool typeBool getState).value?.map fun s =>
        (s.ctx.successorBlocks, s.ctx.lastBlock, s.ctx.breaked, s.ctx.returned)) =
      some ([], none, false, false) := by
  refine ⟨?_, ?_, ?_⟩ <;> decide!

/-- C1, evaluated at `fn f() { if true { return; } else { } }`:
`Context::generate` returns success without any compile error, yet the else-block
created by `IfNode::generate` (block 3) holds no instruction at all, so not every
basic block of the emitted IR ends with a terminator. -/
theorem C1_else_block_left_without_terminator :
    ((compile programIfReturnElseEmpty).okState?.map fun s =>
      (s.ctx.errors, s.g.blocks.map (·.insts), s.g.everyBlockTerminated)) =
    some ([], [[.condBr (some (.constantInt 1 1)) 2 3], [.ret none], [.ret none], []], false) := by
  decide!

/-- C5, evaluated at `let s = "a";` in the body of a function: `LetNode::generate`
infers `i8*` and then fails with `TypeMismatch` (expected `i8*`, actual
`const-string`) at the `let` token, instead of declaring `s`. -/
theorem C5_let_of_string_literal_fails :
    ((inFunction [] typeVoid
        (LetNode.generate (Token.of .LET "let") (Token.of .SYMBOL "s") none false
          (some (.ConstantNode (Token.of .CONSTANT_STRING "a"))))).failState?.map
      fun s => s.ctx.errors) =
    some [.TypeMismatchError (Token.of .LET "let")
      { basicType := .TYPE_I8, pointerCount := 1 } { basicType := .CONSTANT_STRING }] := by
  decide!

/-- C6, evaluated at `1 < 2` and at `x < x` with `x : i32`: both generate
successfully, the first with resolved type `const-int` (folded boolean `true`),
the second with resolved type `i32`; neither is `const-bool` or `bool`. -/
theorem C6_comparison_keeps_operand_type :
    ((inFunction [] typeVoid exprOneLessTwo.generate).value?.map fun node =>
      (node.valueType.basicType, node.constantBool)) = some (.CONSTANT_INTEGER, true)
    ∧ ((inFunction argsIntBool typeBool exprXLessX.generate).value?.map fun node =>
      node.valueType.basicType) = some .TYPE_I32 := by
  constructor <;> decide!

/-- C8, evaluated at `1 + p` with `p : i32*`: `BinaryOperationNode::generate`
succeeds, records no error and no log entry, emits `trunc` and `add`, and gives
the node the pointer type `i32*`. -/
theorem C8_constant_plus_pointer_succeeds :
    ((inFunction argsPointer typeVoid exprOnePlusP.generate).value?.map fun node =>
      (node.valueType.basicType, node.valueType.pointerCount)) = some (.TYPE_I32, 1)
    ∧ ((inFunction argsPointer typeVoid exprOnePlusP.generate).okState?.map fun s =>
      (s.ctx.errors, s.debugLogs, s.g.blocks.map (·.insts))) =
      some ([], [],
        [[.cast .Trunc (.constantInt 64 1) (.int 32),
          .binary .Add (.instruction 0 (.int 32)) (.argument 0 (.ptr (.int 32)))]]) := by
  constructor <;> decide!

/-- C9, evaluated at `true && false`: `BinaryOperationNode::generate` returns
failure although both operands are boolean; it records no compile error (only the
log entries of `createLogicalAnd` and of its caller) and emits no instruction. -/
theorem C9_logical_and_of_booleans_fails :
    ((inFunction [] typeVoid exprTrueAndFalse.generate).failState?.map fun s =>
      (s.ctx.errors, s.debugLogs, s.g.blocks.map (·.insts))) =
    some ([], [⟨"Generator.cpp", 440⟩, ⟨"Node.cpp", 781⟩], [[]]) := by
  decide!

/-- C2, evaluated at `fn f() bool { return true && false; }`: `Context::generate`
returns failure and the error list of the Context is still empty; the only trace
of the failure is in the debug log, starting at the unimplemented
`Generator::createLogicalAnd`. -/
theorem C2_failure_without_compile_error :
    ((compile programReturnAnd).failState?.map fun s => (s.ctx.errors, s.debugLogs)) =
    some ([], [⟨"Generator.cpp", 440⟩, ⟨"Node.cpp", 781⟩, ⟨"Node.cpp", 1634⟩,
      ⟨"Node.cpp", 1904⟩, ⟨"Node.cpp", 1818⟩, ⟨"Node.cpp", 1963⟩]) := by
  decide!

/-! ## Theorems: binary operations -/

/-- The test of `BinaryOperationNode::generate`: when both operands generate
successfully and `lhsType.isCompatible(rhsType)`, asked with the left type as the
receiver, is false, the call returns failure having appended exactly one error, a
`TypeMismatch` whose token is the operator, and nothing else changes. -/
theorem BinaryOperationNode.generate_of_not_isCompatible (token operatorType : Token) (lhs rhs : ExpressionNode)
    (s s1 s2 : State) (l r : ExprResult)
    (hl : lhs.generate s = .ok l s1) (hr : rhs.generate s1 = .ok r s2)
    (hc : l.valueType.isCompatible r.valueType = false) :
    (ExpressionNode.BinaryOperationNode token operatorType lhs rhs).generate s =
      .fail { s2 with ctx := { s2.ctx with
        errors := s2.ctx.errors ++ [.TypeMismatchError operatorType r.valueType l.valueType] } }
    ∧ (CompileError.TypeMismatchError operatorType r.valueType l.valueType).getErrorName
        = "TypeMismatch"
    ∧ (CompileError.TypeMismatchError operatorType r.valueType l.valueType).getToken
        = operatorType := by
  refine ⟨?_, rfl, rfl⟩
  rw [ExpressionNode.generate]
  simp only [bind, Gen.bind, Gen.orLog, hl, hr, BinaryOperationNode.generateRest, hc]
  rfl

/-- C7, evaluated at `1 + p` with `p : i32*`: the operands generate to the types
`const-int` and `i32*`, which are not compatible as the specification defines
compatibility (in either order, `i32*` having pointer depth 1); yet
`BinaryOperationNode::generate` returns success and records no error, its test
`lhsType.isCompatible(rhsType)` being true with the constant as receiver. The
same two operands in the other order, `p + 1`, are rejected with `TypeMismatch` at
the operator, and so is `x == y` with `x : i32` and `y : bool` (scenario S5). -/
theorem C7_incompatible_operands_accepted :
    (inFunction argsPointer typeVoid (operandTypes (exprInt "1") (exprVar "p"))).value? =
      some ({ basicType := .CONSTANT_INTEGER },
        { basicType := .TYPE_I32, pointerCount := 1, isArgument := true })
    ∧ ValueType.specCompatible { basicType := .CONSTANT_INTEGER }
        { basicType := .TYPE_I32, pointerCount := 1, isArgument := true } = false
    ∧ ValueType.specCompatible { basicType := .TYPE_I32, pointerCount := 1, isArgument := true }
        { basicType := .CONSTANT_INTEGER } = false
    ∧ ValueType.isCompatible { basicType := .CONSTANT_INTEGER }
        { basicType := .TYPE_I32, pointerCount := 1, isArgument := true } = true
    ∧ ((inFunction argsPointer typeVoid exprOnePlusP.generate).okState?.map fun s =>
        s.ctx.errors) = some []
    ∧ ((inFunction argsPointer typeVoid exprPPlusOne.generate).failState?.map fun s =>
        s.ctx.errors.map fun e => (e.getErrorName, e.getToken)) =
      some [("TypeMismatch", Token.of .PLUS "+")]
    ∧ ((inFunction argsIntBool typeBool exprXEqualsY.generate).failState?.map fun s =>
        s.ctx.errors.map fun e => (e.getErrorName, e.getToken)) =
      some [("TypeMismatch", Token.of .COMPARE_EQUAL "==")] := by
  refine ⟨?_, ?_, ?_, ?_, ?_, ?_, ?_⟩ <;> decide!

/-- A value in the signed 64-bit range is left alone by the wrap-around. -/
theorem wrapInt64_of_fits (x : Int) (h1 : INT64_MIN ≤ x) (h2 : x ≤ INT64_MAX) : wrapInt64 x = x := by
  unfold wrapInt64
  unfold INT64_MIN at h1
  unfold INT64_MAX at h2
  omega

/-- Signed 64-bit division is the truncating quotient when the divisor is not zero
and the quotient fits. -/
theorem int64Div_of_fits (a b : Int) (hb : b ≠ 0) (h2 : Int.tdiv a b ≤ INT64_MAX) :
    int64Div a b = some (Int.tdiv a b) := by
  unfold int64Div
  rw [if_neg hb, if_neg]
  rintro ⟨rfl, rfl⟩
  revert h2
  decide

/-- Signed 64-bit remainder is the truncating remainder when the divisor is not
zero and the quotient fits. -/
theorem int64Rem_of_fits (a b : Int) (hb : b ≠ 0) (h2 : Int.tdiv a b ≤ INT64_MAX) :
    int64Rem a b = some (Int.tmod a b) := by
  unfold int64Rem
  rw [if_neg hb, if_neg]
  rintro ⟨rfl, rfl⟩
  revert h2
  decide

/-- C10: when both operands of a binary operation generate successfully with
scalar `const-int` types and non-null values, folded values `a` and `b`, then the
operation generates successfully and its folded constant integer is `a + b`,
`a - b`, `a * b` (when that fits in signed 64 bits), the truncating quotient and
remainder for `/` and `%` with `b != 0` (when the quotient fits), and for the six
comparison operators its folded boolean is the comparison of `a` and `b`. -/
theorem C10_constant_integer_folding (token operatorType : Token) (lhs rhs : ExpressionNode)
    (s s1 s2 : State) (l r : ExprResult) (vl vr : Value)
    (hl : lhs.generate s = .ok l s1) (hr : rhs.generate s1 = .ok r s2)
    (hlt : ValueType.isScalarConstInt l.valueType) (hrt : ValueType.isScalarConstInt r.valueType)
    (hlv : l.generatedValue = some vl) (hrv : r.generatedValue = some vr) :
    let a := l.constantInteger
    let b := r.constantInteger
    let folded (p : ExprResult → Prop) : Prop :=
      ∃ node s', (ExpressionNode.BinaryOperationNode token operatorType lhs rhs).generate s
        = .ok node s' ∧ p node
    (operatorType.type = .PLUS → INT64_MIN ≤ a + b → a + b ≤ INT64_MAX →
        folded fun node => node.constantInteger = a + b)
    ∧ (operatorType.type = .MINUS → INT64_MIN ≤ a - b → a - b ≤ INT64_MAX →
        folded fun node => node.constantInteger = a - b)
    ∧ (operatorType.type = .ASTERISK → INT64_MIN ≤ a * b → a * b ≤ INT64_MAX →
        folded fun node => node.constantInteger = a * b)
    ∧ (operatorType.type = .SLASH → b ≠ 0 → Int.tdiv a b ≤ INT64_MAX →
        folded fun node => node.constantInteger = Int.tdiv a b)
    ∧ (operatorType.type = .PERCENT → b ≠ 0 → Int.tdiv a b ≤ INT64_MAX →
        folded fun node => node.constantInteger = Int.tmod a b)
    ∧ (operatorType.type = .COMPARE_LESSER_THAN → folded fun node => node.constantBool = decide (a < b))
    ∧ (operatorType.type = .COMPARE_LESSER_EQUAL → folded fun node => node.constantBool = decide (a ≤ b))
    ∧ (operatorType.type = .COMPARE_GREATER_THAN → folded fun node => node.constantBool = decide (a > b))
    ∧ (operatorType.type = .COMPARE_GREATER_EQUAL → folded fun node => node.constantBool = decide (a ≥ b))
    ∧ (operatorType.type = .COMPARE_EQUAL → folded fun node => node.constantBool = decide (a = b))
    ∧ (operatorType.type = .COMPARE_NOT_EQUAL → folded fun node => node.constantBool = decide (a ≠ b)) := by
  obtain ⟨h1, h2, h3, h4⟩ := hlt
  obtain ⟨h5, h6, h7, h8⟩ := hrt
  intro a b folded
  have key : (ExpressionNode.BinaryOperationNode token operatorType lhs rhs).generate s
      = BinaryOperationNode.generateRest token operatorType l r s2 := by
    rw [ExpressionNode.generate]
    simp only [bind, Gen.bind, Gen.orLog, hl, hr]
  simp only [folded, key]
  refine ⟨?_, ?_, ?_, ?_, ?_, ?_, ?_, ?_, ?_, ?_, ?_⟩
  · intro hop hm hM
    simp [BinaryOperationNode.generateRest, bind, Gen.bind, Gen.orLog, ValueType.isCompatible,
      ValueType.eq, h1, h2, h3, h4, h5, h6, h7, h8, castConstantToValueType,
      castConstantToValueType_BasicType, Token.isConstant, hop, BinaryOperationNode.checkOperand,
      ValueType.isArithmetic, Generator.createAdd, Generator.createBinary, hlv, hrv, nonNull,
      Generator.emit, BinaryOperationNode.foldArithmetic, pure, Token.isIntegerType,
      Token.isFloatingPointType, Token.isSignedIntegerType, Token.isUnsignedIntegerType,
      TokenType.ord, wrapInt64_of_fits _ hm hM, a, b]
  · intro hop hm hM
    simp [BinaryOperationNode.generateRest, bind, Gen.bind, Gen.orLog, ValueType.isCompatible,
      ValueType.eq, h1, h2, h3, h4, h5, h6, h7, h8, castConstantToValueType,
      castConstantToValueType_BasicType, Token.isConstant, hop, BinaryOperationNode.checkOperand,
      ValueType.isArithmetic, Generator.createSub, Generator.createBinary, hlv, hrv, nonNull,
      Generator.emit, BinaryOperationNode.foldArithmetic, pure, Token.isIntegerType,
      Token.isFloatingPointType, Token.isSignedIntegerType, Token.isUnsignedIntegerType,
      TokenType.ord, wrapInt64_of_fits _ hm hM, a, b]
  · intro hop hm hM
    simp [BinaryOperationNode.generateRest, bind, Gen.bind, Gen.orLog, ValueType.isCompatible,
      ValueType.eq, h1, h2, h3, h4, h5, h6, h7, h8, castConstantToValueType,
      castConstantToValueType_BasicType, Token.isConstant, hop, BinaryOperationNode.checkOperand,
      ValueType.isArithmetic, Generator.createMul, Generator.createBinary, hlv, hrv, nonNull,
      Generator.emit, BinaryOperationNode.foldArithmetic, pure, Token.isIntegerType,
      Token.isFloatingPointType, Token.isSignedIntegerType, Token.isUnsignedIntegerType,
      TokenType.ord, wrapInt64_of_fits _ hm hM, a, b]
  · intro hop hb hM
    simp [BinaryOperationNode.generateRest, bind, Gen.bind, Gen.orLog, ValueType.isCompatible,
      ValueType.eq, h1, h2, h3, h4, h5, h6, h7, h8, castConstantToValueType,
      castConstantToValueType_BasicType, Token.isConstant, hop, BinaryOperationNode.checkOperand,
      ValueType.isArithmetic, Generator.createDiv, Generator.createBinary, hlv, hrv, nonNull,
      Generator.emit, BinaryOperationNode.foldDivision, pure, Token.isIntegerType,
      Token.isFloatingPointType, Token.isSignedIntegerType, Token.isUnsignedIntegerType,
      TokenType.ord, int64Div_of_fits _ _ hb hM, a, b]
  · intro hop hb hM
    simp [BinaryOperationNode.generateRest, bind, Gen.bind, Gen.orLog, ValueType.isCompatible,
      ValueType.eq, h1, h2, h3, h4, h5, h6, h7, h8, castConstantToValueType,
      castConstantToValueType_BasicType, Token.isConstant, hop, BinaryOperationNode.checkOperand,
      ValueType.isArithmetic, Generator.createRem, Generator.createBinary, hlv, hrv, nonNull,
      Generator.emit, BinaryOperationNode.foldDivision, pure, Token.isIntegerType,
      Token.isFloatingPointType, Token.isSignedIntegerType, Token.isUnsignedIntegerType,
      TokenType.ord, int64Rem_of_fits _ _ hb hM, a, b]
  all_goals
    intro hop
    simp [BinaryOperationNode.generateRest, bind, Gen.bind, Gen.orLog, ValueType.isCompatible,
      ValueType.eq, h1, h2, h3, h4, h5, h6, h7, h8, castConstantToValueType,
      castConstantToValueType_BasicType, Token.isConstant, hop, BinaryOperationNode.checkOperand,
      ValueType.isArithmetic, ValueType.isComparable, ValueType.isAbleToEqual,
      Generator.createCommpareLesserThan, Generator.createCommpareLesserEqual,
      Generator.createCommpareGreaterThan, Generator.createCommpareGreaterEqual,
      Generator.createCommpareEqual, Generator.createCommpareNotEqual,
      Generator.createCmp, hlv, hrv, nonNull,
      Generator.emit, BinaryOperationNode.foldCompare, pure, Token.isIntegerType,
      Token.isFloatingPointType, Token.isSignedIntegerType, Token.isUnsignedIntegerType,
      TokenType.ord, a, b]

/-- C10 at `7 / 2`: both literals generate as scalar `const-int`, the divisor is
not zero, and the folded constant of the division is the truncating quotient. -/
theorem C10_constant_integer_folding_witness :
    (exprInt "7").generate stateIntBool =
        .ok { token := Token.of .CONSTANT_INTEGER "7"
              generatedValue := some (.constantInt 64 7)
              valueType := { basicType := .CONSTANT_INTEGER }
              constantInteger := 7 } stateIntBool
    ∧ (exprInt "2").generate stateIntBool =
        .ok { token := Token.of .CONSTANT_INTEGER "2"
              generatedValue := some (.constantInt 64 2)
              valueType := { basicType := .CONSTANT_INTEGER }
              constantInteger := 2 } stateIntBool
    ∧ ValueType.isScalarConstInt { basicType := .CONSTANT_INTEGER }
    ∧ (2 : Int) ≠ 0 ∧ Int.tdiv 7 2 ≤ INT64_MAX
    ∧ ∃ node s', exprSevenDivTwo.generate stateIntBool = .ok node s'
        ∧ node.constantInteger = Int.tdiv 7 2 :=
  ⟨rfl, rfl, ⟨rfl, rfl, rfl, rfl⟩, by decide, by decide,
    (C10_constant_integer_folding {} (Token.of .SLASH "/") (exprInt "7") (exprInt "2")
      stateIntBool stateIntBool stateIntBool _ _ (.constantInt 64 7) (.constantInt 64 2)
      rfl rfl ⟨rfl, rfl, rfl, rfl⟩ ⟨rfl, rfl, rfl, rfl⟩ rfl rfl).2.2.2.1 rfl (by decide) (by decide)⟩

/-! ## Theorems: inversion lemmas for the call monad -/

/-- A call whose value is read as `some a` returned `false` with `a`. -/
theorem Result.value?_eq_some {α : Type} {r : Result α} {a : α} (h : r.value? = some a) :
    ∃ s, r = .ok a s := by
  cases r with
  | ok b s => simp [Result.value?] at h; exact ⟨s, by rw [h]⟩
  | fail s => simp [Result.value?] at h
  | undefined => simp [Result.value?] at h

/-- When a sequence returns `false`, so did its first call, and the rest ran from
the state it left. -/
theorem Gen.bind_eq_ok {α β : Type} {m : Gen α} {f : α → Gen β} {s s' : State} {b : β}
    (h : (m >>= f) s = .ok b s') : ∃ a s1, m s = .ok a s1 ∧ f a s1 = .ok b s' := by
  change Gen.bind m f s = .ok b s' at h
  unfold Gen.bind at h
  cases hm : m s with
  | ok a s1 => rw [hm] at h; exact ⟨a, s1, rfl, h⟩
  | fail s1 => rw [hm] at h; cases h
  | undefined => rw [hm] at h; cases h

/-- The debug-log wrapper leaves a successful call alone. -/
theorem Gen.orLog_eq_ok {α : Type} {m : Gen α} {line : Nat} {s s' : State} {a : α}
    (h : m.orLog line s = .ok a s') : m s = .ok a s' := by
  unfold Gen.orLog at h
  cases hm : m s with
  | ok a s1 => rw [hm] at h; exact h
  | fail s1 => rw [hm] at h; cases h
  | undefined => rw [hm] at h; cases h

/-- Inversion of `pure`. -/
theorem Gen.pure_eq_ok {α : Type} {a b : α} {s s' : State}
    (h : (pure a : Gen α) s = .ok b s') : a = b ∧ s = s' := by
  cases h; exact ⟨rfl, rfl⟩

/-- A dereference that went well was of a non-null pointer. -/
theorem nonNull_eq_ok {α : Type} {o : Option α} {a : α} {s s' : State}
    (h : nonNull o s = .ok a s') : o = some a ∧ s = s' := by
  cases o with
  | none => cases h
  | some b => cases h; exact ⟨rfl, rfl⟩

/-- Method `ValueListNode::generate` yields one generated node per value. -/
theorem ValueListNode.generate_length (values : List ExpressionNode) :
    ∀ (s s' : State) (elements : List ExprResult),
      ValueListNode.generate values s = .ok elements s' → elements.length = values.length := by
  induction values with
  | nil =>
    intro s s' elements h
    rw [ValueListNode.generate] at h
    obtain ⟨rfl, -⟩ := Gen.pure_eq_ok h
    rfl
  | cons v rest ih =>
    intro s s' elements h
    rw [ValueListNode.generate] at h
    obtain ⟨r, s1, -, h⟩ := Gen.bind_eq_ok h
    obtain ⟨rs, s2, hrs, h⟩ := Gen.bind_eq_ok h
    obtain ⟨rfl, -⟩ := Gen.pure_eq_ok h
    simp [ih s1 s2 rs hrs]

/-- The `valueType_` of an array aggregate that generated successfully: the type of
the first element, `isArgument` cleared, with the number of elements pushed at the
back of `arraySizes`. -/
theorem AggregateConstantNode.generateRest_valueType (token : Token) (elements : List ExprResult)
    (s s' : State) (node : ExprResult)
    (h : AggregateConstantNode.generateRest token elements s = .ok node s') :
    ∃ front, elements.head? = some front ∧
      node.valueType = { front.valueType with
        isArgument := false
        arraySizes := front.valueType.arraySizes ++ [elements.length] } := by
  unfold AggregateConstantNode.generateRest at h
  cases ht : token.type <;> simp only [ht] at h
  case SQUARE_BRACKET_LEFT =>
    obtain ⟨front, s1, hfront, h⟩ := Gen.bind_eq_ok h
    obtain ⟨hfront, -⟩ := nonNull_eq_ok hfront
    refine ⟨front, hfront, ?_⟩
    cases hb : front.valueType.basicType <;> simp only [hb] at h
    case CONSTANT_BOOL =>
      obtain ⟨a, s2, -, h⟩ := Gen.bind_eq_ok h
      obtain ⟨rfl, -⟩ := Gen.pure_eq_ok h
      simp [hb]
    case CONSTANT_INTEGER =>
      obtain ⟨a1, s2, -, h⟩ := Gen.bind_eq_ok h
      obtain ⟨a2, s3, -, h⟩ := Gen.bind_eq_ok h
      obtain ⟨a3, s4, -, h⟩ := Gen.bind_eq_ok h
      obtain ⟨a4, s5, -, h⟩ := Gen.bind_eq_ok h
      obtain ⟨a5, s6, -, h⟩ := Gen.bind_eq_ok h
      obtain ⟨a6, s7, -, h⟩ := Gen.bind_eq_ok h
      obtain ⟨a7, s8, -, h⟩ := Gen.bind_eq_ok h
      obtain ⟨a8, s9, -, h⟩ := Gen.bind_eq_ok h
      obtain ⟨rfl, -⟩ := Gen.pure_eq_ok h
      simp [hb]
    case CONSTANT_FLOAT =>
      obtain ⟨a1, s2, -, h⟩ := Gen.bind_eq_ok h
      obtain ⟨a2, s3, -, h⟩ := Gen.bind_eq_ok h
      obtain ⟨rfl, -⟩ := Gen.pure_eq_ok h
      simp [hb]
    case CONSTANT_STRING =>
      obtain ⟨a, s2, -, h⟩ := Gen.bind_eq_ok h
      obtain ⟨rfl, -⟩ := Gen.pure_eq_ok h
      simp [hb]
    all_goals
      obtain ⟨a, s2, -, h⟩ := Gen.bind_eq_ok h
      cases h
  all_goals
    obtain ⟨a, s2, -, h⟩ := Gen.bind_eq_ok h
    cases h

/-! ## Theorems: unary and binary operations on literals -/

/-- C11, evaluated at `7 / 2`, `7 % 2` and `1.5 / 2.5`: for the literal kinds
`const-int` and `const-float` the instruction emitted is `udiv` / `urem`, the
variant of the last `else` in `Generator::createDiv` / `createRem`, not `sdiv` /
`srem` / `fdiv`. -/
theorem C11_constant_division_is_unsigned :
    ((inFunction [] typeVoid exprSevenDivTwo.generate).okState?.map fun s =>
      s.g.blocks.map (·.insts)) =
      some [[.binary .UDiv (.constantInt 64 7) (.constantInt 64 2)]]
    ∧ ((inFunction [] typeVoid exprSevenRemTwo.generate).okState?.map fun s =>
      s.g.blocks.map (·.insts)) =
      some [[.binary .URem (.constantInt 64 7) (.constantInt 64 2)]]
    ∧ ((inFunction [] typeVoid exprFloatDiv.generate).okState?.map fun s =>
      s.g.blocks.map (·.insts)) =
      some [[.binary .UDiv (.constantFP .double (3 / 2)) (.constantFP .double (5 / 2))]] := by
  refine ⟨?_, ?_, ?_⟩ <;> decide!

/-- C12: for an expression that generates successfully with scalar type
`const-int`, a non-null value and folded value `n` (a signed 64-bit value, so
`n <= INT64_MAX`): if `n != INT64_MIN` then `-(-e)` generates successfully with the
same type `const-int` and folded value `n`; if `n == INT64_MIN` then `-e` fails
having appended `ConstantTooLarge` at the operator. -/
theorem C12_double_negation (token1 operator1 token2 operator2 : Token) (e : ExpressionNode)
    (s s1 : State) (r : ExprResult) (v : Value)
    (he : e.generate s = .ok r s1)
    (ht : ValueType.isScalarConstInt r.valueType)
    (hv : r.generatedValue = some v)
    (h1 : operator1.type = .MINUS) (h2 : operator2.type = .MINUS)
    (hmax : r.constantInteger ≤ INT64_MAX) :
    (r.constantInteger ≠ INT64_MIN →
      ∃ node s', (ExpressionNode.UnaryOperationNode token2 operator2
          (.UnaryOperationNode token1 operator1 e)).generate s = .ok node s'
        ∧ node.valueType = r.valueType ∧ node.constantInteger = r.constantInteger)
    ∧ (r.constantInteger = INT64_MIN →
      ∃ s', (ExpressionNode.UnaryOperationNode token1 operator1 e).generate s = .fail s'
        ∧ s'.ctx.errors = s1.ctx.errors ++ [.ConstantTooLarge operator1]) := by
  obtain ⟨t1, t2, t3, t4⟩ := ht
  constructor
  · intro hne
    have hne2 : -r.constantInteger ≠ INT64_MIN := by
      unfold INT64_MAX at hmax
      unfold INT64_MIN
      omega
    rw [ExpressionNode.generate, ExpressionNode.generate]
    simp [bind, Gen.bind, Gen.orLog, he, UnaryOperationNode.generateRest, ValueType.isArithmetic,
      t1, t2, t3, t4, h1, h2, Generator.createNegate, hv, nonNull, Generator.emit, pure,
      Token.isFloatingPointType, Token.isIntegerType, Token.isSignedIntegerType,
      Token.isUnsignedIntegerType, TokenType.ord, hne, hne2]
  · intro heq
    rw [ExpressionNode.generate]
    simp [bind, Gen.bind, Gen.orLog, he, UnaryOperationNode.generateRest, ValueType.isArithmetic,
      t1, t2, t3, t4, h1, Generator.createNegate, hv, nonNull, Generator.emit, pure,
      Token.isFloatingPointType, Token.isIntegerType, Token.isSignedIntegerType,
      Token.isUnsignedIntegerType, TokenType.ord, heq, failWith, Context.addCompileError,
      modifyCtx, returnTrue]

/-- C12 at `-(-7)`: the literal generates as scalar `const-int` with value 7, and
the double negation generates with type `const-int` and value 7. -/
theorem C12_double_negation_witness :
    (exprInt "7").generate stateIntBool =
        .ok { token := Token.of .CONSTANT_INTEGER "7"
              generatedValue := some (.constantInt 64 7)
              valueType := { basicType := .CONSTANT_INTEGER }
              constantInteger := 7 } stateIntBool
    ∧ ValueType.isScalarConstInt { basicType := .CONSTANT_INTEGER }
    ∧ (7 : Int) ≤ INT64_MAX ∧ (7 : Int) ≠ INT64_MIN
    ∧ ∃ node s', exprMinusMinusSeven.generate stateIntBool = .ok node s'
        ∧ node.valueType = { basicType := .CONSTANT_INTEGER } ∧ node.constantInteger = 7 :=
  ⟨rfl, ⟨rfl, rfl, rfl, rfl⟩, by decide, by decide,
    (C12_double_negation {} (Token.of .MINUS "-") {} (Token.of .MINUS "-") (exprInt "7")
      stateIntBool stateIntBool _ (.constantInt 64 7) rfl ⟨rfl, rfl, rfl, rfl⟩ rfl rfl rfl
      (by decide)).1 (by decide)⟩

/-! ## Theorems: calls and assignments -/

/-- C13, evaluated at `fn g(a i32) { } fn f() { g(1, 2); }`, where `g` is declared
without `...` (p = 1, n = 2): the outcome is decided by the never-initialised
member `hasVariableArgument_`. Over storage that held `true` the program compiles
with no error and the call passes two values; over storage that held `false` it
is rejected with `InvalidCallArgumentLength`. -/
theorem C13_extra_argument_depends_on_uninitialised_member :
    ((compile programCallExtraArgument).okState?.map fun s =>
      (s.ctx.errors, s.g.blocks.map (·.insts))) =
      some ([], [[.ret none],
        [.cast .Trunc (.constantInt 64 1) (.int 32),
         .call 1 [some (.instruction 1 (.int 32)), some (.constantInt 64 2)],
         .ret none]])
    ∧ ((compile [FunctionNode.parsedOver false "g"
          [{ name := Token.of .SYMBOL "a", type := TypeNode.parsed .TYPE_I32 "i32" 0 }] typeVoid [],
        FunctionNode.parsed "f" [] typeVoid [stmtCall "g" [exprInt "1", exprInt "2"]]]).failState?.map
      fun s => s.ctx.errors) =
      some [.InvalidCallArgumentLength (Token.of .SYMBOL "g") (Token.of .SYMBOL "g")] := by
  constructor <;> decide!

/-- A variable reference that generated successfully has the type of its symbol. -/
theorem VariableValueNode.generate_valueType (dest : VariableValueNode) (s s1 : State)
    (symbol : Symbol) (d : ExprResult)
    (hs : s.ctx.getSymbol dest.getName.str = some symbol)
    (hd : dest.generate s = .ok d s1) : d.valueType = symbol.type := by
  cases dest with
  | mk token name arrayIndex member isRhsValue =>
    simp only [VariableValueNode.getName] at hs
    unfold VariableValueNode.generate at hd
    obtain ⟨st, s', hst, hd⟩ := Gen.bind_eq_ok hd
    cases hst
    simp only [hs] at hd
    split at hd
    · obtain ⟨rfl, -⟩ := Gen.pure_eq_ok hd
      rfl
    · split at hd
      · obtain ⟨value, s2, -, hd⟩ := Gen.bind_eq_ok hd
        obtain ⟨rfl, -⟩ := Gen.pure_eq_ok hd
        rfl
      · obtain ⟨rfl, -⟩ := Gen.pure_eq_ok hd
        rfl

/-- The tests of `AssignNode::generate`, for an assignment whose destination name
resolves to a symbol: if the symbol is a function parameter (`isArgument`), the
call fails having appended exactly `CanNotOverwriteArgument` and nothing else
changes (no store, no instruction at all); if it is not, the destination and the
right-hand side generate successfully, and
`value_->getValueType().isCompatible(dest_.getValueType())`, asked with the type
of the right-hand side as the receiver, is false, it fails having appended
exactly `TypeMismatch`. -/
theorem AssignNode.generate_checks (token : Token) (dest : VariableValueNode) (value : ExpressionNode)
    (s : State) (symbol : Symbol)
    (hs : s.ctx.getSymbol dest.getName.str = some symbol) :
    (symbol.type.isArgument = true →
      AssignNode.generate token dest value s =
        .fail { s with ctx := { s.ctx with
          errors := s.ctx.errors ++ [.CanNotOverwriteArgumentError token] } })
    ∧ (symbol.type.isArgument = false → ∀ (d v : ExprResult) (s1 s2 : State),
        dest.generate s = .ok d s1 → value.generate s1 = .ok v s2 →
        v.valueType.isCompatible d.valueType = false →
        d.valueType = symbol.type
        ∧ AssignNode.generate token dest value s =
          .fail { s2 with ctx := { s2.ctx with
            errors := s2.ctx.errors ++ [.TypeMismatchError token d.valueType v.valueType] } }) := by
  constructor
  · intro harg
    cases dest with
    | mk dtoken name arrayIndex member isRhsValue =>
      simp only [VariableValueNode.getName] at hs
      simp [AssignNode.generate, VariableValueNode.generate, bind, Gen.bind, Gen.orLog, getState,
        hs, harg, pure, failWith, Context.addCompileError, modifyCtx, returnTrue]
  · intro harg d v s1 s2 hd hv hc
    have hty := VariableValueNode.generate_valueType dest s s1 symbol d hs hd
    refine ⟨hty, ?_⟩
    have harg2 : d.valueType.isArgument = false := by rw [hty]; exact harg
    simp [AssignNode.generate, bind, Gen.bind, Gen.orLog, hd, hv, hc, harg2, failWith,
      Context.addCompileError, modifyCtx, returnTrue]

/-- C14, evaluated at `let p i32*; p = 1;`: the destination is a variable that is
not a parameter, of type `i32*`, and the right-hand side has type `const-int`;
the two are not compatible as the specification defines compatibility (in either
order); yet `AssignNode::generate` returns success and records no error, its test
`value_->getValueType().isCompatible(dest_.getValueType())` being true with the
constant as receiver: the constant is truncated to `i32` and that `i32` is stored
into the slot of the pointer. At `x = 1` with `x` a parameter the assignment
fails with `CanNotOverwriteArgument` and emits nothing, and at `b = 1` with
`b : bool` a local variable it fails with `TypeMismatch`. -/
theorem C14_incompatible_assignment_accepted :
    (inFunction [] typeVoid (do
        (stmtLet "p" (some typeI32Pointer) none).generate
        assignTypes (VariableValueNode.parsedDestination "p") (exprInt "1"))).value? =
      some ({ basicType := .TYPE_I32, pointerCount := 1 }, { basicType := .CONSTANT_INTEGER })
    ∧ ValueType.specCompatible { basicType := .CONSTANT_INTEGER }
        { basicType := .TYPE_I32, pointerCount := 1 } = false
    ∧ ValueType.specCompatible { basicType := .TYPE_I32, pointerCount := 1 }
        { basicType := .CONSTANT_INTEGER } = false
    ∧ ValueType.isCompatible { basicType := .CONSTANT_INTEGER }
        { basicType := .TYPE_I32, pointerCount := 1 } = true
    ∧ ((inFunction [] typeVoid (BlockNode.generateStatementList stmtsAssignOneToPointer)).okState?.map
        fun s => (s.ctx.errors, s.debugLogs, s.g.blocks.map (·.insts))) =
      some ([], [],
        [[.alloca (.ptr (.int 32)),
          .store (.nullValue (.ptr (.int 32))) (.instruction 0 (.ptr (.ptr (.int 32)))),
          .cast .Trunc (.constantInt 64 1) (.int 32),
          .store (.instruction 2 (.int 32)) (.instruction 0 (.ptr (.ptr (.int 32))))]])
    ∧ ((inFunction argsIntBool typeBool (stmtAssign "x" (exprInt "1")).generate).failState?.map
        fun s => (s.ctx.errors, s.g.blocks.map (·.insts))) =
      some ([.CanNotOverwriteArgumentError (Token.of .SYMBOL "x")], [[]])
    ∧ ((inFunction [] typeBool (do
          (stmtLet "b" (some typeBool) (some exprTrue)).generate
          (stmtAssign "b" (exprInt "1")).generate)).failState?.map
        fun s => s.ctx.errors) =
      some [.TypeMismatchError (Token.of .SYMBOL "b") { basicType := .TYPE_BOOL }
        { basicType := .CONSTANT_INTEGER }] := by
  refine ⟨?_, ?_, ?_, ?_, ?_, ?_, ?_⟩ <;> decide!

/-- The written-out state `stateLocalBool` is the one the model reaches after
`let b bool = true;` at the start of `fn f() bool`. -/
theorem stateLocalBool_reached :
    ((inFunction [] typeBool (do (stmtLet "b" (some typeBool) (some exprTrue)).generate; getState)).value?.map
      fun s => s.g) = some stateLocalBool.g
    ∧ ((inFunction [] typeBool (do (stmtLet "b" (some typeBool) (some exprTrue)).generate; getState)).value?.map
      fun s => (s.ctx.symbolTables, s.ctx.errors, s.debugLogs)) =
      some (stateLocalBool.ctx.symbolTables, [], [])
    ∧ ((inFunction [] typeBool (do (stmtLet "b" (some typeBool) (some exprTrue)).generate; getState)).value?.map
      fun s => (s.ctx.successorBlocks, s.ctx.lastBlock, s.ctx.breaked, s.ctx.returned)) =
      some ([], none, false, false) := by
  refine ⟨?_, ?_, ?_⟩ <;> decide!

/-! ## Theorems: aggregates, `let` and array types -/

/-- C15, as the code has it: when an array aggregate generates successfully, its
elements generated successfully (one per value, so there is a first element of
type `E`), and the node has the basic kind, pointer depth and reference flag of
`E` and `array_sizes` equal to those of `E` followed by `n` (the new dimension is
appended, `push_back`), where `n` is the number of elements. -/
theorem C15_aggregate_dimension_appended (token : Token) (values : List ExpressionNode)
    (s : State) (node : ExprResult)
    (hg : ((ExpressionNode.AggregateConstantNode token values).generate s).value? = some node) :
    ∃ elements front, (ValueListNode.generate values s).value? = some elements
      ∧ elements.length = values.length
      ∧ elements.head? = some front
      ∧ node.valueType.basicType = front.valueType.basicType
      ∧ node.valueType.pointerCount = front.valueType.pointerCount
      ∧ node.valueType.isReference = front.valueType.isReference
      ∧ node.valueType.arraySizes = front.valueType.arraySizes ++ [values.length] := by
  obtain ⟨s2, hg⟩ := Result.value?_eq_some hg
  rw [ExpressionNode.generate] at hg
  obtain ⟨elements, s1, he, hrest⟩ := Gen.bind_eq_ok hg
  have he := Gen.orLog_eq_ok he
  obtain ⟨front, hfront, hty⟩ := AggregateConstantNode.generateRest_valueType _ _ _ _ _ hrest
  have hlen := ValueListNode.generate_length values s s1 elements he
  refine ⟨elements, front, by rw [he]; rfl, hlen, hfront, ?_, ?_, ?_, ?_⟩ <;> rw [hty]
  rw [hlen]

/-- C15 at `[1, 2]`: the aggregate generates with type `const-int` and
`array_sizes = [] ++ [2]`. -/
theorem C15_aggregate_dimension_appended_witness :
    (exprArrayOneTwo.generate stateIntBool).value? = some resultArrayOneTwo
    ∧ ∃ elements front,
        (ValueListNode.generate [exprInt "1", exprInt "2"] stateIntBool).value? = some elements
      ∧ elements.length = [exprInt "1", exprInt "2"].length
      ∧ elements.head? = some front
      ∧ resultArrayOneTwo.valueType.basicType = front.valueType.basicType
      ∧ resultArrayOneTwo.valueType.pointerCount = front.valueType.pointerCount
      ∧ resultArrayOneTwo.valueType.isReference = front.valueType.isReference
      ∧ resultArrayOneTwo.valueType.arraySizes
          = front.valueType.arraySizes ++ [[exprInt "1", exprInt "2"].length] :=
  ⟨by decide!, C15_aggregate_dimension_appended (Token.of .SQUARE_BRACKET_LEFT "[")
    [exprInt "1", exprInt "2"] stateIntBool resultArrayOneTwo (by decide!)⟩

/-- C15, evaluated at `[[1,2],[3,4],[5,6]]`: the node has `array_sizes = [2, 3]`,
not `[3, 2]`; the outer dimension 3 comes last. -/
theorem C15_outer_dimension_comes_last :
    ((inFunction [] typeVoid exprArrayThreeByTwo.generate).value?.map fun node =>
      node.valueType.arraySizes) = some [2, 3] := by
  decide!

/-- C16, evaluated at `[]` and at `[1, x]` with `x : i32`: the empty aggregate runs
into undefined behaviour (`front()` of an empty vector) instead of an error, and
`[1, x]` is rejected with no compile error at all, only debug-log lines. -/
theorem C16_aggregate_rejected_without_error :
    (inFunction [] typeVoid (exprArray []).generate).isUndefined = true
    ∧ ((inFunction argsIntBool typeBool exprArrayOneX.generate).failState?.map fun s =>
      (s.ctx.errors, s.debugLogs)) = some ([], [⟨"Node.cpp", 1054⟩, ⟨"Node.cpp", 965⟩]) := by
  constructor <;> decide!

/-- C17, evaluated at `[-1]`: the element has folded value -1, outside the range of
every unsigned type; the constants for `u8`, `u16` and `u32` are null as claimed,
but the constant for `u64` is materialised. -/
theorem C17_negative_element_materialised_as_u64 :
    ((inFunction [] typeVoid exprArrayMinusOne.generate).value?.map fun node =>
      (node.generatedValueU8Array, node.generatedValueU16Array, node.generatedValueU32Array,
       node.generatedValueU64Array)) =
      some (none, none, none, some (.constantArray (.array (.int 64) 1) 1))
    ∧ ((inFunction [] typeVoid (exprNeg (exprInt "1")).generate).value?.map fun node =>
      (node.valueType.basicType, node.constantInteger)) = some (.CONSTANT_INTEGER, -1) := by
  constructor <;> decide!

/-- C18, evaluated at `fn f() { let x u8 = 256; }`: the program compiles with no
compile error and no log entry; the initializer is truncated to 8 bits and stored. -/
theorem C18_let_u8_256_accepted :
    ((compile programLetU8).okState?.map fun s =>
      (s.ctx.errors, s.debugLogs, s.g.blocks.map (·.insts))) =
      some ([], [],
        [[.alloca (.int 8), .cast .Trunc (.constantInt 64 256) (.int 8),
          .store (.instruction 1 (.int 8)) (.instruction 0 (.ptr (.int 8))), .ret none]]) := by
  decide!

/-- C19, evaluated at the types `i32[0]` and `i32[-1]`: for size 0
`TypeNode::generate` fails with no compile error recorded (debug-log lines only);
for size -1, a `const-int` expression of folded value -1, it succeeds and appends
18446744073709551615. -/
theorem C19_array_size_zero_and_negative :
    ((inFunction [] typeVoid typeArrayZero.generate).failState?.map fun s =>
      (s.ctx.errors, s.debugLogs)) = some ([], [⟨"Generator.cpp", 175⟩, ⟨"Node.cpp", 398⟩])
    ∧ ((inFunction [] typeVoid typeArrayMinusOne.generate).value?.map fun type =>
      type.getValueType.arraySizes) = some [18446744073709551615]
    ∧ ((inFunction [] typeVoid (exprNeg (exprInt "1")).generate).value?.map fun node =>
      (node.valueType.basicType, node.constantInteger)) = some (.CONSTANT_INTEGER, -1) := by
  refine ⟨?_, ?_, ?_⟩ <;> decide!

/-! ## Theorems: statements after `return` or `break` -/

/-- The loop over the statements of a block, run on `pre ++ l`, is the loop on
`pre` followed by the loop on `l`. -/
theorem BlockNode.generateStatementList_append (pre l : List StatementNode) :
    ∀ s : State, BlockNode.generateStatementList (pre ++ l) s =
      (BlockNode.generateStatementList pre >>= fun _ => BlockNode.generateStatementList l) s := by
  induction pre with
  | nil =>
    intro s
    rw [List.nil_append, BlockNode.generateStatementList]
    rfl
  | cons statement rest ih =>
    intro s
    rw [List.cons_append, BlockNode.generateStatementList, BlockNode.generateStatementList]
    simp only [bind, Gen.bind, getState]
    split
    · rfl
    · simp only [Gen.bind]
      cases hst : statement.generate s with
      | ok a s1 =>
        simp only []
        rw [ih s1]
        rfl
      | fail s1 => rfl
      | undefined => rfl

/-- A sequence leaves `breaked` set when its continuation always does. -/
theorem Gen.SetsBreaked.bind_right {α β : Type} {m : Gen α} {f : α → Gen β}
    (h : ∀ a, (f a).SetsBreaked) : (m >>= f).SetsBreaked := by
  constructor
  intro s s' b hb
  obtain ⟨a, s1, -, hf⟩ := Gen.bind_eq_ok hb
  exact (h a).run s1 s' b hf

/-- The tail `ctx.setBreaked(true); ctx.setReturned(true);` of `ReturnNode::generate`. -/
theorem Gen.SetsBreaked.flags :
    Gen.SetsBreaked (do Context.setBreaked true; Context.setReturned true) := by
  constructor
  intro s s' a h
  cases h
  rfl

/-- The tail `ctx.setBreaked(true);` of `BreakNode::generate`. -/
theorem Gen.SetsBreaked.setBreaked : Gen.SetsBreaked (Context.setBreaked true) := by
  constructor
  intro s s' a h
  cases h
  rfl

/-- A call that records an error and returns `true` never returns `false`. -/
theorem Gen.SetsBreaked.failWith {α : Type} (e : CompileError) :
    Gen.SetsBreaked (failWith e : Gen α) := by
  constructor
  intro s s' a h
  unfold Mahina.failWith at h
  obtain ⟨u, s1, -, h⟩ := Gen.bind_eq_ok h
  cases h

/-- Every successful path of `ReturnNode::generate` ends by setting the flags. -/
theorem ReturnNode.generateRest_setsBreaked (returnToken : Token) (value : Option ExprResult) :
    (ReturnNode.generateRest returnToken value).SetsBreaked := by
  unfold ReturnNode.generateRest
  dsimp only
  repeat' first
    | exact Gen.SetsBreaked.flags
    | (apply Gen.SetsBreaked.bind_right; intro _)
    | split

/-- After a successful `ReturnNode::generate` the flag `breaked` is set. -/
theorem ReturnNode.return_sets_breaked (returnToken : Token) (value : Option ExpressionNode)
    (s s' : State) (h : ReturnNode.generate returnToken value s = .ok () s') :
    s'.ctx.breaked = true := by
  have hrest : (ReturnNode.generate returnToken value).SetsBreaked := by
    unfold ReturnNode.generate
    cases value with
    | none =>
      apply Gen.SetsBreaked.bind_right
      intro _
      exact ReturnNode.generateRest_setsBreaked _ _
    | some e =>
      apply Gen.SetsBreaked.bind_right
      intro _
      exact ReturnNode.generateRest_setsBreaked _ _
  exact hrest.run s s' () h

/-- After a successful `BreakNode::generate` the flag `breaked` is set. -/
theorem BreakNode.break_sets_breaked (token : Token) (s s' : State)
    (h : BreakNode.generate token s = .ok () s') : s'.ctx.breaked = true := by
  have hb : (BreakNode.generate token).SetsBreaked := by
    unfold BreakNode.generate
    apply Gen.SetsBreaked.bind_right
    intro st
    split
    · exact Gen.SetsBreaked.failWith _
    · apply Gen.SetsBreaked.bind_right
      intro _
      exact Gen.SetsBreaked.setBreaked
  exact hb.run s s' () h

/-- C20: in a block whose statements are `pre ++ stmt :: next :: rest`, where
`stmt` is a `return` or a `break`, the statements `pre` generate successfully from
the entry of the block, `stmt` is reached with neither flag set and generates
successfully: `BlockNode::generateStatements` fails, and the state it leaves is
the one `stmt` left with exactly one error appended,
`CanNotGiveInstructionAfterBreakOrReturn` at the token of `next`; so `next` was
not generated. -/
theorem C20_statement_after_return_or_break (pre rest : List StatementNode)
    (stmt next : StatementNode) (rightCurlyBracketToken : Token) (generatedBlock : Nat)
    (successorBlock : Option Nat) (s s1 s2 : State)
    (hkind : (∃ token returnToken value, stmt = .ReturnNode token returnToken value)
      ∨ (∃ token, stmt = .BreakNode token))
    (hpre : (do Generator.setInsertPoint (some generatedBlock)
                Context.addSymbolTable
                BlockNode.generateStatementList pre) s = .ok () s1)
    (hflags : s1.ctx.breaked = false ∧ s1.ctx.returned = false)
    (hstmt : stmt.generate s1 = .ok () s2) :
    BlockNode.generateStatements (.mk (pre ++ stmt :: next :: rest) rightCurlyBracketToken)
        generatedBlock successorBlock s =
      .fail { s2 with ctx := { s2.ctx with
        errors := s2.ctx.errors ++ [.CanNotGiveInstructionAfterBreakOrReturn next.getToken] } } := by
  have hb : s2.ctx.breaked = true := by
    rcases hkind with ⟨token, returnToken, value, rfl⟩ | ⟨token, rfl⟩
    · rw [StatementNode.generate] at hstmt
      exact ReturnNode.return_sets_breaked _ _ _ _ hstmt
    · rw [StatementNode.generate] at hstmt
      exact BreakNode.break_sets_breaked _ _ _ hstmt
  simp only [bind, Gen.bind, Generator.setInsertPoint, Context.addSymbolTable, modifyG,
    modifyCtx] at hpre
  rw [BlockNode.generateStatements]
  simp only [bind, Gen.bind, Generator.getCurrentBlock, Generator.setInsertPoint,
    Context.addSymbolTable, modifyG, modifyCtx]
  rw [BlockNode.generateStatementList_append]
  simp [BlockNode.generateStatementList, bind, Gen.bind, getState, hpre, hflags.1, hflags.2, hstmt,
    hb, failWith, Context.addCompileError, modifyCtx, returnTrue]

/-- C20 at the block `{ return true; return false; }` entered from `stateIntBool`,
and scenario S6: `fn main() i32 { while true { break; break; } return 0; }` is
rejected with `CanNotGiveInstructionAfterBreakOrReturn` at a `break`. -/
theorem C20_statement_after_return_or_break_witness :
    (do Generator.setInsertPoint (some 0)
        Context.addSymbolTable
        BlockNode.generateStatementList []) stateIntBool = .ok () stateBlockEntry
    ∧ (stateBlockEntry.ctx.breaked = false ∧ stateBlockEntry.ctx.returned = false)
    ∧ (stmtReturn (some exprTrue)).generate stateBlockEntry = .ok () stateAfterReturn
    ∧ BlockNode.generateStatements
        (.mk ([] ++ stmtReturn (some exprTrue) :: stmtReturn (some exprFalse) :: [])
          (Token.of .CURLY_BRACKET_RIGHT "\x7d")) 0 none stateIntBool =
      .fail { stateAfterReturn with ctx := { stateAfterReturn.ctx with
        errors := stateAfterReturn.ctx.errors ++
          [.CanNotGiveInstructionAfterBreakOrReturn (stmtReturn (some exprFalse)).getToken] } }
    ∧ ((compile programBreakBreak).failState?.map fun s => s.ctx.errors) =
      some [.CanNotGiveInstructionAfterBreakOrReturn (Token.of .BREAK "break")] :=
  ⟨rfl, ⟨rfl, rfl⟩, rfl,
    C20_statement_after_return_or_break [] [] (stmtReturn (some exprTrue))
      (stmtReturn (some exprFalse)) (Token.of .CURLY_BRACKET_RIGHT "\x7d") 0 none
      stateIntBool stateBlockEntry stateAfterReturn
      (Or.inl ⟨_, _, _, rfl⟩) rfl ⟨rfl, rfl⟩ rfl,
    by decide!⟩

/-! ## Theorems: conditions, returns and literals -/

/-- C22, evaluated at `fn f() { if 1 { } }` and at `if x { }` with `x : i32`: the
condition has type `const-int`, respectively `i32`, neither compatible with
`bool`, yet `IfNode::generate` succeeds with no error and emits a conditional
branch on the integer value. -/
theorem C22_if_on_integer_condition_accepted :
    ((compile programIfOne).okState?.map fun s =>
      (s.ctx.errors, s.debugLogs, s.g.blocks.map (·.insts))) =
      some ([], [], [[.condBr (some (.constantInt 64 1)) 2 1], [.ret none], [.br 1]])
    ∧ ((inFunction argsIntBool typeBool (stmtIf (exprVar "x") [] none).generate).okState?.map
      fun s => (s.ctx.errors, s.debugLogs, s.g.blocks.map (·.insts))) =
      some ([], [], [[.condBr (some (.argument 0 (.int 32))) 2 1], [], [.br 1]]) := by
  constructor <;> decide!

/-- C24, evaluated at `fn f() i32 { return; }`: the program compiles with no
error; the body of the `i32` function is a single `ret void`. -/
theorem C24_return_without_value_in_i32_function :
    ((compile programReturnNothing).okState?.map fun s =>
      (s.ctx.errors, s.debugLogs, s.g.blocks.map (·.insts))) = some ([], [], [[.ret none]]) := by
  decide!

/-- C25, evaluated at `fn f() i8* { return "a"; }`: the literal generates with
type `const-string`, and the return is rejected with `TypeMismatch` (expected
`i8*`, actual `const-string`) at the `return` token. -/
theorem C25_return_of_string_literal_rejected :
    ((compile programReturnString).failState?.map fun s => s.ctx.errors) =
      some [.TypeMismatchError (Token.of .RETURN "return")
        { basicType := .TYPE_I8, pointerCount := 1 } { basicType := .CONSTANT_STRING }]
    ∧ ((inFunction [] typeString
        (ConstantNode.generate (Token.of .CONSTANT_STRING "a"))).value?.map fun node =>
      node.valueType) = some { basicType := .CONSTANT_STRING } := by
  constructor <;> decide!

/-- C28, evaluated at the lexeme `9223372036854775808`: `toInt64` lets the
exception of `std::stoll` escape, so `ConstantNode::generate` neither returns nor
records an error; the lexeme `9223372036854775807` succeeds with type `const-int`
and that value. -/
theorem C28_literal_beyond_int64_throws :
    (inFunction [] typeVoid
      (ConstantNode.generate (Token.of .CONSTANT_INTEGER "9223372036854775808"))).isUndefined = true
    ∧ toInt64 "9223372036854775808" = .thrown
    ∧ ((inFunction [] typeVoid
        (ConstantNode.generate (Token.of .CONSTANT_INTEGER "9223372036854775807"))).value?.map
      fun node => (node.valueType.basicType, node.constantInteger)) =
      some (.CONSTANT_INTEGER, 9223372036854775807) := by
  refine ⟨?_, ?_, ?_⟩ <;> decide!

/-- C29, evaluated at scenario S4,
`fn main() i32 { let x = 1; let y f64 = 2; return 0; }`: `x` is declared with type
`i32`, and `let y f64 = 2;` fails with `TypeMismatch` (expected `f64`, actual
`const-int`) at the `let` token, so the function does not compile. -/
theorem C29_let_f64_from_integer_rejected_in_S4 :
    ((compile programLetFloatFromInt).failState?.map fun s =>
      (s.ctx.errors, s.ctx.symbolTables)) =
      some ([.TypeMismatchError (Token.of .LET "let") { basicType := .TYPE_F64 }
          { basicType := .CONSTANT_INTEGER }],
        [[], [⟨"x", { basicType := .TYPE_I32 }, some (.instruction 0 (.ptr (.int 32)))⟩]]) := by
  decide!

/-- C30: three classes return a name that is not the one of the taxonomy:
`TypeOrInitilizerMustBeSpecified`, `CanNodeGiveInstructionAfterBreakOrReturn` and
`InvalidReferenceTypeError`; for every other class `getErrorName` is the name of
the taxonomy, and it is the last tab-separated field that `printErrorMessage`
writes. -/
theorem C30_three_error_names_differ (t : Token) :
    (CompileError.TypeOrInitializerMustBeSpecifiedError t).getErrorName
        = "TypeOrInitilizerMustBeSpecified"
    ∧ (CompileError.CanNotGiveInstructionAfterBreakOrReturn t).getErrorName
        = "CanNodeGiveInstructionAfterBreakOrReturn"
    ∧ (CompileError.InvalidReferenceTypeError t).getErrorName = "InvalidReferenceTypeError"
    ∧ (∀ e : CompileError, e.getErrorName = e.specName ↔ e.isMisnamed = false)
    ∧ (CompileError.InvalidReferenceTypeError { filepath := "a.mahina", line := 3, column := 7 }
        ).printErrorMessage = "a.mahina\t3\t7\tInvalidReferenceTypeError" := by
  refine ⟨rfl, rfl, rfl, ?_, by decide⟩
  intro e
  cases e <;> simp [CompileError.getErrorName, CompileError.specName, CompileError.isMisnamed]

/-! ## Theorems: the symbol tables -/

/-- Searching the scopes from the last one back, each from its last entry back,
finds nothing exactly when no entry of any scope satisfies the test. -/
theorem List.find?_flatten_reverse_eq_none {α : Type} (p : α → Bool) (tables : List (List α)) :
    ((tables.reverse.map List.reverse).flatten.find? p = none)
      ↔ ∀ table ∈ tables, ∀ x ∈ table, p x = false := by
  simp only [List.find?_eq_none, List.mem_flatten, List.mem_map, List.mem_reverse]
  constructor
  · intro h table ht x hx
    have := h x ⟨table.reverse, ⟨table, ht, rfl⟩, by simpa using hx⟩
    simpa using this
  · rintro h x ⟨l, ⟨table, ht, rfl⟩, hx⟩
    have := h table ht x (by simpa using hx)
    simp [this]

/-- Method `getSymbol` returns the entry after which its scope holds no entry of
that name, provided no scope further in holds one. -/
theorem Context.getSymbol_of_split (ctx : Context) (name : String)
    (outer inner : List (List Symbol)) (before after : List Symbol) (symbol : Symbol)
    (htables : ctx.symbolTables = outer ++ (before ++ symbol :: after) :: inner)
    (hname : symbol.name = name)
    (hafter : ∀ x ∈ after, x.name ≠ name)
    (hinner : ∀ table ∈ inner, ∀ x ∈ table, x.name ≠ name) :
    ctx.getSymbol name = some symbol := by
  unfold Context.getSymbol
  rw [htables]
  simp only [List.reverse_append, List.reverse_cons, List.map_append, List.map_cons,
    List.map_nil, List.flatten_append, List.flatten_cons, List.flatten_nil, List.append_nil,
    List.reverse_reverse, List.append_assoc, List.singleton_append, List.find?_append]
  have h1 : List.find? (fun s => decide (name = s.name)) (inner.reverse.map List.reverse).flatten
      = none := by
    rw [List.find?_flatten_reverse_eq_none]
    intro table ht x hx
    simpa using fun h => hinner table ht x hx h.symm
  have h2 : List.find? (fun s => decide (name = s.name)) after.reverse = none := by
    rw [List.find?_eq_none]
    intro x hx
    simpa using fun h => hafter x (by simpa using hx) h.symm
  rw [h1, h2]
  simp [hname]

/-- C26: `Context::getSymbol` reports not-found exactly when no scope holds an
entry of that name; it returns the entry `symbol` of that name when the scopes
further in hold none and the entries added after `symbol` to its scope are of
other names (innermost scope first, most recent entry first); and right after a
successful `addSymbol(name, type, value)` it returns `(type, value)`. -/
theorem C26_getSymbol_innermost_most_recent (ctx : Context) (name : String) :
    (ctx.getSymbol name = none ↔ ∀ table ∈ ctx.symbolTables, ∀ x ∈ table, x.name ≠ name)
    ∧ (∀ (outer inner : List (List Symbol)) (before after : List Symbol) (symbol : Symbol),
        ctx.symbolTables = outer ++ (before ++ symbol :: after) :: inner →
        symbol.name = name →
        (∀ x ∈ after, x.name ≠ name) →
        (∀ table ∈ inner, ∀ x ∈ table, x.name ≠ name) →
        ctx.getSymbol name = some symbol)
    ∧ (∀ (g : Generator) (logs : List DebugLog) (type : ValueType) (value : Option Value)
        (s' : State),
        Context.addSymbol name type value { g := g, ctx := ctx, debugLogs := logs } = .ok () s' →
        s'.ctx.getSymbol name = some ⟨name, type, value⟩) := by
  refine ⟨?_, ?_, ?_⟩
  · unfold Context.getSymbol
    rw [List.find?_flatten_reverse_eq_none]
    constructor
    · intro h table ht x hx hn
      have := h table ht x hx
      simp [hn] at this
    · intro h table ht x hx
      simpa using fun hn => h table ht x hx hn.symm
  · intro outer inner before after symbol htables hname hafter hinner
    exact Context.getSymbol_of_split ctx name outer inner before after symbol htables hname
      hafter hinner
  · intro g logs type value s' h
    unfold Context.addSymbol at h
    obtain ⟨st, s1, hst, h⟩ := Gen.bind_eq_ok h
    cases hst
    cases hlast : ctx.symbolTables.getLast? with
    | none =>
      simp only [hlast] at h
      obtain ⟨u, s2, -, h⟩ := Gen.bind_eq_ok h
      cases h
    | some table =>
      simp only [hlast] at h
      cases h
      exact Context.getSymbol_of_split _ name ctx.symbolTables.dropLast [] table []
        ⟨name, type, value⟩ rfl rfl (by simp) (by simp)

/-- C26 on a context with `x` bound in the outer scope and twice in the inner
one: `getSymbol` returns the later inner binding of `x`, the outer binding of
`y`, and after `addSymbol(y, i64, null)` the new binding of `y`. -/
theorem C26_getSymbol_innermost_most_recent_witness :
    contextShadowing.getSymbol "x"
        = some ⟨"x", { basicType := .TYPE_F64 }, some (.instruction 1 (.ptr .double))⟩
    ∧ contextShadowing.getSymbol "y"
        = some ⟨"y", { basicType := .TYPE_BOOL }, some (.argument 1 (.int 1))⟩
    ∧ (contextShadowing.getSymbol "w" = none
        ↔ ∀ table ∈ contextShadowing.symbolTables, ∀ x ∈ table, x.name ≠ "w")
    ∧ ((Context.addSymbol "y" { basicType := .TYPE_I64 } none
          { g := {}, ctx := contextShadowing, debugLogs := [] }).okState?.bind
        fun s => s.ctx.getSymbol "y") = some ⟨"y", { basicType := .TYPE_I64 }, none⟩ :=
  ⟨(C26_getSymbol_innermost_most_recent contextShadowing "x").2.1
      [[⟨"x", { basicType := .TYPE_I32 }, some (.argument 0 (.int 32))⟩,
        ⟨"y", { basicType := .TYPE_BOOL }, some (.argument 1 (.int 1))⟩]] []
      [⟨"x", { basicType := .TYPE_I8 }, some (.instruction 0 (.ptr (.int 8)))⟩]
      [⟨"z", { basicType := .TYPE_BOOL }, some (.instruction 2 (.ptr (.int 1)))⟩]
      ⟨"x", { basicType := .TYPE_F64 }, some (.instruction 1 (.ptr .double))⟩
      rfl rfl (by decide) (by simp),
    (C26_getSymbol_innermost_most_recent contextShadowing "y").2.1
      [] [[⟨"x", { basicType := .TYPE_I8 }, some (.instruction 0 (.ptr (.int 8)))⟩,
        ⟨"x", { basicType := .TYPE_F64 }, some (.instruction 1 (.ptr .double))⟩,
        ⟨"z", { basicType := .TYPE_BOOL }, some (.instruction 2 (.ptr (.int 1)))⟩]]
      [⟨"x", { basicType := .TYPE_I32 }, some (.argument 0 (.int 32))⟩] []
      ⟨"y", { basicType := .TYPE_BOOL }, some (.argument 1 (.int 1))⟩
      rfl rfl (by simp) (by decide),
    (C26_getSymbol_innermost_most_recent contextShadowing "w").1,
    by decide⟩

/-- A sequence of `addSymbol` calls appends its entries to the innermost scope. -/
theorem Context.addSymbols_in_new_scope (symbols : List Symbol) :
    ∀ (s : State) (tables : List (List Symbol)) (table : List Symbol),
      s.ctx.symbolTables = tables ++ [table] →
      Context.addSymbols symbols s =
        .ok () { s with ctx := { s.ctx with symbolTables := tables ++ [table ++ symbols] } } := by
  induction symbols with
  | nil =>
    intro s tables table h
    rw [Context.addSymbols]
    simp only [List.append_nil, ← h]
    rfl
  | cons symbol rest ih =>
    intro s tables table h
    have hlast : s.ctx.symbolTables.getLast? = some table := by rw [h]; simp
    have hdrop : s.ctx.symbolTables.dropLast = tables := by rw [h]; simp
    rw [Context.addSymbols]
    simp only [bind, Gen.bind, Context.addSymbol, getState, hlast, modifyCtx]
    rw [ih _ tables (table ++ [symbol]) (by simp [hdrop])]
    simp

/-- C27: `addSymbolTable`, then any sequence of `addSymbol` calls, then
`removeSymbolTable` returns `false` and leaves the state, hence the stack of
scopes and every `getSymbol` answer, as it was; `removeSymbolTable` returns `true`
exactly when the stack is empty, and then the Context is unchanged. -/
theorem C27_scope_push_add_pop (s : State) (symbols : List Symbol) :
    (do Context.addSymbolTable
        Context.addSymbols symbols
        Context.removeSymbolTable) s = .ok () s
    ∧ ((∃ s', Context.removeSymbolTable s = .fail s') ↔ s.ctx.symbolTables = [])
    ∧ (∀ s', Context.removeSymbolTable s = .fail s' → s'.ctx = s.ctx) := by
  refine ⟨?_, ?_, ?_⟩
  · simp only [bind, Gen.bind, Context.addSymbolTable, modifyCtx]
    rw [Context.addSymbols_in_new_scope symbols _ s.ctx.symbolTables [] rfl]
    simp [Context.removeSymbolTable, bind, Gen.bind, getState, modifyCtx]
  · cases h : s.ctx.symbolTables with
    | nil => simp [Context.removeSymbolTable, bind, Gen.bind, getState, h, debugLog, returnTrue]
    | cons t ts => simp [Context.removeSymbolTable, bind, Gen.bind, getState, h, modifyCtx]
  · intro s' h
    cases hs : s.ctx.symbolTables with
    | nil =>
      simp [Context.removeSymbolTable, bind, Gen.bind, getState, hs, debugLog, returnTrue] at h
      rw [← h]
    | cons t ts =>
      simp [Context.removeSymbolTable, bind, Gen.bind, getState, hs, modifyCtx] at h

/-- C27 at `stateIntBool` with two symbols added in the new scope, and at the
empty stack, where `removeSymbolTable` returns `true`. -/
theorem C27_scope_push_add_pop_witness :
    (do Context.addSymbolTable
        Context.addSymbols
          [⟨"a", { basicType := .TYPE_I32 }, none⟩, ⟨"x", { basicType := .TYPE_BOOL }, none⟩]
        Context.removeSymbolTable) stateIntBool = .ok () stateIntBool
    ∧ ∃ s', Context.removeSymbolTable {} = .fail s' :=
  ⟨(C27_scope_push_add_pop stateIntBool _).1, (C27_scope_push_add_pop {} []).2.1.2 rfl⟩

/-! ## Theorems: `let` with an explicit floating-point type -/

/-- Type `f64` is not compatible with a scalar `const-int`. -/
theorem ValueType.f64_not_compatible_with_const_int (t : ValueType)
    (ht : ValueType.isScalarConstInt t) :
    ValueType.isCompatible { basicType := .TYPE_F64 } t = false := by
  obtain ⟨t1, t2, t3, t4⟩ := ht
  simp [ValueType.isCompatible, ValueType.eq, t1, t2, t3, t4, Token.isIntegerType,
    Token.isSignedIntegerType, Token.isUnsignedIntegerType, Token.isFloatingPointType,
    Token.isBool, ValueType.isString, TokenType.ord]

/-- Method `TypeNode::generate` on the type `f64`. -/
theorem TypeNode.generate_typeF64 (s : State) :
    typeF64.generate s =
      .ok (.mk (Token.of .TYPE_F64 "f64") { basicType := .TYPE_F64 } (some .double) []) s := by
  unfold typeF64 TypeNode.parsed
  rw [TypeNode.generate]
  simp [TypeNode.generateArraySizes, bind, Gen.bind, Gen.orLog, Gen.orLogG, pure,
    Generator.createType, Generator.getType, Generator.wrapArrays, wrapPointers]

/-- The compatibility check of `LetNode::generate` for the type `f64` and a
scalar `const-int` initializer records `TypeMismatch`. -/
theorem LetNode.initialValueFor_f64_const_int (token : Token) (r : ExprResult) (line : Nat)
    (s : State) (ht : ValueType.isScalarConstInt r.valueType) :
    LetNode.initialValueFor token { basicType := .TYPE_F64 } (some r) line s =
      .fail { s with ctx := { s.ctx with errors := s.ctx.errors ++
        [.TypeMismatchError token { basicType := .TYPE_F64 } r.valueType] } } := by
  simp [LetNode.initialValueFor, ValueType.f64_not_compatible_with_const_int _ ht, failWith, bind,
    Gen.bind, Context.addCompileError, modifyCtx, returnTrue]

/-- C29, as the code has it: a `let` with explicit type `f64` whose initializer
generates successfully with scalar type `const-int` is never accepted; on the
stack (`isHeap = false`), once the `alloca` is emitted, `LetNode::generate` fails
having appended exactly `TypeMismatch` (expected `f64`, actual `const-int`) at the
`let` token. -/
theorem C29_let_f64_from_integer_rejected (token name : Token) (isHeap : Bool)
    (e : ExpressionNode) (s s1 : State) (r : ExprResult)
    (he : e.generate s = .ok r s1)
    (ht : ValueType.isScalarConstInt r.valueType) :
    (∀ s', LetNode.generate token name (some typeF64) isHeap (some e) s ≠ .ok () s')
    ∧ (isHeap = false → ∀ (ptr : Value) (s2 : State),
        Generator.createAlloc .double s1 = .ok ptr s2 →
        LetNode.generate token name (some typeF64) isHeap (some e) s =
          .fail { s2 with ctx := { s2.ctx with errors := s2.ctx.errors ++
            [.TypeMismatchError token { basicType := .TYPE_F64 } r.valueType] } }) := by
  have hgen : LetNode.generate token name (some typeF64) isHeap (some e) s =
      LetNode.generateRest token name (some typeF64) isHeap (some r) s1 := by
    simp [LetNode.generate, bind, Gen.bind, Gen.orLog, he, Functor.map, pure]
  rw [hgen]
  constructor
  · intro s' h
    unfold LetNode.generateRest at h
    obtain ⟨type, s2, h1, h⟩ := Gen.bind_eq_ok h
    cases h1
    obtain ⟨typeNode, s3, h1, h⟩ := Gen.bind_eq_ok h
    cases h1
    obtain ⟨typeNode', s4, h1, h⟩ := Gen.bind_eq_ok h
    have h1 := Gen.orLog_eq_ok h1
    rw [TypeNode.generate_typeF64] at h1
    cases h1
    obtain ⟨generatedType, s5, h1, h⟩ := Gen.bind_eq_ok h
    cases h1
    obtain ⟨generatedPtr, s6, -, h⟩ := Gen.bind_eq_ok h
    dsimp only at h
    cases isHeap with
    | true =>
      simp only [if_true] at h
      obtain ⟨ptr1, s8, -, h⟩ := Gen.bind_eq_ok h
      obtain ⟨ptr2, s9, -, h⟩ := Gen.bind_eq_ok h
      obtain ⟨u2, s10, -, h⟩ := Gen.bind_eq_ok h
      obtain ⟨value, s11, h2, -⟩ := Gen.bind_eq_ok h
      simp only [TypeNode.getValueType] at h2
      rw [LetNode.initialValueFor_f64_const_int _ _ _ _ ht] at h2
      cases h2
    | false =>
      simp only [Bool.false_eq_true, if_false] at h
      obtain ⟨value, s11, h2, -⟩ := Gen.bind_eq_ok h
      simp only [TypeNode.getValueType] at h2
      rw [LetNode.initialValueFor_f64_const_int _ _ _ _ ht] at h2
      cases h2
  · intro hheap ptr s2 halloc
    subst hheap
    unfold LetNode.generateRest
    simp [bind, Gen.bind, Gen.orLog, pure, nonNull, TypeNode.generate_typeF64,
      TypeNode.getGeneratedType, TypeNode.getValueType, halloc,
      LetNode.initialValueFor_f64_const_int _ _ _ _ ht]

/-- C29 at `let y f64 = 2;` in a block entered from `stateIntBool`. -/
theorem C29_let_f64_from_integer_rejected_witness :
    (exprInt "2").generate stateBlockEntry =
        .ok { token := Token.of .CONSTANT_INTEGER "2"
              generatedValue := some (.constantInt 64 2)
              valueType := { basicType := .CONSTANT_INTEGER }
              constantInteger := 2 } stateBlockEntry
    ∧ ValueType.isScalarConstInt { basicType := .CONSTANT_INTEGER }
    ∧ Generator.createAlloc .double stateBlockEntry =
        .ok (.instruction 0 (.ptr .double)) stateAfterAllocaDouble
    ∧ LetNode.generate (Token.of .LET "let") (Token.of .SYMBOL "y") (some typeF64) false
        (some (exprInt "2")) stateBlockEntry =
      .fail { stateAfterAllocaDouble with ctx := { stateAfterAllocaDouble.ctx with
        errors := stateAfterAllocaDouble.ctx.errors ++
          [.TypeMismatchError (Token.of .LET "let") { basicType := .TYPE_F64 }
            { basicType := .CONSTANT_INTEGER }] } } :=
  ⟨rfl, ⟨rfl, rfl, rfl, rfl⟩, rfl,
    (C29_let_f64_from_integer_rejected (Token.of .LET "let") (Token.of .SYMBOL "y") false
      (exprInt "2") stateBlockEntry stateBlockEntry _ rfl ⟨rfl, rfl, rfl, rfl⟩).2 rfl
      (.instruction 0 (.ptr .double)) stateAfterAllocaDouble rfl⟩

/-! ## Theorems: what a call leaves unchanged -/

@[instance] theorem Gen.Keeps.of_pure {α β : Type} (f : Context → β) (a : α) :
    Gen.Keeps f (pure a : Gen α) :=
  ⟨fun s s' b h => by cases h; rfl⟩

/-- A sequence keeps what both of its parts keep. -/
theorem Gen.Keeps.of_bind {α β γ : Type} {f : Context → γ} {m : Gen α} {g : α → Gen β}
    (h1 : Gen.Keeps f m) (h2 : ∀ a, Gen.Keeps f (g a)) : Gen.Keeps f (m >>= g) := by
  constructor
  intro s s' b h
  obtain ⟨a, s1, hm, hg⟩ := Gen.bind_eq_ok h
  rw [(h2 a).run s1 s' b hg, h1.run s s1 a hm]

/-- A conditional keeps what both of its branches keep. -/
theorem Gen.Keeps.of_ite {α β : Type} {f : Context → β} {c : Prop} [Decidable c]
    {a b : Gen α} (ha : Gen.Keeps f a) (hb : Gen.Keeps f b) :
    Gen.Keeps f (if c then a else b) := by
  split
  · exact ha
  · exact hb

/-- Mapping the result of a call keeps what the call keeps. -/
theorem Gen.Keeps.of_map {α β γ : Type} {f : Context → γ} {m : Gen α} (g : α → β)
    (h : Gen.Keeps f m) : Gen.Keeps f (g <$> m) :=
  Gen.Keeps.of_bind h fun a => Gen.Keeps.of_pure f (g a)

/-- Logging the failure of a call in `Node.cpp` keeps what the call keeps. -/
theorem Gen.Keeps.of_orLog {α γ : Type} {f : Context → γ} {m : Gen α} (line : Nat)
    (h : Gen.Keeps f m) : Gen.Keeps f (m.orLog line) :=
  ⟨fun s s' a hm => h.run s s' a (Gen.orLog_eq_ok hm)⟩

/-- Logging the failure of a call in `Generator.cpp` keeps what the call keeps. -/
theorem Gen.Keeps.of_orLogG {α γ : Type} {f : Context → γ} {m : Gen α} (line : Nat)
    (h : Gen.Keeps f m) : Gen.Keeps f (m.orLogG line) := by
  constructor
  intro s s' a hm
  unfold Gen.orLogG at hm
  cases hr : m s with
  | ok b s1 => rw [hr] at hm; cases hm; exact h.run s s' a hr
  | fail s1 => rw [hr] at hm; cases hm
  | undefined => rw [hr] at hm; cases hm

/-- A sequence keeps what both of its parts keep (for instance search). -/
@[instance] theorem Gen.Keeps.bind_instance {α β γ : Type} {f : Context → γ} {m : Gen α}
    {g : α → Gen β} [h1 : Gen.Keeps f m] [h2 : ∀ a, Gen.Keeps f (g a)] :
    Gen.Keeps f (m >>= g) :=
  Gen.Keeps.of_bind h1 h2

/-- A conditional keeps what both of its branches keep (for instance search). -/
@[instance] theorem Gen.Keeps.ite_instance {α β : Type} {f : Context → β} {c : Prop}
    [Decidable c] {a b : Gen α} [ha : Gen.Keeps f a] [hb : Gen.Keeps f b] :
    Gen.Keeps f (if c then a else b) :=
  Gen.Keeps.of_ite ha hb

/-- Mapping the result of a call keeps what the call keeps (for instance search). -/
@[instance] theorem Gen.Keeps.map_instance {α β γ : Type} {f : Context → γ} {m : Gen α}
    (g : α → β) [h : Gen.Keeps f m] : Gen.Keeps f (g <$> m) :=
  Gen.Keeps.of_map g h

/-- Logging a failure in `Node.cpp` keeps what the call keeps (for instance search). -/
@[instance] theorem Gen.Keeps.orLog_instance {α γ : Type} {f : Context → γ} {m : Gen α}
    (line : Nat) [h : Gen.Keeps f m] : Gen.Keeps f (m.orLog line) :=
  Gen.Keeps.of_orLog line h

/-- Logging a failure in `Generator.cpp` keeps what the call keeps (for instance search). -/
@[instance] theorem Gen.Keeps.orLogG_instance {α γ : Type} {f : Context → γ} {m : Gen α}
    (line : Nat) [h : Gen.Keeps f m] : Gen.Keeps f (m.orLogG line) :=
  Gen.Keeps.of_orLogG line h

/-- A call that leaves the whole Context unchanged keeps every observation of it. -/
theorem Gen.Keeps.of_state {α β : Type} {m : Gen α} {f : Context → β}
    (h : ∀ (s s' : State) (a : α), m s = .ok a s' → s'.ctx = s.ctx) : Gen.Keeps f m :=
  ⟨fun s s' a hm => by rw [h s s' a hm]⟩

/-- A call that keeps the Context itself keeps every observation of it. -/
theorem Gen.Keeps.of_context {α β : Type} {m : Gen α} (f : Context → β)
    (h : Gen.Keeps (fun c => c) m) : Gen.Keeps f m :=
  ⟨fun s s' a hm => by rw [h.run s s' a hm]⟩

/-- A call that returns `true` keeps every observation: it never returns `false`. -/
@[instance] theorem Gen.Keeps.of_returnTrue {α β : Type} (f : Context → β) :
    Gen.Keeps f (returnTrue : Gen α) :=
  ⟨fun s s' a h => by cases h⟩

/-- Undefined behaviour keeps every observation: it never returns `false`. -/
@[instance] theorem Gen.Keeps.of_undefinedBehaviour {α β : Type} (f : Context → β) :
    Gen.Keeps f (undefinedBehaviour : Gen α) :=
  ⟨fun s s' a h => by cases h⟩

/-- Reading the state keeps every observation. -/
@[instance] theorem Gen.Keeps.of_getState {β : Type} (f : Context → β) : Gen.Keeps f getState :=
  ⟨fun s s' a h => by cases h; rfl⟩

/-- An update of the `Generator` keeps every observation of the Context. -/
@[instance] theorem Gen.Keeps.of_modifyG {β : Type} (f : Context → β) (g : Generator → Generator) :
    Gen.Keeps f (modifyG g) :=
  ⟨fun s s' a h => by cases h; rfl⟩

/-- An update of the Context keeps the observations it does not change. -/
theorem Gen.Keeps.of_modifyCtx {β : Type} (f : Context → β) (g : Context → Context)
    (hg : ∀ c, f (g c) = f c) : Gen.Keeps f (modifyCtx g) :=
  ⟨fun s s' a h => by cases h; exact hg s.ctx⟩

/-- A `debugLog` of `Node.cpp` keeps every observation of the Context. -/
@[instance] theorem Gen.Keeps.of_debugLog {β : Type} (f : Context → β) (line : Nat) :
    Gen.Keeps f (debugLog line) :=
  ⟨fun s s' a h => by cases h; rfl⟩

/-- A `debugLog` of `Generator.cpp` keeps every observation of the Context. -/
@[instance] theorem Gen.Keeps.of_generatorDebugLog {β : Type} (f : Context → β) (line : Nat) :
    Gen.Keeps f (Generator.debugLog line) :=
  ⟨fun s s' a h => by cases h; rfl⟩

/-- A call that records an error and returns `true` keeps every observation. -/
@[instance] theorem Gen.Keeps.of_failWith {α β : Type} (f : Context → β) (e : CompileError) :
    Gen.Keeps f (failWith e : Gen α) := by
  constructor
  intro s s' a h
  unfold Mahina.failWith at h
  obtain ⟨u, s1, -, h⟩ := Gen.bind_eq_ok h
  cases h

/-- Dereferencing a pointer keeps every observation of the Context. -/
@[instance] theorem Gen.Keeps.of_nonNull {α β : Type} (f : Context → β) (o : Option α) :
    Gen.Keeps f (nonNull o) := by
  cases o
  · exact Gen.Keeps.of_undefinedBehaviour f
  · exact Gen.Keeps.of_pure f _

/-- A literal conversion keeps every observation of the Context. -/
@[instance] theorem Gen.Keeps.of_toGen {α β : Type} (f : Context → β) (c : Conv α) :
    Gen.Keeps f c.toGen := by
  cases c
  · exact Gen.Keeps.of_pure f _
  · exact Gen.Keeps.of_returnTrue f
  · exact Gen.Keeps.of_undefinedBehaviour f

/-- Emitting an instruction that yields a value keeps every observation of the Context. -/
@[instance] theorem Gen.Keeps.of_emit {β : Type} (f : Context → β) (i : Instr) (t : IRType) :
    Gen.Keeps f (Generator.emit i t) :=
  ⟨fun s s' a h => by cases h; rfl⟩

/-- Emitting an instruction keeps every observation of the Context. -/
@[instance] theorem Gen.Keeps.of_emitVoid {β : Type} (f : Context → β) (i : Instr) :
    Gen.Keeps f (Generator.emitVoid i) :=
  ⟨fun s s' a h => by cases h; rfl⟩

/-- A successful `Generator::getCurrentBlock` leaves the Context as it found it. -/
@[instance] theorem keeps_Generator_getCurrentBlock {β : Type} (f : Context → β) :
    Gen.Keeps f (Generator.getCurrentBlock) := by
  apply Gen.Keeps.of_state
  intro s s' a h
  unfold Generator.getCurrentBlock at h
  repeat' split at h
  all_goals first
    | (cases h; rfl)
    | cases h

/-- A successful `Generator::getCurrentReturnType` leaves the Context as it found it. -/
@[instance] theorem keeps_Generator_getCurrentReturnType {β : Type} (f : Context → β) :
    Gen.Keeps f (Generator.getCurrentReturnType) := by
  apply Gen.Keeps.of_state
  intro s s' a h
  unfold Generator.getCurrentReturnType at h
  repeat' split at h
  all_goals first
    | (cases h; rfl)
    | cases h

/-- A successful `Generator::setInsertPoint` leaves the Context as it found it. -/
@[instance] theorem keeps_Generator_setInsertPoint {β : Type} (f : Context → β) (b : Option Nat) :
    Gen.Keeps f (Generator.setInsertPoint b) := by
  unfold Generator.setInsertPoint
  repeat' first
    | infer_instance
    | dsimp only
    | apply Gen.Keeps.of_ite
    | apply Gen.Keeps.of_map
    | apply Gen.Keeps.of_bind
    | apply Gen.Keeps.of_orLog
    | apply Gen.Keeps.of_orLogG
    | intro _
    | split

/-- A successful `Generator::setCurrentReturnType` leaves the Context as it found it. -/
@[instance] theorem keeps_Generator_setCurrentReturnType {β : Type} (f : Context → β) (t : ValueType) :
    Gen.Keeps f (Generator.setCurrentReturnType t) := by
  unfold Generator.setCurrentReturnType
  repeat' first
    | infer_instance
    | dsimp only
    | apply Gen.Keeps.of_ite
    | apply Gen.Keeps.of_map
    | apply Gen.Keeps.of_bind
    | apply Gen.Keeps.of_orLog
    | apply Gen.Keeps.of_orLogG
    | intro _
    | split

/-- A successful `Generator::insertFunction` leaves the Context as it found it. -/
@[instance] theorem keeps_Generator_insertFunction {β : Type} (f : Context → β) :
    Gen.Keeps f (Generator.insertFunction) := by
  apply Gen.Keeps.of_state
  intro s s' a h
  unfold Generator.insertFunction at h
  repeat' split at h
  all_goals first
    | (cases h; rfl)
    | cases h

/-- A successful `Generator::getArgument` leaves the Context as it found it. -/
@[instance] theorem keeps_Generator_getArgument {β : Type} (f : Context → β) (index : Nat) :
    Gen.Keeps f (Generator.getArgument index) := by
  apply Gen.Keeps.of_state
  intro s s' a h
  unfold Generator.getArgument at h
  repeat' split at h
  all_goals first
    | (cases h; rfl)
    | cases h

/-- A successful `Generator::getType` leaves the Context as it found it. -/
@[instance] theorem keeps_Generator_getType {β : Type} (f : Context → β) (t : TokenType) :
    Gen.Keeps f (Generator.getType t) := by
  unfold Generator.getType
  repeat' first
    | infer_instance
    | dsimp only
    | apply Gen.Keeps.of_ite
    | apply Gen.Keeps.of_map
    | apply Gen.Keeps.of_bind
    | apply Gen.Keeps.of_orLog
    | apply Gen.Keeps.of_orLogG
    | intro _
    | split

/-- A successful `Generator::createReferenceType` leaves the Context as it found it. -/
@[instance] theorem keeps_Generator_createReferenceType {β : Type} (f : Context → β) (t : TokenType) :
    Gen.Keeps f (Generator.createReferenceType t) := by
  apply Gen.Keeps.of_state
  intro s s' a h
  unfold Generator.createReferenceType at h
  repeat' split at h
  all_goals first
    | (cases h; rfl)
    | cases h

/-- A successful `Generator::wrapArrays` leaves the Context as it found it. -/
@[instance] theorem keeps_Generator_wrapArrays {β : Type} (f : Context → β) (sizes : List Nat) :
    ∀ t : IRType, Gen.Keeps f (Generator.wrapArrays sizes t) := by
  induction sizes with
  | nil => intro t; rw [Generator.wrapArrays]; infer_instance
  | cons size rest ih =>
    intro t
    rw [Generator.wrapArrays]
    split
    · exact ih _
    · infer_instance

/-- A successful `Generator::createType` leaves the Context as it found it. -/
@[instance] theorem keeps_Generator_createType {β : Type} (f : Context → β) (t : ValueType) :
    Gen.Keeps f (Generator.createType t) := by
  unfold Generator.createType
  repeat' first
    | infer_instance
    | dsimp only
    | apply Gen.Keeps.of_ite
    | apply Gen.Keeps.of_map
    | apply Gen.Keeps.of_bind
    | apply Gen.Keeps.of_orLog
    | apply Gen.Keeps.of_orLogG
    | intro _
    | split

/-- A successful `Generator::createBasicBlock` leaves the Context as it found it. -/
@[instance] theorem keeps_Generator_createBasicBlock {β : Type} (f : Context → β)
    (function : Option Nat) (insertBefore : Option Nat) :
    Gen.Keeps f (Generator.createBasicBlock function insertBefore) := by
  unfold Generator.createBasicBlock
  dsimp only
  split
  all_goals
    apply Gen.Keeps.of_bind
    · infer_instance
    intro parent
    apply Gen.Keeps.of_state
    intro s s' a h
    repeat' split at h
    all_goals first
      | (cases h; rfl)
      | cases h

/-- A successful `Generator::createIf` leaves the Context as it found it. -/
@[instance] theorem keeps_Generator_createIf {β : Type} (f : Context → β) (c : Option Value) (a b : Nat) :
    Gen.Keeps f (Generator.createIf c a b) := by
  unfold Generator.createIf
  repeat' first
    | infer_instance
    | dsimp only
    | apply Gen.Keeps.of_ite
    | apply Gen.Keeps.of_map
    | apply Gen.Keeps.of_bind
    | apply Gen.Keeps.of_orLog
    | apply Gen.Keeps.of_orLogG
    | intro _
    | split

/-- A successful `Generator::createGoto` leaves the Context as it found it. -/
@[instance] theorem keeps_Generator_createGoto {β : Type} (f : Context → β) (dest : Nat) :
    Gen.Keeps f (Generator.createGoto dest) := by
  unfold Generator.createGoto
  repeat' first
    | infer_instance
    | dsimp only
    | apply Gen.Keeps.of_ite
    | apply Gen.Keeps.of_map
    | apply Gen.Keeps.of_bind
    | apply Gen.Keeps.of_orLog
    | apply Gen.Keeps.of_orLogG
    | intro _
    | split

/-- A successful `Generator::createReturnVoid` leaves the Context as it found it. -/
@[instance] theorem keeps_Generator_createReturnVoid {β : Type} (f : Context → β) :
    Gen.Keeps f (Generator.createReturnVoid) := by
  unfold Generator.createReturnVoid
  repeat' first
    | infer_instance
    | dsimp only
    | apply Gen.Keeps.of_ite
    | apply Gen.Keeps.of_map
    | apply Gen.Keeps.of_bind
    | apply Gen.Keeps.of_orLog
    | apply Gen.Keeps.of_orLogG
    | intro _
    | split

/-- A successful `Generator::createReturn` leaves the Context as it found it. -/
@[instance] theorem keeps_Generator_createReturn {β : Type} (f : Context → β) (v : Option Value) :
    Gen.Keeps f (Generator.createReturn v) := by
  unfold Generator.createReturn
  repeat' first
    | infer_instance
    | dsimp only
    | apply Gen.Keeps.of_ite
    | apply Gen.Keeps.of_map
    | apply Gen.Keeps.of_bind
    | apply Gen.Keeps.of_orLog
    | apply Gen.Keeps.of_orLogG
    | intro _
    | split

/-- A successful `Generator::createNegate` leaves the Context as it found it. -/
@[instance] theorem keeps_Generator_createNegate {β : Type} (f : Context → β) (t : TokenType) (v : Option Value) :
    Gen.Keeps f (Generator.createNegate t v) := by
  unfold Generator.createNegate
  repeat' first
    | infer_instance
    | dsimp only
    | apply Gen.Keeps.of_ite
    | apply Gen.Keeps.of_map
    | apply Gen.Keeps.of_bind
    | apply Gen.Keeps.of_orLog
    | apply Gen.Keeps.of_orLogG
    | intro _
    | split

/-- A successful `Generator::createBinary` leaves the Context as it found it. -/
@[instance] theorem keeps_Generator_createBinary {β : Type} (f : Context → β) (op : BinaryOps) (l r : Option Value) :
    Gen.Keeps f (Generator.createBinary op l r) := by
  unfold Generator.createBinary
  repeat' first
    | infer_instance
    | dsimp only
    | apply Gen.Keeps.of_ite
    | apply Gen.Keeps.of_map
    | apply Gen.Keeps.of_bind
    | apply Gen.Keeps.of_orLog
    | apply Gen.Keeps.of_orLogG
    | intro _
    | split

/-- A successful `Generator::createCmp` leaves the Context as it found it. -/
@[instance] theorem keeps_Generator_createCmp {β : Type} (f : Context → β) (p : Predicate) (l r : Option Value) :
    Gen.Keeps f (Generator.createCmp p l r) := by
  unfold Generator.createCmp
  repeat' first
    | infer_instance
    | dsimp only
    | apply Gen.Keeps.of_ite
    | apply Gen.Keeps.of_map
    | apply Gen.Keeps.of_bind
    | apply Gen.Keeps.of_orLog
    | apply Gen.Keeps.of_orLogG
    | intro _
    | split

/-- A successful `Generator::createAdd` leaves the Context as it found it. -/
@[instance] theorem keeps_Generator_createAdd {β : Type} (f : Context → β) (t : TokenType) (l r : Option Value) :
    Gen.Keeps f (Generator.createAdd t l r) := by
  unfold Generator.createAdd
  repeat' first
    | infer_instance
    | dsimp only
    | apply Gen.Keeps.of_ite
    | apply Gen.Keeps.of_map
    | apply Gen.Keeps.of_bind
    | apply Gen.Keeps.of_orLog
    | apply Gen.Keeps.of_orLogG
    | intro _
    | split

/-- A successful `Generator::createSub` leaves the Context as it found it. -/
@[instance] theorem keeps_Generator_createSub {β : Type} (f : Context → β) (t : TokenType) (l r : Option Value) :
    Gen.Keeps f (Generator.createSub t l r) := by
  unfold Generator.createSub
  repeat' first
    | infer_instance
    | dsimp only
    | apply Gen.Keeps.of_ite
    | apply Gen.Keeps.of_map
    | apply Gen.Keeps.of_bind
    | apply Gen.Keeps.of_orLog
    | apply Gen.Keeps.of_orLogG
    | intro _
    | split

/-- A successful `Generator::createMul` leaves the Context as it found it. -/
@[instance] theorem keeps_Generator_createMul {β : Type} (f : Context → β) (t : TokenType) (l r : Option Value) :
    Gen.Keeps f (Generator.createMul t l r) := by
  unfold Generator.createMul
  repeat' first
    | infer_instance
    | dsimp only
    | apply Gen.Keeps.of_ite
    | apply Gen.Keeps.of_map
    | apply Gen.Keeps.of_bind
    | apply Gen.Keeps.of_orLog
    | apply Gen.Keeps.of_orLogG
    | intro _
    | split

/-- A successful `Generator::createDiv` leaves the Context as it found it. -/
@[instance] theorem keeps_Generator_createDiv {β : Type} (f : Context → β) (t : TokenType) (l r : Option Value) :
    Gen.Keeps f (Generator.createDiv t l r) := by
  unfold Generator.createDiv
  repeat' first
    | infer_instance
    | dsimp only
    | apply Gen.Keeps.of_ite
    | apply Gen.Keeps.of_map
    | apply Gen.Keeps.of_bind
    | apply Gen.Keeps.of_orLog
    | apply Gen.Keeps.of_orLogG
    | intro _
    | split

/-- A successful `Generator::createRem` leaves the Context as it found it. -/
@[instance] theorem keeps_Generator_createRem {β : Type} (f : Context → β) (t : TokenType) (l r : Option Value) :
    Gen.Keeps f (Generator.createRem t l r) := by
  unfold Generator.createRem
  repeat' first
    | infer_instance
    | dsimp only
    | apply Gen.Keeps.of_ite
    | apply Gen.Keeps.of_map
    | apply Gen.Keeps.of_bind
    | apply Gen.Keeps.of_orLog
    | apply Gen.Keeps.of_orLogG
    | intro _
    | split

/-- A successful `Generator::createCommpareLesserThan` leaves the Context as it found it. -/
@[instance] theorem keeps_Generator_createCommpareLesserThan {β : Type} (f : Context → β) (t : TokenType) (l r : Option Value) :
    Gen.Keeps f (Generator.createCommpareLesserThan t l r) := by
  unfold Generator.createCommpareLesserThan
  repeat' first
    | infer_instance
    | dsimp only
    | apply Gen.Keeps.of_ite
    | apply Gen.Keeps.of_map
    | apply Gen.Keeps.of_bind
    | apply Gen.Keeps.of_orLog
    | apply Gen.Keeps.of_orLogG
    | intro _
    | split

/-- A successful `Generator::createCommpareLesserEqual` leaves the Context as it found it. -/
@[instance] theorem keeps_Generator_createCommpareLesserEqual {β : Type} (f : Context → β) (t : TokenType) (l r : Option Value) :
    Gen.Keeps f (Generator.createCommpareLesserEqual t l r) := by
  unfold Generator.createCommpareLesserEqual
  repeat' first
    | infer_instance
    | dsimp only
    | apply Gen.Keeps.of_ite
    | apply Gen.Keeps.of_map
    | apply Gen.Keeps.of_bind
    | apply Gen.Keeps.of_orLog
    | apply Gen.Keeps.of_orLogG
    | intro _
    | split

/-- A successful `Generator::createCommpareGreaterThan` leaves the Context as it found it. -/
@[instance] theorem keeps_Generator_createCommpareGreaterThan {β : Type} (f : Context → β) (t : TokenType) (l r : Option Value) :
    Gen.Keeps f (Generator.createCommpareGreaterThan t l r) := by
  unfold Generator.createCommpareGreaterThan
  repeat' first
    | infer_instance
    | dsimp only
    | apply Gen.Keeps.of_ite
    | apply Gen.Keeps.of_map
    | apply Gen.Keeps.of_bind
    | apply Gen.Keeps.of_orLog
    | apply Gen.Keeps.of_orLogG
    | intro _
    | split

/-- A successful `Generator::createCommpareGreaterEqual` leaves the Context as it found it. -/
@[instance] theorem keeps_Generator_createCommpareGreaterEqual {β : Type} (f : Context → β) (t : TokenType) (l r : Option Value) :
    Gen.Keeps f (Generator.createCommpareGreaterEqual t l r) := by
  unfold Generator.createCommpareGreaterEqual
  repeat' first
    | infer_instance
    | dsimp only
    | apply Gen.Keeps.of_ite
    | apply Gen.Keeps.of_map
    | apply Gen.Keeps.of_bind
    | apply Gen.Keeps.of_orLog
    | apply Gen.Keeps.of_orLogG
    | intro _
    | split

/-- A successful `Generator::createCommpareEqual` leaves the Context as it found it. -/
@[instance] theorem keeps_Generator_createCommpareEqual {β : Type} (f : Context → β) (t : TokenType) (l r : Option Value) :
    Gen.Keeps f (Generator.createCommpareEqual t l r) := by
  unfold Generator.createCommpareEqual
  repeat' first
    | infer_instance
    | dsimp only
    | apply Gen.Keeps.of_ite
    | apply Gen.Keeps.of_map
    | apply Gen.Keeps.of_bind
    | apply Gen.Keeps.of_orLog
    | apply Gen.Keeps.of_orLogG
    | intro _
    | split

/-- A successful `Generator::createCommpareNotEqual` leaves the Context as it found it. -/
@[instance] theorem keeps_Generator_createCommpareNotEqual {β : Type} (f : Context → β) (t : TokenType) (l r : Option Value) :
    Gen.Keeps f (Generator.createCommpareNotEqual t l r) := by
  unfold Generator.createCommpareNotEqual
  repeat' first
    | infer_instance
    | dsimp only
    | apply Gen.Keeps.of_ite
    | apply Gen.Keeps.of_map
    | apply Gen.Keeps.of_bind
    | apply Gen.Keeps.of_orLog
    | apply Gen.Keeps.of_orLogG
    | intro _
    | split

/-- A successful `Generator::createLogicalOr` leaves the Context as it found it. -/
@[instance] theorem keeps_Generator_createLogicalOr {β : Type} (f : Context → β) (t : TokenType) (l r : Option Value) :
    Gen.Keeps f (Generator.createLogicalOr t l r) := by
  unfold Generator.createLogicalOr
  repeat' first
    | infer_instance
    | dsimp only
    | apply Gen.Keeps.of_ite
    | apply Gen.Keeps.of_map
    | apply Gen.Keeps.of_bind
    | apply Gen.Keeps.of_orLog
    | apply Gen.Keeps.of_orLogG
    | intro _
    | split

/-- A successful `Generator::createLogicalAnd` leaves the Context as it found it. -/
@[instance] theorem keeps_Generator_createLogicalAnd {β : Type} (f : Context → β) (t : TokenType) (l r : Option Value) :
    Gen.Keeps f (Generator.createLogicalAnd t l r) := by
  unfold Generator.createLogicalAnd
  repeat' first
    | infer_instance
    | dsimp only
    | apply Gen.Keeps.of_ite
    | apply Gen.Keeps.of_map
    | apply Gen.Keeps.of_bind
    | apply Gen.Keeps.of_orLog
    | apply Gen.Keeps.of_orLogG
    | intro _
    | split

/-- A successful `Generator::createBooleanConstant` leaves the Context as it found it. -/
@[instance] theorem keeps_Generator_createBooleanConstant {β : Type} (f : Context → β) (b : Bool) :
    Gen.Keeps f (Generator.createBooleanConstant b) := by
  unfold Generator.createBooleanConstant
  repeat' first
    | infer_instance
    | dsimp only
    | apply Gen.Keeps.of_ite
    | apply Gen.Keeps.of_map
    | apply Gen.Keeps.of_bind
    | apply Gen.Keeps.of_orLog
    | apply Gen.Keeps.of_orLogG
    | intro _
    | split

/-- A successful `Generator::createI8Constant` leaves the Context as it found it. -/
@[instance] theorem keeps_Generator_createI8Constant {β : Type} (f : Context → β) (v : Int) :
    Gen.Keeps f (Generator.createI8Constant v) := by
  unfold Generator.createI8Constant
  repeat' first
    | infer_instance
    | dsimp only
    | apply Gen.Keeps.of_ite
    | apply Gen.Keeps.of_map
    | apply Gen.Keeps.of_bind
    | apply Gen.Keeps.of_orLog
    | apply Gen.Keeps.of_orLogG
    | intro _
    | split

/-- A successful `Generator::createI16Constant` leaves the Context as it found it. -/
@[instance] theorem keeps_Generator_createI16Constant {β : Type} (f : Context → β) (v : Int) :
    Gen.Keeps f (Generator.createI16Constant v) := by
  unfold Generator.createI16Constant
  repeat' first
    | infer_instance
    | dsimp only
    | apply Gen.Keeps.of_ite
    | apply Gen.Keeps.of_map
    | apply Gen.Keeps.of_bind
    | apply Gen.Keeps.of_orLog
    | apply Gen.Keeps.of_orLogG
    | intro _
    | split

/-- A successful `Generator::createI32Constant` leaves the Context as it found it. -/
@[instance] theorem keeps_Generator_createI32Constant {β : Type} (f : Context → β) (v : Int) :
    Gen.Keeps f (Generator.createI32Constant v) := by
  unfold Generator.createI32Constant
  repeat' first
    | infer_instance
    | dsimp only
    | apply Gen.Keeps.of_ite
    | apply Gen.Keeps.of_map
    | apply Gen.Keeps.of_bind
    | apply Gen.Keeps.of_orLog
    | apply Gen.Keeps.of_orLogG
    | intro _
    | split

/-- A successful `Generator::createI64Constant` leaves the Context as it found it. -/
@[instance] theorem keeps_Generator_createI64Constant {β : Type} (f : Context → β) (v : Int) :
    Gen.Keeps f (Generator.createI64Constant v) := by
  unfold Generator.createI64Constant
  repeat' first
    | infer_instance
    | dsimp only
    | apply Gen.Keeps.of_ite
    | apply Gen.Keeps.of_map
    | apply Gen.Keeps.of_bind
    | apply Gen.Keeps.of_orLog
    | apply Gen.Keeps.of_orLogG
    | intro _
    | split

/-- A successful `Generator::createU8Constant` leaves the Context as it found it. -/
@[instance] theorem keeps_Generator_createU8Constant {β : Type} (f : Context → β) (v : Int) :
    Gen.Keeps f (Generator.createU8Constant v) := by
  unfold Generator.createU8Constant
  repeat' first
    | infer_instance
    | dsimp only
    | apply Gen.Keeps.of_ite
    | apply Gen.Keeps.of_map
    | apply Gen.Keeps.of_bind
    | apply Gen.Keeps.of_orLog
    | apply Gen.Keeps.of_orLogG
    | intro _
    | split

/-- A successful `Generator::createU16Constant` leaves the Context as it found it. -/
@[instance] theorem keeps_Generator_createU16Constant {β : Type} (f : Context → β) (v : Int) :
    Gen.Keeps f (Generator.createU16Constant v) := by
  unfold Generator.createU16Constant
  repeat' first
    | infer_instance
    | dsimp only
    | apply Gen.Keeps.of_ite
    | apply Gen.Keeps.of_map
    | apply Gen.Keeps.of_bind
    | apply Gen.Keeps.of_orLog
    | apply Gen.Keeps.of_orLogG
    | intro _
    | split

/-- A successful `Generator::createU32Constant` leaves the Context as it found it. -/
@[instance] theorem keeps_Generator_createU32Constant {β : Type} (f : Context → β) (v : Int) :
    Gen.Keeps f (Generator.createU32Constant v) := by
  unfold Generator.createU32Constant
  repeat' first
    | infer_instance
    | dsimp only
    | apply Gen.Keeps.of_ite
    | apply Gen.Keeps.of_map
    | apply Gen.Keeps.of_bind
    | apply Gen.Keeps.of_orLog
    | apply Gen.Keeps.of_orLogG
    | intro _
    | split

/-- A successful `Generator::createU64Constant` leaves the Context as it found it. -/
@[instance] theorem keeps_Generator_createU64Constant {β : Type} (f : Context → β) (v : Int) :
    Gen.Keeps f (Generator.createU64Constant v) := by
  unfold Generator.createU64Constant
  repeat' first
    | infer_instance
    | dsimp only
    | apply Gen.Keeps.of_ite
    | apply Gen.Keeps.of_map
    | apply Gen.Keeps.of_bind
    | apply Gen.Keeps.of_orLog
    | apply Gen.Keeps.of_orLogG
    | intro _
    | split

/-- A successful `Generator::createF32Constant` leaves the Context as it found it. -/
@[instance] theorem keeps_Generator_createF32Constant {β : Type} (f : Context → β) (v : Rat) :
    Gen.Keeps f (Generator.createF32Constant v) := by
  unfold Generator.createF32Constant
  repeat' first
    | infer_instance
    | dsimp only
    | apply Gen.Keeps.of_ite
    | apply Gen.Keeps.of_map
    | apply Gen.Keeps.of_bind
    | apply Gen.Keeps.of_orLog
    | apply Gen.Keeps.of_orLogG
    | intro _
    | split

/-- A successful `Generator::createF64Constant` leaves the Context as it found it. -/
@[instance] theorem keeps_Generator_createF64Constant {β : Type} (f : Context → β) (v : Rat) :
    Gen.Keeps f (Generator.createF64Constant v) := by
  unfold Generator.createF64Constant
  repeat' first
    | infer_instance
    | dsimp only
    | apply Gen.Keeps.of_ite
    | apply Gen.Keeps.of_map
    | apply Gen.Keeps.of_bind
    | apply Gen.Keeps.of_orLog
    | apply Gen.Keeps.of_orLogG
    | intro _
    | split

/-- A successful `Generator::createDoubleConstant` leaves the Context as it found it. -/
@[instance] theorem keeps_Generator_createDoubleConstant {β : Type} (f : Context → β) (v : Rat) :
    Gen.Keeps f (Generator.createDoubleConstant v) := by
  unfold Generator.createDoubleConstant
  repeat' first
    | infer_instance
    | dsimp only
    | apply Gen.Keeps.of_ite
    | apply Gen.Keeps.of_map
    | apply Gen.Keeps.of_bind
    | apply Gen.Keeps.of_orLog
    | apply Gen.Keeps.of_orLogG
    | intro _
    | split

/-- A successful `Generator::createStringConstant` leaves the Context as it found it. -/
@[instance] theorem keeps_Generator_createStringConstant {β : Type} (f : Context → β) (str : String) :
    Gen.Keeps f (Generator.createStringConstant str) := by
  apply Gen.Keeps.of_state
  intro s s' a h
  unfold Generator.createStringConstant at h
  repeat' split at h
  all_goals first
    | (cases h; rfl)
    | cases h

/-- A successful `Generator::createArrayConstant` leaves the Context as it found it. -/
@[instance] theorem keeps_Generator_createArrayConstant {β : Type} (f : Context → β) (t : IRType) (values : List Value) :
    Gen.Keeps f (Generator.createArrayConstant t values) := by
  unfold Generator.createArrayConstant
  repeat' first
    | infer_instance
    | dsimp only
    | apply Gen.Keeps.of_ite
    | apply Gen.Keeps.of_map
    | apply Gen.Keeps.of_bind
    | apply Gen.Keeps.of_orLog
    | apply Gen.Keeps.of_orLogG
    | intro _
    | split

/-- A successful `Generator::createTruncOrExt` leaves the Context as it found it. -/
@[instance] theorem keeps_Generator_createTruncOrExt {β : Type} (f : Context → β) (v : Option Value) (t : IRType) :
    Gen.Keeps f (Generator.createTruncOrExt v t) := by
  unfold Generator.createTruncOrExt
  repeat' first
    | infer_instance
    | dsimp only
    | apply Gen.Keeps.of_ite
    | apply Gen.Keeps.of_map
    | apply Gen.Keeps.of_bind
    | apply Gen.Keeps.of_orLog
    | apply Gen.Keeps.of_orLogG
    | intro _
    | split

/-- A successful `Generator::createCastOp` leaves the Context as it found it. -/
@[instance] theorem keeps_Generator_createCastOp {β : Type} (f : Context → β) (op : CastOps) (v : Option Value) (t : IRType) :
    Gen.Keeps f (Generator.createCastOp op v t) := by
  unfold Generator.createCastOp
  repeat' first
    | infer_instance
    | dsimp only
    | apply Gen.Keeps.of_ite
    | apply Gen.Keeps.of_map
    | apply Gen.Keeps.of_bind
    | apply Gen.Keeps.of_orLog
    | apply Gen.Keeps.of_orLogG
    | intro _
    | split

/-- A successful `Generator::createCast` leaves the Context as it found it. -/
@[instance] theorem keeps_Generator_createCast {β : Type} (f : Context → β) (a : TokenType) (v : Option Value) (b : TokenType) :
    Gen.Keeps f (Generator.createCast a v b) := by
  unfold Generator.createCast
  repeat' first
    | infer_instance
    | dsimp only
    | apply Gen.Keeps.of_ite
    | apply Gen.Keeps.of_map
    | apply Gen.Keeps.of_bind
    | apply Gen.Keeps.of_orLog
    | apply Gen.Keeps.of_orLogG
    | intro _
    | split

/-- A successful `Generator::createBitCast` leaves the Context as it found it. -/
@[instance] theorem keeps_Generator_createBitCast {β : Type} (f : Context → β) (v : Option Value) (t : IRType) :
    Gen.Keeps f (Generator.createBitCast v t) := by
  unfold Generator.createBitCast
  repeat' first
    | infer_instance
    | dsimp only
    | apply Gen.Keeps.of_ite
    | apply Gen.Keeps.of_map
    | apply Gen.Keeps.of_bind
    | apply Gen.Keeps.of_orLog
    | apply Gen.Keeps.of_orLogG
    | intro _
    | split

/-- A successful `Generator::createCall` leaves the Context as it found it. -/
@[instance] theorem keeps_Generator_createCall {β : Type} (f : Context → β) (callee : Option Nat) (values : List (Option Value)) :
    Gen.Keeps f (Generator.createCall callee values) := by
  unfold Generator.createCall
  repeat' first
    | infer_instance
    | dsimp only
    | apply Gen.Keeps.of_ite
    | apply Gen.Keeps.of_map
    | apply Gen.Keeps.of_bind
    | apply Gen.Keeps.of_orLog
    | apply Gen.Keeps.of_orLogG
    | intro _
    | split

/-- A successful `Generator::createSizeOf` leaves the Context as it found it. -/
@[instance] theorem keeps_Generator_createSizeOf {β : Type} (f : Context → β) (t : IRType) :
    Gen.Keeps f (Generator.createSizeOf t) := by
  unfold Generator.createSizeOf
  repeat' first
    | infer_instance
    | dsimp only
    | apply Gen.Keeps.of_ite
    | apply Gen.Keeps.of_map
    | apply Gen.Keeps.of_bind
    | apply Gen.Keeps.of_orLog
    | apply Gen.Keeps.of_orLogG
    | intro _
    | split

/-- A successful `Generator::createCallMalloc` leaves the Context as it found it. -/
@[instance] theorem keeps_Generator_createCallMalloc {β : Type} (f : Context → β) (t : IRType) :
    Gen.Keeps f (Generator.createCallMalloc t) := by
  unfold Generator.createCallMalloc
  repeat' first
    | infer_instance
    | dsimp only
    | apply Gen.Keeps.of_ite
    | apply Gen.Keeps.of_map
    | apply Gen.Keeps.of_bind
    | apply Gen.Keeps.of_orLog
    | apply Gen.Keeps.of_orLogG
    | intro _
    | split

/-- A successful `Generator::createAlloc` leaves the Context as it found it. -/
@[instance] theorem keeps_Generator_createAlloc {β : Type} (f : Context → β) (t : IRType) :
    Gen.Keeps f (Generator.createAlloc t) := by
  unfold Generator.createAlloc
  apply Gen.Keeps.of_bind
  · infer_instance
  · intro parent
    apply Gen.Keeps.of_state
    intro s s' a h
    repeat' split at h
    all_goals first
      | (cases h; rfl)
      | cases h

/-- A successful `Generator::createStore` leaves the Context as it found it. -/
@[instance] theorem keeps_Generator_createStore {β : Type} (f : Context → β) (v p : Option Value) :
    Gen.Keeps f (Generator.createStore v p) := by
  unfold Generator.createStore
  repeat' first
    | infer_instance
    | dsimp only
    | apply Gen.Keeps.of_ite
    | apply Gen.Keeps.of_map
    | apply Gen.Keeps.of_bind
    | apply Gen.Keeps.of_orLog
    | apply Gen.Keeps.of_orLogG
    | intro _
    | split

/-- A successful `Generator::createLoad` leaves the Context as it found it. -/
@[instance] theorem keeps_Generator_createLoad {β : Type} (f : Context → β) (p : Option Value) :
    Gen.Keeps f (Generator.createLoad p) := by
  unfold Generator.createLoad
  repeat' first
    | infer_instance
    | dsimp only
    | apply Gen.Keeps.of_ite
    | apply Gen.Keeps.of_map
    | apply Gen.Keeps.of_bind
    | apply Gen.Keeps.of_orLog
    | apply Gen.Keeps.of_orLogG
    | intro _
    | split

/-- A successful `Generator::memberPtrType` leaves the Context as it found it. -/
@[instance] theorem keeps_Generator_memberPtrType {β : Type} (f : Context → β) (object : Value) (index : Nat) :
    Gen.Keeps f (Generator.memberPtrType object index) := by
  apply Gen.Keeps.of_state
  intro s s' a h
  unfold Generator.memberPtrType at h
  repeat' split at h
  all_goals first
    | (cases h; rfl)
    | cases h

/-- A successful `Generator::createInitializeObject` leaves the Context as it found it. -/
@[instance] theorem keeps_Generator_createInitializeObject {β : Type} (f : Context → β) (a b : Option Value) :
    Gen.Keeps f (Generator.createInitializeObject a b) := by
  unfold Generator.createInitializeObject
  repeat' first
    | infer_instance
    | dsimp only
    | apply Gen.Keeps.of_ite
    | apply Gen.Keeps.of_map
    | apply Gen.Keeps.of_bind
    | apply Gen.Keeps.of_orLog
    | apply Gen.Keeps.of_orLogG
    | intro _
    | split

/-- A successful `castConstantToValueType::BasicType` leaves the Context as it found it. -/
@[instance] theorem keeps_castConstantToValueType_BasicType {β : Type} (f : Context → β) (t : ValueType) (v : Option Value) (d : ValueType) :
    Gen.Keeps f (castConstantToValueType_BasicType t v d) := by
  unfold castConstantToValueType_BasicType
  repeat' first
    | infer_instance
    | dsimp only
    | apply Gen.Keeps.of_ite
    | apply Gen.Keeps.of_map
    | apply Gen.Keeps.of_bind
    | apply Gen.Keeps.of_orLog
    | apply Gen.Keeps.of_orLogG
    | intro _
    | split

/-- A successful `castConstantToValueType::ArrayType` leaves the Context as it found it. -/
@[instance] theorem keeps_castConstantToValueType_ArrayType {β : Type} (f : Context → β) (src : ExprResult) (d : ValueType) :
    Gen.Keeps f (castConstantToValueType_ArrayType src d) := by
  unfold castConstantToValueType_ArrayType
  repeat' first
    | infer_instance
    | dsimp only
    | apply Gen.Keeps.of_ite
    | apply Gen.Keeps.of_map
    | apply Gen.Keeps.of_bind
    | apply Gen.Keeps.of_orLog
    | apply Gen.Keeps.of_orLogG
    | intro _
    | split

/-- A successful `castConstantToValueType` leaves the Context as it found it. -/
@[instance] theorem keeps_castConstantToValueType {β : Type} (f : Context → β) (src : ExprResult) (d : ValueType) :
    Gen.Keeps f (castConstantToValueType src d) := by
  unfold castConstantToValueType
  repeat' first
    | infer_instance
    | dsimp only
    | apply Gen.Keeps.of_ite
    | apply Gen.Keeps.of_map
    | apply Gen.Keeps.of_bind
    | apply Gen.Keeps.of_orLog
    | apply Gen.Keeps.of_orLogG
    | intro _
    | split

/-- A successful `VariableValueNode::generate` leaves the Context as it found it. -/
@[instance] theorem keeps_VariableValueNode_generate {β : Type} (f : Context → β)
    (node : VariableValueNode) : Gen.Keeps f node.generate := by
  cases node
  unfold VariableValueNode.generate
  repeat' first
    | infer_instance
    | dsimp only
    | apply Gen.Keeps.of_ite
    | apply Gen.Keeps.of_map
    | apply Gen.Keeps.of_bind
    | apply Gen.Keeps.of_orLog
    | apply Gen.Keeps.of_orLogG
    | intro _
    | split

/-- A successful `UnaryOperationNode::generateRest` leaves the Context as it found it. -/
@[instance] theorem keeps_UnaryOperationNode_generateRest {β : Type} (f : Context → β) (token operatorType : Token) (value : ExprResult) :
    Gen.Keeps f (UnaryOperationNode.generateRest token operatorType value) := by
  unfold UnaryOperationNode.generateRest
  repeat' first
    | infer_instance
    | dsimp only
    | apply Gen.Keeps.of_ite
    | apply Gen.Keeps.of_map
    | apply Gen.Keeps.of_bind
    | apply Gen.Keeps.of_orLog
    | apply Gen.Keeps.of_orLogG
    | intro _
    | split

/-- A successful `BinaryOperationNode::checkOperand` leaves the Context as it found it. -/
@[instance] theorem keeps_BinaryOperationNode_checkOperand {β : Type} (f : Context → β) (t : Token) (ty : ValueType) (v : ExprResult) :
    Gen.Keeps f (BinaryOperationNode.checkOperand t ty v) := by
  unfold BinaryOperationNode.checkOperand
  repeat' first
    | infer_instance
    | dsimp only
    | apply Gen.Keeps.of_ite
    | apply Gen.Keeps.of_map
    | apply Gen.Keeps.of_bind
    | apply Gen.Keeps.of_orLog
    | apply Gen.Keeps.of_orLogG
    | intro _
    | split

/-- A successful `BinaryOperationNode::foldArithmetic` leaves the Context as it found it. -/
@[instance] theorem keeps_BinaryOperationNode_foldArithmetic {β : Type} (f : Context → β) (op : Int → Int → Int) (node lhs rhs : ExprResult) :
    Gen.Keeps f (BinaryOperationNode.foldArithmetic op node lhs rhs) := by
  unfold BinaryOperationNode.foldArithmetic
  repeat' first
    | infer_instance
    | dsimp only
    | apply Gen.Keeps.of_ite
    | apply Gen.Keeps.of_map
    | apply Gen.Keeps.of_bind
    | apply Gen.Keeps.of_orLog
    | apply Gen.Keeps.of_orLogG
    | intro _
    | split

/-- A successful `BinaryOperationNode::foldDivision` leaves the Context as it found it. -/
@[instance] theorem keeps_BinaryOperationNode_foldDivision {β : Type} (f : Context → β) (op : Int → Int → Option Int) (node lhs rhs : ExprResult) :
    Gen.Keeps f (BinaryOperationNode.foldDivision op node lhs rhs) := by
  unfold BinaryOperationNode.foldDivision
  repeat' first
    | infer_instance
    | dsimp only
    | apply Gen.Keeps.of_ite
    | apply Gen.Keeps.of_map
    | apply Gen.Keeps.of_bind
    | apply Gen.Keeps.of_orLog
    | apply Gen.Keeps.of_orLogG
    | intro _
    | split

/-- A successful `BinaryOperationNode::generateRest` leaves the Context as it found it. -/
@[instance] theorem keeps_BinaryOperationNode_generateRest {β : Type} (f : Context → β) (token operatorType : Token) (lhs rhs : ExprResult) :
    Gen.Keeps f (BinaryOperationNode.generateRest token operatorType lhs rhs) := by
  unfold BinaryOperationNode.generateRest
  repeat' first
    | infer_instance
    | dsimp only
    | apply Gen.Keeps.of_ite
    | apply Gen.Keeps.of_map
    | apply Gen.Keeps.of_bind
    | apply Gen.Keeps.of_orLog
    | apply Gen.Keeps.of_orLogG
    | intro _
    | split

/-- A successful `ConstantNode::generate` leaves the Context as it found it. -/
@[instance] theorem keeps_ConstantNode_generate {β : Type} (f : Context → β) (constant : Token) :
    Gen.Keeps f (ConstantNode.generate constant) := by
  unfold ConstantNode.generate
  repeat' first
    | infer_instance
    | dsimp only
    | apply Gen.Keeps.of_ite
    | apply Gen.Keeps.of_map
    | apply Gen.Keeps.of_bind
    | apply Gen.Keeps.of_orLog
    | apply Gen.Keeps.of_orLogG
    | intro _
    | split

/-- A successful `AggregateConstantNode::checkElementTypes` leaves the Context as it found it. -/
@[instance] theorem keeps_AggregateConstantNode_checkElementTypes {β : Type} (f : Context → β)
    (token : Token) (type : ValueType) (types : List ValueType) :
    Gen.Keeps f (AggregateConstantNode.checkElementTypes token type types) := by
  induction types with
  | nil => rw [AggregateConstantNode.checkElementTypes]; infer_instance
  | cons i rest ih =>
    rw [AggregateConstantNode.checkElementTypes]
    infer_instance

/-- A successful `AggregateConstantNode::elementConstant` leaves the Context as it found it. -/
@[instance] theorem keeps_AggregateConstantNode_elementConstant {β : Type} (f : Context → β) (valueType : ValueType) (value : ExprResult) :
    Gen.Keeps f (AggregateConstantNode.elementConstant valueType value) := by
  unfold AggregateConstantNode.elementConstant
  repeat' first
    | infer_instance
    | dsimp only
    | apply Gen.Keeps.of_ite
    | apply Gen.Keeps.of_map
    | apply Gen.Keeps.of_bind
    | apply Gen.Keeps.of_orLog
    | apply Gen.Keeps.of_orLogG
    | intro _
    | split

/-- A successful `AggregateConstantNode::elementConstants` leaves the Context as it found it. -/
@[instance] theorem keeps_AggregateConstantNode_elementConstants {β : Type} (f : Context → β)
    (valueType : ValueType) (values : List ExprResult) :
    Gen.Keeps f (AggregateConstantNode.elementConstants valueType values) := by
  induction values with
  | nil => rw [AggregateConstantNode.elementConstants]; infer_instance
  | cons value rest ih =>
    rw [AggregateConstantNode.elementConstants]
    repeat' first
      | infer_instance
      | dsimp only
      | apply Gen.Keeps.of_ite
      | apply Gen.Keeps.of_map
      | apply Gen.Keeps.of_bind
      | apply Gen.Keeps.of_orLog
      | apply Gen.Keeps.of_orLogG
      | intro _
      | split

/-- A successful `AggregateConstantNode::generateArrayConstant` leaves the Context as it found it. -/
@[instance] theorem keeps_AggregateConstantNode_generateArrayConstant {β : Type} (f : Context → β) (token : Token) (valueType : ValueType) (values : List ExprResult) :
    Gen.Keeps f (AggregateConstantNode.generateArrayConstant token valueType values) := by
  unfold AggregateConstantNode.generateArrayConstant
  repeat' first
    | infer_instance
    | dsimp only
    | apply Gen.Keeps.of_ite
    | apply Gen.Keeps.of_map
    | apply Gen.Keeps.of_bind
    | apply Gen.Keeps.of_orLog
    | apply Gen.Keeps.of_orLogG
    | intro _
    | split

/-- A successful `AggregateConstantNode::generateRest` leaves the Context as it found it. -/
@[instance] theorem keeps_AggregateConstantNode_generateRest {β : Type} (f : Context → β) (token : Token) (values : List ExprResult) :
    Gen.Keeps f (AggregateConstantNode.generateRest token values) := by
  unfold AggregateConstantNode.generateRest
  repeat' first
    | infer_instance
    | dsimp only
    | apply Gen.Keeps.of_ite
    | apply Gen.Keeps.of_map
    | apply Gen.Keeps.of_bind
    | apply Gen.Keeps.of_orLog
    | apply Gen.Keeps.of_orLogG
    | intro _
    | split

/-- A successful `CastNode::generateRest` leaves the Context as it found it. -/
@[instance] theorem keeps_CastNode_generateRest {β : Type} (f : Context → β) (token : Token) (value : ExprResult) (destType : TypeNode) :
    Gen.Keeps f (CastNode.generateRest token value destType) := by
  unfold CastNode.generateRest
  repeat' first
    | infer_instance
    | dsimp only
    | apply Gen.Keeps.of_ite
    | apply Gen.Keeps.of_map
    | apply Gen.Keeps.of_bind
    | apply Gen.Keeps.of_orLog
    | apply Gen.Keeps.of_orLogG
    | intro _
    | split

/-- A successful `CallNode::generateRest` leaves the Context as it found it. -/
@[instance] theorem keeps_CallNode_generateRest {β : Type} (f : Context → β) (token : Token) (function : FunctionNode) (values : List (Option Value)) :
    Gen.Keeps f (CallNode.generateRest token function values) := by
  unfold CallNode.generateRest
  repeat' first
    | infer_instance
    | dsimp only
    | apply Gen.Keeps.of_ite
    | apply Gen.Keeps.of_map
    | apply Gen.Keeps.of_bind
    | apply Gen.Keeps.of_orLog
    | apply Gen.Keeps.of_orLogG
    | intro _
    | split

mutual
/-- A successful `ExpressionNode::generate` leaves the Context as it found it. -/
theorem keeps_ExpressionNode_generate {β : Type} (f : Context → β) :
    ∀ e : ExpressionNode, Gen.Keeps f (ExpressionNode.generate e)
  | .VariableValueNode node => by
    rw [ExpressionNode.generate]
    infer_instance
  | .UnaryOperationNode token operatorType value => by
    have ih := keeps_ExpressionNode_generate f value
    rw [ExpressionNode.generate]
    infer_instance
  | .BinaryOperationNode token operatorType lhs rhs => by
    have ihl := keeps_ExpressionNode_generate f lhs
    have ihr := keeps_ExpressionNode_generate f rhs
    rw [ExpressionNode.generate]
    infer_instance
  | .CallNode token fn values => by
    have ih := fun functionName hasVariableArgument args =>
      keeps_ValueListNode_generateForFunctionArgumants f values token functionName
        hasVariableArgument args
    rw [ExpressionNode.generate]
    apply Gen.Keeps.of_bind
    · infer_instance
    intro s
    split
    · infer_instance
    · infer_instance
  | .ConstantNode constant => by
    rw [ExpressionNode.generate]
    infer_instance
  | .AggregateConstantNode token values => by
    have ih := keeps_ValueListNode_generate f values
    rw [ExpressionNode.generate]
    infer_instance
  | .CastNode token value destType => by
    have ih1 := keeps_ExpressionNode_generate f value
    have ih2 := keeps_TypeNode_generate f destType
    rw [ExpressionNode.generate]
    infer_instance
/-- A successful `ValueListNode::generate` leaves the Context as it found it. -/
theorem keeps_ValueListNode_generate {β : Type} (f : Context → β) :
    ∀ values : List ExpressionNode, Gen.Keeps f (ValueListNode.generate values)
  | [] => by
    rw [ValueListNode.generate]
    infer_instance
  | v :: rest => by
    have ih1 := keeps_ExpressionNode_generate f v
    have ih2 := keeps_ValueListNode_generate f rest
    rw [ValueListNode.generate]
    infer_instance
/-- A successful `ValueListNode::generateForFunctionArgumants` leaves the Context as it found it. -/
theorem keeps_ValueListNode_generateForFunctionArgumants {β : Type} (f : Context → β) :
    ∀ (values : List ExpressionNode) (callToken functionName : Token)
      (hasVariableArgument : Bool) (args : List VariableDefinitionNode),
      Gen.Keeps f (ValueListNode.generateForFunctionArgumants callToken functionName
        hasVariableArgument values args)
  | [], callToken, functionName, hasVariableArgument, [] => by
    rw [ValueListNode.generateForFunctionArgumants]
    infer_instance
  | [], callToken, functionName, hasVariableArgument, _ :: _ => by
    rw [ValueListNode.generateForFunctionArgumants]
    infer_instance
  | v :: rest, callToken, functionName, hasVariableArgument, args => by
    have ih1 := keeps_ExpressionNode_generate f v
    have ih2 := fun args => keeps_ValueListNode_generateForFunctionArgumants f rest callToken
      functionName hasVariableArgument args
    rw [ValueListNode.generateForFunctionArgumants]
    apply Gen.Keeps.of_bind
    · infer_instance
    intro r
    split
    · infer_instance
    · infer_instance
/-- A successful `TypeNode::generate` leaves the Context as it found it. -/
theorem keeps_TypeNode_generate {β : Type} (f : Context → β) :
    ∀ type : TypeNode, Gen.Keeps f (TypeNode.generate type)
  | .mk token type generatedType arraySizes => by
    have ih := fun type => keeps_TypeNode_generateArraySizes f arraySizes type
    rw [TypeNode.generate]
    infer_instance
/-- A successful `TypeNode::generateArraySizes` leaves the Context as it found it. -/
theorem keeps_TypeNode_generateArraySizes {β : Type} (f : Context → β) :
    ∀ (arraySizes : List ExpressionNode) (type : ValueType),
      Gen.Keeps f (TypeNode.generateArraySizes arraySizes type)
  | [], type => by
    rw [TypeNode.generateArraySizes]
    infer_instance
  | arraySize :: rest, type => by
    have ih1 := keeps_ExpressionNode_generate f arraySize
    have ih2 := fun type => keeps_TypeNode_generateArraySizes f rest type
    rw [TypeNode.generateArraySizes]
    infer_instance
end

attribute [instance] keeps_ExpressionNode_generate keeps_ValueListNode_generate
  keeps_ValueListNode_generateForFunctionArgumants keeps_TypeNode_generate
  keeps_TypeNode_generateArraySizes

/-- Reading off what a call keeps at a run that returned `false`. -/
theorem Gen.Keeps.at_run {α β : Type} {f : Context → β} {m : Gen α} {s s' : State} {a : α}
    (h : m s = .ok a s') (hk : Gen.Keeps f m) : f s'.ctx = f s.ctx :=
  hk.run s s' a h

/-- A call that keeps an observation keeps everything computed from it. -/
theorem Gen.Keeps.weaken {α β γ : Type} {f : Context → β} {m : Gen α} (g : β → γ)
    (h : Gen.Keeps f m) : Gen.Keeps (fun c => g (f c)) m :=
  ⟨fun s s' a hm => by rw [h.run s s' a hm]⟩

/-- A successful `setLastBlock` leaves the loop-exit stack, the depth of the stack of scopes and `returned` as it found them. -/
@[instance] theorem keeps_flow_setLastBlock (block : Option Nat) :
    Gen.Keeps Context.flow (Context.setLastBlock block) :=
  Gen.Keeps.of_modifyCtx _ _ fun _ => rfl

/-- A successful `setBreaked` leaves the loop-exit stack, the depth of the stack of scopes and `returned` as it found them. -/
@[instance] theorem keeps_flow_setBreaked (flag : Bool) :
    Gen.Keeps Context.flow (Context.setBreaked flag) :=
  Gen.Keeps.of_modifyCtx _ _ fun _ => rfl

/-- A successful `setLastBlock` leaves the loop-exit stack and the depth of the stack of scopes as it found them. -/
@[instance] theorem keeps_nesting_setLastBlock (block : Option Nat) :
    Gen.Keeps Context.nesting (Context.setLastBlock block) :=
  Gen.Keeps.of_modifyCtx _ _ fun _ => rfl

/-- A successful `setBreaked` leaves the loop-exit stack and the depth of the stack of scopes as it found them. -/
@[instance] theorem keeps_nesting_setBreaked (flag : Bool) :
    Gen.Keeps Context.nesting (Context.setBreaked flag) :=
  Gen.Keeps.of_modifyCtx _ _ fun _ => rfl

/-- A successful `setReturned` leaves the loop-exit stack and the depth of the stack of scopes as it found them. -/
@[instance] theorem keeps_nesting_setReturned (flag : Bool) :
    Gen.Keeps Context.nesting (Context.setReturned flag) :=
  Gen.Keeps.of_modifyCtx _ _ fun _ => rfl

/-- A successful `addSymbol` leaves the loop-exit stack, the depth of the stack of scopes and `returned` as it found them. -/
@[instance] theorem keeps_flow_addSymbol (name : String) (type : ValueType)
    (value : Option Value) : Gen.Keeps Context.flow (Context.addSymbol name type value) := by
  constructor
  intro s s' a h
  unfold Context.addSymbol at h
  obtain ⟨s0, s1, h0, h⟩ := Gen.bind_eq_ok h
  cases h0
  cases hl : s.ctx.symbolTables.getLast? with
  | none =>
    simp only [hl] at h
    obtain ⟨_, _, -, h⟩ := Gen.bind_eq_ok h
    cases h
  | some table =>
    simp only [hl] at h
    cases h
    have hne : s.ctx.symbolTables ≠ [] := by
      intro hnil
      rw [hnil] at hl
      cases hl
    have hlen : ∀ x : List Symbol, (s.ctx.symbolTables.dropLast ++ [x]).length
        = s.ctx.symbolTables.length := by
      intro x
      rw [List.length_append, List.length_dropLast, List.length_singleton]
      have := List.length_pos.mpr hne
      omega
    simp only [Context.flow, hlen]

/-- A successful `LetNode::inferType` leaves the Context as it found it. -/
@[instance] theorem keeps_LetNode_inferType {β : Type} (f : Context → β) (name : Token)
    (initialValue : ExprResult) : Gen.Keeps f (LetNode.inferType name initialValue) := by
  unfold LetNode.inferType
  repeat' first
    | infer_instance
    | dsimp only
    | apply Gen.Keeps.of_ite
    | apply Gen.Keeps.of_map
    | apply Gen.Keeps.of_bind
    | apply Gen.Keeps.of_orLog
    | apply Gen.Keeps.of_orLogG
    | intro _
    | split

/-- A successful `LetNode::initialValueFor` leaves the Context as it found it. -/
@[instance] theorem keeps_LetNode_initialValueFor {β : Type} (f : Context → β) (token : Token)
    (type : ValueType) (initialValue : Option ExprResult) (logLine : Nat) :
    Gen.Keeps f (LetNode.initialValueFor token type initialValue logLine) := by
  unfold LetNode.initialValueFor
  repeat' first
    | infer_instance
    | dsimp only
    | apply Gen.Keeps.of_ite
    | apply Gen.Keeps.of_map
    | apply Gen.Keeps.of_bind
    | apply Gen.Keeps.of_orLog
    | apply Gen.Keeps.of_orLogG
    | intro _
    | split

/-- A successful `LetNode::generateRest` leaves the loop-exit stack, the depth of the stack of scopes and `returned` as it found them. -/
@[instance] theorem keeps_flow_LetNode_generateRest (token name : Token) (type : Option TypeNode)
    (isHeap : Bool) (initialValue : Option ExprResult) :
    Gen.Keeps Context.flow (LetNode.generateRest token name type isHeap initialValue) := by
  unfold LetNode.generateRest
  repeat' first
    | infer_instance
    | dsimp only
    | apply Gen.Keeps.of_ite
    | apply Gen.Keeps.of_map
    | apply Gen.Keeps.of_bind
    | apply Gen.Keeps.of_orLog
    | apply Gen.Keeps.of_orLogG
    | intro _
    | split

/-- A successful `LetNode::generate` leaves the loop-exit stack, the depth of the stack of scopes and `returned` as it found them. -/
@[instance] theorem keeps_flow_LetNode_generate (token name : Token) (type : Option TypeNode)
    (isHeap : Bool) (initialValue : Option ExpressionNode) :
    Gen.Keeps Context.flow (LetNode.generate token name type isHeap initialValue) := by
  unfold LetNode.generate
  repeat' first
    | infer_instance
    | dsimp only
    | apply Gen.Keeps.of_ite
    | apply Gen.Keeps.of_map
    | apply Gen.Keeps.of_bind
    | apply Gen.Keeps.of_orLog
    | apply Gen.Keeps.of_orLogG
    | intro _
    | split

/-- A successful `ReturnNode::generateRest` leaves the loop-exit stack and the depth of the stack of scopes as it found them. -/
@[instance] theorem keeps_nesting_ReturnNode_generateRest (returnToken : Token)
    (value : Option ExprResult) :
    Gen.Keeps Context.nesting (ReturnNode.generateRest returnToken value) := by
  unfold ReturnNode.generateRest
  repeat' first
    | infer_instance
    | dsimp only
    | apply Gen.Keeps.of_ite
    | apply Gen.Keeps.of_map
    | apply Gen.Keeps.of_bind
    | apply Gen.Keeps.of_orLog
    | apply Gen.Keeps.of_orLogG
    | intro _
    | split

/-- A successful `ReturnNode::generate` leaves the loop-exit stack and the depth of the stack of scopes as it found them. -/
@[instance] theorem keeps_nesting_ReturnNode_generate (returnToken : Token)
    (value : Option ExpressionNode) :
    Gen.Keeps Context.nesting (ReturnNode.generate returnToken value) := by
  unfold ReturnNode.generate
  repeat' first
    | infer_instance
    | dsimp only
    | apply Gen.Keeps.of_ite
    | apply Gen.Keeps.of_map
    | apply Gen.Keeps.of_bind
    | apply Gen.Keeps.of_orLog
    | apply Gen.Keeps.of_orLogG
    | intro _
    | split

/-- A successful `BreakNode::generate` leaves the loop-exit stack, the depth of the stack of scopes and `returned` as it found them. -/
@[instance] theorem keeps_flow_BreakNode_generate (token : Token) :
    Gen.Keeps Context.flow (BreakNode.generate token) := by
  unfold BreakNode.generate
  repeat' first
    | infer_instance
    | dsimp only
    | apply Gen.Keeps.of_ite
    | apply Gen.Keeps.of_map
    | apply Gen.Keeps.of_bind
    | apply Gen.Keeps.of_orLog
    | apply Gen.Keeps.of_orLogG
    | intro _
    | split

/-- A successful `AssignNode::generate` leaves the Context as it found it. -/
@[instance] theorem keeps_AssignNode_generate {β : Type} (f : Context → β) (token : Token)
    (dest : VariableValueNode) (value : ExpressionNode) :
    Gen.Keeps f (AssignNode.generate token dest value) := by
  unfold AssignNode.generate
  repeat' first
    | infer_instance
    | dsimp only
    | apply Gen.Keeps.of_ite
    | apply Gen.Keeps.of_map
    | apply Gen.Keeps.of_bind
    | apply Gen.Keeps.of_orLog
    | apply Gen.Keeps.of_orLogG
    | intro _
    | split

/-- A successful `BlockNode::generateBlock` leaves the Context as it found it. -/
@[instance] theorem keeps_BlockNode_generateBlock {β : Type} (f : Context → β)
    (function insertBefore : Option Nat) :
    Gen.Keeps f (BlockNode.generateBlock function insertBefore) := by
  unfold BlockNode.generateBlock
  infer_instance

/-! ## Theorems: the loop-exit stack and `break` -/

/-- `WhileNode::generate` enters the body with the successor block of the loop
pushed on the loop-exit stack, and the stack of scopes as deep as before. -/
theorem WhileNode.generateHead_pushes (condition : ExpressionNode) (s s1 : State)
    (conditionBlock successorBlock generated : Nat)
    (h : WhileNode.generateHead condition s = .ok (conditionBlock, successorBlock, generated) s1) :
    Context.nesting s1.ctx
      = (successorBlock :: s.ctx.successorBlocks, s.ctx.symbolTables.length) := by
  unfold WhileNode.generateHead at h
  obtain ⟨t0, s0, h0, h⟩ := Gen.bind_eq_ok h
  cases h0
  obtain ⟨cb, s2, h2, h⟩ := Gen.bind_eq_ok h
  obtain ⟨_, s3, h3, h⟩ := Gen.bind_eq_ok h
  obtain ⟨_, s4, h4, h⟩ := Gen.bind_eq_ok h
  obtain ⟨cond, s5, h5, h⟩ := Gen.bind_eq_ok h
  obtain ⟨t6, s6, h6, h⟩ := Gen.bind_eq_ok h
  cases h6
  obtain ⟨sb, s7, h7, h⟩ := Gen.bind_eq_ok h
  obtain ⟨_, s8, h8, h⟩ := Gen.bind_eq_ok h
  obtain ⟨_, s9, h9, h⟩ := Gen.bind_eq_ok h
  obtain ⟨gen, s10, h10, h⟩ := Gen.bind_eq_ok h
  obtain ⟨_, s11, h11, h⟩ := Gen.bind_eq_ok h
  obtain ⟨_, s12, h12, h⟩ := Gen.bind_eq_ok h
  cases h
  have k2 := Gen.Keeps.at_run h2 (inferInstance : Gen.Keeps Context.nesting _)
  have k3 := Gen.Keeps.at_run h3 (inferInstance : Gen.Keeps Context.nesting _)
  have k4 := Gen.Keeps.at_run h4 (inferInstance : Gen.Keeps Context.nesting _)
  have k5 := Gen.Keeps.at_run h5 (inferInstance : Gen.Keeps Context.nesting _)
  have k7 := Gen.Keeps.at_run h7 (inferInstance : Gen.Keeps Context.nesting _)
  have k8 := Gen.Keeps.at_run h8 (inferInstance : Gen.Keeps Context.nesting _)
  have k10 := Gen.Keeps.at_run h10 (inferInstance : Gen.Keeps Context.nesting _)
  have k11 := Gen.Keeps.at_run h11 (inferInstance : Gen.Keeps Context.nesting _)
  have k12 := Gen.Keeps.at_run h12 (inferInstance : Gen.Keeps Context.nesting _)
  cases h9
  rw [k12, k11, k10]
  have k : Context.nesting s8.ctx = Context.nesting s.ctx := by
    rw [k8, k7, k5, k4, k3, k2]
  simp only [Context.nesting, Prod.mk.injEq] at k ⊢
  exact ⟨by rw [k.1], k.2⟩

/-- `WhileNode::generate` leaves the body by popping the loop-exit stack. -/
theorem WhileNode.generateTail_pops (successorBlock : Nat) (s s1 : State)
    (h : WhileNode.generateTail successorBlock s = .ok () s1) :
    Context.nesting s1.ctx = (s.ctx.successorBlocks.tail, s.ctx.symbolTables.length) := by
  unfold WhileNode.generateTail at h
  obtain ⟨_, s2, h2, h⟩ := Gen.bind_eq_ok h
  obtain ⟨_, s3, h3, h⟩ := Gen.bind_eq_ok h
  obtain ⟨_, s4, h4, h⟩ := Gen.bind_eq_ok h
  have k2 := Gen.Keeps.at_run h2 (inferInstance : Gen.Keeps Context.nesting _)
  have k4 := Gen.Keeps.at_run h4 (inferInstance : Gen.Keeps Context.nesting _)
  have k5 := Gen.Keeps.at_run h (inferInstance : Gen.Keeps Context.nesting _)
  rw [k5, k4]
  unfold Context.removeSuccessorBlockForBreak at h3
  obtain ⟨t, s5, h5, h3⟩ := Gen.bind_eq_ok h3
  cases h5
  simp only [Context.nesting, Prod.mk.injEq] at k2 ⊢
  cases hs : s2.ctx.successorBlocks with
  | nil =>
    simp only [hs] at h3
    cases h3
  | cons b rest =>
    simp only [hs] at h3
    cases h3
    rw [← k2.1, ← k2.2, hs]
    exact ⟨rfl, rfl⟩

/-- `Context::addSymbolTable` makes the stack of scopes one deeper. -/
theorem Context.addSymbolTable_pushes (s s1 : State) (h : Context.addSymbolTable s = .ok () s1) :
    Context.nesting s1.ctx = (s.ctx.successorBlocks, s.ctx.symbolTables.length + 1) := by
  cases h
  simp [Context.nesting]

/-- `ctx.removeSymbolTable();` with the result dropped leaves the stack of scopes
one less deep, or empty as it was. -/
theorem Context.removeSymbolTable_pops (s s1 : State)
    (h : Context.removeSymbolTable.ignoreResult s = .ok () s1) :
    Context.nesting s1.ctx = (s.ctx.successorBlocks, s.ctx.symbolTables.length - 1) := by
  unfold Gen.ignoreResult Context.removeSymbolTable at h
  simp only [bind, Gen.bind, getState] at h
  cases he : s.ctx.symbolTables.isEmpty with
  | true =>
    simp only [he, if_true, debugLog, returnTrue] at h
    cases h
    rw [List.isEmpty_iff] at he
    simp [Context.nesting, he]
  | false =>
    simp only [he, modifyCtx] at h
    cases h
    simp [Context.nesting]

mutual
/-- Every statement leaves the loop-exit stack and the depth of the stack of
scopes as it found them, when it generates successfully. -/
theorem keeps_nesting_StatementNode_generate :
    ∀ statement : StatementNode, Gen.Keeps Context.nesting statement.generate
  | .LetNode token name type isHeap initialValue => by
    rw [StatementNode.generate]
    exact Gen.Keeps.weaken (fun p => (p.1, p.2.1))
      (keeps_flow_LetNode_generate token name type isHeap initialValue)
  | .IfNode token condition thenBlock none => by
    have ih := fun generatedBlock successorBlock =>
      keeps_nesting_BlockNode_generateStatements thenBlock generatedBlock successorBlock
    rw [StatementNode.generate]
    repeat' first
      | infer_instance
      | dsimp only
      | apply Gen.Keeps.of_ite
      | apply Gen.Keeps.of_map
      | apply Gen.Keeps.of_bind
      | apply Gen.Keeps.of_orLog
      | apply Gen.Keeps.of_orLogG
      | intro _
      | split
  | .IfNode token condition thenBlock (some elseBlock) => by
    have ih1 := fun generatedBlock successorBlock =>
      keeps_nesting_BlockNode_generateStatements thenBlock generatedBlock successorBlock
    have ih2 := fun generatedBlock successorBlock =>
      keeps_nesting_BlockNode_generateStatements elseBlock generatedBlock successorBlock
    rw [StatementNode.generate]
    repeat' first
      | infer_instance
      | dsimp only
      | apply Gen.Keeps.of_ite
      | apply Gen.Keeps.of_map
      | apply Gen.Keeps.of_bind
      | apply Gen.Keeps.of_orLog
      | apply Gen.Keeps.of_orLogG
      | intro _
      | split
  | .WhileNode token condition block => by
    have ih := fun generatedBlock successorBlock =>
      keeps_nesting_BlockNode_generateStatements block generatedBlock successorBlock
    constructor
    intro s s' a h
    rw [StatementNode.generate] at h
    obtain ⟨x, s1, h1, h⟩ := Gen.bind_eq_ok h
    obtain ⟨conditionBlock, successorBlock, generated⟩ := x
    dsimp only at h
    obtain ⟨_, s2, h2, h⟩ := Gen.bind_eq_ok h
    have k1 := WhileNode.generateHead_pushes _ _ _ _ _ _ h1
    have k2 := Gen.Keeps.at_run h2 (inferInstance : Gen.Keeps Context.nesting _)
    have k3 := WhileNode.generateTail_pops _ _ _ h
    rw [k1] at k2
    simp only [Context.nesting, Prod.mk.injEq] at k2 k3 ⊢
    rw [k3.1, k3.2, k2.1, k2.2]
    exact ⟨rfl, rfl⟩
  | .ReturnNode token returnToken value => by
    rw [StatementNode.generate]
    infer_instance
  | .BreakNode token => by
    rw [StatementNode.generate]
    exact Gen.Keeps.weaken (fun p => (p.1, p.2.1)) (keeps_flow_BreakNode_generate token)
  | .AssignNode token dest value => by
    rw [StatementNode.generate]
    infer_instance
  | .CallNode token f values => by
    rw [StatementNode.generate]
    infer_instance
/-- Every block leaves the loop-exit stack and the depth of the stack of scopes
as it found them, when it generates successfully. -/
theorem keeps_nesting_BlockNode_generateStatements :
    ∀ (block : BlockNode) (generatedBlock : Nat) (successorBlock : Option Nat),
      Gen.Keeps Context.nesting (block.generateStatements generatedBlock successorBlock)
  | .mk statements rightCurlyBracketToken, generatedBlock, successorBlock => by
    have ih := keeps_nesting_BlockNode_generateStatementList statements
    constructor
    intro s s' a h
    rw [BlockNode.generateStatements] at h
    obtain ⟨previousBlock, s1, h1, h⟩ := Gen.bind_eq_ok h
    obtain ⟨_, s2, h2, h⟩ := Gen.bind_eq_ok h
    obtain ⟨_, s3, h3, h⟩ := Gen.bind_eq_ok h
    obtain ⟨_, s4, h4, h⟩ := Gen.bind_eq_ok h
    obtain ⟨_, s5, h5, h⟩ := Gen.bind_eq_ok h
    have k1 := Gen.Keeps.at_run h1 (inferInstance : Gen.Keeps Context.nesting _)
    have k2 := Gen.Keeps.at_run h2 (inferInstance : Gen.Keeps Context.nesting _)
    have k3 := Context.addSymbolTable_pushes _ _ h3
    have k4 := Gen.Keeps.at_run h4 ih
    have k5 := Context.removeSymbolTable_pops _ _ h5
    have k6 : Context.nesting s'.ctx = Context.nesting s5.ctx := by
      refine Gen.Keeps.at_run h ?_
      repeat' first
        | infer_instance
        | dsimp only
        | apply Gen.Keeps.of_ite
        | apply Gen.Keeps.of_map
        | apply Gen.Keeps.of_bind
        | apply Gen.Keeps.of_orLog
        | apply Gen.Keeps.of_orLogG
        | intro _
        | split
    rw [k6, k5]
    rw [k3] at k4
    rw [k1] at k2
    simp only [Context.nesting, Prod.mk.injEq] at k2 k4 ⊢
    rw [k4.1, k4.2, k2.1, k2.2]
    exact ⟨rfl, rfl⟩
/-- Every list of statements leaves the loop-exit stack and the depth of the
stack of scopes as it found them, when it generates successfully. -/
theorem keeps_nesting_BlockNode_generateStatementList :
    ∀ statements : List StatementNode,
      Gen.Keeps Context.nesting (BlockNode.generateStatementList statements)
  | [] => by
    rw [BlockNode.generateStatementList]
    infer_instance
  | statement :: rest => by
    have ih1 := keeps_nesting_StatementNode_generate statement
    have ih2 := keeps_nesting_BlockNode_generateStatementList rest
    rw [BlockNode.generateStatementList]
    infer_instance
end

/-- The loop-exit stack stays empty across calls that keep the nesting. -/
theorem Context.successorBlocks_of_nesting {c c' : Context} {l : List Nat}
    (h : Context.nesting c' = Context.nesting c) (hc : c.successorBlocks = l) :
    c'.successorBlocks = l := by
  simp only [Context.nesting, Prod.mk.injEq] at h
  rw [h.1, hc]

/-- `BreakNode::generate` with an empty loop-exit stack. -/
theorem BreakNode.generate_of_empty (token : Token) (s : State)
    (hs : s.ctx.successorBlocks = []) :
    BreakNode.generate token s
      = .fail { s with ctx := { s.ctx with errors := s.ctx.errors ++ [.InvalidBreakError token] } } := by
  simp [BreakNode.generate, bind, Gen.bind, getState, Context.getSuccessorBlockForBreak, hs,
    failWith, Context.addCompileError, modifyCtx, returnTrue]

/-- A call that records an error and returns `true` does not return `false`. -/
theorem failWith_ne_ok {α : Type} (e : CompileError) (s s' : State) (a : α) :
    (failWith e : Gen α) s ≠ .ok a s' := by
  intro h
  unfold failWith at h
  obtain ⟨_, _, -, h⟩ := Gen.bind_eq_ok h
  cases h

mutual
/-- A statement that holds a `break` outside every `while` of the statement does
not generate successfully from an empty loop-exit stack. -/
theorem StatementNode.generate_of_hasFreeBreak :
    ∀ (statement : StatementNode) (s s' : State), statement.hasFreeBreak = true →
      s.ctx.successorBlocks = [] → statement.generate s ≠ .ok () s'
  | .LetNode _ _ _ _ _, _, _, hfree, _ => by simp [StatementNode.hasFreeBreak] at hfree
  | .WhileNode _ _ _, _, _, hfree, _ => by simp [StatementNode.hasFreeBreak] at hfree
  | .ReturnNode _ _ _, _, _, hfree, _ => by simp [StatementNode.hasFreeBreak] at hfree
  | .AssignNode _ _ _, _, _, hfree, _ => by simp [StatementNode.hasFreeBreak] at hfree
  | .CallNode _ _ _, _, _, hfree, _ => by simp [StatementNode.hasFreeBreak] at hfree
  | .BreakNode token, s, s', _, hs => by
    rw [StatementNode.generate, BreakNode.generate_of_empty token s hs]
    intro h
    cases h
  | .IfNode token condition thenBlock none, s, s', hfree, hs => by
    simp only [StatementNode.hasFreeBreak, Bool.or_false] at hfree
    intro h
    rw [StatementNode.generate] at h
    obtain ⟨cond, s1, h1, h⟩ := Gen.bind_eq_ok h
    obtain ⟨t, s2, h2, h⟩ := Gen.bind_eq_ok h
    cases h2
    obtain ⟨successorBlock, s3, h3, h⟩ := Gen.bind_eq_ok h
    obtain ⟨_, s4, h4, h⟩ := Gen.bind_eq_ok h
    obtain ⟨thenGenerated, s5, h5, h⟩ := Gen.bind_eq_ok h
    obtain ⟨_, s6, h6, h⟩ := Gen.bind_eq_ok h
    have k1 := Gen.Keeps.at_run h1 (inferInstance : Gen.Keeps Context.nesting _)
    have k3 := Gen.Keeps.at_run h3 (inferInstance : Gen.Keeps Context.nesting _)
    have k4 := Gen.Keeps.at_run h4 (inferInstance : Gen.Keeps Context.nesting _)
    have k5 := Gen.Keeps.at_run h5 (inferInstance : Gen.Keeps Context.nesting _)
    have hs5 : s5.ctx.successorBlocks = [] :=
      Context.successorBlocks_of_nesting (k5.trans (k4.trans (k3.trans k1))) hs
    exact BlockNode.generateStatements_of_hasFreeBreak thenBlock thenGenerated
      (some successorBlock) s5 s6 hfree hs5 (Gen.orLog_eq_ok h6)
  | .IfNode token condition thenBlock (some elseBlock), s, s', hfree, hs => by
    simp only [StatementNode.hasFreeBreak, Bool.or_eq_true] at hfree
    intro h
    rw [StatementNode.generate] at h
    obtain ⟨cond, s1, h1, h⟩ := Gen.bind_eq_ok h
    obtain ⟨t, s2, h2, h⟩ := Gen.bind_eq_ok h
    cases h2
    obtain ⟨successorBlock, s3, h3, h⟩ := Gen.bind_eq_ok h
    obtain ⟨_, s4, h4, h⟩ := Gen.bind_eq_ok h
    obtain ⟨thenGenerated, s5, h5, h⟩ := Gen.bind_eq_ok h
    obtain ⟨_, s6, h6, h⟩ := Gen.bind_eq_ok h
    obtain ⟨_, s7, h7, h⟩ := Gen.bind_eq_ok h
    dsimp only at h
    obtain ⟨elseGenerated, s9, h9, h⟩ := Gen.bind_eq_ok h
    obtain ⟨_, s10, h10, h⟩ := Gen.bind_eq_ok h
    have k1 := Gen.Keeps.at_run h1 (inferInstance : Gen.Keeps Context.nesting _)
    have k3 := Gen.Keeps.at_run h3 (inferInstance : Gen.Keeps Context.nesting _)
    have k4 := Gen.Keeps.at_run h4 (inferInstance : Gen.Keeps Context.nesting _)
    have k5 := Gen.Keeps.at_run h5 (inferInstance : Gen.Keeps Context.nesting _)
    have k6 := Gen.Keeps.at_run (Gen.orLog_eq_ok h6)
      (keeps_nesting_BlockNode_generateStatements thenBlock thenGenerated (some successorBlock))
    have k7 := Gen.Keeps.at_run h7 (inferInstance : Gen.Keeps Context.nesting _)
    have k9 := Gen.Keeps.at_run h9 (inferInstance : Gen.Keeps Context.nesting _)
    have hs5 : s5.ctx.successorBlocks = [] :=
      Context.successorBlocks_of_nesting (k5.trans (k4.trans (k3.trans k1))) hs
    have hs9 : s9.ctx.successorBlocks = [] :=
      Context.successorBlocks_of_nesting (k9.trans (k7.trans k6)) hs5
    rcases hfree with hfree | hfree
    · exact BlockNode.generateStatements_of_hasFreeBreak thenBlock thenGenerated
        (some successorBlock) s5 s6 hfree hs5 (Gen.orLog_eq_ok h6)
    · exact BlockNode.generateStatements_of_hasFreeBreak elseBlock elseGenerated
        (some successorBlock) s9 s10 hfree hs9 (Gen.orLog_eq_ok h10)
/-- A block that holds a `break` outside every `while` of the block does not
generate successfully from an empty loop-exit stack. -/
theorem BlockNode.generateStatements_of_hasFreeBreak :
    ∀ (block : BlockNode) (generatedBlock : Nat) (successorBlock : Option Nat) (s s' : State),
      block.hasFreeBreak = true → s.ctx.successorBlocks = [] →
      block.generateStatements generatedBlock successorBlock s ≠ .ok () s'
  | .mk statements rightCurlyBracketToken, generatedBlock, successorBlock, s, s', hfree, hs => by
    rw [BlockNode.hasFreeBreak] at hfree
    intro h
    rw [BlockNode.generateStatements] at h
    obtain ⟨previousBlock, s1, h1, h⟩ := Gen.bind_eq_ok h
    obtain ⟨_, s2, h2, h⟩ := Gen.bind_eq_ok h
    obtain ⟨_, s3, h3, h⟩ := Gen.bind_eq_ok h
    obtain ⟨_, s4, h4, h⟩ := Gen.bind_eq_ok h
    have k1 := Gen.Keeps.at_run h1 (inferInstance : Gen.Keeps Context.nesting _)
    have k2 := Gen.Keeps.at_run h2 (inferInstance : Gen.Keeps Context.nesting _)
    have k3 := Context.addSymbolTable_pushes _ _ h3
    have hs2 : s2.ctx.successorBlocks = [] :=
      Context.successorBlocks_of_nesting (k2.trans k1) hs
    have hs3 : s3.ctx.successorBlocks = [] := by
      simp only [Context.nesting, Prod.mk.injEq] at k3
      rw [k3.1, hs2]
    exact BlockNode.generateStatementList_of_hasFreeBreak statements s3 s4 hfree hs3 h4
/-- A list of statements that holds a `break` outside every `while` of the list
does not generate successfully from an empty loop-exit stack. -/
theorem BlockNode.generateStatementList_of_hasFreeBreak :
    ∀ (statements : List StatementNode) (s s' : State),
      BlockNode.hasFreeBreakList statements = true → s.ctx.successorBlocks = [] →
      BlockNode.generateStatementList statements s ≠ .ok () s'
  | [], _, _, hfree, _ => by simp [BlockNode.hasFreeBreakList] at hfree
  | statement :: rest, s, s', hfree, hs => by
    simp only [BlockNode.hasFreeBreakList, Bool.or_eq_true] at hfree
    intro h
    rw [BlockNode.generateStatementList] at h
    obtain ⟨t, s1, h1, h⟩ := Gen.bind_eq_ok h
    cases h1
    split at h
    · exact failWith_ne_ok _ _ _ _ h
    · obtain ⟨_, s2, h2, h⟩ := Gen.bind_eq_ok h
      rcases hfree with hfree | hfree
      · exact StatementNode.generate_of_hasFreeBreak statement s s2 hfree hs h2
      · have k2 := Gen.Keeps.at_run h2 (keeps_nesting_StatementNode_generate statement)
        exact BlockNode.generateStatementList_of_hasFreeBreak rest s2 s' hfree
          (Context.successorBlocks_of_nesting k2 hs) h
end

/-- `FunctionNode::addArgumentToSymbolTable` adds symbols to the innermost scope only. -/
theorem keeps_flow_FunctionNode_addArgumentToSymbolTable :
    ∀ (args : List VariableDefinitionNode) (index : Nat),
      Gen.Keeps Context.flow (FunctionNode.addArgumentToSymbolTable args index)
  | [], index => by
    rw [FunctionNode.addArgumentToSymbolTable]
    infer_instance
  | arg :: rest, index => by
    have ih := fun index => keeps_flow_FunctionNode_addArgumentToSymbolTable rest index
    rw [FunctionNode.addArgumentToSymbolTable]
    repeat' first
      | infer_instance
      | dsimp only
      | apply Gen.Keeps.of_ite
      | apply Gen.Keeps.of_map
      | apply Gen.Keeps.of_bind
      | apply Gen.Keeps.of_orLog
      | apply Gen.Keeps.of_orLogG
      | intro _
      | split

/-- The part of `FunctionNode::generateDefine` that precedes the statements of
the body keeps the loop-exit stack and the flag `returned`, and opens one scope. -/
theorem FunctionNode.generateDefine_entry (node : FunctionNode) (s sBody : State)
    (generatedBlock : Nat)
    (h : (do
      let generatedBlock ← (BlockNode.generateBlock node.generatedFunction none).orLog 1890
      Generator.setInsertPoint (some generatedBlock)
      Context.addSymbolTable
      (FunctionNode.addArgumentToSymbolTable node.args 0).orLog 1897
      Generator.setCurrentReturnType node.returnType.getValueType
      pure generatedBlock) s = .ok generatedBlock sBody) :
    Context.flow sBody.ctx
      = (s.ctx.successorBlocks, s.ctx.symbolTables.length + 1, s.ctx.returned) := by
  obtain ⟨gb, s1, h1, h⟩ := Gen.bind_eq_ok h
  obtain ⟨_, s2, h2, h⟩ := Gen.bind_eq_ok h
  obtain ⟨_, s3, h3, h⟩ := Gen.bind_eq_ok h
  obtain ⟨_, s4, h4, h⟩ := Gen.bind_eq_ok h
  obtain ⟨_, s5, h5, h⟩ := Gen.bind_eq_ok h
  cases h
  have k1 := Gen.Keeps.at_run h1 (inferInstance : Gen.Keeps Context.flow _)
  have k2 := Gen.Keeps.at_run h2 (inferInstance : Gen.Keeps Context.flow _)
  have k4 := Gen.Keeps.at_run (Gen.orLog_eq_ok h4)
    (keeps_flow_FunctionNode_addArgumentToSymbolTable node.args 0)
  have k5 := Gen.Keeps.at_run h5 (inferInstance : Gen.Keeps Context.flow _)
  cases h3
  rw [k5, k4]
  rw [k1] at k2
  simp only [Context.flow, Prod.mk.injEq] at k2 ⊢
  simp [k2.1, k2.2.1, k2.2.2]

/-- Sequencing is associative. -/
theorem Gen.bind_assoc {α β γ : Type} (m : Gen α) (f : α → Gen β) (g : β → Gen γ) :
    (m >>= f) >>= g = m >>= fun a => f a >>= g := by
  funext s
  show Gen.bind (Gen.bind m f) g s = Gen.bind m (fun a => Gen.bind (f a) g) s
  unfold Gen.bind
  cases m s <;> rfl

/-- A call that only yields a value does not change what follows it. -/
theorem Gen.pure_bind {α β : Type} (a : α) (f : α → Gen β) : (pure a >>= f) = f a := rfl

/-- The whole of `FunctionNode::generateDefine`, cut where the statements of the
body are generated. -/
theorem FunctionNode.generateDefine_eq (node : FunctionNode) (block : BlockNode)
    (hblock : node.block = some block) :
    node.generateDefine = (do
      let generatedBlock ← (do
        let generatedBlock ← (BlockNode.generateBlock node.generatedFunction none).orLog 1890
        Generator.setInsertPoint (some generatedBlock)
        Context.addSymbolTable
        (FunctionNode.addArgumentToSymbolTable node.args 0).orLog 1897
        Generator.setCurrentReturnType node.returnType.getValueType
        pure generatedBlock)
      (block.generateStatements generatedBlock none).orLog 1904
      Context.removeSymbolTable.orLog 1909
      let s ← getState
      if !s.ctx.returned then
        if node.returnType.getValueType.basicType = TokenType.TYPE_VOID
            ∧ node.returnType.getValueType.pointerCount = 0
            ∧ node.returnType.getValueType.isReference = false then do
          match s.ctx.lastBlock with
          | none => Generator.setInsertPoint (some generatedBlock)
          | some last => Generator.setInsertPoint (some last)
          Generator.createReturnVoid
        else failWith (.MissingReturnError block.getRightCurlyBracketToken)
      else pure ()
      Context.setReturned false
      Context.setLastBlock none) := by
  unfold FunctionNode.generateDefine
  simp only [hblock, Gen.bind_assoc, Gen.pure_bind] <;> rfl

/-- `FunctionNode::generateDefine` leaves the loop-exit stack as it found it. -/
theorem FunctionNode.generateDefine_successorBlocks (node : FunctionNode) (s s' : State)
    (h : node.generateDefine s = .ok () s') :
    s'.ctx.successorBlocks = s.ctx.successorBlocks := by
  cases hblock : node.block with
  | none =>
    unfold FunctionNode.generateDefine at h
    simp only [hblock] at h
    cases h
    rfl
  | some block =>
    rw [FunctionNode.generateDefine_eq node block hblock] at h
    obtain ⟨generatedBlock, s1, h1, h⟩ := Gen.bind_eq_ok h
    obtain ⟨_, s2, h2, h⟩ := Gen.bind_eq_ok h
    obtain ⟨_, s3, h3, h⟩ := Gen.bind_eq_ok h
    have k1 := FunctionNode.generateDefine_entry node s s1 generatedBlock h1
    have k2 := Gen.Keeps.at_run (Gen.orLog_eq_ok h2)
      (keeps_nesting_BlockNode_generateStatements block generatedBlock none)
    have k3 : s3.ctx.successorBlocks = s2.ctx.successorBlocks := by
      have h3 := Gen.orLog_eq_ok h3
      unfold Context.removeSymbolTable at h3
      obtain ⟨t, s4, h4, h3⟩ := Gen.bind_eq_ok h3
      cases h4
      split at h3
      · obtain ⟨_, _, -, h3⟩ := Gen.bind_eq_ok h3
        cases h3
      · cases h3
        rfl
    have k4 : s'.ctx.successorBlocks = s3.ctx.successorBlocks := by
      refine Gen.Keeps.at_run (f := fun c => c.successorBlocks) h ?_
      have i1 : Gen.Keeps (fun c => c.successorBlocks) (Context.setReturned false) :=
        Gen.Keeps.of_modifyCtx _ _ fun _ => rfl
      have i2 : Gen.Keeps (fun c => c.successorBlocks) (Context.setLastBlock none) :=
        Gen.Keeps.of_modifyCtx _ _ fun _ => rfl
      repeat' first
        | infer_instance
        | dsimp only
        | apply Gen.Keeps.of_ite
        | apply Gen.Keeps.of_map
        | apply Gen.Keeps.of_bind
        | apply Gen.Keeps.of_orLog
        | apply Gen.Keeps.of_orLogG
        | intro _
        | split
    simp only [Context.flow, Context.nesting, Prod.mk.injEq] at k1 k2
    rw [k4, k3, k2.1, k1.1]

/-- A sequence ensures what its continuation always ensures. -/
theorem Gen.Ensures.of_continuation {α β : Type} {q : State → Prop} {m : Gen α} {f : α → Gen β}
    (h : ∀ a, Gen.Ensures q (f a)) : Gen.Ensures q (m >>= f) := by
  constructor
  intro s s' b hb
  obtain ⟨a, s1, -, hf⟩ := Gen.bind_eq_ok hb
  exact (h a).run s1 s' b hf

/-- A call that records an error and returns `true` ensures anything. -/
theorem Gen.Ensures.of_failure {α : Type} (q : State → Prop) (e : CompileError) :
    Gen.Ensures q (failWith e : Gen α) :=
  ⟨fun s s' a h => absurd h (failWith_ne_ok e s s' a)⟩

/-- `Context::setReturned` sets the flag. -/
theorem Gen.Ensures.of_setReturned (flag : Bool) :
    Gen.Ensures (fun s => s.ctx.returned = flag) (Context.setReturned flag) := by
  constructor
  intro s s' a h
  cases h
  rfl

/-- `IfNode::generate` ends with `ctx.setReturned(false)`. -/
theorem IfNode.if_resets_returned (token : Token) (condition : ExpressionNode)
    (thenBlock : BlockNode) (elseBlock : Option BlockNode) :
    Gen.Ensures (fun s => s.ctx.returned = false)
      (StatementNode.IfNode token condition thenBlock elseBlock).generate := by
  rw [StatementNode.generate]
  dsimp only
  repeat' first
    | with_reducible exact Gen.Ensures.of_setReturned false
    | (with_reducible apply Gen.Ensures.of_continuation; intro _)
    | split
    | dsimp only

/-- `WhileNode::generate` ends with `ctx.setReturned(false)`. -/
theorem WhileNode.while_resets_returned (token : Token) (condition : ExpressionNode)
    (block : BlockNode) :
    Gen.Ensures (fun s => s.ctx.returned = false)
      (StatementNode.WhileNode token condition block).generate := by
  rw [StatementNode.generate]
  apply Gen.Ensures.of_continuation
  intro x
  obtain ⟨conditionBlock, successorBlock, generated⟩ := x
  dsimp only
  apply Gen.Ensures.of_continuation
  intro _
  unfold WhileNode.generateTail
  repeat' first
    | exact Gen.Ensures.of_setReturned false
    | (apply Gen.Ensures.of_continuation; intro _)

/-- `ReturnNode::generate` ends with `ctx.setReturned(true)`. -/
theorem ReturnNode.return_sets_returned (returnToken : Token) (value : Option ExpressionNode) :
    Gen.Ensures (fun s => s.ctx.returned = true) (ReturnNode.generate returnToken value) := by
  have hrest : ∀ v, Gen.Ensures (fun s => s.ctx.returned = true)
      (ReturnNode.generateRest returnToken v) := by
    intro v
    unfold ReturnNode.generateRest
    dsimp only
    repeat' first
      | with_reducible exact Gen.Ensures.of_setReturned true
      | (with_reducible apply Gen.Ensures.of_continuation; intro _)
      | split
      | dsimp only
  unfold ReturnNode.generate
  cases value with
  | none => exact Gen.Ensures.of_continuation hrest
  | some e => exact Gen.Ensures.of_continuation hrest

/-- The flag `returned` after a statement that was entered with the flag unset
and generated successfully: set exactly by a `return`. -/
theorem StatementNode.statement_returned :
    ∀ (statement : StatementNode) (s s' : State), statement.generate s = .ok () s' →
      s.ctx.returned = false → s'.ctx.returned = statement.isReturn
  | .LetNode token name type isHeap initialValue, s, s', h, hr => by
    rw [StatementNode.generate] at h
    have k := Gen.Keeps.at_run h (keeps_flow_LetNode_generate token name type isHeap initialValue)
    simp only [Context.flow, Prod.mk.injEq] at k
    rw [k.2.2, hr]
    rfl
  | .IfNode token condition thenBlock elseBlock, s, s', h, _ =>
    (IfNode.if_resets_returned token condition thenBlock elseBlock).run s s' () h
  | .WhileNode token condition block, s, s', h, _ =>
    (WhileNode.while_resets_returned token condition block).run s s' () h
  | .ReturnNode token returnToken value, s, s', h, _ => by
    rw [StatementNode.generate] at h
    exact (ReturnNode.return_sets_returned returnToken value).run s s' () h
  | .BreakNode token, s, s', h, hr => by
    rw [StatementNode.generate] at h
    have k := Gen.Keeps.at_run h (keeps_flow_BreakNode_generate token)
    simp only [Context.flow, Prod.mk.injEq] at k
    rw [k.2.2, hr]
    rfl
  | .AssignNode token dest value, s, s', h, hr => by
    rw [StatementNode.generate] at h
    have k := Gen.Keeps.at_run h (keeps_AssignNode_generate Context.flow token dest value)
    simp only [Context.flow, Prod.mk.injEq] at k
    rw [k.2.2, hr]
    rfl
  | .CallNode token f values, s, s', h, hr => by
    rw [StatementNode.generate] at h
    have k := Gen.Keeps.at_run h (inferInstance : Gen.Keeps Context.flow _)
    simp only [Context.flow, Prod.mk.injEq] at k
    rw [k.2.2, hr]
    rfl

/-- The flag `returned` after the statements of a list, entered with the flag
unset, have all generated successfully. -/
theorem BlockNode.generateStatementList_returned :
    ∀ (statements : List StatementNode) (s s' : State),
      BlockNode.generateStatementList statements s = .ok () s' → s.ctx.returned = false →
      s'.ctx.returned = BlockNode.endsWithReturn statements
  | [], s, s', h, hr => by
    rw [BlockNode.generateStatementList] at h
    cases h
    exact hr
  | [statement], s, s', h, hr => by
    rw [BlockNode.generateStatementList] at h
    obtain ⟨t, s1, h1, h⟩ := Gen.bind_eq_ok h
    cases h1
    split at h
    · exact absurd h (failWith_ne_ok _ _ _ _)
    · obtain ⟨_, s2, h2, h⟩ := Gen.bind_eq_ok h
      rw [BlockNode.generateStatementList] at h
      cases h
      simpa [BlockNode.endsWithReturn] using StatementNode.statement_returned statement s _ h2 hr
  | statement :: next :: rest, s, s', h, hr => by
    rw [BlockNode.generateStatementList] at h
    obtain ⟨t, s1, h1, h⟩ := Gen.bind_eq_ok h
    cases h1
    split at h
    · exact absurd h (failWith_ne_ok _ _ _ _)
    · obtain ⟨_, s2, h2, h⟩ := Gen.bind_eq_ok h
      have hr2 : s2.ctx.returned = false := by
        rw [BlockNode.generateStatementList] at h
        obtain ⟨t, s3, h3, h⟩ := Gen.bind_eq_ok h
        cases h3
        split at h
        · exact absurd h (failWith_ne_ok _ _ _ _)
        · rename_i hflags
          simp only [not_or, Bool.not_eq_true] at hflags
          exact hflags.2
      have ih := BlockNode.generateStatementList_returned (next :: rest) s2 s' h hr2
      rw [ih]
      simp [BlockNode.endsWithReturn, List.getLast?_cons_cons]

/-- The flag `returned` after a block, entered with the flag unset, has
generated successfully: set exactly when the last statement is a `return`. -/
theorem BlockNode.generateStatements_returned (statements : List StatementNode)
    (rightCurlyBracketToken : Token) (generatedBlock : Nat) (successorBlock : Option Nat)
    (s s' : State)
    (h : BlockNode.generateStatements (.mk statements rightCurlyBracketToken) generatedBlock
      successorBlock s = .ok () s')
    (hr : s.ctx.returned = false) :
    s'.ctx.returned = BlockNode.endsWithReturn statements := by
  rw [BlockNode.generateStatements] at h
  obtain ⟨previousBlock, s1, h1, h⟩ := Gen.bind_eq_ok h
  obtain ⟨_, s2, h2, h⟩ := Gen.bind_eq_ok h
  obtain ⟨_, s3, h3, h⟩ := Gen.bind_eq_ok h
  obtain ⟨_, s4, h4, h⟩ := Gen.bind_eq_ok h
  obtain ⟨_, s5, h5, h⟩ := Gen.bind_eq_ok h
  have k6 : s'.ctx.returned = s5.ctx.returned := by
    refine Gen.Keeps.at_run (f := fun c => c.returned) h ?_
    have i1 : Gen.Keeps (fun c => c.returned) (Context.setBreaked false) :=
      Gen.Keeps.of_modifyCtx _ _ fun _ => rfl
    repeat' first
      | infer_instance
      | dsimp only
      | apply Gen.Keeps.of_ite
      | apply Gen.Keeps.of_map
      | apply Gen.Keeps.of_bind
      | apply Gen.Keeps.of_orLog
      | apply Gen.Keeps.of_orLogG
      | intro _
      | split
  have k5 : s5.ctx.returned = s4.ctx.returned := by
    unfold Gen.ignoreResult Context.removeSymbolTable at h5
    simp only [bind, Gen.bind, getState] at h5
    cases he : s4.ctx.symbolTables.isEmpty with
    | true =>
      simp only [he, if_true, debugLog, returnTrue] at h5
      cases h5
      rfl
    | false =>
      simp only [he, modifyCtx] at h5
      cases h5
      rfl
  have hr3 : s3.ctx.returned = false := by
    cases h1
    cases h2
    cases h3
    exact hr
  rw [k6, k5]
  exact BlockNode.generateStatementList_returned statements s3 s4 h4 hr3

/-- A sequence whose first call returned `false` continues with the second. -/
theorem Gen.bind_of_ok {α β : Type} {m : Gen α} {f : α → Gen β} {s s' : State} {a : α}
    (h : m s = .ok a s') : (m >>= f) s = f a s' := by
  show Gen.bind m f s = f a s'
  unfold Gen.bind
  rw [h]

/-- C23: a function with a body, entered with the flag `returned` unset, whose
part before the body and whose body statements all generate successfully. If
the last statement of the body is not a `return` (or the body is empty) and the
return type is `void` with pointer depth 0 and not a reference,
`FunctionNode::generateDefine` succeeds and appends `ret void` to the last block
(the body's block when there is none); if the return type is anything else it
fails with `MissingReturn` at the closing brace of the body as the one new
error. If the last statement is a `return`, `generateDefine` succeeds, emitting
nothing more and reporting nothing. -/
theorem C23_missing_return_at_closing_brace (node : FunctionNode)
    (statements : List StatementNode) (rightCurlyBracketToken : Token) (s sBody s1 : State)
    (generatedBlock : Nat)
    (hblock : node.block = some (.mk statements rightCurlyBracketToken))
    (hreturned : s.ctx.returned = false)
    (hentry : (do
      let generatedBlock ← (BlockNode.generateBlock node.generatedFunction none).orLog 1890
      Generator.setInsertPoint (some generatedBlock)
      Context.addSymbolTable
      (FunctionNode.addArgumentToSymbolTable node.args 0).orLog 1897
      Generator.setCurrentReturnType node.returnType.getValueType
      pure generatedBlock) s = .ok generatedBlock sBody)
    (hbody : BlockNode.generateStatements (.mk statements rightCurlyBracketToken) generatedBlock
      none sBody = .ok () s1) :
    (BlockNode.endsWithReturn statements = false →
      node.returnType.getValueType.basicType = TokenType.TYPE_VOID
        ∧ node.returnType.getValueType.pointerCount = 0
        ∧ node.returnType.getValueType.isReference = false →
      node.generateDefine s = .ok () { s1 with
        g := { ({ s1.g with insertBlock := some (s1.ctx.lastBlock.getD generatedBlock) }).insert
            (.ret none) with nextId := s1.g.nextId + 1 }
        ctx := { s1.ctx with
          symbolTables := s1.ctx.symbolTables.dropLast, returned := false, lastBlock := none } })
    ∧ (BlockNode.endsWithReturn statements = false →
      ¬ (node.returnType.getValueType.basicType = TokenType.TYPE_VOID
        ∧ node.returnType.getValueType.pointerCount = 0
        ∧ node.returnType.getValueType.isReference = false) →
      node.generateDefine s = .fail { s1 with
        ctx := { s1.ctx with
          symbolTables := s1.ctx.symbolTables.dropLast
          errors := s1.ctx.errors ++ [.MissingReturnError rightCurlyBracketToken] } })
    ∧ (BlockNode.endsWithReturn statements = true →
      node.generateDefine s = .ok () { s1 with
        ctx := { s1.ctx with
          symbolTables := s1.ctx.symbolTables.dropLast, returned := false, lastBlock := none } }) := by
  have k1 := FunctionNode.generateDefine_entry node s sBody generatedBlock hentry
  have k2 := Gen.Keeps.at_run hbody
    (keeps_nesting_BlockNode_generateStatements (.mk statements rightCurlyBracketToken)
      generatedBlock none)
  simp only [Context.flow, Context.nesting, Prod.mk.injEq] at k1 k2
  have hr : s1.ctx.returned = BlockNode.endsWithReturn statements :=
    BlockNode.generateStatements_returned statements rightCurlyBracketToken generatedBlock none
      sBody s1 hbody (k1.2.2.trans hreturned)
  have hne : s1.ctx.symbolTables.isEmpty = false := by
    cases hst : s1.ctx.symbolTables with
    | nil =>
      rw [hst, k1.2.1] at k2
      simp at k2
    | cons _ _ => rfl
  have horLog : ((BlockNode.mk statements rightCurlyBracketToken).generateStatements
      generatedBlock none).orLog 1904 sBody = .ok () s1 := by
    unfold Gen.orLog
    rw [hbody]
  have hremove : Context.removeSymbolTable.orLog 1909 s1 = .ok ()
      { s1 with ctx := { s1.ctx with symbolTables := s1.ctx.symbolTables.dropLast } } := by
    simp [Gen.orLog, Context.removeSymbolTable, bind, Gen.bind, getState, hne, modifyCtx]
  rw [FunctionNode.generateDefine_eq node _ hblock, Gen.bind_of_ok hentry, Gen.bind_of_ok horLog,
    Gen.bind_of_ok hremove]
  refine ⟨?_, ?_, ?_⟩
  · intro hlast hvoid
    rw [hlast] at hr
    cases hlb : s1.ctx.lastBlock <;>
      simp [bind, Gen.bind, getState, hr, hvoid, hlb,
        Generator.setInsertPoint, modifyG, Generator.createReturnVoid, Generator.emitVoid,
        Context.setReturned, Context.setLastBlock, modifyCtx]
  · intro hlast hvoid
    rw [hlast] at hr
    simp [bind, Gen.bind, getState, hr, hvoid, failWith,
      Context.addCompileError, modifyCtx, returnTrue, BlockNode.getRightCurlyBracketToken]
  · intro hlast
    rw [hlast] at hr
    simp [bind, Gen.bind, getState, hr, pure,
      Context.setReturned, Context.setLastBlock, modifyCtx]

/-- The written-out states `stateDeclaredI32` and `stateBodyI32` are the ones the
model reaches for `fn f() i32 { }`, and `functionEmptyI32` has the generated
function and return type that `generateDeclare` gives the node. -/
theorem stateBodyI32_reached :
    (declareEmptyI32.okState?.map fun s => s.g) = some stateDeclaredI32.g
    ∧ (declareEmptyI32.okState?.map fun s =>
        (s.ctx.symbolTables, s.ctx.errors, s.debugLogs, s.ctx.returned)) =
      some ([], [], [], false)
    ∧ (declareEmptyI32.value?.map fun node =>
        (node.generatedFunction, node.returnType.getValueType,
          node.returnType.getGeneratedType)) =
      some (functionEmptyI32.generatedFunction, functionEmptyI32.returnType.getValueType,
        functionEmptyI32.returnType.getGeneratedType)
    ∧ ((inFunction [] typeI32 getState).value?.map fun s => s.g) = some stateBodyI32.g
    ∧ ((inFunction [] typeI32 getState).value?.map fun s =>
        (s.ctx.symbolTables.dropLast, s.ctx.errors, s.debugLogs, s.ctx.returned)) =
      some (stateBodyI32.ctx.symbolTables, [], [], false) := by
  refine ⟨?_, ?_, ?_, ?_, ?_⟩ <;> decide!

/-- C23 at `fn f() i32 { }`: the part before the body and the empty body
generate successfully, and `generateDefine` fails with `MissingReturn` at the
closing brace. Evaluated: `fn f() i32 { }` and
`fn f() i32 { if true { return 0; } }` are rejected with `MissingReturn` at the
closing brace of the function, `fn f() { }` gets `ret void`, and
`fn f() i32 { return 0; }` is accepted. -/
theorem C23_missing_return_at_closing_brace_witness :
    functionEmptyI32.generateDefine stateDeclaredI32 = .fail { stateBodyI32 with
      ctx := { stateBodyI32.ctx with
        symbolTables := stateBodyI32.ctx.symbolTables.dropLast
        errors := stateBodyI32.ctx.errors
          ++ [.MissingReturnError (Token.of .CURLY_BRACKET_RIGHT "\x7d")] } }
    ∧ ((compile programEmptyI32).failState?.map fun s => s.ctx.errors) =
      some [.MissingReturnError (Token.of .CURLY_BRACKET_RIGHT "\x7d")]
    ∧ ((compile programReturnInIf).failState?.map fun s => s.ctx.errors) =
      some [.MissingReturnError (Token.of .CURLY_BRACKET_RIGHT "\x7d")]
    ∧ ((compile programEmptyVoid).okState?.map fun s =>
        (s.ctx.errors, s.g.blocks.map (·.insts))) = some ([], [[.ret none]])
    ∧ ((compile programReturnZero).okState?.map fun s => s.ctx.errors) = some [] :=
  ⟨(C23_missing_return_at_closing_brace functionEmptyI32 []
      (Token.of .CURLY_BRACKET_RIGHT "\x7d") stateDeclaredI32 stateBodyI32 stateBodyI32 0
      rfl rfl rfl rfl).2.1 rfl (by decide),
    by decide!, by decide!, by decide!, by decide!⟩

/-! ## Theorems: array types, float folding, flags at block entry, division, literals -/

/-- The loop over `type.arraySizes` in `Generator::createType`, when no size is
zero: each size wraps what the sizes before it built. -/
theorem Generator.wrapArrays_of_nonzero (sizes : List Nat) :
    ∀ (t : IRType) (s : State), (∀ n ∈ sizes, n ≠ 0) →
      Generator.wrapArrays sizes t s = .ok (sizes.foldl IRType.array t) s := by
  induction sizes with
  | nil =>
    intro t s _
    rfl
  | cons n rest ih =>
    intro t s h
    rw [Generator.wrapArrays]
    have hn : n ≠ 0 := h n (List.mem_cons_self _ _)
    simp only [hn, ne_eq, not_false_eq_true, if_true, List.foldl_cons]
    exact ih _ s fun m hm => h m (List.mem_cons_of_mem _ hm)

/-- `Generator::getType` does not change the state. -/
theorem Generator.getType_state (type : TokenType) (s s' : State) (base : IRType)
    (h : Generator.getType type s = .ok base s') : s' = s := by
  unfold Generator.getType at h
  split at h <;> first
    | (cases h; rfl)
    | (obtain ⟨_, _, -, h⟩ := Gen.bind_eq_ok h; cases h)

/-- C32, as the code has it: for a type that is not a reference, whose element
type exists and none of whose sizes is zero, `Generator::createType` wraps the
element type (`i8` for `void` with pointer depth at least 1) in `ptr` once for
each level of pointer depth and then in an array for each size from the first to
the last, so the first size is the innermost dimension and the last size the
outermost. -/
theorem C32_createType_wraps_sizes_first_to_last (type : ValueType) (s : State) (base : IRType)
    (hreference : type.isReference = false)
    (hsizes : ∀ n ∈ type.arraySizes, n ≠ 0)
    (hbase : (if type.basicType = TokenType.TYPE_VOID ∧ type.pointerCount ≠ 0
        then some (IRType.int 8) else (Generator.getType type.basicType s).value?) = some base) :
    Generator.createType type s
      = .ok (type.arraySizes.foldl IRType.array (wrapPointers type.pointerCount base)) s := by
  unfold Generator.createType
  by_cases hvoid : type.basicType = TokenType.TYPE_VOID ∧ type.pointerCount ≠ 0
  · simp only [hvoid, and_self, if_true, Option.some.injEq, ne_eq, not_false_eq_true] at hbase
    subst hbase
    simp only [hreference, Bool.false_eq_true, if_false, hvoid, and_self, if_true, ne_eq,
      not_false_eq_true]
    exact Generator.wrapArrays_of_nonzero _ _ s hsizes
  · simp only [hvoid, if_false] at hbase
    obtain ⟨s', hs'⟩ := Result.value?_eq_some hbase
    rw [Generator.getType_state _ _ _ _ hs'] at hs'
    have hlog : (Generator.getType type.basicType).orLogG 160 s = .ok base s := by
      unfold Gen.orLogG
      rw [hs']
    simp only [hreference, Bool.false_eq_true, if_false, hvoid]
    rw [Gen.bind_of_ok hlog]
    exact Generator.wrapArrays_of_nonzero _ _ s hsizes

/-- C32 at `i32` with sizes `[3, 4]` and at `void**` with sizes `[3]`. -/
theorem C32_createType_wraps_sizes_first_to_last_witness :
    Generator.createType { basicType := .TYPE_I32, arraySizes := [3, 4] } {}
      = .ok (.array (.array (.int 32) 3) 4) {}
    ∧ Generator.createType { basicType := .TYPE_VOID, pointerCount := 2, arraySizes := [3] } {}
      = .ok (.array (.ptr (.ptr (.int 8))) 3) {} :=
  ⟨C32_createType_wraps_sizes_first_to_last { basicType := .TYPE_I32, arraySizes := [3, 4] } {}
      (.int 32) rfl (by decide) rfl,
    C32_createType_wraps_sizes_first_to_last
      { basicType := .TYPE_VOID, pointerCount := 2, arraySizes := [3] } {} (.int 8) rfl
      (by decide) rfl⟩

/-- C32, evaluated at `array_sizes = [3, 4]` over `i32`: `Generator::createType`
gives a 4-element array of 3-element arrays of `i32`, not the 3-element array of
4-element arrays that reading the sizes outer-to-inner gives. -/
theorem C32_first_size_is_innermost :
    (Generator.createType { basicType := .TYPE_I32, arraySizes := [3, 4] } {}).value?
      = some (.array (.array (.int 32) 3) 4)
    ∧ IRType.arrayOuterToInner [3, 4] (.int 32) = .array (.array (.int 32) 4) 3
    ∧ (Generator.createType { basicType := .TYPE_I32, arraySizes := [3, 4] } {}).value?
      ≠ some (IRType.arrayOuterToInner [3, 4] (.int 32)) := by
  refine ⟨?_, ?_, ?_⟩ <;> decide

/-- C33, evaluated at `1.5 + 1.5`, `1.5 * 2.5` and `1.5 < 2.5`: both operands are
converted to `int64_t` before `+ - * / %`, so the folded doubles are 2 and 2,
not 3 and 3.75; the comparison reads the operands' `getConstantInteger()`, both
0, so it folds to `false`. -/
theorem C33_float_folding_truncates_operands :
    ((inFunction [] typeVoid
        (exprBinary .PLUS "+" (exprFloat "1.5") (exprFloat "1.5")).generate).value?.map
      fun r => (r.valueType.basicType, r.constantDouble)) = some (.CONSTANT_FLOAT, 2)
    ∧ ((inFunction [] typeVoid
        (exprBinary .ASTERISK "*" (exprFloat "1.5") (exprFloat "2.5")).generate).value?.map
      fun r => (r.valueType.basicType, r.constantDouble)) = some (.CONSTANT_FLOAT, 2)
    ∧ ((inFunction [] typeVoid
        (exprBinary .COMPARE_LESSER_THAN "<" (exprFloat "1.5") (exprFloat "2.5")).generate).value?.map
      fun r => (r.valueType.basicType, r.constantBool)) = some (.CONSTANT_FLOAT, false) := by
  refine ⟨?_, ?_, ?_⟩ <;> decide!

/-- C34, evaluated at `fn f() { if true { return; } else { let x = 1; } }`: the
first statement of the else-block is rejected with
`CanNotGiveInstructionAfterBreakOrReturn`, though no earlier statement of the
else-block exists; with `let x = 1;` in place of `return;` the function compiles. -/
theorem C34_else_block_entered_with_returned_set :
    ((compile programReturnThenElseLet).failState?.map fun s => s.ctx.errors) =
      some [.CanNotGiveInstructionAfterBreakOrReturn (Token.of .LET "let")]
    ∧ ((compile programLetThenElseLet).okState?.map fun s => s.ctx.errors) = some [] := by
  refine ⟨?_, ?_⟩ <;> decide!

/-- C37, evaluated at `1 / 0`, `1 % 0` and `(-9223372036854775807 - 1) / -1`: the
operands are accepted, the instruction is emitted, and the fold then evaluates
`lhs / rhs` or `lhs % rhs` on `int64_t`, which is undefined for these operands;
the left operand of the last one folds to `INT64_MIN`. -/
theorem C37_constant_division_by_zero_is_undefined :
    (inFunction [] typeVoid (exprBinary .SLASH "/" (exprInt "1") (exprInt "0")).generate).isUndefined
      = true
    ∧ (inFunction [] typeVoid
        (exprBinary .PERCENT "%" (exprInt "1") (exprInt "0")).generate).isUndefined = true
    ∧ ((inFunction [] typeVoid exprInt64Min.generate).value?.map fun r =>
        (r.valueType.basicType, r.constantInteger)) = some (.CONSTANT_INTEGER, INT64_MIN)
    ∧ (inFunction [] typeVoid
        (exprBinary .SLASH "/" exprInt64Min (exprNeg (exprInt "1"))).generate).isUndefined
      = true := by
  refine ⟨?_, ?_, ?_, ?_⟩ <;> decide!

/-- C38, evaluated at `a/b`: the case `'/'` of `Tokenizer::getToken` reads one
character to look for `//` and `/*` and a second one before it makes the `SLASH`
token, so `b` is lost and the tokens are `a`, `/`, end of file; `a*b` gives `a`,
`*`, `b`, end of file, and `a/ b`, where the lost character is a blank, gives
`a`, `/`, `b`, end of file. -/
theorem C38_slash_swallows_next_character :
    tokenize 8 "a/b" = [(.SYMBOL, "a"), (.SLASH, "/"), (.END_OF_FILE, "")]
    ∧ tokenize 8 "a*b" = [(.SYMBOL, "a"), (.ASTERISK, "*"), (.SYMBOL, "b"), (.END_OF_FILE, "")]
    ∧ tokenize 8 "a/ b" = [(.SYMBOL, "a"), (.SLASH, "/"), (.SYMBOL, "b"), (.END_OF_FILE, "")]
    ∧ ((Tokenizer.opened "/b").map fun t => (t.getToken 8)) =
      some (.ok { type := .SLASH, str := "/", line := 1, column := 1 }
        { c := none, src := [], column := 3, previousColumn := 3 }) := by
  refine ⟨?_, ?_, ?_, ?_⟩ <;> decide!

/-- The loop of `Tokenizer::getStringLiteralToken` does not exit while neither
the current character nor any character still to come is a quote or a backslash:
at the end of the input `get` returns `EOF` again and again. -/
theorem Tokenizer.stringLiteralLoop_unclosed :
    ∀ (fuel : Nat) (t : Tokenizer) (buffer : String),
      t.c ≠ some '"' → t.c ≠ some '\\' → (∀ c ∈ t.src, c ≠ '"' ∧ c ≠ '\\') →
      Tokenizer.stringLiteralLoop fuel t buffer = .outOfFuel := by
  intro fuel
  induction fuel with
  | zero =>
    intro t buffer _ _ _
    rfl
  | succ fuel ih =>
    intro t buffer hq hb hsrc
    rw [Tokenizer.stringLiteralLoop]
    simp only [hq, hb, ne_eq, not_false_eq_true, if_true, if_false]
    apply ih
    · cases hs : t.src with
      | nil => simp [Tokenizer.advance, Tokenizer.get, hs]
      | cons x rest =>
        have := (hsrc x (by rw [hs]; exact List.mem_cons_self _ _)).1
        simp [Tokenizer.advance, Tokenizer.get, hs, this]
    · cases hs : t.src with
      | nil => simp [Tokenizer.advance, Tokenizer.get, hs]
      | cons x rest =>
        have := (hsrc x (by rw [hs]; exact List.mem_cons_self _ _)).2
        simp [Tokenizer.advance, Tokenizer.get, hs, this]
    · intro c hc
      apply hsrc
      have : c ∈ t.src.tail := by simpa [Tokenizer.advance, Tokenizer.get] using hc
      exact List.mem_of_mem_tail this

/-- C39: with the tokenizer at a quote and neither a quote nor a backslash in
the rest of the input, `Tokenizer::getToken` does not return, however many steps
it is given: `getStringLiteralToken` never tests for `EOF`. -/
theorem C39_unclosed_string_literal_never_returns (t : Tokenizer) (fuel : Nat)
    (hc : t.c = some '"') (hsrc : ∀ c ∈ t.src, c ≠ '"' ∧ c ≠ '\\') :
    t.getToken fuel = .outOfFuel := by
  cases fuel with
  | zero => rfl
  | succ fuel =>
    rw [Tokenizer.getToken]
    simp only [hc]
    have hloop : Tokenizer.stringLiteralLoop fuel t.advance "" = .outOfFuel := by
      apply Tokenizer.stringLiteralLoop_unclosed
      · cases hs : t.src with
        | nil => simp [Tokenizer.advance, Tokenizer.get, hs]
        | cons x rest =>
          have := (hsrc x (by rw [hs]; exact List.mem_cons_self _ _)).1
          simp [Tokenizer.advance, Tokenizer.get, hs, this]
      · cases hs : t.src with
        | nil => simp [Tokenizer.advance, Tokenizer.get, hs]
        | cons x rest =>
          have := (hsrc x (by rw [hs]; exact List.mem_cons_self _ _)).2
          simp [Tokenizer.advance, Tokenizer.get, hs, this]
      · intro c hc'
        apply hsrc
        have : c ∈ t.src.tail := by simpa [Tokenizer.advance, Tokenizer.get] using hc'
        exact List.mem_of_mem_tail this
    simp [Tokenizer.getStringLiteralToken, hloop]

/-- C39 at the input `"ab`, for 1000 steps; the unterminated block comment `/*`
does yield `UnexpectedEof`, and `"ab\` yields `UnexpectedCharactor`. -/
theorem C39_unclosed_string_literal_never_returns_witness :
    Tokenizer.opened "\"ab" = some { c := some '"', src := ['a', 'b'] }
    ∧ Tokenizer.getToken 1000 { c := some '"', src := ['a', 'b'] } = .outOfFuel
    ∧ ((Tokenizer.opened "/*").map fun t => (t.getToken 8)) =
      some (.error (.UnexpectedEofError { type := .END_OF_FILE, line := 1, column := 1 })
        { c := none, src := [], column := 3, previousColumn := 3 })
    ∧ ((Tokenizer.opened "\"ab\\").map fun t => (t.getToken 8)) =
      some (.error
        (.UnexpectedCharactorError
          { type := .UNDEFINED, str := String.singleton (Char.ofNat 255), line := 1, column := 1 })
        { c := none, src := [], column := 5, previousColumn := 5 }) :=
  ⟨by decide!,
    C39_unclosed_string_literal_never_returns { c := some '"', src := ['a', 'b'] } 1000 rfl
      (by decide),
    by decide!, by decide!⟩

/-- C40, evaluated at the lexemes `010` and `08`, both of which the tokenizer
produces as `CONSTANT_INTEGER`: `std::stoll` with base 0 reads a leading `0` as
the octal prefix, so `010` folds to 8, and `08` is read up to the `8` only, so
`toInt64` returns `true` and `ConstantNode::generate` fails, with no compile
error; `10` folds to 10. -/
theorem C40_leading_zero_read_as_octal :
    tokenize 8 "010 08" = [(.CONSTANT_INTEGER, "010"), (.CONSTANT_INTEGER, "08"), (.END_OF_FILE, "")]
    ∧ ((inFunction [] typeVoid (exprInt "010").generate).value?.map fun r =>
        (r.valueType.basicType, r.constantInteger)) = some (.CONSTANT_INTEGER, 8)
    ∧ ((inFunction [] typeVoid (exprInt "08").generate).failState?.map fun s =>
        (s.ctx.errors, s.debugLogs)) = some ([], [⟨"Node.cpp", 891⟩])
    ∧ ((inFunction [] typeVoid (exprInt "10").generate).value?.map fun r =>
        (r.valueType.basicType, r.constantInteger)) = some (.CONSTANT_INTEGER, 10) := by
  refine ⟨?_, ?_, ?_, ?_⟩ <;> decide!

/-! ## Theorems: scopes -/

/-- A successful `Context::setLastBlock` leaves the scopes as it found them. -/
@[instance] theorem keeps_symbolTables_setLastBlock (block : Option Nat) :
    Gen.Keeps Context.symbolTables (Context.setLastBlock block) :=
  Gen.Keeps.of_modifyCtx _ _ fun _ => rfl

/-- A successful `Context::setBreaked` leaves the scopes as it found them. -/
@[instance] theorem keeps_symbolTables_setBreaked (flag : Bool) :
    Gen.Keeps Context.symbolTables (Context.setBreaked flag) :=
  Gen.Keeps.of_modifyCtx _ _ fun _ => rfl

/-- A successful `Context::setReturned` leaves the scopes as it found them. -/
@[instance] theorem keeps_symbolTables_setReturned (flag : Bool) :
    Gen.Keeps Context.symbolTables (Context.setReturned flag) :=
  Gen.Keeps.of_modifyCtx _ _ fun _ => rfl

/-- A successful `Context::setLastBlock` leaves the outer scopes as it found them. -/
@[instance] theorem keeps_outerScopes_setLastBlock (block : Option Nat) :
    Gen.Keeps Context.outerScopes (Context.setLastBlock block) :=
  Gen.Keeps.of_modifyCtx _ _ fun _ => rfl

/-- A successful `Context::setBreaked` leaves the outer scopes as it found them. -/
@[instance] theorem keeps_outerScopes_setBreaked (flag : Bool) :
    Gen.Keeps Context.outerScopes (Context.setBreaked flag) :=
  Gen.Keeps.of_modifyCtx _ _ fun _ => rfl

/-- A successful `Context::setReturned` leaves the outer scopes as it found them. -/
@[instance] theorem keeps_outerScopes_setReturned (flag : Bool) :
    Gen.Keeps Context.outerScopes (Context.setReturned flag) :=
  Gen.Keeps.of_modifyCtx _ _ fun _ => rfl

/-- A successful `Context::addSuccessorBlockForBreak` leaves the outer scopes as it found them. -/
@[instance] theorem keeps_outerScopes_addSuccessorBlockForBreak (successorBlock : Nat) :
    Gen.Keeps Context.outerScopes (Context.addSuccessorBlockForBreak successorBlock) :=
  Gen.Keeps.of_modifyCtx _ _ fun _ => rfl

/-- A successful `Context::removeSuccessorBlockForBreak` leaves the outer scopes as it
found them. -/
@[instance] theorem keeps_outerScopes_removeSuccessorBlockForBreak :
    Gen.Keeps Context.outerScopes Context.removeSuccessorBlockForBreak := by
  unfold Context.removeSuccessorBlockForBreak
  apply Gen.Keeps.of_bind
  · infer_instance
  intro s
  split
  · infer_instance
  · exact Gen.Keeps.of_modifyCtx _ _ fun _ => rfl

/-- What a successful `Context::addSymbol` does to the scopes. -/
theorem Context.addSymbol_appends (name : String) (type : ValueType) (value : Option Value)
    (s s' : State) (h : Context.addSymbol name type value s = .ok () s') :
    ∃ table, s.ctx.symbolTables.getLast? = some table
      ∧ s'.ctx.symbolTables = s.ctx.symbolTables.dropLast ++ [table ++ [⟨name, type, value⟩]] := by
  unfold Context.addSymbol at h
  obtain ⟨s0, s1, h0, h⟩ := Gen.bind_eq_ok h
  cases h0
  cases hl : s.ctx.symbolTables.getLast? with
  | none =>
    simp only [hl] at h
    obtain ⟨_, _, -, h⟩ := Gen.bind_eq_ok h
    cases h
  | some table =>
    simp only [hl] at h
    cases h
    exact ⟨table, rfl, rfl⟩

/-- A successful `Context::addSymbol` leaves the outer scopes as it found them. -/
@[instance] theorem keeps_outerScopes_addSymbol (name : String) (type : ValueType)
    (value : Option Value) : Gen.Keeps Context.outerScopes (Context.addSymbol name type value) := by
  constructor
  intro s s' a h
  obtain ⟨table, hl, hs⟩ := Context.addSymbol_appends name type value s s' h
  have hne : s.ctx.symbolTables ≠ [] := by
    intro hnil
    rw [hnil] at hl
    cases hl
  have hlen := List.length_pos.mpr hne
  simp only [Context.outerScopes, hs, List.dropLast_concat, List.length_append,
    List.length_dropLast, List.length_singleton, Prod.mk.injEq, true_and]
  omega

/-- A successful `LetNode::generate`, from the point where the initializer has
been generated, leaves the outer scopes as it found them. -/
@[instance] theorem keeps_outerScopes_LetNode_generateRest (token name : Token)
    (type : Option TypeNode) (isHeap : Bool) (initialValue : Option ExprResult) :
    Gen.Keeps Context.outerScopes (LetNode.generateRest token name type isHeap initialValue) := by
  unfold LetNode.generateRest
  repeat' first
    | infer_instance
    | dsimp only
    | apply Gen.Keeps.of_ite
    | apply Gen.Keeps.of_map
    | apply Gen.Keeps.of_bind
    | apply Gen.Keeps.of_orLog
    | apply Gen.Keeps.of_orLogG
    | intro _
    | split

/-- A successful `LetNode::generate` leaves the outer scopes as it found them. -/
@[instance] theorem keeps_outerScopes_LetNode_generate (token name : Token)
    (type : Option TypeNode) (isHeap : Bool) (initialValue : Option ExpressionNode) :
    Gen.Keeps Context.outerScopes (LetNode.generate token name type isHeap initialValue) := by
  unfold LetNode.generate
  repeat' first
    | infer_instance
    | dsimp only
    | apply Gen.Keeps.of_ite
    | apply Gen.Keeps.of_map
    | apply Gen.Keeps.of_bind
    | apply Gen.Keeps.of_orLog
    | apply Gen.Keeps.of_orLogG
    | intro _
    | split

/-- A successful `ReturnNode::generate`, from the point where the value has been
generated, leaves the outer scopes as it found them. -/
@[instance] theorem keeps_outerScopes_ReturnNode_generateRest (returnToken : Token)
    (value : Option ExprResult) :
    Gen.Keeps Context.outerScopes (ReturnNode.generateRest returnToken value) := by
  unfold ReturnNode.generateRest
  repeat' first
    | infer_instance
    | dsimp only
    | apply Gen.Keeps.of_ite
    | apply Gen.Keeps.of_map
    | apply Gen.Keeps.of_bind
    | apply Gen.Keeps.of_orLog
    | apply Gen.Keeps.of_orLogG
    | intro _
    | split

/-- A successful `ReturnNode::generate` leaves the outer scopes as it found them. -/
@[instance] theorem keeps_outerScopes_ReturnNode_generate (returnToken : Token)
    (value : Option ExpressionNode) :
    Gen.Keeps Context.outerScopes (ReturnNode.generate returnToken value) := by
  unfold ReturnNode.generate
  repeat' first
    | infer_instance
    | dsimp only
    | apply Gen.Keeps.of_ite
    | apply Gen.Keeps.of_map
    | apply Gen.Keeps.of_bind
    | apply Gen.Keeps.of_orLog
    | apply Gen.Keeps.of_orLogG
    | intro _
    | split

/-- A successful `BreakNode::generate` leaves the outer scopes as it found them. -/
@[instance] theorem keeps_outerScopes_BreakNode_generate (token : Token) :
    Gen.Keeps Context.outerScopes (BreakNode.generate token) := by
  unfold BreakNode.generate
  repeat' first
    | infer_instance
    | dsimp only
    | apply Gen.Keeps.of_ite
    | apply Gen.Keeps.of_map
    | apply Gen.Keeps.of_bind
    | apply Gen.Keeps.of_orLog
    | apply Gen.Keeps.of_orLogG
    | intro _
    | split

/-- A successful `WhileNode::generate`, up to the body, leaves the outer scopes as
it found them. -/
@[instance] theorem keeps_outerScopes_WhileNode_generateHead (condition : ExpressionNode) :
    Gen.Keeps Context.outerScopes (WhileNode.generateHead condition) := by
  unfold WhileNode.generateHead
  repeat' first
    | infer_instance
    | dsimp only
    | apply Gen.Keeps.of_ite
    | apply Gen.Keeps.of_map
    | apply Gen.Keeps.of_bind
    | apply Gen.Keeps.of_orLog
    | apply Gen.Keeps.of_orLogG
    | intro _
    | split

/-- A successful `WhileNode::generate`, after the body, leaves the outer scopes as
it found them. -/
@[instance] theorem keeps_outerScopes_WhileNode_generateTail (successorBlock : Nat) :
    Gen.Keeps Context.outerScopes (WhileNode.generateTail successorBlock) := by
  unfold WhileNode.generateTail
  repeat' first
    | infer_instance
    | dsimp only
    | apply Gen.Keeps.of_ite
    | apply Gen.Keeps.of_map
    | apply Gen.Keeps.of_bind
    | apply Gen.Keeps.of_orLog
    | apply Gen.Keeps.of_orLogG
    | intro _
    | split

/-- `ctx.removeSymbolTable();` with the result dropped removes the innermost
scope, if there is one. -/
theorem Context.removeSymbolTable_dropLast (s s1 : State)
    (h : Context.removeSymbolTable.ignoreResult s = .ok () s1) :
    s1.ctx.symbolTables = s.ctx.symbolTables.dropLast := by
  unfold Gen.ignoreResult Context.removeSymbolTable at h
  simp only [bind, Gen.bind, getState] at h
  cases he : s.ctx.symbolTables.isEmpty with
  | true =>
    simp only [he, if_true, debugLog, returnTrue] at h
    cases h
    rw [List.isEmpty_iff] at he
    simp [he]
  | false =>
    simp only [he, modifyCtx] at h
    cases h
    rfl

/-- A list of scopes is its outer scopes followed by its innermost scope. -/
theorem Context.symbolTables_of_outerScopes {c c' : Context}
    (h : Context.outerScopes c' = Context.outerScopes c) :
    c'.symbolTables.dropLast = c.symbolTables.dropLast
      ∧ c'.symbolTables.length = c.symbolTables.length := by
  simpa [Context.outerScopes] using h

mutual
/-- Every statement that generates successfully leaves the scopes below the
innermost one, and the number of scopes, as it found them. -/
theorem keeps_outerScopes_StatementNode_generate :
    ∀ statement : StatementNode, Gen.Keeps Context.outerScopes statement.generate
  | .LetNode token name type isHeap initialValue => by
    rw [StatementNode.generate]
    infer_instance
  | .IfNode token condition thenBlock none => by
    have ih : ∀ generatedBlock successorBlock, Gen.Keeps Context.outerScopes
        (thenBlock.generateStatements generatedBlock successorBlock) :=
      fun generatedBlock successorBlock => Gen.Keeps.weaken (fun t => (t.dropLast, t.length))
        (keeps_symbolTables_BlockNode_generateStatements thenBlock generatedBlock successorBlock)
    rw [StatementNode.generate]
    repeat' first
      | infer_instance
      | dsimp only
      | apply Gen.Keeps.of_ite
      | apply Gen.Keeps.of_map
      | apply Gen.Keeps.of_bind
      | apply Gen.Keeps.of_orLog
      | apply Gen.Keeps.of_orLogG
      | intro _
      | split
  | .IfNode token condition thenBlock (some elseBlock) => by
    have ih1 : ∀ generatedBlock successorBlock, Gen.Keeps Context.outerScopes
        (thenBlock.generateStatements generatedBlock successorBlock) :=
      fun generatedBlock successorBlock => Gen.Keeps.weaken (fun t => (t.dropLast, t.length))
        (keeps_symbolTables_BlockNode_generateStatements thenBlock generatedBlock successorBlock)
    have ih2 : ∀ generatedBlock successorBlock, Gen.Keeps Context.outerScopes
        (elseBlock.generateStatements generatedBlock successorBlock) :=
      fun generatedBlock successorBlock => Gen.Keeps.weaken (fun t => (t.dropLast, t.length))
        (keeps_symbolTables_BlockNode_generateStatements elseBlock generatedBlock successorBlock)
    rw [StatementNode.generate]
    repeat' first
      | infer_instance
      | dsimp only
      | apply Gen.Keeps.of_ite
      | apply Gen.Keeps.of_map
      | apply Gen.Keeps.of_bind
      | apply Gen.Keeps.of_orLog
      | apply Gen.Keeps.of_orLogG
      | intro _
      | split
  | .WhileNode token condition block => by
    have ih : ∀ generatedBlock successorBlock, Gen.Keeps Context.outerScopes
        (block.generateStatements generatedBlock successorBlock) :=
      fun generatedBlock successorBlock => Gen.Keeps.weaken (fun t => (t.dropLast, t.length))
        (keeps_symbolTables_BlockNode_generateStatements block generatedBlock successorBlock)
    rw [StatementNode.generate]
    apply Gen.Keeps.of_bind
    · infer_instance
    intro x
    obtain ⟨conditionBlock, successorBlock, generated⟩ := x
    dsimp only
    infer_instance
  | .ReturnNode token returnToken value => by
    rw [StatementNode.generate]
    infer_instance
  | .BreakNode token => by
    rw [StatementNode.generate]
    infer_instance
  | .AssignNode token dest value => by
    rw [StatementNode.generate]
    infer_instance
  | .CallNode token f values => by
    rw [StatementNode.generate]
    infer_instance
/-- Every block that generates successfully leaves the scopes as it found them. -/
theorem keeps_symbolTables_BlockNode_generateStatements :
    ∀ (block : BlockNode) (generatedBlock : Nat) (successorBlock : Option Nat),
      Gen.Keeps Context.symbolTables (block.generateStatements generatedBlock successorBlock)
  | .mk statements rightCurlyBracketToken, generatedBlock, successorBlock => by
    have ih := keeps_outerScopes_BlockNode_generateStatementList statements
    constructor
    intro s s' a h
    rw [BlockNode.generateStatements] at h
    obtain ⟨previousBlock, s1, h1, h⟩ := Gen.bind_eq_ok h
    obtain ⟨_, s2, h2, h⟩ := Gen.bind_eq_ok h
    obtain ⟨_, s3, h3, h⟩ := Gen.bind_eq_ok h
    obtain ⟨_, s4, h4, h⟩ := Gen.bind_eq_ok h
    obtain ⟨_, s5, h5, h⟩ := Gen.bind_eq_ok h
    have k4 := Context.symbolTables_of_outerScopes (Gen.Keeps.at_run h4 ih)
    have k5 := Context.removeSymbolTable_dropLast _ _ h5
    have k6 : s'.ctx.symbolTables = s5.ctx.symbolTables := by
      refine Gen.Keeps.at_run (f := Context.symbolTables) h ?_
      repeat' first
        | infer_instance
        | dsimp only
        | apply Gen.Keeps.of_ite
        | apply Gen.Keeps.of_map
        | apply Gen.Keeps.of_bind
        | apply Gen.Keeps.of_orLog
        | apply Gen.Keeps.of_orLogG
        | intro _
        | split
    cases h1
    cases h2
    cases h3
    show s'.ctx.symbolTables = s.ctx.symbolTables
    rw [k6, k5, k4.1]
    simp [Generator.setInsertPoint, modifyG]
/-- Every list of statements that generates successfully leaves the scopes below
the innermost one, and the number of scopes, as it found them. -/
theorem keeps_outerScopes_BlockNode_generateStatementList :
    ∀ statements : List StatementNode,
      Gen.Keeps Context.outerScopes (BlockNode.generateStatementList statements)
  | [] => by
    rw [BlockNode.generateStatementList]
    infer_instance
  | statement :: rest => by
    have ih1 := keeps_outerScopes_StatementNode_generate statement
    have ih2 := keeps_outerScopes_BlockNode_generateStatementList rest
    rw [BlockNode.generateStatementList]
    infer_instance
end

/-- A sequence adds one symbol when its first part leaves the scopes alone and
its continuation adds one symbol. -/
theorem Gen.AddsSymbol.after_kept_scopes {α β : Type} {name : String} {m : Gen α} {g : α → Gen β}
    (h1 : Gen.Keeps Context.symbolTables m) (h2 : ∀ a, Gen.AddsSymbol name (g a)) :
    Gen.AddsSymbol name (m >>= g) := by
  constructor
  intro s s' b h
  obtain ⟨a, s1, hm, hg⟩ := Gen.bind_eq_ok h
  have k : s1.ctx.symbolTables = s.ctx.symbolTables := h1.run s s1 a hm
  obtain ⟨table, symbol, hl, hs, hn⟩ := (h2 a).run s1 s' b hg
  rw [k] at hl hs
  exact ⟨table, symbol, hl, hs, hn⟩

/-- The last call of `LetNode::generate`, `ctx.addSymbol(name_.getString(), ...)`. -/
theorem Gen.AddsSymbol.of_addSymbol (name : String) (type : ValueType) (value : Option Value)
    (line : Nat) : Gen.AddsSymbol name ((Context.addSymbol name type value).orLog line) := by
  constructor
  intro s s' a h
  obtain ⟨table, hl, hs⟩ := Context.addSymbol_appends name type value s s' (Gen.orLog_eq_ok h)
  exact ⟨table, _, hl, hs, rfl⟩

/-- A successful `LetNode::generate` adds exactly one symbol, named by the
`let`, at the end of the innermost scope. -/
theorem LetNode.generate_addsSymbol (token name : Token) (type : Option TypeNode)
    (isHeap : Bool) (initialValue : Option ExpressionNode) :
    Gen.AddsSymbol name.str (LetNode.generate token name type isHeap initialValue) := by
  have hrest : ∀ init, Gen.AddsSymbol name.str
      (LetNode.generateRest token name type isHeap init) := by
    intro init
    unfold LetNode.generateRest
    dsimp only
    repeat' first
      | with_reducible exact Gen.AddsSymbol.of_addSymbol _ _ _ _
      | (with_reducible apply Gen.AddsSymbol.after_kept_scopes)
      | infer_instance
      | intro _
      | split
      | dsimp only
      | apply Gen.Keeps.of_map
  unfold LetNode.generate
  cases initialValue with
  | none =>
    apply Gen.AddsSymbol.after_kept_scopes
    · infer_instance
    · exact hrest
  | some e =>
    apply Gen.AddsSymbol.after_kept_scopes
    · infer_instance
    · exact hrest

/-- `FunctionNode::addArgumentToSymbolTable` leaves the outer scopes as it found them. -/
theorem keeps_outerScopes_FunctionNode_addArgumentToSymbolTable :
    ∀ (args : List VariableDefinitionNode) (index : Nat),
      Gen.Keeps Context.outerScopes (FunctionNode.addArgumentToSymbolTable args index)
  | [], index => by
    rw [FunctionNode.addArgumentToSymbolTable]
    infer_instance
  | arg :: rest, index => by
    have ih := fun index => keeps_outerScopes_FunctionNode_addArgumentToSymbolTable rest index
    rw [FunctionNode.addArgumentToSymbolTable]
    repeat' first
      | infer_instance
      | dsimp only
      | apply Gen.Keeps.of_ite
      | apply Gen.Keeps.of_map
      | apply Gen.Keeps.of_bind
      | apply Gen.Keeps.of_orLog
      | apply Gen.Keeps.of_orLogG
      | intro _
      | split

/-- `FunctionNode::generateDefine` leaves the stack of scopes as it found it. -/
theorem FunctionNode.generateDefine_symbolTables (node : FunctionNode) (s s' : State)
    (h : node.generateDefine s = .ok () s') :
    s'.ctx.symbolTables = s.ctx.symbolTables := by
  cases hblock : node.block with
  | none =>
    unfold FunctionNode.generateDefine at h
    simp only [hblock] at h
    cases h
    rfl
  | some block =>
    rw [FunctionNode.generateDefine_eq node block hblock] at h
    obtain ⟨generatedBlock, s1, h1, h⟩ := Gen.bind_eq_ok h
    obtain ⟨_, s2, h2, h⟩ := Gen.bind_eq_ok h
    obtain ⟨_, s3, h3, h⟩ := Gen.bind_eq_ok h
    have k1 : s1.ctx.symbolTables.dropLast = s.ctx.symbolTables := by
      obtain ⟨gb, t1, g1, h1⟩ := Gen.bind_eq_ok h1
      obtain ⟨_, t2, g2, h1⟩ := Gen.bind_eq_ok h1
      obtain ⟨_, t3, g3, h1⟩ := Gen.bind_eq_ok h1
      obtain ⟨_, t4, g4, h1⟩ := Gen.bind_eq_ok h1
      obtain ⟨_, t5, g5, h1⟩ := Gen.bind_eq_ok h1
      cases h1
      have j1 := Gen.Keeps.at_run g1 (inferInstance : Gen.Keeps Context.symbolTables _)
      have j2 := Gen.Keeps.at_run g2 (inferInstance : Gen.Keeps Context.symbolTables _)
      have j4 := Context.symbolTables_of_outerScopes (Gen.Keeps.at_run (Gen.orLog_eq_ok g4)
        (keeps_outerScopes_FunctionNode_addArgumentToSymbolTable node.args 0))
      have j5 := Gen.Keeps.at_run g5 (inferInstance : Gen.Keeps Context.symbolTables _)
      cases g3
      rw [j5, j4.1]
      simp only [List.dropLast_concat]
      rw [j2, j1]
    have k2 := Gen.Keeps.at_run (Gen.orLog_eq_ok h2)
      (keeps_symbolTables_BlockNode_generateStatements block generatedBlock none)
    have k3 : s3.ctx.symbolTables = s2.ctx.symbolTables.dropLast := by
      have h3 := Gen.orLog_eq_ok h3
      unfold Context.removeSymbolTable at h3
      obtain ⟨t, s4, h4, h3⟩ := Gen.bind_eq_ok h3
      cases h4
      split at h3
      · obtain ⟨_, _, -, h3⟩ := Gen.bind_eq_ok h3
        cases h3
      · cases h3
        rfl
    have k4 : s'.ctx.symbolTables = s3.ctx.symbolTables := by
      refine Gen.Keeps.at_run (f := Context.symbolTables) h ?_
      repeat' first
        | infer_instance
        | dsimp only
        | apply Gen.Keeps.of_ite
        | apply Gen.Keeps.of_map
        | apply Gen.Keeps.of_bind
        | apply Gen.Keeps.of_orLog
        | apply Gen.Keeps.of_orLogG
        | intro _
        | split
    rw [k4, k3]
    show (Context.symbolTables s2.ctx).dropLast = s.ctx.symbolTables
    rw [k2]
    exact k1

/-- C36: a statement or a block that generates successfully leaves the stack
of scopes and the loop-exit stack as deep as it found them; a block leaves the
stack of scopes exactly as it found it, so every name resolves after the block
as it did before it; a `let` adds exactly one symbol, with its name, at the end
of the innermost scope and leaves the other scopes alone; and
`FunctionNode::generateDefine` leaves both stacks as it found them, so stacks
that are empty before a function are empty after it. -/
theorem C36_scope_and_loop_stacks_balanced :
    (∀ (statement : StatementNode) (s s' : State), statement.generate s = .ok () s' →
      s'.ctx.symbolTables.length = s.ctx.symbolTables.length
        ∧ s'.ctx.successorBlocks.length = s.ctx.successorBlocks.length)
    ∧ (∀ (block : BlockNode) (generatedBlock : Nat) (successorBlock : Option Nat) (s s' : State),
      block.generateStatements generatedBlock successorBlock s = .ok () s' →
      s'.ctx.symbolTables = s.ctx.symbolTables
        ∧ s'.ctx.successorBlocks = s.ctx.successorBlocks
        ∧ ∀ name, s'.ctx.getSymbol name = s.ctx.getSymbol name)
    ∧ (∀ (token name : Token) (type : Option TypeNode) (isHeap : Bool)
        (initialValue : Option ExpressionNode) (s s' : State),
      LetNode.generate token name type isHeap initialValue s = .ok () s' →
      ∃ (table : List Symbol) (symbol : Symbol), s.ctx.symbolTables.getLast? = some table
        ∧ s'.ctx.symbolTables = s.ctx.symbolTables.dropLast ++ [table ++ [symbol]]
        ∧ symbol.name = name.str)
    ∧ (∀ (node : FunctionNode) (s s' : State), node.generateDefine s = .ok () s' →
      s'.ctx.symbolTables = s.ctx.symbolTables
        ∧ s'.ctx.successorBlocks = s.ctx.successorBlocks
        ∧ (s.ctx.symbolTables = [] → s.ctx.successorBlocks = [] →
          s'.ctx.symbolTables = [] ∧ s'.ctx.successorBlocks = [])) := by
  refine ⟨?_, ?_, ?_, ?_⟩
  · intro statement s s' h
    have k := Gen.Keeps.at_run h (keeps_nesting_StatementNode_generate statement)
    simp only [Context.nesting, Prod.mk.injEq] at k
    exact ⟨k.2, by rw [k.1]⟩
  · intro block generatedBlock successorBlock s s' h
    have k1 : s'.ctx.symbolTables = s.ctx.symbolTables := Gen.Keeps.at_run h
      (keeps_symbolTables_BlockNode_generateStatements block generatedBlock successorBlock)
    have k2 := Gen.Keeps.at_run h
      (keeps_nesting_BlockNode_generateStatements block generatedBlock successorBlock)
    simp only [Context.nesting, Prod.mk.injEq] at k2
    refine ⟨k1, k2.1, ?_⟩
    intro name
    unfold Context.getSymbol
    rw [k1]
  · intro token name type isHeap initialValue s s' h
    exact (LetNode.generate_addsSymbol token name type isHeap initialValue).run s s' () h
  · intro node s s' h
    have k1 := FunctionNode.generateDefine_symbolTables node s s' h
    have k2 := FunctionNode.generateDefine_successorBlocks node s s' h
    refine ⟨k1, k2, ?_⟩
    intro h1 h2
    exact ⟨k1.trans h1, k2.trans h2⟩

/-- C36 at `return true;` generated at the entry of a block; evaluated:
`fn f() { if true { let x = 1; } x = 2; }` is rejected with `UndefinedSymbol` at
`x`, the name being gone with the block that declared it, and
`fn f() { let x = 1; if true { x = 2; } x = 3; }` compiles. -/
theorem C36_scope_and_loop_stacks_balanced_witness :
    (stateAfterReturn.ctx.symbolTables.length = stateBlockEntry.ctx.symbolTables.length
      ∧ stateAfterReturn.ctx.successorBlocks.length = stateBlockEntry.ctx.successorBlocks.length)
    ∧ ((compile programUseAfterBlock).failState?.map fun s => s.ctx.errors) =
      some [.UndefinedSymbolError (Token.of .SYMBOL "x")]
    ∧ ((compile programUseOuterName).okState?.map fun s =>
        (s.ctx.errors, s.ctx.symbolTables, s.ctx.successorBlocks)) = some ([], [], []) :=
  ⟨C36_scope_and_loop_stacks_balanced.1 (stmtReturn (some exprTrue)) stateBlockEntry
      stateAfterReturn rfl,
    by decide!, by decide!⟩

/-! ## Theorems: at most one compile error -/

/-- When a sequence returns `true`, either its first call did, or its first call
returned `false` and the rest returned `true` from the state it left. -/
theorem Gen.bind_eq_fail {α β : Type} {m : Gen α} {f : α → Gen β} {s s' : State}
    (h : (m >>= f) s = .fail s') :
    m s = .fail s' ∨ ∃ a s1, m s = .ok a s1 ∧ f a s1 = .fail s' := by
  change Gen.bind m f s = .fail s' at h
  unfold Gen.bind at h
  cases hm : m s with
  | ok a s1 => rw [hm] at h; exact Or.inr ⟨a, s1, rfl, h⟩
  | fail s1 => rw [hm] at h; cases h; exact Or.inl rfl
  | undefined => rw [hm] at h; cases h

/-- The debug-log wrapper of `Node.cpp` changes nothing but the debug log. -/
theorem Gen.orLog_eq_fail {α : Type} {m : Gen α} {line : Nat} {s s' : State}
    (h : m.orLog line s = .fail s') : ∃ s1, m s = .fail s1 ∧ s'.ctx = s1.ctx := by
  unfold Gen.orLog at h
  cases hm : m s with
  | ok a s1 => rw [hm] at h; cases h
  | fail s1 => rw [hm] at h; cases h; exact ⟨s1, rfl, rfl⟩
  | undefined => rw [hm] at h; cases h

/-- The debug-log wrapper of `Generator.cpp` changes nothing but the debug log. -/
theorem Gen.orLogG_eq_fail {α : Type} {m : Gen α} {line : Nat} {s s' : State}
    (h : m.orLogG line s = .fail s') : ∃ s1, m s = .fail s1 ∧ s'.ctx = s1.ctx := by
  unfold Gen.orLogG at h
  cases hm : m s with
  | ok a s1 => rw [hm] at h; cases h
  | fail s1 => rw [hm] at h; cases h; exact ⟨s1, rfl, rfl⟩
  | undefined => rw [hm] at h; cases h

/-- The debug-log wrapper of `Generator.cpp` leaves a successful call alone. -/
theorem Gen.orLogG_eq_ok {α : Type} {m : Gen α} {line : Nat} {s s' : State} {a : α}
    (h : m.orLogG line s = .ok a s') : m s = .ok a s' := by
  unfold Gen.orLogG at h
  cases hm : m s with
  | ok a s1 => rw [hm] at h; exact h
  | fail s1 => rw [hm] at h; cases h
  | undefined => rw [hm] at h; cases h

/-- A call that only yields a value reports nothing. -/
@[instance] theorem Gen.ReportsOnce.once_pure {α : Type} (a : α) :
    Gen.ReportsOnce (pure a : Gen α) :=
  ⟨fun s s' b h => by cases h; rfl, fun s s' h => by cases h⟩

/-- A sequence reports at most once when both of its parts do: the second part
runs only if the first returned `false`, having reported nothing. -/
theorem Gen.ReportsOnce.once_bind {α β : Type} {m : Gen α} {g : α → Gen β}
    (h1 : Gen.ReportsOnce m) (h2 : ∀ a, Gen.ReportsOnce (g a)) : Gen.ReportsOnce (m >>= g) := by
  constructor
  · intro s s' b h
    obtain ⟨a, s1, hm, hg⟩ := Gen.bind_eq_ok h
    rw [(h2 a).ok s1 s' b hg, h1.ok s s1 a hm]
  · intro s s' h
    rcases Gen.bind_eq_fail h with hm | ⟨a, s1, hm, hg⟩
    · exact h1.fail s s' hm
    · rw [← h1.ok s s1 a hm]
      exact (h2 a).fail s1 s' hg

/-- A conditional reports at most once when both of its branches do. -/
theorem Gen.ReportsOnce.once_ite {α : Type} {c : Prop} [Decidable c] {a b : Gen α}
    (ha : Gen.ReportsOnce a) (hb : Gen.ReportsOnce b) :
    Gen.ReportsOnce (if c then a else b) := by
  split
  · exact ha
  · exact hb

/-- Mapping the result of a call reports what the call reports. -/
theorem Gen.ReportsOnce.once_map {α β : Type} {m : Gen α} (g : α → β)
    (h : Gen.ReportsOnce m) : Gen.ReportsOnce (g <$> m) :=
  Gen.ReportsOnce.once_bind h fun a => Gen.ReportsOnce.once_pure (g a)

/-- Logging the failure of a call in `Node.cpp` reports what the call reports. -/
theorem Gen.ReportsOnce.once_orLog {α : Type} {m : Gen α} (line : Nat)
    (h : Gen.ReportsOnce m) : Gen.ReportsOnce (m.orLog line) := by
  constructor
  · intro s s' a hm
    exact h.ok s s' a (Gen.orLog_eq_ok hm)
  · intro s s' hm
    obtain ⟨s1, hf, hc⟩ := Gen.orLog_eq_fail hm
    rw [hc]
    exact h.fail s s1 hf

/-- Logging the failure of a call in `Generator.cpp` reports what the call reports. -/
theorem Gen.ReportsOnce.once_orLogG {α : Type} {m : Gen α} (line : Nat)
    (h : Gen.ReportsOnce m) : Gen.ReportsOnce (m.orLogG line) := by
  constructor
  · intro s s' a hm
    exact h.ok s s' a (Gen.orLogG_eq_ok hm)
  · intro s s' hm
    obtain ⟨s1, hf, hc⟩ := Gen.orLogG_eq_fail hm
    rw [hc]
    exact h.fail s s1 hf

/-- A sequence reports at most once when both of its parts do (for instance search). -/
@[instance] theorem Gen.ReportsOnce.once_bind_instance {α β : Type} {m : Gen α}
    {g : α → Gen β} [h1 : Gen.ReportsOnce m] [h2 : ∀ a, Gen.ReportsOnce (g a)] :
    Gen.ReportsOnce (m >>= g) :=
  Gen.ReportsOnce.once_bind h1 h2

/-- A conditional reports at most once when both of its branches do (for instance search). -/
@[instance] theorem Gen.ReportsOnce.once_ite_instance {α : Type} {c : Prop} [Decidable c]
    {a b : Gen α} [ha : Gen.ReportsOnce a] [hb : Gen.ReportsOnce b] :
    Gen.ReportsOnce (if c then a else b) :=
  Gen.ReportsOnce.once_ite ha hb

/-- Mapping the result of a call reports what the call reports (for instance search). -/
@[instance] theorem Gen.ReportsOnce.once_map_instance {α β : Type} {m : Gen α} (g : α → β)
    [h : Gen.ReportsOnce m] : Gen.ReportsOnce (g <$> m) :=
  Gen.ReportsOnce.once_map g h

/-- Logging a failure in `Node.cpp` reports what the call reports (for instance search). -/
@[instance] theorem Gen.ReportsOnce.once_orLog_instance {α : Type} {m : Gen α} (line : Nat)
    [h : Gen.ReportsOnce m] : Gen.ReportsOnce (m.orLog line) :=
  Gen.ReportsOnce.once_orLog line h

/-- Logging a failure in `Generator.cpp` reports what the call reports (for instance search). -/
@[instance] theorem Gen.ReportsOnce.once_orLogG_instance {α : Type} {m : Gen α} (line : Nat)
    [h : Gen.ReportsOnce m] : Gen.ReportsOnce (m.orLogG line) :=
  Gen.ReportsOnce.once_orLogG line h

/-- A call that leaves the Context as it found it, whether it returns `false` or
`true`, reports nothing. -/
theorem Gen.ReportsOnce.once_state {α : Type} {m : Gen α}
    (hok : ∀ (s s' : State) (a : α), m s = .ok a s' → s'.ctx = s.ctx)
    (hfail : ∀ (s s' : State), m s = .fail s' → s'.ctx = s.ctx) : Gen.ReportsOnce m :=
  ⟨fun s s' a h => by rw [hok s s' a h], fun s s' h => Or.inl (by rw [hfail s s' h])⟩

/-- A call that returns `true` at once reports nothing. -/
@[instance] theorem Gen.ReportsOnce.once_returnTrue {α : Type} :
    Gen.ReportsOnce (returnTrue : Gen α) :=
  ⟨fun s s' a h => (by cases h), fun s s' h => by cases h; exact Or.inl rfl⟩

/-- Undefined behaviour returns neither `false` nor `true`. -/
@[instance] theorem Gen.ReportsOnce.once_undefinedBehaviour {α : Type} :
    Gen.ReportsOnce (undefinedBehaviour : Gen α) :=
  ⟨fun s s' a h => (by cases h), fun s s' h => by cases h⟩

/-- Reading the state reports nothing. -/
@[instance] theorem Gen.ReportsOnce.once_getState : Gen.ReportsOnce getState :=
  ⟨fun s s' a h => by cases h; rfl, fun s s' h => by cases h⟩

/-- An update of the `Generator` reports nothing. -/
@[instance] theorem Gen.ReportsOnce.once_modifyG (g : Generator → Generator) :
    Gen.ReportsOnce (modifyG g) :=
  ⟨fun s s' a h => by cases h; rfl, fun s s' h => by cases h⟩

/-- An update of the Context that leaves its errors alone reports nothing. -/
theorem Gen.ReportsOnce.once_modifyCtx (g : Context → Context)
    (hg : ∀ c, (g c).errors = c.errors) : Gen.ReportsOnce (modifyCtx g) :=
  ⟨fun s s' a h => by cases h; exact hg s.ctx, fun s s' h => by cases h⟩

/-- A `debugLog` of `Node.cpp` reports nothing. -/
@[instance] theorem Gen.ReportsOnce.once_debugLog (line : Nat) : Gen.ReportsOnce (debugLog line) :=
  ⟨fun s s' a h => by cases h; rfl, fun s s' h => by cases h⟩

/-- A `debugLog` of `Generator.cpp` reports nothing. -/
@[instance] theorem Gen.ReportsOnce.once_generatorDebugLog (line : Nat) :
    Gen.ReportsOnce (Generator.debugLog line) :=
  ⟨fun s s' a h => by cases h; rfl, fun s s' h => by cases h⟩

/-- The pattern `ctx.addCompileError(error); return true;` appends exactly one
error and returns `true`. -/
@[instance] theorem Gen.ReportsOnce.once_failWith {α : Type} (e : CompileError) :
    Gen.ReportsOnce (failWith e : Gen α) := by
  constructor
  · intro s s' a h
    exact absurd h (failWith_ne_ok e s s' a)
  · intro s s' h
    unfold Mahina.failWith at h
    rcases Gen.bind_eq_fail h with h | ⟨u, s1, h1, h⟩
    · cases h
    · cases h1
      cases h
      exact Or.inr ⟨e, rfl⟩

/-- Dereferencing a pointer reports nothing. -/
@[instance] theorem Gen.ReportsOnce.once_nonNull {α : Type} (o : Option α) :
    Gen.ReportsOnce (nonNull o) := by
  cases o
  · exact Gen.ReportsOnce.once_undefinedBehaviour
  · exact Gen.ReportsOnce.once_pure _

/-- A literal conversion reports nothing. -/
@[instance] theorem Gen.ReportsOnce.once_toGen {α : Type} (c : Conv α) :
    Gen.ReportsOnce c.toGen := by
  cases c
  · exact Gen.ReportsOnce.once_pure _
  · exact Gen.ReportsOnce.once_returnTrue
  · exact Gen.ReportsOnce.once_undefinedBehaviour

/-- Emitting an instruction that yields a value reports nothing. -/
@[instance] theorem Gen.ReportsOnce.once_emit (i : Instr) (t : IRType) :
    Gen.ReportsOnce (Generator.emit i t) :=
  ⟨fun s s' a h => by cases h; rfl, fun s s' h => by cases h⟩

/-- Emitting an instruction reports nothing. -/
@[instance] theorem Gen.ReportsOnce.once_emitVoid (i : Instr) :
    Gen.ReportsOnce (Generator.emitVoid i) :=
  ⟨fun s s' a h => by cases h; rfl, fun s s' h => by cases h⟩

/-- `Generator::getCurrentBlock` appends at most one compile error, and none when it returns `false`. -/
@[instance] theorem reports_Generator_getCurrentBlock :
    Gen.ReportsOnce (Generator.getCurrentBlock) := by
  apply Gen.ReportsOnce.once_state
  · intro s s' a h
    unfold Generator.getCurrentBlock at h
    repeat' split at h
    all_goals first
      | (cases h; rfl)
      | cases h
  · intro s s' h
    unfold Generator.getCurrentBlock at h
    repeat' split at h
    all_goals first
      | (cases h; rfl)
      | cases h

/-- `Generator::getCurrentReturnType` appends at most one compile error, and none when it returns `false`. -/
@[instance] theorem reports_Generator_getCurrentReturnType :
    Gen.ReportsOnce (Generator.getCurrentReturnType) := by
  apply Gen.ReportsOnce.once_state
  · intro s s' a h
    unfold Generator.getCurrentReturnType at h
    repeat' split at h
    all_goals first
      | (cases h; rfl)
      | cases h
  · intro s s' h
    unfold Generator.getCurrentReturnType at h
    repeat' split at h
    all_goals first
      | (cases h; rfl)
      | cases h

/-- `Generator::setInsertPoint` appends at most one compile error, and none when it returns `false`. -/
@[instance] theorem reports_Generator_setInsertPoint (b : Option Nat) :
    Gen.ReportsOnce (Generator.setInsertPoint b) := by
  unfold Generator.setInsertPoint
  repeat' first
    | infer_instance
    | dsimp only
    | apply Gen.ReportsOnce.once_ite
    | apply Gen.ReportsOnce.once_map
    | apply Gen.ReportsOnce.once_bind
    | apply Gen.ReportsOnce.once_orLog
    | apply Gen.ReportsOnce.once_orLogG
    | intro _
    | split

/-- `Generator::setCurrentReturnType` appends at most one compile error, and none when it returns `false`. -/
@[instance] theorem reports_Generator_setCurrentReturnType (t : ValueType) :
    Gen.ReportsOnce (Generator.setCurrentReturnType t) := by
  unfold Generator.setCurrentReturnType
  repeat' first
    | infer_instance
    | dsimp only
    | apply Gen.ReportsOnce.once_ite
    | apply Gen.ReportsOnce.once_map
    | apply Gen.ReportsOnce.once_bind
    | apply Gen.ReportsOnce.once_orLog
    | apply Gen.ReportsOnce.once_orLogG
    | intro _
    | split

/-- `Generator::insertFunction` appends at most one compile error, and none when it returns `false`. -/
@[instance] theorem reports_Generator_insertFunction :
    Gen.ReportsOnce (Generator.insertFunction) := by
  apply Gen.ReportsOnce.once_state
  · intro s s' a h
    unfold Generator.insertFunction at h
    repeat' split at h
    all_goals first
      | (cases h; rfl)
      | cases h
  · intro s s' h
    unfold Generator.insertFunction at h
    repeat' split at h
    all_goals first
      | (cases h; rfl)
      | cases h

/-- `Generator::getArgument` appends at most one compile error, and none when it returns `false`. -/
@[instance] theorem reports_Generator_getArgument (index : Nat) :
    Gen.ReportsOnce (Generator.getArgument index) := by
  apply Gen.ReportsOnce.once_state
  · intro s s' a h
    unfold Generator.getArgument at h
    repeat' split at h
    all_goals first
      | (cases h; rfl)
      | cases h
  · intro s s' h
    unfold Generator.getArgument at h
    repeat' split at h
    all_goals first
      | (cases h; rfl)
      | cases h

/-- `Generator::getType` appends at most one compile error, and none when it returns `false`. -/
@[instance] theorem reports_Generator_getType (t : TokenType) :
    Gen.ReportsOnce (Generator.getType t) := by
  unfold Generator.getType
  repeat' first
    | infer_instance
    | dsimp only
    | apply Gen.ReportsOnce.once_ite
    | apply Gen.ReportsOnce.once_map
    | apply Gen.ReportsOnce.once_bind
    | apply Gen.ReportsOnce.once_orLog
    | apply Gen.ReportsOnce.once_orLogG
    | intro _
    | split

/-- `Generator::createReferenceType` appends at most one compile error, and none when it returns `false`. -/
@[instance] theorem reports_Generator_createReferenceType (t : TokenType) :
    Gen.ReportsOnce (Generator.createReferenceType t) := by
  apply Gen.ReportsOnce.once_state
  · intro s s' a h
    unfold Generator.createReferenceType at h
    repeat' split at h
    all_goals first
      | (cases h; rfl)
      | cases h
  · intro s s' h
    unfold Generator.createReferenceType at h
    repeat' split at h
    all_goals first
      | (cases h; rfl)
      | cases h

/-- `Generator::wrapArrays` appends at most one compile error, and none when it returns `false`. -/
@[instance] theorem reports_Generator_wrapArrays (sizes : List Nat) :
    ∀ t : IRType, Gen.ReportsOnce (Generator.wrapArrays sizes t) := by
  induction sizes with
  | nil => intro t; rw [Generator.wrapArrays]; infer_instance
  | cons size rest ih =>
    intro t
    rw [Generator.wrapArrays]
    split
    · exact ih _
    · infer_instance

/-- `Generator::createType` appends at most one compile error, and none when it returns `false`. -/
@[instance] theorem reports_Generator_createType (t : ValueType) :
    Gen.ReportsOnce (Generator.createType t) := by
  unfold Generator.createType
  repeat' first
    | infer_instance
    | dsimp only
    | apply Gen.ReportsOnce.once_ite
    | apply Gen.ReportsOnce.once_map
    | apply Gen.ReportsOnce.once_bind
    | apply Gen.ReportsOnce.once_orLog
    | apply Gen.ReportsOnce.once_orLogG
    | intro _
    | split

/-- `Generator::createBasicBlock` appends at most one compile error, and none when it returns `false`. -/
@[instance] theorem reports_Generator_createBasicBlock
    (function : Option Nat) (insertBefore : Option Nat) :
    Gen.ReportsOnce (Generator.createBasicBlock function insertBefore) := by
  unfold Generator.createBasicBlock
  dsimp only
  split
  all_goals
    apply Gen.ReportsOnce.once_bind
    · infer_instance
    intro parent
    apply Gen.ReportsOnce.once_state
    · intro s s' a h
      repeat' split at h
      all_goals first
        | (cases h; rfl)
        | cases h
    · intro s s' h
      repeat' split at h
      all_goals first
        | (cases h; rfl)
        | cases h

/-- `Generator::createIf` appends at most one compile error, and none when it returns `false`. -/
@[instance] theorem reports_Generator_createIf (c : Option Value) (a b : Nat) :
    Gen.ReportsOnce (Generator.createIf c a b) := by
  unfold Generator.createIf
  repeat' first
    | infer_instance
    | dsimp only
    | apply Gen.ReportsOnce.once_ite
    | apply Gen.ReportsOnce.once_map
    | apply Gen.ReportsOnce.once_bind
    | apply Gen.ReportsOnce.once_orLog
    | apply Gen.ReportsOnce.once_orLogG
    | intro _
    | split

/-- `Generator::createGoto` appends at most one compile error, and none when it returns `false`. -/
@[instance] theorem reports_Generator_createGoto (dest : Nat) :
    Gen.ReportsOnce (Generator.createGoto dest) := by
  unfold Generator.createGoto
  repeat' first
    | infer_instance
    | dsimp only
    | apply Gen.ReportsOnce.once_ite
    | apply Gen.ReportsOnce.once_map
    | apply Gen.ReportsOnce.once_bind
    | apply Gen.ReportsOnce.once_orLog
    | apply Gen.ReportsOnce.once_orLogG
    | intro _
    | split

/-- `Generator::createReturnVoid` appends at most one compile error, and none when it returns `false`. -/
@[instance] theorem reports_Generator_createReturnVoid :
    Gen.ReportsOnce (Generator.createReturnVoid) := by
  unfold Generator.createReturnVoid
  repeat' first
    | infer_instance
    | dsimp only
    | apply Gen.ReportsOnce.once_ite
    | apply Gen.ReportsOnce.once_map
    | apply Gen.ReportsOnce.once_bind
    | apply Gen.ReportsOnce.once_orLog
    | apply Gen.ReportsOnce.once_orLogG
    | intro _
    | split

/-- `Generator::createReturn` appends at most one compile error, and none when it returns `false`. -/
@[instance] theorem reports_Generator_createReturn (v : Option Value) :
    Gen.ReportsOnce (Generator.createReturn v) := by
  unfold Generator.createReturn
  repeat' first
    | infer_instance
    | dsimp only
    | apply Gen.ReportsOnce.once_ite
    | apply Gen.ReportsOnce.once_map
    | apply Gen.ReportsOnce.once_bind
    | apply Gen.ReportsOnce.once_orLog
    | apply Gen.ReportsOnce.once_orLogG
    | intro _
    | split

/-- `Generator::createNegate` appends at most one compile error, and none when it returns `false`. -/
@[instance] theorem reports_Generator_createNegate (t : TokenType) (v : Option Value) :
    Gen.ReportsOnce (Generator.createNegate t v) := by
  unfold Generator.createNegate
  repeat' first
    | infer_instance
    | dsimp only
    | apply Gen.ReportsOnce.once_ite
    | apply Gen.ReportsOnce.once_map
    | apply Gen.ReportsOnce.once_bind
    | apply Gen.ReportsOnce.once_orLog
    | apply Gen.ReportsOnce.once_orLogG
    | intro _
    | split

/-- `Generator::createBinary` appends at most one compile error, and none when it returns `false`. -/
@[instance] theorem reports_Generator_createBinary (op : BinaryOps) (l r : Option Value) :
    Gen.ReportsOnce (Generator.createBinary op l r) := by
  unfold Generator.createBinary
  repeat' first
    | infer_instance
    | dsimp only
    | apply Gen.ReportsOnce.once_ite
    | apply Gen.ReportsOnce.once_map
    | apply Gen.ReportsOnce.once_bind
    | apply Gen.ReportsOnce.once_orLog
    | apply Gen.ReportsOnce.once_orLogG
    | intro _
    | split

/-- `Generator::createCmp` appends at most one compile error, and none when it returns `false`. -/
@[instance] theorem reports_Generator_createCmp (p : Predicate) (l r : Option Value) :
    Gen.ReportsOnce (Generator.createCmp p l r) := by
  unfold Generator.createCmp
  repeat' first
    | infer_instance
    | dsimp only
    | apply Gen.ReportsOnce.once_ite
    | apply Gen.ReportsOnce.once_map
    | apply Gen.ReportsOnce.once_bind
    | apply Gen.ReportsOnce.once_orLog
    | apply Gen.ReportsOnce.once_orLogG
    | intro _
    | split

/-- `Generator::createAdd` appends at most one compile error, and none when it returns `false`. -/
@[instance] theorem reports_Generator_createAdd (t : TokenType) (l r : Option Value) :
    Gen.ReportsOnce (Generator.createAdd t l r) := by
  unfold Generator.createAdd
  repeat' first
    | infer_instance
    | dsimp only
    | apply Gen.ReportsOnce.once_ite
    | apply Gen.ReportsOnce.once_map
    | apply Gen.ReportsOnce.once_bind
    | apply Gen.ReportsOnce.once_orLog
    | apply Gen.ReportsOnce.once_orLogG
    | intro _
    | split

/-- `Generator::createSub` appends at most one compile error, and none when it returns `false`. -/
@[instance] theorem reports_Generator_createSub (t : TokenType) (l r : Option Value) :
    Gen.ReportsOnce (Generator.createSub t l r) := by
  unfold Generator.createSub
  repeat' first
    | infer_instance
    | dsimp only
    | apply Gen.ReportsOnce.once_ite
    | apply Gen.ReportsOnce.once_map
    | apply Gen.ReportsOnce.once_bind
    | apply Gen.ReportsOnce.once_orLog
    | apply Gen.ReportsOnce.once_orLogG
    | intro _
    | split

/-- `Generator::createMul` appends at most one compile error, and none when it returns `false`. -/
@[instance] theorem reports_Generator_createMul (t : TokenType) (l r : Option Value) :
    Gen.ReportsOnce (Generator.createMul t l r) := by
  unfold Generator.createMul
  repeat' first
    | infer_instance
    | dsimp only
    | apply Gen.ReportsOnce.once_ite
    | apply Gen.ReportsOnce.once_map
    | apply Gen.ReportsOnce.once_bind
    | apply Gen.ReportsOnce.once_orLog
    | apply Gen.ReportsOnce.once_orLogG
    | intro _
    | split

/-- `Generator::createDiv` appends at most one compile error, and none when it returns `false`. -/
@[instance] theorem reports_Generator_createDiv (t : TokenType) (l r : Option Value) :
    Gen.ReportsOnce (Generator.createDiv t l r) := by
  unfold Generator.createDiv
  repeat' first
    | infer_instance
    | dsimp only
    | apply Gen.ReportsOnce.once_ite
    | apply Gen.ReportsOnce.once_map
    | apply Gen.ReportsOnce.once_bind
    | apply Gen.ReportsOnce.once_orLog
    | apply Gen.ReportsOnce.once_orLogG
    | intro _
    | split

/-- `Generator::createRem` appends at most one compile error, and none when it returns `false`. -/
@[instance] theorem reports_Generator_createRem (t : TokenType) (l r : Option Value) :
    Gen.ReportsOnce (Generator.createRem t l r) := by
  unfold Generator.createRem
  repeat' first
    | infer_instance
    | dsimp only
    | apply Gen.ReportsOnce.once_ite
    | apply Gen.ReportsOnce.once_map
    | apply Gen.ReportsOnce.once_bind
    | apply Gen.ReportsOnce.once_orLog
    | apply Gen.ReportsOnce.once_orLogG
    | intro _
    | split

/-- `Generator::createCommpareLesserThan` appends at most one compile error, and none when it returns `false`. -/
@[instance] theorem reports_Generator_createCommpareLesserThan (t : TokenType) (l r : Option Value) :
    Gen.ReportsOnce (Generator.createCommpareLesserThan t l r) := by
  unfold Generator.createCommpareLesserThan
  repeat' first
    | infer_instance
    | dsimp only
    | apply Gen.ReportsOnce.once_ite
    | apply Gen.ReportsOnce.once_map
    | apply Gen.ReportsOnce.once_bind
    | apply Gen.ReportsOnce.once_orLog
    | apply Gen.ReportsOnce.once_orLogG
    | intro _
    | split

/-- `Generator::createCommpareLesserEqual` appends at most one compile error, and none when it returns `false`. -/
@[instance] theorem reports_Generator_createCommpareLesserEqual (t : TokenType) (l r : Option Value) :
    Gen.ReportsOnce (Generator.createCommpareLesserEqual t l r) := by
  unfold Generator.createCommpareLesserEqual
  repeat' first
    | infer_instance
    | dsimp only
    | apply Gen.ReportsOnce.once_ite
    | apply Gen.ReportsOnce.once_map
    | apply Gen.ReportsOnce.once_bind
    | apply Gen.ReportsOnce.once_orLog
    | apply Gen.ReportsOnce.once_orLogG
    | intro _
    | split

/-- `Generator::createCommpareGreaterThan` appends at most one compile error, and none when it returns `false`. -/
@[instance] theorem reports_Generator_createCommpareGreaterThan (t : TokenType) (l r : Option Value) :
    Gen.ReportsOnce (Generator.createCommpareGreaterThan t l r) := by
  unfold Generator.createCommpareGreaterThan
  repeat' first
    | infer_instance
    | dsimp only
    | apply Gen.ReportsOnce.once_ite
    | apply Gen.ReportsOnce.once_map
    | apply Gen.ReportsOnce.once_bind
    | apply Gen.ReportsOnce.once_orLog
    | apply Gen.ReportsOnce.once_orLogG
    | intro _
    | split

/-- `Generator::createCommpareGreaterEqual` appends at most one compile error, and none when it returns `false`. -/
@[instance] theorem reports_Generator_createCommpareGreaterEqual (t : TokenType) (l r : Option Value) :
    Gen.ReportsOnce (Generator.createCommpareGreaterEqual t l r) := by
  unfold Generator.createCommpareGreaterEqual
  repeat' first
    | infer_instance
    | dsimp only
    | apply Gen.ReportsOnce.once_ite
    | apply Gen.ReportsOnce.once_map
    | apply Gen.ReportsOnce.once_bind
    | apply Gen.ReportsOnce.once_orLog
    | apply Gen.ReportsOnce.once_orLogG
    | intro _
    | split

/-- `Generator::createCommpareEqual` appends at most one compile error, and none when it returns `false`. -/
@[instance] theorem reports_Generator_createCommpareEqual (t : TokenType) (l r : Option Value) :
    Gen.ReportsOnce (Generator.createCommpareEqual t l r) := by
  unfold Generator.createCommpareEqual
  repeat' first
    | infer_instance
    | dsimp only
    | apply Gen.ReportsOnce.once_ite
    | apply Gen.ReportsOnce.once_map
    | apply Gen.ReportsOnce.once_bind
    | apply Gen.ReportsOnce.once_orLog
    | apply Gen.ReportsOnce.once_orLogG
    | intro _
    | split

/-- `Generator::createCommpareNotEqual` appends at most one compile error, and none when it returns `false`. -/
@[instance] theorem reports_Generator_createCommpareNotEqual (t : TokenType) (l r : Option Value) :
    Gen.ReportsOnce (Generator.createCommpareNotEqual t l r) := by
  unfold Generator.createCommpareNotEqual
  repeat' first
    | infer_instance
    | dsimp only
    | apply Gen.ReportsOnce.once_ite
    | apply Gen.ReportsOnce.once_map
    | apply Gen.ReportsOnce.once_bind
    | apply Gen.ReportsOnce.once_orLog
    | apply Gen.ReportsOnce.once_orLogG
    | intro _
    | split

/-- `Generator::createLogicalOr` appends at most one compile error, and none when it returns `false`. -/
@[instance] theorem reports_Generator_createLogicalOr (t : TokenType) (l r : Option Value) :
    Gen.ReportsOnce (Generator.createLogicalOr t l r) := by
  unfold Generator.createLogicalOr
  repeat' first
    | infer_instance
    | dsimp only
    | apply Gen.ReportsOnce.once_ite
    | apply Gen.ReportsOnce.once_map
    | apply Gen.ReportsOnce.once_bind
    | apply Gen.ReportsOnce.once_orLog
    | apply Gen.ReportsOnce.once_orLogG
    | intro _
    | split

/-- `Generator::createLogicalAnd` appends at most one compile error, and none when it returns `false`. -/
@[instance] theorem reports_Generator_createLogicalAnd (t : TokenType) (l r : Option Value) :
    Gen.ReportsOnce (Generator.createLogicalAnd t l r) := by
  unfold Generator.createLogicalAnd
  repeat' first
    | infer_instance
    | dsimp only
    | apply Gen.ReportsOnce.once_ite
    | apply Gen.ReportsOnce.once_map
    | apply Gen.ReportsOnce.once_bind
    | apply Gen.ReportsOnce.once_orLog
    | apply Gen.ReportsOnce.once_orLogG
    | intro _
    | split

/-- `Generator::createBooleanConstant` appends at most one compile error, and none when it returns `false`. -/
@[instance] theorem reports_Generator_createBooleanConstant (b : Bool) :
    Gen.ReportsOnce (Generator.createBooleanConstant b) := by
  unfold Generator.createBooleanConstant
  repeat' first
    | infer_instance
    | dsimp only
    | apply Gen.ReportsOnce.once_ite
    | apply Gen.ReportsOnce.once_map
    | apply Gen.ReportsOnce.once_bind
    | apply Gen.ReportsOnce.once_orLog
    | apply Gen.ReportsOnce.once_orLogG
    | intro _
    | split

/-- `Generator::createI8Constant` appends at most one compile error, and none when it returns `false`. -/
@[instance] theorem reports_Generator_createI8Constant (v : Int) :
    Gen.ReportsOnce (Generator.createI8Constant v) := by
  unfold Generator.createI8Constant
  repeat' first
    | infer_instance
    | dsimp only
    | apply Gen.ReportsOnce.once_ite
    | apply Gen.ReportsOnce.once_map
    | apply Gen.ReportsOnce.once_bind
    | apply Gen.ReportsOnce.once_orLog
    | apply Gen.ReportsOnce.once_orLogG
    | intro _
    | split

/-- `Generator::createI16Constant` appends at most one compile error, and none when it returns `false`. -/
@[instance] theorem reports_Generator_createI16Constant (v : Int) :
    Gen.ReportsOnce (Generator.createI16Constant v) := by
  unfold Generator.createI16Constant
  repeat' first
    | infer_instance
    | dsimp only
    | apply Gen.ReportsOnce.once_ite
    | apply Gen.ReportsOnce.once_map
    | apply Gen.ReportsOnce.once_bind
    | apply Gen.ReportsOnce.once_orLog
    | apply Gen.ReportsOnce.once_orLogG
    | intro _
    | split

/-- `Generator::createI32Constant` appends at most one compile error, and none when it returns `false`. -/
@[instance] theorem reports_Generator_createI32Constant (v : Int) :
    Gen.ReportsOnce (Generator.createI32Constant v) := by
  unfold Generator.createI32Constant
  repeat' first
    | infer_instance
    | dsimp only
    | apply Gen.ReportsOnce.once_ite
    | apply Gen.ReportsOnce.once_map
    | apply Gen.ReportsOnce.once_bind
    | apply Gen.ReportsOnce.once_orLog
    | apply Gen.ReportsOnce.once_orLogG
    | intro _
    | split

/-- `Generator::createI64Constant` appends at most one compile error, and none when it returns `false`. -/
@[instance] theorem reports_Generator_createI64Constant (v : Int) :
    Gen.ReportsOnce (Generator.createI64Constant v) := by
  unfold Generator.createI64Constant
  repeat' first
    | infer_instance
    | dsimp only
    | apply Gen.ReportsOnce.once_ite
    | apply Gen.ReportsOnce.once_map
    | apply Gen.ReportsOnce.once_bind
    | apply Gen.ReportsOnce.once_orLog
    | apply Gen.ReportsOnce.once_orLogG
    | intro _
    | split

/-- `Generator::createU8Constant` appends at most one compile error, and none when it returns `false`. -/
@[instance] theorem reports_Generator_createU8Constant (v : Int) :
    Gen.ReportsOnce (Generator.createU8Constant v) := by
  unfold Generator.createU8Constant
  repeat' first
    | infer_instance
    | dsimp only
    | apply Gen.ReportsOnce.once_ite
    | apply Gen.ReportsOnce.once_map
    | apply Gen.ReportsOnce.once_bind
    | apply Gen.ReportsOnce.once_orLog
    | apply Gen.ReportsOnce.once_orLogG
    | intro _
    | split

/-- `Generator::createU16Constant` appends at most one compile error, and none when it returns `false`. -/
@[instance] theorem reports_Generator_createU16Constant (v : Int) :
    Gen.ReportsOnce (Generator.createU16Constant v) := by
  unfold Generator.createU16Constant
  repeat' first
    | infer_instance
    | dsimp only
    | apply Gen.ReportsOnce.once_ite
    | apply Gen.ReportsOnce.once_map
    | apply Gen.ReportsOnce.once_bind
    | apply Gen.ReportsOnce.once_orLog
    | apply Gen.ReportsOnce.once_orLogG
    | intro _
    | split

/-- `Generator::createU32Constant` appends at most one compile error, and none when it returns `false`. -/
@[instance] theorem reports_Generator_createU32Constant (v : Int) :
    Gen.ReportsOnce (Generator.createU32Constant v) := by
  unfold Generator.createU32Constant
  repeat' first
    | infer_instance
    | dsimp only
    | apply Gen.ReportsOnce.once_ite
    | apply Gen.ReportsOnce.once_map
    | apply Gen.ReportsOnce.once_bind
    | apply Gen.ReportsOnce.once_orLog
    | apply Gen.ReportsOnce.once_orLogG
    | intro _
    | split

/-- `Generator::createU64Constant` appends at most one compile error, and none when it returns `false`. -/
@[instance] theorem reports_Generator_createU64Constant (v : Int) :
    Gen.ReportsOnce (Generator.createU64Constant v) := by
  unfold Generator.createU64Constant
  repeat' first
    | infer_instance
    | dsimp only
    | apply Gen.ReportsOnce.once_ite
    | apply Gen.ReportsOnce.once_map
    | apply Gen.ReportsOnce.once_bind
    | apply Gen.ReportsOnce.once_orLog
    | apply Gen.ReportsOnce.once_orLogG
    | intro _
    | split

/-- `Generator::createF32Constant` appends at most one compile error, and none when it returns `false`. -/
@[instance] theorem reports_Generator_createF32Constant (v : Rat) :
    Gen.ReportsOnce (Generator.createF32Constant v) := by
  unfold Generator.createF32Constant
  repeat' first
    | infer_instance
    | dsimp only
    | apply Gen.ReportsOnce.once_ite
    | apply Gen.ReportsOnce.once_map
    | apply Gen.ReportsOnce.once_bind
    | apply Gen.ReportsOnce.once_orLog
    | apply Gen.ReportsOnce.once_orLogG
    | intro _
    | split

/-- `Generator::createF64Constant` appends at most one compile error, and none when it returns `false`. -/
@[instance] theorem reports_Generator_createF64Constant (v : Rat) :
    Gen.ReportsOnce (Generator.createF64Constant v) := by
  unfold Generator.createF64Constant
  repeat' first
    | infer_instance
    | dsimp only
    | apply Gen.ReportsOnce.once_ite
    | apply Gen.ReportsOnce.once_map
    | apply Gen.ReportsOnce.once_bind
    | apply Gen.ReportsOnce.once_orLog
    | apply Gen.ReportsOnce.once_orLogG
    | intro _
    | split

/-- `Generator::createDoubleConstant` appends at most one compile error, and none when it returns `false`. -/
@[instance] theorem reports_Generator_createDoubleConstant (v : Rat) :
    Gen.ReportsOnce (Generator.createDoubleConstant v) := by
  unfold Generator.createDoubleConstant
  repeat' first
    | infer_instance
    | dsimp only
    | apply Gen.ReportsOnce.once_ite
    | apply Gen.ReportsOnce.once_map
    | apply Gen.ReportsOnce.once_bind
    | apply Gen.ReportsOnce.once_orLog
    | apply Gen.ReportsOnce.once_orLogG
    | intro _
    | split

/-- `Generator::createStringConstant` appends at most one compile error, and none when it returns `false`. -/
@[instance] theorem reports_Generator_createStringConstant (str : String) :
    Gen.ReportsOnce (Generator.createStringConstant str) := by
  apply Gen.ReportsOnce.once_state
  · intro s s' a h
    unfold Generator.createStringConstant at h
    repeat' split at h
    all_goals first
      | (cases h; rfl)
      | cases h
  · intro s s' h
    unfold Generator.createStringConstant at h
    repeat' split at h
    all_goals first
      | (cases h; rfl)
      | cases h

/-- `Generator::createArrayConstant` appends at most one compile error, and none when it returns `false`. -/
@[instance] theorem reports_Generator_createArrayConstant (t : IRType) (values : List Value) :
    Gen.ReportsOnce (Generator.createArrayConstant t values) := by
  unfold Generator.createArrayConstant
  repeat' first
    | infer_instance
    | dsimp only
    | apply Gen.ReportsOnce.once_ite
    | apply Gen.ReportsOnce.once_map
    | apply Gen.ReportsOnce.once_bind
    | apply Gen.ReportsOnce.once_orLog
    | apply Gen.ReportsOnce.once_orLogG
    | intro _
    | split

/-- `Generator::createTruncOrExt` appends at most one compile error, and none when it returns `false`. -/
@[instance] theorem reports_Generator_createTruncOrExt (v : Option Value) (t : IRType) :
    Gen.ReportsOnce (Generator.createTruncOrExt v t) := by
  unfold Generator.createTruncOrExt
  repeat' first
    | infer_instance
    | dsimp only
    | apply Gen.ReportsOnce.once_ite
    | apply Gen.ReportsOnce.once_map
    | apply Gen.ReportsOnce.once_bind
    | apply Gen.ReportsOnce.once_orLog
    | apply Gen.ReportsOnce.once_orLogG
    | intro _
    | split

/-- `Generator::createCastOp` appends at most one compile error, and none when it returns `false`. -/
@[instance] theorem reports_Generator_createCastOp (op : CastOps) (v : Option Value) (t : IRType) :
    Gen.ReportsOnce (Generator.createCastOp op v t) := by
  unfold Generator.createCastOp
  repeat' first
    | infer_instance
    | dsimp only
    | apply Gen.ReportsOnce.once_ite
    | apply Gen.ReportsOnce.once_map
    | apply Gen.ReportsOnce.once_bind
    | apply Gen.ReportsOnce.once_orLog
    | apply Gen.ReportsOnce.once_orLogG
    | intro _
    | split

/-- `Generator::createCast` appends at most one compile error, and none when it returns `false`. -/
@[instance] theorem reports_Generator_createCast (a : TokenType) (v : Option Value) (b : TokenType) :
    Gen.ReportsOnce (Generator.createCast a v b) := by
  unfold Generator.createCast
  repeat' first
    | infer_instance
    | dsimp only
    | apply Gen.ReportsOnce.once_ite
    | apply Gen.ReportsOnce.once_map
    | apply Gen.ReportsOnce.once_bind
    | apply Gen.ReportsOnce.once_orLog
    | apply Gen.ReportsOnce.once_orLogG
    | intro _
    | split

/-- `Generator::createBitCast` appends at most one compile error, and none when it returns `false`. -/
@[instance] theorem reports_Generator_createBitCast (v : Option Value) (t : IRType) :
    Gen.ReportsOnce (Generator.createBitCast v t) := by
  unfold Generator.createBitCast
  repeat' first
    | infer_instance
    | dsimp only
    | apply Gen.ReportsOnce.once_ite
    | apply Gen.ReportsOnce.once_map
    | apply Gen.ReportsOnce.once_bind
    | apply Gen.ReportsOnce.once_orLog
    | apply Gen.ReportsOnce.once_orLogG
    | intro _
    | split

/-- `Generator::createCall` appends at most one compile error, and none when it returns `false`. -/
@[instance] theorem reports_Generator_createCall (callee : Option Nat) (values : List (Option Value)) :
    Gen.ReportsOnce (Generator.createCall callee values) := by
  unfold Generator.createCall
  repeat' first
    | infer_instance
    | dsimp only
    | apply Gen.ReportsOnce.once_ite
    | apply Gen.ReportsOnce.once_map
    | apply Gen.ReportsOnce.once_bind
    | apply Gen.ReportsOnce.once_orLog
    | apply Gen.ReportsOnce.once_orLogG
    | intro _
    | split

/-- `Generator::createSizeOf` appends at most one compile error, and none when it returns `false`. -/
@[instance] theorem reports_Generator_createSizeOf (t : IRType) :
    Gen.ReportsOnce (Generator.createSizeOf t) := by
  unfold Generator.createSizeOf
  repeat' first
    | infer_instance
    | dsimp only
    | apply Gen.ReportsOnce.once_ite
    | apply Gen.ReportsOnce.once_map
    | apply Gen.ReportsOnce.once_bind
    | apply Gen.ReportsOnce.once_orLog
    | apply Gen.ReportsOnce.once_orLogG
    | intro _
    | split

/-- `Generator::createCallMalloc` appends at most one compile error, and none when it returns `false`. -/
@[instance] theorem reports_Generator_createCallMalloc (t : IRType) :
    Gen.ReportsOnce (Generator.createCallMalloc t) := by
  unfold Generator.createCallMalloc
  repeat' first
    | infer_instance
    | dsimp only
    | apply Gen.ReportsOnce.once_ite
    | apply Gen.ReportsOnce.once_map
    | apply Gen.ReportsOnce.once_bind
    | apply Gen.ReportsOnce.once_orLog
    | apply Gen.ReportsOnce.once_orLogG
    | intro _
    | split

/-- `Generator::createAlloc` appends at most one compile error, and none when it returns `false`. -/
@[instance] theorem reports_Generator_createAlloc (t : IRType) :
    Gen.ReportsOnce (Generator.createAlloc t) := by
  unfold Generator.createAlloc
  apply Gen.ReportsOnce.once_bind
  · infer_instance
  · intro parent
    apply Gen.ReportsOnce.once_state
    · intro s s' a h
      repeat' split at h
      all_goals first
        | (cases h; rfl)
        | cases h
    · intro s s' h
      repeat' split at h
      all_goals first
        | (cases h; rfl)
        | cases h

/-- `Generator::createStore` appends at most one compile error, and none when it returns `false`. -/
@[instance] theorem reports_Generator_createStore (v p : Option Value) :
    Gen.ReportsOnce (Generator.createStore v p) := by
  unfold Generator.createStore
  repeat' first
    | infer_instance
    | dsimp only
    | apply Gen.ReportsOnce.once_ite
    | apply Gen.ReportsOnce.once_map
    | apply Gen.ReportsOnce.once_bind
    | apply Gen.ReportsOnce.once_orLog
    | apply Gen.ReportsOnce.once_orLogG
    | intro _
    | split

/-- `Generator::createLoad` appends at most one compile error, and none when it returns `false`. -/
@[instance] theorem reports_Generator_createLoad (p : Option Value) :
    Gen.ReportsOnce (Generator.createLoad p) := by
  unfold Generator.createLoad
  repeat' first
    | infer_instance
    | dsimp only
    | apply Gen.ReportsOnce.once_ite
    | apply Gen.ReportsOnce.once_map
    | apply Gen.ReportsOnce.once_bind
    | apply Gen.ReportsOnce.once_orLog
    | apply Gen.ReportsOnce.once_orLogG
    | intro _
    | split

/-- `Generator::memberPtrType` appends at most one compile error, and none when it returns `false`. -/
@[instance] theorem reports_Generator_memberPtrType (object : Value) (index : Nat) :
    Gen.ReportsOnce (Generator.memberPtrType object index) := by
  apply Gen.ReportsOnce.once_state
  · intro s s' a h
    unfold Generator.memberPtrType at h
    repeat' split at h
    all_goals first
      | (cases h; rfl)
      | cases h
  · intro s s' h
    unfold Generator.memberPtrType at h
    repeat' split at h
    all_goals first
      | (cases h; rfl)
      | cases h

/-- `Generator::createInitializeObject` appends at most one compile error, and none when it returns `false`. -/
@[instance] theorem reports_Generator_createInitializeObject (a b : Option Value) :
    Gen.ReportsOnce (Generator.createInitializeObject a b) := by
  unfold Generator.createInitializeObject
  repeat' first
    | infer_instance
    | dsimp only
    | apply Gen.ReportsOnce.once_ite
    | apply Gen.ReportsOnce.once_map
    | apply Gen.ReportsOnce.once_bind
    | apply Gen.ReportsOnce.once_orLog
    | apply Gen.ReportsOnce.once_orLogG
    | intro _
    | split

/-- `castConstantToValueType::BasicType` appends at most one compile error, and none when it returns `false`. -/
@[instance] theorem reports_castConstantToValueType_BasicType (t : ValueType) (v : Option Value) (d : ValueType) :
    Gen.ReportsOnce (castConstantToValueType_BasicType t v d) := by
  unfold castConstantToValueType_BasicType
  repeat' first
    | infer_instance
    | dsimp only
    | apply Gen.ReportsOnce.once_ite
    | apply Gen.ReportsOnce.once_map
    | apply Gen.ReportsOnce.once_bind
    | apply Gen.ReportsOnce.once_orLog
    | apply Gen.ReportsOnce.once_orLogG
    | intro _
    | split

/-- `castConstantToValueType::ArrayType` appends at most one compile error, and none when it returns `false`. -/
@[instance] theorem reports_castConstantToValueType_ArrayType (src : ExprResult) (d : ValueType) :
    Gen.ReportsOnce (castConstantToValueType_ArrayType src d) := by
  unfold castConstantToValueType_ArrayType
  repeat' first
    | infer_instance
    | dsimp only
    | apply Gen.ReportsOnce.once_ite
    | apply Gen.ReportsOnce.once_map
    | apply Gen.ReportsOnce.once_bind
    | apply Gen.ReportsOnce.once_orLog
    | apply Gen.ReportsOnce.once_orLogG
    | intro _
    | split

/-- `castConstantToValueType` appends at most one compile error, and none when it returns `false`. -/
@[instance] theorem reports_castConstantToValueType (src : ExprResult) (d : ValueType) :
    Gen.ReportsOnce (castConstantToValueType src d) := by
  unfold castConstantToValueType
  repeat' first
    | infer_instance
    | dsimp only
    | apply Gen.ReportsOnce.once_ite
    | apply Gen.ReportsOnce.once_map
    | apply Gen.ReportsOnce.once_bind
    | apply Gen.ReportsOnce.once_orLog
    | apply Gen.ReportsOnce.once_orLogG
    | intro _
    | split

/-- `VariableValueNode::generate` appends at most one compile error, and none when it returns `false`. -/
@[instance] theorem reports_VariableValueNode_generate
    (node : VariableValueNode) : Gen.ReportsOnce node.generate := by
  cases node
  unfold VariableValueNode.generate
  repeat' first
    | infer_instance
    | dsimp only
    | apply Gen.ReportsOnce.once_ite
    | apply Gen.ReportsOnce.once_map
    | apply Gen.ReportsOnce.once_bind
    | apply Gen.ReportsOnce.once_orLog
    | apply Gen.ReportsOnce.once_orLogG
    | intro _
    | split

/-- `UnaryOperationNode::generateRest` appends at most one compile error, and none when it returns `false`. -/
@[instance] theorem reports_UnaryOperationNode_generateRest (token operatorType : Token) (value : ExprResult) :
    Gen.ReportsOnce (UnaryOperationNode.generateRest token operatorType value) := by
  unfold UnaryOperationNode.generateRest
  repeat' first
    | infer_instance
    | dsimp only
    | apply Gen.ReportsOnce.once_ite
    | apply Gen.ReportsOnce.once_map
    | apply Gen.ReportsOnce.once_bind
    | apply Gen.ReportsOnce.once_orLog
    | apply Gen.ReportsOnce.once_orLogG
    | intro _
    | split

/-- `BinaryOperationNode::checkOperand` appends at most one compile error, and none when it returns `false`. -/
@[instance] theorem reports_BinaryOperationNode_checkOperand (t : Token) (ty : ValueType) (v : ExprResult) :
    Gen.ReportsOnce (BinaryOperationNode.checkOperand t ty v) := by
  unfold BinaryOperationNode.checkOperand
  repeat' first
    | infer_instance
    | dsimp only
    | apply Gen.ReportsOnce.once_ite
    | apply Gen.ReportsOnce.once_map
    | apply Gen.ReportsOnce.once_bind
    | apply Gen.ReportsOnce.once_orLog
    | apply Gen.ReportsOnce.once_orLogG
    | intro _
    | split

/-- `BinaryOperationNode::foldArithmetic` appends at most one compile error, and none when it returns `false`. -/
@[instance] theorem reports_BinaryOperationNode_foldArithmetic (op : Int → Int → Int) (node lhs rhs : ExprResult) :
    Gen.ReportsOnce (BinaryOperationNode.foldArithmetic op node lhs rhs) := by
  unfold BinaryOperationNode.foldArithmetic
  repeat' first
    | infer_instance
    | dsimp only
    | apply Gen.ReportsOnce.once_ite
    | apply Gen.ReportsOnce.once_map
    | apply Gen.ReportsOnce.once_bind
    | apply Gen.ReportsOnce.once_orLog
    | apply Gen.ReportsOnce.once_orLogG
    | intro _
    | split

/-- `BinaryOperationNode::foldDivision` appends at most one compile error, and none when it returns `false`. -/
@[instance] theorem reports_BinaryOperationNode_foldDivision (op : Int → Int → Option Int) (node lhs rhs : ExprResult) :
    Gen.ReportsOnce (BinaryOperationNode.foldDivision op node lhs rhs) := by
  unfold BinaryOperationNode.foldDivision
  repeat' first
    | infer_instance
    | dsimp only
    | apply Gen.ReportsOnce.once_ite
    | apply Gen.ReportsOnce.once_map
    | apply Gen.ReportsOnce.once_bind
    | apply Gen.ReportsOnce.once_orLog
    | apply Gen.ReportsOnce.once_orLogG
    | intro _
    | split

/-- `BinaryOperationNode::generateRest` appends at most one compile error, and none when it returns `false`. -/
@[instance] theorem reports_BinaryOperationNode_generateRest (token operatorType : Token) (lhs rhs : ExprResult) :
    Gen.ReportsOnce (BinaryOperationNode.generateRest token operatorType lhs rhs) := by
  unfold BinaryOperationNode.generateRest
  repeat' first
    | infer_instance
    | dsimp only
    | apply Gen.ReportsOnce.once_ite
    | apply Gen.ReportsOnce.once_map
    | apply Gen.ReportsOnce.once_bind
    | apply Gen.ReportsOnce.once_orLog
    | apply Gen.ReportsOnce.once_orLogG
    | intro _
    | split

/-- `ConstantNode::generate` appends at most one compile error, and none when it returns `false`. -/
@[instance] theorem reports_ConstantNode_generate (constant : Token) :
    Gen.ReportsOnce (ConstantNode.generate constant) := by
  unfold ConstantNode.generate
  repeat' first
    | infer_instance
    | dsimp only
    | apply Gen.ReportsOnce.once_ite
    | apply Gen.ReportsOnce.once_map
    | apply Gen.ReportsOnce.once_bind
    | apply Gen.ReportsOnce.once_orLog
    | apply Gen.ReportsOnce.once_orLogG
    | intro _
    | split

/-- `AggregateConstantNode::checkElementTypes` appends at most one compile error, and none when it returns `false`. -/
@[instance] theorem reports_AggregateConstantNode_checkElementTypes
    (token : Token) (type : ValueType) (types : List ValueType) :
    Gen.ReportsOnce (AggregateConstantNode.checkElementTypes token type types) := by
  induction types with
  | nil => rw [AggregateConstantNode.checkElementTypes]; infer_instance
  | cons i rest ih =>
    rw [AggregateConstantNode.checkElementTypes]
    infer_instance

/-- `AggregateConstantNode::elementConstant` appends at most one compile error, and none when it returns `false`. -/
@[instance] theorem reports_AggregateConstantNode_elementConstant (valueType : ValueType) (value : ExprResult) :
    Gen.ReportsOnce (AggregateConstantNode.elementConstant valueType value) := by
  unfold AggregateConstantNode.elementConstant
  repeat' first
    | infer_instance
    | dsimp only
    | apply Gen.ReportsOnce.once_ite
    | apply Gen.ReportsOnce.once_map
    | apply Gen.ReportsOnce.once_bind
    | apply Gen.ReportsOnce.once_orLog
    | apply Gen.ReportsOnce.once_orLogG
    | intro _
    | split

/-- `AggregateConstantNode::elementConstants` appends at most one compile error, and none when it returns `false`. -/
@[instance] theorem reports_AggregateConstantNode_elementConstants
    (valueType : ValueType) (values : List ExprResult) :
    Gen.ReportsOnce (AggregateConstantNode.elementConstants valueType values) := by
  induction values with
  | nil => rw [AggregateConstantNode.elementConstants]; infer_instance
  | cons value rest ih =>
    rw [AggregateConstantNode.elementConstants]
    repeat' first
      | infer_instance
      | dsimp only
      | apply Gen.ReportsOnce.once_ite
      | apply Gen.ReportsOnce.once_map
      | apply Gen.ReportsOnce.once_bind
      | apply Gen.ReportsOnce.once_orLog
      | apply Gen.ReportsOnce.once_orLogG
      | intro _
      | split

/-- `AggregateConstantNode::generateArrayConstant` appends at most one compile error, and none when it returns `false`. -/
@[instance] theorem reports_AggregateConstantNode_generateArrayConstant (token : Token) (valueType : ValueType) (values : List ExprResult) :
    Gen.ReportsOnce (AggregateConstantNode.generateArrayConstant token valueType values) := by
  unfold AggregateConstantNode.generateArrayConstant
  repeat' first
    | infer_instance
    | dsimp only
    | apply Gen.ReportsOnce.once_ite
    | apply Gen.ReportsOnce.once_map
    | apply Gen.ReportsOnce.once_bind
    | apply Gen.ReportsOnce.once_orLog
    | apply Gen.ReportsOnce.once_orLogG
    | intro _
    | split

/-- `AggregateConstantNode::generateRest` appends at most one compile error, and none when it returns `false`. -/
@[instance] theorem reports_AggregateConstantNode_generateRest (token : Token) (values : List ExprResult) :
    Gen.ReportsOnce (AggregateConstantNode.generateRest token values) := by
  unfold AggregateConstantNode.generateRest
  repeat' first
    | infer_instance
    | dsimp only
    | apply Gen.ReportsOnce.once_ite
    | apply Gen.ReportsOnce.once_map
    | apply Gen.ReportsOnce.once_bind
    | apply Gen.ReportsOnce.once_orLog
    | apply Gen.ReportsOnce.once_orLogG
    | intro _
    | split

/-- `CastNode::generateRest` appends at most one compile error, and none when it returns `false`. -/
@[instance] theorem reports_CastNode_generateRest (token : Token) (value : ExprResult) (destType : TypeNode) :
    Gen.ReportsOnce (CastNode.generateRest token value destType) := by
  unfold CastNode.generateRest
  repeat' first
    | infer_instance
    | dsimp only
    | apply Gen.ReportsOnce.once_ite
    | apply Gen.ReportsOnce.once_map
    | apply Gen.ReportsOnce.once_bind
    | apply Gen.ReportsOnce.once_orLog
    | apply Gen.ReportsOnce.once_orLogG
    | intro _
    | split

/-- `CallNode::generateRest` appends at most one compile error, and none when it returns `false`. -/
@[instance] theorem reports_CallNode_generateRest (token : Token) (function : FunctionNode) (values : List (Option Value)) :
    Gen.ReportsOnce (CallNode.generateRest token function values) := by
  unfold CallNode.generateRest
  repeat' first
    | infer_instance
    | dsimp only
    | apply Gen.ReportsOnce.once_ite
    | apply Gen.ReportsOnce.once_map
    | apply Gen.ReportsOnce.once_bind
    | apply Gen.ReportsOnce.once_orLog
    | apply Gen.ReportsOnce.once_orLogG
    | intro _
    | split

mutual
/-- `ExpressionNode::generate` appends at most one compile error, and none when it returns `false`. -/
theorem reports_ExpressionNode_generate :
    ∀ e : ExpressionNode, Gen.ReportsOnce (ExpressionNode.generate e)
  | .VariableValueNode node => by
    rw [ExpressionNode.generate]
    infer_instance
  | .UnaryOperationNode token operatorType value => by
    have ih := reports_ExpressionNode_generate value
    rw [ExpressionNode.generate]
    infer_instance
  | .BinaryOperationNode token operatorType lhs rhs => by
    have ihl := reports_ExpressionNode_generate lhs
    have ihr := reports_ExpressionNode_generate rhs
    rw [ExpressionNode.generate]
    infer_instance
  | .CallNode token fn values => by
    have ih := fun functionName hasVariableArgument args =>
      reports_ValueListNode_generateForFunctionArgumants values token functionName
        hasVariableArgument args
    rw [ExpressionNode.generate]
    apply Gen.ReportsOnce.once_bind
    · infer_instance
    intro s
    split
    · infer_instance
    · infer_instance
  | .ConstantNode constant => by
    rw [ExpressionNode.generate]
    infer_instance
  | .AggregateConstantNode token values => by
    have ih := reports_ValueListNode_generate values
    rw [ExpressionNode.generate]
    infer_instance
  | .CastNode token value destType => by
    have ih1 := reports_ExpressionNode_generate value
    have ih2 := reports_TypeNode_generate destType
    rw [ExpressionNode.generate]
    infer_instance
/-- `ValueListNode::generate` appends at most one compile error, and none when it returns `false`. -/
theorem reports_ValueListNode_generate :
    ∀ values : List ExpressionNode, Gen.ReportsOnce (ValueListNode.generate values)
  | [] => by
    rw [ValueListNode.generate]
    infer_instance
  | v :: rest => by
    have ih1 := reports_ExpressionNode_generate v
    have ih2 := reports_ValueListNode_generate rest
    rw [ValueListNode.generate]
    infer_instance
/-- `ValueListNode::generateForFunctionArgumants` appends at most one compile error, and none when it returns `false`. -/
theorem reports_ValueListNode_generateForFunctionArgumants :
    ∀ (values : List ExpressionNode) (callToken functionName : Token)
      (hasVariableArgument : Bool) (args : List VariableDefinitionNode),
      Gen.ReportsOnce (ValueListNode.generateForFunctionArgumants callToken functionName
        hasVariableArgument values args)
  | [], callToken, functionName, hasVariableArgument, [] => by
    rw [ValueListNode.generateForFunctionArgumants]
    infer_instance
  | [], callToken, functionName, hasVariableArgument, _ :: _ => by
    rw [ValueListNode.generateForFunctionArgumants]
    infer_instance
  | v :: rest, callToken, functionName, hasVariableArgument, args => by
    have ih1 := reports_ExpressionNode_generate v
    have ih2 := fun args => reports_ValueListNode_generateForFunctionArgumants rest callToken
      functionName hasVariableArgument args
    rw [ValueListNode.generateForFunctionArgumants]
    apply Gen.ReportsOnce.once_bind
    · infer_instance
    intro r
    split
    · infer_instance
    · infer_instance
/-- `TypeNode::generate` appends at most one compile error, and none when it returns `false`. -/
theorem reports_TypeNode_generate :
    ∀ type : TypeNode, Gen.ReportsOnce (TypeNode.generate type)
  | .mk token type generatedType arraySizes => by
    have ih := fun type => reports_TypeNode_generateArraySizes arraySizes type
    rw [TypeNode.generate]
    infer_instance
/-- `TypeNode::generateArraySizes` appends at most one compile error, and none when it returns `false`. -/
theorem reports_TypeNode_generateArraySizes :
    ∀ (arraySizes : List ExpressionNode) (type : ValueType),
      Gen.ReportsOnce (TypeNode.generateArraySizes arraySizes type)
  | [], type => by
    rw [TypeNode.generateArraySizes]
    infer_instance
  | arraySize :: rest, type => by
    have ih1 := reports_ExpressionNode_generate arraySize
    have ih2 := fun type => reports_TypeNode_generateArraySizes rest type
    rw [TypeNode.generateArraySizes]
    infer_instance
end

attribute [instance] reports_ExpressionNode_generate reports_ValueListNode_generate
  reports_ValueListNode_generateForFunctionArgumants reports_TypeNode_generate
  reports_TypeNode_generateArraySizes

/-- `Context::addSymbolTable` appends at most one compile error, and none when it returns `false`. -/
@[instance] theorem reports_Context_addSymbolTable :
    Gen.ReportsOnce (Context.addSymbolTable) := by
  exact Gen.ReportsOnce.once_modifyCtx _ fun _ => rfl

/-- `Context::removeSymbolTable` appends at most one compile error, and none when it returns `false`. -/
@[instance] theorem reports_Context_removeSymbolTable :
    Gen.ReportsOnce (Context.removeSymbolTable) := by
  unfold Context.removeSymbolTable
  repeat' first
    | infer_instance
    | dsimp only
    | apply Gen.ReportsOnce.once_ite
    | apply Gen.ReportsOnce.once_map
    | apply Gen.ReportsOnce.once_bind
    | apply Gen.ReportsOnce.once_orLog
    | apply Gen.ReportsOnce.once_orLogG
    | intro _
    | split
    | exact Gen.ReportsOnce.once_modifyCtx _ fun _ => rfl

/-- `Context::addSymbol` appends at most one compile error, and none when it returns `false`. -/
@[instance] theorem reports_Context_addSymbol
    (name : String) (type : ValueType) (value : Option Value) :
    Gen.ReportsOnce (Context.addSymbol name type value) := by
  unfold Context.addSymbol
  repeat' first
    | infer_instance
    | dsimp only
    | apply Gen.ReportsOnce.once_ite
    | apply Gen.ReportsOnce.once_map
    | apply Gen.ReportsOnce.once_bind
    | apply Gen.ReportsOnce.once_orLog
    | apply Gen.ReportsOnce.once_orLogG
    | intro _
    | split
    | exact Gen.ReportsOnce.once_modifyCtx _ fun _ => rfl

/-- `Context::addSuccessorBlockForBreak` appends at most one compile error, and none when it returns `false`. -/
@[instance] theorem reports_Context_addSuccessorBlockForBreak (successorBlock : Nat) :
    Gen.ReportsOnce (Context.addSuccessorBlockForBreak successorBlock) := by
  exact Gen.ReportsOnce.once_modifyCtx _ fun _ => rfl

/-- `Context::removeSuccessorBlockForBreak` appends at most one compile error, and none when it returns `false`. -/
@[instance] theorem reports_Context_removeSuccessorBlockForBreak :
    Gen.ReportsOnce (Context.removeSuccessorBlockForBreak) := by
  unfold Context.removeSuccessorBlockForBreak
  repeat' first
    | infer_instance
    | dsimp only
    | apply Gen.ReportsOnce.once_ite
    | apply Gen.ReportsOnce.once_map
    | apply Gen.ReportsOnce.once_bind
    | apply Gen.ReportsOnce.once_orLog
    | apply Gen.ReportsOnce.once_orLogG
    | intro _
    | split
    | exact Gen.ReportsOnce.once_modifyCtx _ fun _ => rfl

/-- `Context::setLastBlock` appends at most one compile error, and none when it returns `false`. -/
@[instance] theorem reports_Context_setLastBlock (block : Option Nat) :
    Gen.ReportsOnce (Context.setLastBlock block) := by
  exact Gen.ReportsOnce.once_modifyCtx _ fun _ => rfl

/-- `Context::setBreaked` appends at most one compile error, and none when it returns `false`. -/
@[instance] theorem reports_Context_setBreaked (flag : Bool) :
    Gen.ReportsOnce (Context.setBreaked flag) := by
  exact Gen.ReportsOnce.once_modifyCtx _ fun _ => rfl

/-- `Context::setReturned` appends at most one compile error, and none when it returns `false`. -/
@[instance] theorem reports_Context_setReturned (flag : Bool) :
    Gen.ReportsOnce (Context.setReturned flag) := by
  exact Gen.ReportsOnce.once_modifyCtx _ fun _ => rfl

/-- `Context::setFunction` appends at most one compile error, and none when it returns `false`. -/
@[instance] theorem reports_Context_setFunction (i j : Nat) (node : FunctionNode) :
    Gen.ReportsOnce (Context.setFunction i j node) := by
  exact Gen.ReportsOnce.once_modifyCtx _ fun _ => rfl

/-- `Context::getFunction` appends at most one compile error, and none when it returns `false`. -/
@[instance] theorem reports_Context_getFunction (i j : Nat) :
    Gen.ReportsOnce (Context.getFunction i j) := by
  unfold Context.getFunction
  repeat' first
    | infer_instance
    | dsimp only
    | apply Gen.ReportsOnce.once_ite
    | apply Gen.ReportsOnce.once_map
    | apply Gen.ReportsOnce.once_bind
    | apply Gen.ReportsOnce.once_orLog
    | apply Gen.ReportsOnce.once_orLogG
    | intro _
    | split

/-- The call `ctx.removeSymbolTable();` whose result is dropped reports nothing. -/
@[instance] theorem reports_removeSymbolTable_ignoreResult :
    Gen.ReportsOnce Context.removeSymbolTable.ignoreResult := by
  have hk : ∀ (s : State), (∀ a s', Context.removeSymbolTable s = .ok a s' →
      s'.ctx.errors = s.ctx.errors) ∧ (∀ s', Context.removeSymbolTable s = .fail s' →
      s'.ctx.errors = s.ctx.errors) := by
    intro s
    unfold Context.removeSymbolTable
    simp only [bind, Gen.bind, getState]
    cases he : s.ctx.symbolTables.isEmpty with
    | true =>
      simp only [if_true, debugLog, returnTrue]
      exact ⟨fun a s' h => (by cases h), fun s' h => by cases h; rfl⟩
    | false =>
      simp only [Bool.false_eq_true, if_false, modifyCtx]
      exact ⟨fun a s' h => by cases h; rfl, fun s' h => by cases h⟩
  constructor
  · intro s s' a h
    unfold Gen.ignoreResult at h
    cases hr : Context.removeSymbolTable s with
    | ok b s1 =>
      rw [hr] at h
      cases h
      exact (hk s).1 _ _ hr
    | fail s1 =>
      rw [hr] at h
      cases h
      exact (hk s).2 _ hr
    | undefined =>
      rw [hr] at h
      cases h
  · intro s s' h
    unfold Gen.ignoreResult at h
    cases hr : Context.removeSymbolTable s with
    | ok b s1 =>
      rw [hr] at h
      cases h
    | fail s1 =>
      rw [hr] at h
      cases h
    | undefined =>
      rw [hr] at h
      cases h

/-- `BlockNode::generateBlock` appends at most one compile error, and none when it returns `false`. -/
@[instance] theorem reports_BlockNode_generateBlock (function insertBefore : Option Nat) :
    Gen.ReportsOnce (BlockNode.generateBlock function insertBefore) := by
  unfold BlockNode.generateBlock
  repeat' first
    | infer_instance
    | dsimp only
    | apply Gen.ReportsOnce.once_ite
    | apply Gen.ReportsOnce.once_map
    | apply Gen.ReportsOnce.once_bind
    | apply Gen.ReportsOnce.once_orLog
    | apply Gen.ReportsOnce.once_orLogG
    | intro _
    | split

/-- `LetNode::inferType` appends at most one compile error, and none when it returns `false`. -/
@[instance] theorem reports_LetNode_inferType (name : Token) (initialValue : ExprResult) :
    Gen.ReportsOnce (LetNode.inferType name initialValue) := by
  unfold LetNode.inferType
  repeat' first
    | infer_instance
    | dsimp only
    | apply Gen.ReportsOnce.once_ite
    | apply Gen.ReportsOnce.once_map
    | apply Gen.ReportsOnce.once_bind
    | apply Gen.ReportsOnce.once_orLog
    | apply Gen.ReportsOnce.once_orLogG
    | intro _
    | split

/-- `LetNode::initialValueFor` appends at most one compile error, and none when it returns `false`. -/
@[instance] theorem reports_LetNode_initialValueFor
    (token : Token) (type : ValueType) (initialValue : Option ExprResult) (logLine : Nat) :
    Gen.ReportsOnce (LetNode.initialValueFor token type initialValue logLine) := by
  unfold LetNode.initialValueFor
  repeat' first
    | infer_instance
    | dsimp only
    | apply Gen.ReportsOnce.once_ite
    | apply Gen.ReportsOnce.once_map
    | apply Gen.ReportsOnce.once_bind
    | apply Gen.ReportsOnce.once_orLog
    | apply Gen.ReportsOnce.once_orLogG
    | intro _
    | split

/-- `LetNode::generateRest` appends at most one compile error, and none when it returns `false`. -/
@[instance] theorem reports_LetNode_generateRest
    (token name : Token) (type : Option TypeNode) (isHeap : Bool) (initialValue : Option ExprResult) :
    Gen.ReportsOnce (LetNode.generateRest token name type isHeap initialValue) := by
  unfold LetNode.generateRest
  repeat' first
    | infer_instance
    | dsimp only
    | apply Gen.ReportsOnce.once_ite
    | apply Gen.ReportsOnce.once_map
    | apply Gen.ReportsOnce.once_bind
    | apply Gen.ReportsOnce.once_orLog
    | apply Gen.ReportsOnce.once_orLogG
    | intro _
    | split

/-- `LetNode::generate` appends at most one compile error, and none when it returns `false`. -/
@[instance] theorem reports_LetNode_generate
    (token name : Token) (type : Option TypeNode) (isHeap : Bool) (initialValue : Option ExpressionNode) :
    Gen.ReportsOnce (LetNode.generate token name type isHeap initialValue) := by
  unfold LetNode.generate
  repeat' first
    | infer_instance
    | dsimp only
    | apply Gen.ReportsOnce.once_ite
    | apply Gen.ReportsOnce.once_map
    | apply Gen.ReportsOnce.once_bind
    | apply Gen.ReportsOnce.once_orLog
    | apply Gen.ReportsOnce.once_orLogG
    | intro _
    | split

/-- `ReturnNode::generateRest` appends at most one compile error, and none when it returns `false`. -/
@[instance] theorem reports_ReturnNode_generateRest
    (returnToken : Token) (value : Option ExprResult) :
    Gen.ReportsOnce (ReturnNode.generateRest returnToken value) := by
  unfold ReturnNode.generateRest
  repeat' first
    | infer_instance
    | dsimp only
    | apply Gen.ReportsOnce.once_ite
    | apply Gen.ReportsOnce.once_map
    | apply Gen.ReportsOnce.once_bind
    | apply Gen.ReportsOnce.once_orLog
    | apply Gen.ReportsOnce.once_orLogG
    | intro _
    | split

/-- `ReturnNode::generate` appends at most one compile error, and none when it returns `false`. -/
@[instance] theorem reports_ReturnNode_generate
    (returnToken : Token) (value : Option ExpressionNode) :
    Gen.ReportsOnce (ReturnNode.generate returnToken value) := by
  unfold ReturnNode.generate
  repeat' first
    | infer_instance
    | dsimp only
    | apply Gen.ReportsOnce.once_ite
    | apply Gen.ReportsOnce.once_map
    | apply Gen.ReportsOnce.once_bind
    | apply Gen.ReportsOnce.once_orLog
    | apply Gen.ReportsOnce.once_orLogG
    | intro _
    | split

/-- `BreakNode::generate` appends at most one compile error, and none when it returns `false`. -/
@[instance] theorem reports_BreakNode_generate (token : Token) :
    Gen.ReportsOnce (BreakNode.generate token) := by
  unfold BreakNode.generate
  repeat' first
    | infer_instance
    | dsimp only
    | apply Gen.ReportsOnce.once_ite
    | apply Gen.ReportsOnce.once_map
    | apply Gen.ReportsOnce.once_bind
    | apply Gen.ReportsOnce.once_orLog
    | apply Gen.ReportsOnce.once_orLogG
    | intro _
    | split

/-- `AssignNode::generate` appends at most one compile error, and none when it returns `false`. -/
@[instance] theorem reports_AssignNode_generate
    (token : Token) (dest : VariableValueNode) (value : ExpressionNode) :
    Gen.ReportsOnce (AssignNode.generate token dest value) := by
  unfold AssignNode.generate
  repeat' first
    | infer_instance
    | dsimp only
    | apply Gen.ReportsOnce.once_ite
    | apply Gen.ReportsOnce.once_map
    | apply Gen.ReportsOnce.once_bind
    | apply Gen.ReportsOnce.once_orLog
    | apply Gen.ReportsOnce.once_orLogG
    | intro _
    | split

/-- `WhileNode::generateHead` appends at most one compile error, and none when it returns `false`. -/
@[instance] theorem reports_WhileNode_generateHead (condition : ExpressionNode) :
    Gen.ReportsOnce (WhileNode.generateHead condition) := by
  unfold WhileNode.generateHead
  repeat' first
    | infer_instance
    | dsimp only
    | apply Gen.ReportsOnce.once_ite
    | apply Gen.ReportsOnce.once_map
    | apply Gen.ReportsOnce.once_bind
    | apply Gen.ReportsOnce.once_orLog
    | apply Gen.ReportsOnce.once_orLogG
    | intro _
    | split

/-- `WhileNode::generateTail` appends at most one compile error, and none when it returns `false`. -/
@[instance] theorem reports_WhileNode_generateTail (successorBlock : Nat) :
    Gen.ReportsOnce (WhileNode.generateTail successorBlock) := by
  unfold WhileNode.generateTail
  repeat' first
    | infer_instance
    | dsimp only
    | apply Gen.ReportsOnce.once_ite
    | apply Gen.ReportsOnce.once_map
    | apply Gen.ReportsOnce.once_bind
    | apply Gen.ReportsOnce.once_orLog
    | apply Gen.ReportsOnce.once_orLogG
    | intro _
    | split

mutual
/-- Every statement appends at most one compile error, and none when it
generates successfully. -/
theorem reports_StatementNode_generate :
    ∀ statement : StatementNode, Gen.ReportsOnce statement.generate
  | .LetNode token name type isHeap initialValue => by
    rw [StatementNode.generate]
    infer_instance
  | .IfNode token condition thenBlock none => by
    have ih := fun generatedBlock successorBlock =>
      reports_BlockNode_generateStatements thenBlock generatedBlock successorBlock
    rw [StatementNode.generate]
    repeat' first
      | infer_instance
      | dsimp only
      | apply Gen.ReportsOnce.once_ite
      | apply Gen.ReportsOnce.once_map
      | apply Gen.ReportsOnce.once_bind
      | apply Gen.ReportsOnce.once_orLog
      | apply Gen.ReportsOnce.once_orLogG
      | intro _
      | split
  | .IfNode token condition thenBlock (some elseBlock) => by
    have ih1 := fun generatedBlock successorBlock =>
      reports_BlockNode_generateStatements thenBlock generatedBlock successorBlock
    have ih2 := fun generatedBlock successorBlock =>
      reports_BlockNode_generateStatements elseBlock generatedBlock successorBlock
    rw [StatementNode.generate]
    repeat' first
      | infer_instance
      | dsimp only
      | apply Gen.ReportsOnce.once_ite
      | apply Gen.ReportsOnce.once_map
      | apply Gen.ReportsOnce.once_bind
      | apply Gen.ReportsOnce.once_orLog
      | apply Gen.ReportsOnce.once_orLogG
      | intro _
      | split
  | .WhileNode token condition block => by
    have ih := fun generatedBlock successorBlock =>
      reports_BlockNode_generateStatements block generatedBlock successorBlock
    rw [StatementNode.generate]
    apply Gen.ReportsOnce.once_bind
    · infer_instance
    intro x
    obtain ⟨conditionBlock, successorBlock, generated⟩ := x
    dsimp only
    infer_instance
  | .ReturnNode token returnToken value => by
    rw [StatementNode.generate]
    infer_instance
  | .BreakNode token => by
    rw [StatementNode.generate]
    infer_instance
  | .AssignNode token dest value => by
    rw [StatementNode.generate]
    infer_instance
  | .CallNode token f values => by
    rw [StatementNode.generate]
    infer_instance
/-- Every block appends at most one compile error, and none when it generates
successfully. -/
theorem reports_BlockNode_generateStatements :
    ∀ (block : BlockNode) (generatedBlock : Nat) (successorBlock : Option Nat),
      Gen.ReportsOnce (block.generateStatements generatedBlock successorBlock)
  | .mk statements rightCurlyBracketToken, generatedBlock, successorBlock => by
    have ih := reports_BlockNode_generateStatementList statements
    rw [BlockNode.generateStatements]
    repeat' first
      | infer_instance
      | dsimp only
      | apply Gen.ReportsOnce.once_ite
      | apply Gen.ReportsOnce.once_map
      | apply Gen.ReportsOnce.once_bind
      | apply Gen.ReportsOnce.once_orLog
      | apply Gen.ReportsOnce.once_orLogG
      | intro _
      | split
/-- Every list of statements appends at most one compile error, and none when it
generates successfully. -/
theorem reports_BlockNode_generateStatementList :
    ∀ statements : List StatementNode,
      Gen.ReportsOnce (BlockNode.generateStatementList statements)
  | [] => by
    rw [BlockNode.generateStatementList]
    infer_instance
  | statement :: rest => by
    have ih1 := reports_StatementNode_generate statement
    have ih2 := reports_BlockNode_generateStatementList rest
    rw [BlockNode.generateStatementList]
    infer_instance
end

attribute [instance] reports_StatementNode_generate reports_BlockNode_generateStatements
  reports_BlockNode_generateStatementList

/-- `Generator::createStructType` appends at most one compile error, and none when it returns `false`. -/
@[instance] theorem reports_Generator_createStructType (name : String) :
    Gen.ReportsOnce (Generator.createStructType name) := by
  apply Gen.ReportsOnce.once_state
  · intro s s' a h
    unfold Generator.createStructType at h
    repeat' split at h
    all_goals first
      | (cases h; rfl)
      | cases h
  · intro s s' h
    unfold Generator.createStructType at h
    repeat' split at h
    all_goals first
      | (cases h; rfl)
      | cases h

/-- `Generator::setBody` appends at most one compile error, and none when it returns `false`. -/
@[instance] theorem reports_Generator_setBody (id : Nat) (types : List IRType) :
    Gen.ReportsOnce (Generator.setBody id types) := by
  unfold Generator.setBody
  repeat' first
    | infer_instance
    | dsimp only
    | apply Gen.ReportsOnce.once_ite
    | apply Gen.ReportsOnce.once_map
    | apply Gen.ReportsOnce.once_bind
    | apply Gen.ReportsOnce.once_orLog
    | apply Gen.ReportsOnce.once_orLogG
    | intro _
    | split

/-- `Generator::createFunctionType` appends at most one compile error, and none when it returns `false`. -/
@[instance] theorem reports_Generator_createFunctionType
    (returnType : IRType) (argumentTypes : List IRType) (hasVariableArguments : Bool) :
    Gen.ReportsOnce (Generator.createFunctionType returnType argumentTypes hasVariableArguments) := by
  unfold Generator.createFunctionType
  repeat' first
    | infer_instance
    | dsimp only
    | apply Gen.ReportsOnce.once_ite
    | apply Gen.ReportsOnce.once_map
    | apply Gen.ReportsOnce.once_bind
    | apply Gen.ReportsOnce.once_orLog
    | apply Gen.ReportsOnce.once_orLogG
    | intro _
    | split

/-- `Generator::createFunctionDeclare` appends at most one compile error, and none when it returns `false`. -/
@[instance] theorem reports_Generator_createFunctionDeclare
    (functionType : FunctionType) (name : String) :
    Gen.ReportsOnce (Generator.createFunctionDeclare functionType name) := by
  apply Gen.ReportsOnce.once_state
  · intro s s' a h
    unfold Generator.createFunctionDeclare at h
    repeat' split at h
    all_goals first
      | (cases h; rfl)
      | cases h
  · intro s s' h
    unfold Generator.createFunctionDeclare at h
    repeat' split at h
    all_goals first
      | (cases h; rfl)
      | cases h

/-- `StructNode::generateType` appends at most one compile error, and none when it returns `false`. -/
@[instance] theorem reports_StructNode_generateType (node : StructNode) :
    Gen.ReportsOnce (StructNode.generateType node) := by
  unfold StructNode.generateType
  repeat' first
    | infer_instance
    | dsimp only
    | apply Gen.ReportsOnce.once_ite
    | apply Gen.ReportsOnce.once_map
    | apply Gen.ReportsOnce.once_bind
    | apply Gen.ReportsOnce.once_orLog
    | apply Gen.ReportsOnce.once_orLogG
    | intro _
    | split

/-- `StructNode::generateMemberTypes` appends at most one compile error, and none when it returns `false`. -/
@[instance] theorem reports_StructNode_generateMemberTypes (members : List VariableDefinitionNode) :
    Gen.ReportsOnce (StructNode.generateMemberTypes members) := by
  induction members with
  | nil =>
    rw [StructNode.generateMemberTypes]
    infer_instance
  | cons head rest ih =>
    rw [StructNode.generateMemberTypes]
    repeat' first
      | infer_instance
      | dsimp only
      | apply Gen.ReportsOnce.once_ite
      | apply Gen.ReportsOnce.once_map
      | apply Gen.ReportsOnce.once_bind
      | apply Gen.ReportsOnce.once_orLog
      | apply Gen.ReportsOnce.once_orLogG
      | intro _
      | split

/-- `StructNode::generateMember` appends at most one compile error, and none when it returns `false`. -/
@[instance] theorem reports_StructNode_generateMember (node : StructNode) :
    Gen.ReportsOnce (StructNode.generateMember node) := by
  unfold StructNode.generateMember
  repeat' first
    | infer_instance
    | dsimp only
    | apply Gen.ReportsOnce.once_ite
    | apply Gen.ReportsOnce.once_map
    | apply Gen.ReportsOnce.once_bind
    | apply Gen.ReportsOnce.once_orLog
    | apply Gen.ReportsOnce.once_orLogG
    | intro _
    | split

/-- `FunctionNode::generateArgumentTypes` appends at most one compile error, and none when it returns `false`. -/
@[instance] theorem reports_FunctionNode_generateArgumentTypes (args : List VariableDefinitionNode) :
    Gen.ReportsOnce (FunctionNode.generateArgumentTypes args) := by
  induction args with
  | nil =>
    rw [FunctionNode.generateArgumentTypes]
    infer_instance
  | cons head rest ih =>
    rw [FunctionNode.generateArgumentTypes]
    repeat' first
      | infer_instance
      | dsimp only
      | apply Gen.ReportsOnce.once_ite
      | apply Gen.ReportsOnce.once_map
      | apply Gen.ReportsOnce.once_bind
      | apply Gen.ReportsOnce.once_orLog
      | apply Gen.ReportsOnce.once_orLogG
      | intro _
      | split

/-- `FunctionNode::generateDeclare` appends at most one compile error, and none when it returns `false`. -/
@[instance] theorem reports_FunctionNode_generateDeclare (node : FunctionNode) :
    Gen.ReportsOnce (FunctionNode.generateDeclare node) := by
  unfold FunctionNode.generateDeclare
  repeat' first
    | infer_instance
    | dsimp only
    | apply Gen.ReportsOnce.once_ite
    | apply Gen.ReportsOnce.once_map
    | apply Gen.ReportsOnce.once_bind
    | apply Gen.ReportsOnce.once_orLog
    | apply Gen.ReportsOnce.once_orLogG
    | intro _
    | split

/-- `FunctionNode::addArgumentToSymbolTable` appends at most one compile error, and none when it returns `false`. -/
@[instance] theorem reports_FunctionNode_addArgumentToSymbolTable (args : List VariableDefinitionNode) :
    ∀ (index : Nat), Gen.ReportsOnce (FunctionNode.addArgumentToSymbolTable args index) := by
  induction args with
  | nil =>
    intro index
    rw [FunctionNode.addArgumentToSymbolTable]
    infer_instance
  | cons head rest ih =>
    intro index
    rw [FunctionNode.addArgumentToSymbolTable]
    repeat' first
      | infer_instance
      | dsimp only
      | apply Gen.ReportsOnce.once_ite
      | apply Gen.ReportsOnce.once_map
      | apply Gen.ReportsOnce.once_bind
      | apply Gen.ReportsOnce.once_orLog
      | apply Gen.ReportsOnce.once_orLogG
      | intro _
      | split

/-- `FunctionNode::generateDefine` appends at most one compile error, and none when it returns `false`. -/
@[instance] theorem reports_FunctionNode_generateDefine (node : FunctionNode) :
    Gen.ReportsOnce (FunctionNode.generateDefine node) := by
  unfold FunctionNode.generateDefine
  repeat' first
    | infer_instance
    | dsimp only
    | apply Gen.ReportsOnce.once_ite
    | apply Gen.ReportsOnce.once_map
    | apply Gen.ReportsOnce.once_bind
    | apply Gen.ReportsOnce.once_orLog
    | apply Gen.ReportsOnce.once_orLogG
    | intro _
    | split

/-- `CompileUnitNode::generateStructTypes` appends at most one compile error, and none when it returns `false`. -/
@[instance] theorem reports_CompileUnitNode_generateStructTypes (structs : List StructNode) :
    Gen.ReportsOnce (CompileUnitNode.generateStructTypes structs) := by
  induction structs with
  | nil =>
    rw [CompileUnitNode.generateStructTypes]
    infer_instance
  | cons head rest ih =>
    rw [CompileUnitNode.generateStructTypes]
    repeat' first
      | infer_instance
      | dsimp only
      | apply Gen.ReportsOnce.once_ite
      | apply Gen.ReportsOnce.once_map
      | apply Gen.ReportsOnce.once_bind
      | apply Gen.ReportsOnce.once_orLog
      | apply Gen.ReportsOnce.once_orLogG
      | intro _
      | split

/-- `CompileUnitNode::generateStructMembers` appends at most one compile error, and none when it returns `false`. -/
@[instance] theorem reports_CompileUnitNode_generateStructMembers (structs : List StructNode) :
    Gen.ReportsOnce (CompileUnitNode.generateStructMembers structs) := by
  induction structs with
  | nil =>
    rw [CompileUnitNode.generateStructMembers]
    infer_instance
  | cons head rest ih =>
    rw [CompileUnitNode.generateStructMembers]
    repeat' first
      | infer_instance
      | dsimp only
      | apply Gen.ReportsOnce.once_ite
      | apply Gen.ReportsOnce.once_map
      | apply Gen.ReportsOnce.once_bind
      | apply Gen.ReportsOnce.once_orLog
      | apply Gen.ReportsOnce.once_orLogG
      | intro _
      | split

/-- `CompileUnitNode::generateDeclares` appends at most one compile error, and none when it returns `false`. -/
@[instance] theorem reports_CompileUnitNode_generateDeclares (i count : Nat) :
    ∀ j : Nat, Gen.ReportsOnce (CompileUnitNode.generateDeclares i count j) := by
  induction count with
  | zero =>
    intro j
    rw [CompileUnitNode.generateDeclares]
    infer_instance
  | succ count ih =>
    intro j
    rw [CompileUnitNode.generateDeclares]
    infer_instance

/-- `CompileUnitNode::generateDefines` appends at most one compile error, and none when it returns `false`. -/
@[instance] theorem reports_CompileUnitNode_generateDefines (i count : Nat) :
    ∀ j : Nat, Gen.ReportsOnce (CompileUnitNode.generateDefines i count j) := by
  induction count with
  | zero =>
    intro j
    rw [CompileUnitNode.generateDefines]
    infer_instance
  | succ count ih =>
    intro j
    rw [CompileUnitNode.generateDefines]
    infer_instance

/-- `CompileUnitNode::generate` appends at most one compile error, and none when it returns `false`. -/
@[instance] theorem reports_CompileUnitNode_generate (i : Nat) :
    Gen.ReportsOnce (CompileUnitNode.generate i) := by
  unfold CompileUnitNode.generate
  repeat' first
    | infer_instance
    | dsimp only
    | apply Gen.ReportsOnce.once_ite
    | apply Gen.ReportsOnce.once_map
    | apply Gen.ReportsOnce.once_bind
    | apply Gen.ReportsOnce.once_orLog
    | apply Gen.ReportsOnce.once_orLogG
    | intro _
    | split

/-- `Context::generateUnits` appends at most one compile error, and none when it returns `false`. -/
@[instance] theorem reports_Context_generateUnits (count : Nat) :
    ∀ i : Nat, Gen.ReportsOnce (Context.generateUnits count i) := by
  induction count with
  | zero =>
    intro i
    rw [Context.generateUnits]
    infer_instance
  | succ count ih =>
    intro i
    rw [Context.generateUnits]
    infer_instance

/-- `Context::generate` appends at most one compile error, and none when it returns `false`. -/
@[instance] theorem reports_Context_generate :
    Gen.ReportsOnce (Context.generate) := by
  unfold Context.generate
  repeat' first
    | infer_instance
    | dsimp only
    | apply Gen.ReportsOnce.once_ite
    | apply Gen.ReportsOnce.once_map
    | apply Gen.ReportsOnce.once_bind
    | apply Gen.ReportsOnce.once_orLog
    | apply Gen.ReportsOnce.once_orLogG
    | intro _
    | split

/-- C35: a run of `Context::generate` that returns success leaves the list of
compile errors as it found it, and a run that returns failure has appended at
most one error to it; in a list of statements entered with neither flag set, a
first statement that fails makes the list fail in the state the statement left,
so no later statement is generated. -/
theorem C35_at_most_one_compile_error (s : State) (errors : List CompileError) :
    (((Context.generate s).okState?.map fun s' => s'.ctx.errors) = some errors →
      errors = s.ctx.errors)
    ∧ (((Context.generate s).failState?.map fun s' => s'.ctx.errors) = some errors →
      errors = s.ctx.errors ∨ ∃ e, errors = s.ctx.errors ++ [e])
    ∧ (∀ (statement : StatementNode) (rest : List StatementNode) (s1 : State),
      s.ctx.breaked = false → s.ctx.returned = false → statement.generate s = .fail s1 →
      BlockNode.generateStatementList (statement :: rest) s = .fail s1) := by
  refine ⟨?_, ?_, ?_⟩
  · intro h
    cases hr : Context.generate s with
    | ok a s' =>
      rw [hr] at h
      simp only [Result.okState?, Option.map_some', Option.some.injEq] at h
      rw [← h]
      exact reports_Context_generate.ok s s' a hr
    | fail s' =>
      rw [hr] at h
      simp [Result.okState?] at h
    | undefined =>
      rw [hr] at h
      simp [Result.okState?] at h
  · intro h
    cases hr : Context.generate s with
    | ok a s' =>
      rw [hr] at h
      simp [Result.failState?] at h
    | fail s' =>
      rw [hr] at h
      simp only [Result.failState?, Option.map_some', Option.some.injEq] at h
      rw [← h]
      exact reports_Context_generate.fail s s' hr
    | undefined =>
      rw [hr] at h
      simp [Result.failState?] at h
  · intro statement rest s1 hb hr h
    rw [BlockNode.generateStatementList]
    simp [bind, Gen.bind, getState, hb, hr, h]

/-- C35 at `fn f() { break; }`: the run fails with the one error `InvalidBreak`. -/
theorem C35_at_most_one_compile_error_witness :
    ((Context.generate (stateParsed programBreakOutside)).failState?.map fun s' =>
        s'.ctx.errors) = some [.InvalidBreakError (Token.of .BREAK "break")]
    ∧ ([CompileError.InvalidBreakError (Token.of .BREAK "break")]
        = (stateParsed programBreakOutside).ctx.errors
      ∨ ∃ e, [CompileError.InvalidBreakError (Token.of .BREAK "break")]
        = (stateParsed programBreakOutside).ctx.errors ++ [e]) :=
  ⟨by decide!,
    (C35_at_most_one_compile_error (stateParsed programBreakOutside)
      [.InvalidBreakError (Token.of .BREAK "break")]).2.1 (by decide!)⟩

/-! ## Theorems: the precedence of operators -/

/-- What `respects` asks of a binary operation. -/
theorem OpTree.respects_node (n : Nat) (lhs : OpTree) (operator : Token) (rhs : OpTree) :
    (OpTree.node lhs operator rhs).respects n = true ↔
      n ≤ operator.getPriority ∧ lhs.respects operator.getPriority = true
        ∧ rhs.respects (operator.getPriority + 1) = true := by
  simp [OpTree.respects, and_assoc]

/-- A tree that binds by priority from level `n` on does so from every lower level on. -/
theorem OpTree.respects_of_le {tree : OpTree} {m n : Nat} (h : tree.respects n = true)
    (hmn : m ≤ n) : tree.respects m = true := by
  cases tree with
  | operand e => rfl
  | node lhs operator rhs =>
    rw [OpTree.respects_node] at h ⊢
    exact ⟨le_trans hmn h.1, h.2⟩

/-- The sequence held by a stack with at least two entries. -/
theorem Parser.stackItems_cons_cons (x y : Token × OpTree) (below : List (Token × OpTree)) :
    Parser.stackItems (x :: y :: below)
      = Parser.stackItems (y :: below) ++ .operator x.1 :: x.2.flatten := by
  obtain ⟨operator, tree⟩ := x
  rw [Parser.stackItems]
  intro h
  cases h

/-- What `StackOk` asks of a stack with a top entry. -/
theorem Parser.stackOk_cons (n : Nat) (operator : Token) (tree : OpTree)
    (below : List (Token × OpTree)) :
    Parser.StackOk n ((operator, tree) :: below) ↔
      tree.respects (operator.getPriority + 1) = true ∧ tree.respects n = true
        ∧ (match below with
          | [] => operator.getPriority = 0
          | (operator', _) :: _ => operator'.getPriority < operator.getPriority)
        ∧ (below ≠ [] → Parser.StackOk operator.getPriority below) := by
  conv => lhs; unfold Parser.StackOk

/-- One round of the loop of `Parser::parseExpression` on a stack with a top entry. -/
theorem Parser.parseExpressionLoop_succ (fuel : Nat) (top : Token × ExpressionNode)
    (below input : List (Token × ExpressionNode)) (stop : Token) :
    Parser.parseExpressionLoop (fuel + 1) (top :: below) input stop =
      if top.1.getPriority < (match input with
          | [] => stop
          | (token, _) :: _ => token).getPriority then
        match input with
        | [] => .beyondInput
        | (operatorToken, value) :: rest =>
          Parser.parseExpressionLoop fuel ((operatorToken, value) :: top :: below) rest stop
      else if top.1.getPriority = 0 then .result top.2
      else
        match below with
        | [] => .undefined
        | lhs :: below =>
          Parser.parseExpressionLoop fuel
            ((lhs.1, .BinaryOperationNode {} top.1 lhs.2 top.2) :: below) input stop := by
  conv => lhs; unfold Parser.parseExpressionLoop

/-- The loop of `Parser::parseExpression`, started from a stack that satisfies
`StackOk` with enough fuel, returns a tree that reads the whole sequence and
binds by priority. -/
theorem Parser.parseExpressionLoop_spec :
    ∀ (fuel : Nat) (stack : List (Token × OpTree)) (input : List (Token × ExpressionNode))
      (stop : Token),
      (∀ x ∈ input, 0 < x.1.getPriority) → stop.getPriority = 0 →
      Parser.StackOk (match input with
        | [] => stop
        | (token, _) :: _ => token).getPriority stack →
      2 * input.length + stack.length ≤ fuel →
      ∃ tree : OpTree,
        Parser.parseExpressionLoop fuel (stack.map fun p => (p.1, p.2.toExpr)) input stop
            = .result tree.toExpr
          ∧ tree.flatten = Parser.stackItems stack ++ Parser.inputItems input
          ∧ tree.respects 1 = true := by
  intro fuel
  induction fuel with
  | zero =>
    intro stack input stop _ _ hok hfuel
    cases stack with
    | nil => exact absurd hok (by simp [Parser.StackOk])
    | cons x below => simp at hfuel
  | succ fuel ih =>
    intro stack input stop hinput hstop hok hfuel
    cases stack with
    | nil => exact absurd hok (by simp [Parser.StackOk])
    | cons x below =>
      obtain ⟨operator, tree⟩ := x
      rw [Parser.stackOk_cons] at hok
      obtain ⟨hright, hleft, hbelow, hrest⟩ := hok
      rw [List.map_cons, Parser.parseExpressionLoop_succ]
      dsimp only
      by_cases hshift : operator.getPriority < (match input with
          | [] => stop
          | (token, _) :: _ => token).getPriority
      · rw [if_pos hshift]
        cases input with
        | nil =>
          simp only [hstop] at hshift
          exact absurd hshift (Nat.not_lt_zero _)
        | cons y rest =>
          obtain ⟨operatorToken, value⟩ := y
          simp only at hshift
          have hok' : Parser.StackOk (match rest with
              | [] => stop
              | (token, _) :: _ => token).getPriority
              ((operatorToken, OpTree.operand value) :: (operator, tree) :: below) := by
            rw [Parser.stackOk_cons]
            refine ⟨rfl, rfl, hshift, fun _ => ?_⟩
            rw [Parser.stackOk_cons]
            exact ⟨hright, hleft, hbelow, hrest⟩
          obtain ⟨result, hrun, hflat, hresp⟩ := ih
            ((operatorToken, OpTree.operand value) :: (operator, tree) :: below) rest stop
            (fun x hx => hinput x (List.mem_cons_of_mem _ hx)) hstop hok'
            (by simp only [List.length_cons] at hfuel ⊢; omega)
          refine ⟨result, hrun, ?_, hresp⟩
          rw [hflat, Parser.stackItems_cons_cons]
          simp [Parser.inputItems, OpTree.flatten]
      · rw [if_neg hshift]
        by_cases hzero : operator.getPriority = 0
        · rw [if_pos hzero]
          have hbelow' : below = [] := by
            cases below with
            | nil => rfl
            | cons y below' =>
              simp only at hbelow
              omega
          have hinput' : input = [] := by
            cases input with
            | nil => rfl
            | cons y rest =>
              have := hinput y (List.mem_cons_self _ _)
              simp only at hshift
              omega
          subst hbelow' hinput'
          refine ⟨tree, rfl, ?_, ?_⟩
          · simp [Parser.stackItems, Parser.inputItems]
          · simpa [hzero] using hright
        · rw [if_neg hzero]
          cases below with
          | nil =>
            simp only at hbelow
            exact absurd hbelow hzero
          | cons y below' =>
            obtain ⟨operator', tree'⟩ := y
            simp only at hbelow
            have hrest' := hrest (by simp)
            rw [Parser.stackOk_cons] at hrest'
            obtain ⟨hright', hleft', hbelow', hrest''⟩ := hrest'
            have hok' : Parser.StackOk (match input with
                | [] => stop
                | (token, _) :: _ => token).getPriority
                ((operator', OpTree.node tree' operator tree) :: below') := by
              rw [Parser.stackOk_cons]
              refine ⟨?_, ?_, hbelow', hrest''⟩
              · rw [OpTree.respects_node]
                exact ⟨hbelow, hleft', hright⟩
              · rw [OpTree.respects_node]
                exact ⟨Nat.le_of_not_lt hshift, hleft', hright⟩
            obtain ⟨result, hrun, hflat, hresp⟩ := ih
              ((operator', OpTree.node tree' operator tree) :: below') input stop hinput hstop hok'
              (by simp only [List.length_cons] at hfuel ⊢; omega)
            refine ⟨result, hrun, ?_, hresp⟩
            rw [hflat, Parser.stackItems_cons_cons]
            cases below' with
            | nil => simp [Parser.stackItems, OpTree.flatten]
            | cons z below'' =>
              rw [Parser.stackItems_cons_cons, Parser.stackItems_cons_cons]
              simp [OpTree.flatten]

/-- The sequence of a tree is not empty. -/
theorem OpTree.flatten_ne_nil (tree : OpTree) : tree.flatten ≠ [] := by
  cases tree <;> simp [OpTree.flatten]

/-- In a tree that binds by priority from level `n` on, every operator has
priority at least `n`. -/
theorem OpTree.priority_of_respects :
    ∀ (tree : OpTree) (n : Nat), tree.respects n = true →
      ∀ operator, ExprItem.operator operator ∈ tree.flatten → n ≤ operator.getPriority
  | .operand e, n, _, operator, hmem => by simp [OpTree.flatten] at hmem
  | .node lhs token rhs, n, h, operator, hmem => by
    rw [OpTree.respects_node] at h
    simp only [OpTree.flatten, List.mem_append, List.mem_cons, ExprItem.operator.injEq] at hmem
    rcases hmem with hl | hroot | hr
    · exact le_trans h.1 (OpTree.priority_of_respects lhs _ h.2.1 operator hl)
    · rw [hroot]
      exact h.1
    · have := OpTree.priority_of_respects rhs _ h.2.2 operator hr
      omega

/-- A sequence has at most one reading as a tree that binds by priority. -/
theorem OpTree.eq_of_flatten_eq :
    ∀ (tree tree' : OpTree) (n : Nat), tree.respects n = true → tree'.respects n = true →
      tree.flatten = tree'.flatten → tree = tree'
  | .operand e, .operand e', _, _, _, h => by
    simp only [OpTree.flatten, List.cons.injEq, ExprItem.operand.injEq, and_true] at h
    rw [h]
  | .operand e, .node lhs' operator' rhs', _, _, _, h => by
    have hne := OpTree.flatten_ne_nil lhs'
    simp only [OpTree.flatten] at h
    cases hl : lhs'.flatten with
    | nil => exact absurd hl hne
    | cons x rest =>
      rw [hl] at h
      simp at h
  | .node lhs operator rhs, .operand e', _, _, _, h => by
    have hne := OpTree.flatten_ne_nil lhs
    simp only [OpTree.flatten] at h
    cases hl : lhs.flatten with
    | nil => exact absurd hl hne
    | cons x rest =>
      rw [hl] at h
      simp at h
  | .node lhs operator rhs, .node lhs' operator' rhs', n, hr, hr', h => by
    rw [OpTree.respects_node] at hr hr'
    simp only [OpTree.flatten] at h
    rcases List.append_eq_append_iff.mp h with ⟨m, hl, hright⟩ | ⟨m, hl, hright⟩
    · cases m with
      | nil =>
        simp only [List.nil_append, List.cons.injEq, ExprItem.operator.injEq] at hright
        simp only [List.append_nil] at hl
        obtain ⟨hop, hrhs⟩ := hright
        subst hop
        rw [OpTree.eq_of_flatten_eq lhs lhs' _ hr.2.1 hr'.2.1 hl.symm,
          OpTree.eq_of_flatten_eq rhs rhs' _ hr.2.2 hr'.2.2 hrhs]
      | cons x m' =>
        simp only [List.cons_append, List.cons.injEq] at hright
        obtain ⟨hx, hrhs⟩ := hright
        have h1 : ExprItem.operator operator ∈ lhs'.flatten := by
          rw [hl, ← hx]
          simp
        have h2 : ExprItem.operator operator' ∈ rhs.flatten := by
          rw [hrhs]
          simp
        have k1 := OpTree.priority_of_respects lhs' _ hr'.2.1 operator h1
        have k2 := OpTree.priority_of_respects rhs _ hr.2.2 operator' h2
        omega
    · cases m with
      | nil =>
        simp only [List.nil_append, List.cons.injEq, ExprItem.operator.injEq] at hright
        simp only [List.append_nil] at hl
        obtain ⟨hop, hrhs⟩ := hright
        subst hop
        rw [OpTree.eq_of_flatten_eq lhs lhs' _ hr.2.1 hr'.2.1 hl,
          OpTree.eq_of_flatten_eq rhs rhs' _ hr.2.2 hr'.2.2 hrhs.symm]
      | cons x m' =>
        simp only [List.cons_append, List.cons.injEq] at hright
        obtain ⟨hx, hrhs⟩ := hright
        have h1 : ExprItem.operator operator' ∈ lhs.flatten := by
          rw [hl, ← hx]
          simp
        have h2 : ExprItem.operator operator ∈ rhs'.flatten := by
          rw [hrhs]
          simp
        have k1 := OpTree.priority_of_respects lhs _ hr.2.1 operator' h1
        have k2 := OpTree.priority_of_respects rhs' _ hr'.2.2 operator h2
        omega

/-- C31: for an operand/operator sequence `v0 op1 v1 ... opk vk` (every `opi` a
token of priority above 0) followed by a token of priority 0,
`Parser::parseExpression` returns, within `2k + 1` rounds of its loop, the
`BinaryOperationNode`s of a tree that reads exactly this sequence and binds by
`Token::getPriority`: the operands of an operator are the results of every
operator of higher priority next to it, and of the operators of equal priority
to its left. There is only one such tree. -/
theorem C31_parseExpression_binds_by_priority (value : ExpressionNode)
    (input : List (Token × ExpressionNode)) (stop : Token) (fuel : Nat)
    (hinput : ∀ x ∈ input, 0 < x.1.getPriority) (hstop : stop.getPriority = 0)
    (hfuel : 2 * input.length + 1 ≤ fuel) :
    ∃ tree : OpTree,
      Parser.parseExpression fuel value input stop = .result tree.toExpr
        ∧ tree.flatten = .operand value :: Parser.inputItems input
        ∧ tree.respects 1 = true
        ∧ ∀ tree' : OpTree, tree'.flatten = .operand value :: Parser.inputItems input →
            tree'.respects 1 = true → tree' = tree := by
  have hok : Parser.StackOk (match input with
      | [] => stop
      | (token, _) :: _ => token).getPriority
      [(({ type := .START_OPERATOR } : Token), OpTree.operand value)] := by
    rw [Parser.stackOk_cons]
    exact ⟨rfl, rfl, rfl, fun h => absurd rfl h⟩
  obtain ⟨tree, hrun, hflat, hresp⟩ := Parser.parseExpressionLoop_spec fuel
    [(({ type := .START_OPERATOR } : Token), OpTree.operand value)] input stop hinput hstop hok
    (by simpa using hfuel)
  refine ⟨tree, hrun, ?_, hresp, ?_⟩
  · rw [hflat]
    rfl
  · intro tree' hflat' hresp'
    apply OpTree.eq_of_flatten_eq tree' tree 1 hresp' hresp
    rw [hflat', hflat]
    rfl

/-- C31 at `a - b * c - d` and `a || b && c`, each followed by `;`: the results
are `(a - (b * c)) - d` and `a || (b && c)`; the priorities are 9 for `* / %`, 8
for `+ -`, 6 for `< <= > >=`, 5 for `== !=`, 2 for `&&`, 1 for `||` and 0 for
every other token. -/
theorem C31_parseExpression_binds_by_priority_witness :
    (∃ tree : OpTree,
      Parser.parseExpression 7 exprA
          [(Token.of .MINUS "-", exprB), (Token.of .ASTERISK "*", exprC),
            (Token.of .MINUS "-", exprD)] (Token.of .SEMICOLON ";") = .result tree.toExpr
        ∧ tree.flatten = .operand exprA :: Parser.inputItems
          [(Token.of .MINUS "-", exprB), (Token.of .ASTERISK "*", exprC),
            (Token.of .MINUS "-", exprD)]
        ∧ tree.respects 1 = true
        ∧ ∀ tree' : OpTree, tree'.flatten = .operand exprA :: Parser.inputItems
            [(Token.of .MINUS "-", exprB), (Token.of .ASTERISK "*", exprC),
              (Token.of .MINUS "-", exprD)] →
          tree'.respects 1 = true → tree' = tree)
    ∧ Parser.parseExpression 7 exprA
        [(Token.of .MINUS "-", exprB), (Token.of .ASTERISK "*", exprC),
          (Token.of .MINUS "-", exprD)] (Token.of .SEMICOLON ";")
      = .result (exprBinary .MINUS "-"
          (exprBinary .MINUS "-" exprA (exprBinary .ASTERISK "*" exprB exprC)) exprD)
    ∧ Parser.parseExpression 5 exprA
        [(Token.of .LOGICAL_OR "||", exprB), (Token.of .LOGICAL_AND "&&", exprC)]
        (Token.of .SEMICOLON ";")
      = .result (exprBinary .LOGICAL_OR "||" exprA (exprBinary .LOGICAL_AND "&&" exprB exprC))
    ∧ (∀ token : Token, token.getPriority =
        if token.type = .ASTERISK ∨ token.type = .SLASH ∨ token.type = .PERCENT then 9
        else if token.type = .PLUS ∨ token.type = .MINUS then 8
        else if token.type = .COMPARE_LESSER_THAN ∨ token.type = .COMPARE_LESSER_EQUAL
          ∨ token.type = .COMPARE_GREATER_THAN ∨ token.type = .COMPARE_GREATER_EQUAL then 6
        else if token.type = .COMPARE_EQUAL ∨ token.type = .COMPARE_NOT_EQUAL then 5
        else if token.type = .LOGICAL_AND then 2
        else if token.type = .LOGICAL_OR then 1
        else 0) :=
  ⟨C31_parseExpression_binds_by_priority exprA
      [(Token.of .MINUS "-", exprB), (Token.of .ASTERISK "*", exprC),
        (Token.of .MINUS "-", exprD)] (Token.of .SEMICOLON ";") 7 (by decide) rfl (by decide),
    rfl, rfl,
    fun token => by
      unfold Token.getPriority
      cases token.type <;> rfl⟩

end Mahina
